import Mathlib

set_option linter.unusedTactic false
set_option linter.unreachableTactic false
set_option linter.unnecessarySeqFocus false
set_option linter.unusedVariables false

/-!
# IdaJS scripting bridge: execution-phase guard, bytecode assembler, continuation store

A shallow embedding of the phase-gated scripting bridge of `innerbytes/idajs`
(`src/Ida/src/engine`): the execution protection policy (`Epp.h`), the byte buffers of
`IdaBridge`, the life / move assemblers of `game/script.cpp`, and the script-facing
templates (`game/*Template.cpp`) over the host state of `SOURCES/Ida/IdaLbaBridge.cpp`.

Bytes are natural numbers below 256, wider machine integers are `Int` with explicit
wrap-around where the source narrows.
-/

namespace Ida

/-! ## Epp.h: execution protection policy -/

/-- The seven lifecycle phases of `enum class ExecutionPhase`, in declaration order. -/
inductive ExecutionPhase where
  | None
  | BeforeSceneLoad
  | SceneLoad
  | GameLoad
  | InScene
  | Life
  | Move
  deriving DecidableEq, Repr

/-- Every phase, in declaration order. -/
def ExecutionPhase.all : List ExecutionPhase :=
  [.None, .BeforeSceneLoad, .SceneLoad, .GameLoad, .InScene, .Life, .Move]

/-- The table `ExecutionPhaseNames`. -/
def ExecutionPhaseNames : ExecutionPhase → String
  | .None => "None"
  | .BeforeSceneLoad => "BeforeLoadScene"
  | .SceneLoad => "AfterLoadScene"
  | .GameLoad => "AfterLoadSavedState"
  | .InScene => "InScene"
  | .Life => "LifeScript"
  | .Move => "MoveScript"

/-- The private members of `class Epp`, with their default member initialisers. -/
structure Epp where
  mCurrentPhase : ExecutionPhase := ExecutionPhase.None
  mIsTestMode : Bool := false
  mIsEnabled : Bool := true
  deriving DecidableEq, Repr

namespace Epp

def setPhase (e : Epp) (phase : ExecutionPhase) : Epp := { e with mCurrentPhase := phase }

def getPhase (e : Epp) : ExecutionPhase := e.mCurrentPhase

def setTestMode (e : Epp) (isTestMode : Bool) : Epp := { e with mIsTestMode := isTestMode }

def isTestMode (e : Epp) : Bool := e.mIsTestMode

def setEnabled (e : Epp) (isEnabled : Bool) : Epp := { e with mIsEnabled := isEnabled }

def isEnabled (e : Epp) : Bool := e.mIsEnabled

/-- The range-for loop shared by both checks: `true` at the first element equal to the
current phase, `false` when the container is exhausted. -/
def phaseLoop (cur : ExecutionPhase) : List ExecutionPhase → Bool
  | [] => false
  | phase :: rest => if cur = phase then true else phaseLoop cur rest

/-- `Epp::isExecutionAllowed`. -/
def isExecutionAllowed (e : Epp) (allowedPhases : List ExecutionPhase) : Bool :=
  if !e.mIsEnabled then true
  else phaseLoop e.mCurrentPhase allowedPhases

/-- `Epp::isExecutionDenied`. -/
def isExecutionDenied (e : Epp) (deniedPhases : List ExecutionPhase) : Bool :=
  if !e.mIsEnabled then false
  else phaseLoop e.mCurrentPhase deniedPhases

/-- The loop of `Epp::getPhaseNames`: names joined by `", "`. -/
def getPhaseNamesLoop : List ExecutionPhase → Bool → String → String
  | [], _, result => result
  | phase :: rest, first, result =>
    getPhaseNamesLoop rest false
      ((if !first then result ++ ", " else result) ++ ExecutionPhaseNames phase)

/-- `Epp::getPhaseNames`. -/
def getPhaseNames (phases : List ExecutionPhase) : String :=
  getPhaseNamesLoop phases true ""

end Epp

/-! ## templateUtils.h: the gates `EPP_ALLOW` / `EPP_DENY` -/

/-- The phase policy a template function declares as its first statement: `EPP_ALLOW(...)`
or `EPP_DENY(...)` with its literal phase list. -/
inductive Gate where
  | allow (phases : List ExecutionPhase)
  | deny (phases : List ExecutionPhase)
  deriving DecidableEq, Repr

/-- Whether control continues past the gate: `EPP_ALLOW` throws and returns when
`!isEppAllowed(list)`, `EPP_DENY` when `isEppDenied(list)`. -/
def Gate.passes (e : Epp) : Gate → Bool
  | .allow phases => e.isExecutionAllowed phases
  | .deny phases => !e.isExecutionDenied phases

/-- The functions of `SceneTemplate`. -/
inductive SceneOp where
  | getId | getIsland | getPlanet | getNumObjects | getObject | getNumZones | getZone
  | getNumWaypoints | getWaypoint | getStartPos | getVariable | getGameVariable
  | getGold | getZlitos | getCurrentMoney | getForeignMoney
  | getNumKeys | getMagicLevel | getMagicPoints
  | setStartPos | addObjects | addZones | addWaypoints
  | setGameVariable | setVariable
  | setGold | setZlitos | setCurrentMoney | setForeignMoney
  | updateWaypoint
  deriving DecidableEq, Repr

/-- The functions of `GameObjectTemplate`. -/
inductive GameObjectOp where
  | getId | getControlMode | getStaticFlags | getBonusFlags | getBonusQuantity | getPos
  | getAngle | getRegisters | getLifePoints | getArmor | getHitPower | getRotationSpeed
  | getTalkColor | getEntity | getBody | getAllBodies | getAnimation | getSpriteId
  | getLifeScript | getMoveScript | isFacingZoneDirection | isDisabled
  | setControlMode | setStaticFlags | setBonusFlags | setBonusQuantity | setPos | setAngle
  | setRegisters | setLifePoints | setArmor | setHitPower | setRotationSpeed | setTalkColor
  | setEntity | setBody | setAnimation | setSpriteId
  | disable | handleLifeScript | handleMoveScript
  deriving DecidableEq, Repr

/-- The functions of `ZoneTemplate`. -/
inductive ZoneOp where
  | getId | getZoneValue | getPos1 | getPos2 | getRegisters | getType
  | setZoneValue | setPos1 | setPos2 | setRegisters | setType
  deriving DecidableEq, Repr

/-- The phase-gated functions of `IdaTemplate`. -/
inductive IdaOp where
  | life | lifef | _isMoveActive | _move | _cmove | _stopMove | _enableMove | _disableMove
  | setStorm | forceIsland | setStartSceneId | setIntroVideo | halt | _setMoveHandler
  deriving DecidableEq, Repr

open ExecutionPhase in
/-- The gate each `SceneTemplate` function opens with (SceneTemplate.cpp). -/
def SceneOp.gate : SceneOp → Gate
  | .getId | .getIsland | .getPlanet | .getNumObjects | .getObject | .getNumZones | .getZone
  | .getNumWaypoints | .getWaypoint | .getStartPos | .getVariable | .getGameVariable
  | .getGold | .getZlitos | .getCurrentMoney | .getForeignMoney
  | .getNumKeys | .getMagicLevel | .getMagicPoints
  | .updateWaypoint => .deny [None, BeforeSceneLoad]
  | .setStartPos | .addObjects | .addZones | .addWaypoints => .allow [SceneLoad]
  | .setGameVariable | .setVariable => .allow [SceneLoad, Life, Move]
  | .setGold | .setZlitos | .setCurrentMoney | .setForeignMoney => .allow [SceneLoad, Life]

open ExecutionPhase in
/-- The gate each `GameObjectTemplate` function opens with (GameObjectTemplate.cpp). -/
def GameObjectOp.gate : GameObjectOp → Gate
  | .getId | .getControlMode | .getStaticFlags | .getBonusFlags | .getBonusQuantity | .getPos
  | .getAngle | .getRegisters | .getLifePoints | .getArmor | .getHitPower | .getRotationSpeed
  | .getTalkColor | .getEntity | .getBody | .getAllBodies | .getAnimation | .getSpriteId
  | .getLifeScript | .getMoveScript | .isFacingZoneDirection
  | .isDisabled => .deny [None, BeforeSceneLoad]
  | .setControlMode | .setStaticFlags | .setBonusFlags | .setBonusQuantity | .setPos | .setAngle
  | .setRegisters | .setLifePoints | .setArmor | .setHitPower | .setRotationSpeed | .setTalkColor
  | .setEntity | .setBody | .setAnimation | .setSpriteId
  | .disable | .handleLifeScript | .handleMoveScript => .allow [SceneLoad]

open ExecutionPhase in
/-- The gate each `ZoneTemplate` function opens with (ZoneTemplate.cpp). -/
def ZoneOp.gate : ZoneOp → Gate
  | .getId | .getZoneValue | .getPos1 | .getPos2 | .getRegisters
  | .getType => .deny [None, BeforeSceneLoad]
  | .setZoneValue | .setPos1 | .setPos2 | .setRegisters | .setType => .allow [SceneLoad]

open ExecutionPhase in
/-- The gate each phase-gated `IdaTemplate` function opens with (IdaTemplate.cpp). -/
def IdaOp.gate : IdaOp → Gate
  | .life | .lifef => .allow [Life]
  | ._move | ._cmove => .allow [Move]
  | ._isMoveActive | ._stopMove | ._enableMove | ._disableMove => .deny [None, BeforeSceneLoad]
  | .setStorm | .forceIsland => .allow [BeforeSceneLoad]
  | .setStartSceneId | .setIntroVideo | ._setMoveHandler => .allow [None]
  | .halt => .allow [None, InScene]

/-- The getters of `SceneTemplate` (the functions named `get...`). -/
def SceneOp.isGetter : SceneOp → Bool
  | .getId | .getIsland | .getPlanet | .getNumObjects | .getObject | .getNumZones | .getZone
  | .getNumWaypoints | .getWaypoint | .getStartPos | .getVariable | .getGameVariable
  | .getGold | .getZlitos | .getCurrentMoney | .getForeignMoney
  | .getNumKeys | .getMagicLevel | .getMagicPoints => true
  | _ => false

/-- The getters of `GameObjectTemplate` (the block headed "Getters" in the header). -/
def GameObjectOp.isGetter : GameObjectOp → Bool
  | .getId | .getControlMode | .getStaticFlags | .getBonusFlags | .getBonusQuantity | .getPos
  | .getAngle | .getRegisters | .getLifePoints | .getArmor | .getHitPower | .getRotationSpeed
  | .getTalkColor | .getEntity | .getBody | .getAllBodies | .getAnimation | .getSpriteId
  | .getLifeScript | .getMoveScript | .isFacingZoneDirection | .isDisabled => true
  | _ => false

/-- The setters of `GameObjectTemplate` (the functions named `set...`). -/
def GameObjectOp.isSetter : GameObjectOp → Bool
  | .setControlMode | .setStaticFlags | .setBonusFlags | .setBonusQuantity | .setPos | .setAngle
  | .setRegisters | .setLifePoints | .setArmor | .setHitPower | .setRotationSpeed | .setTalkColor
  | .setEntity | .setBody | .setAnimation | .setSpriteId => true
  | _ => false

/-- The getters of `ZoneTemplate`. -/
def ZoneOp.isGetter : ZoneOp → Bool
  | .getId | .getZoneValue | .getPos1 | .getPos2 | .getRegisters | .getType => true
  | _ => false

/-- The setters of `ZoneTemplate`. -/
def ZoneOp.isSetter : ZoneOp → Bool
  | .setZoneValue | .setPos1 | .setPos2 | .setRegisters | .setType => true
  | _ => false

/-! ## idaInterop.h: opcodes used by the assemblers -/

abbrev TM_END : Nat := 0
abbrev TM_BODY : Nat := 2
abbrev TM_ANIM : Nat := 3
abbrev TM_GOTO_POINT : Nat := 4
abbrev TM_WAIT_ANIM : Nat := 5
abbrev TM_LOOP : Nat := 6
abbrev TM_ANGLE : Nat := 7
abbrev TM_POS_POINT : Nat := 8
abbrev TM_GOTO_SYM_POINT : Nat := 12
abbrev TM_WAIT_NB_ANIM : Nat := 13
abbrev TM_SAMPLE : Nat := 14
abbrev TM_GOTO_POINT_3D : Nat := 15
abbrev TM_SPEED : Nat := 16
abbrev TM_BACKGROUND : Nat := 17
abbrev TM_WAIT_NB_SECOND : Nat := 18
abbrev TM_NO_BODY : Nat := 19
abbrev TM_BETA : Nat := 20
abbrev TM_OPEN_LEFT : Nat := 21
abbrev TM_OPEN_RIGHT : Nat := 22
abbrev TM_OPEN_UP : Nat := 23
abbrev TM_OPEN_DOWN : Nat := 24
abbrev TM_CLOSE : Nat := 25
abbrev TM_WAIT_DOOR : Nat := 26
abbrev TM_SAMPLE_RND : Nat := 27
abbrev TM_SAMPLE_ALWAYS : Nat := 28
abbrev TM_SAMPLE_STOP : Nat := 29
abbrev TM_PLAY_ACF : Nat := 30
abbrev TM_REPEAT_SAMPLE : Nat := 31
abbrev TM_SIMPLE_SAMPLE : Nat := 32
abbrev TM_FACE_TWINSEN : Nat := 33
abbrev TM_ANGLE_RND : Nat := 34
abbrev TM_WAIT_NB_DIZIEME : Nat := 36
abbrev TM_SPRITE : Nat := 38
abbrev TM_WAIT_NB_SECOND_RND : Nat := 39
abbrev TM_SET_FRAME : Nat := 41
abbrev TM_SET_FRAME_3DS : Nat := 42
abbrev TM_SET_START_3DS : Nat := 43
abbrev TM_SET_END_3DS : Nat := 44
abbrev TM_START_ANIM_3DS : Nat := 45
abbrev TM_STOP_ANIM_3DS : Nat := 46
abbrev TM_WAIT_ANIM_3DS : Nat := 47
abbrev TM_WAIT_FRAME_3DS : Nat := 48
abbrev TM_WAIT_NB_DIZIEME_RND : Nat := 49
abbrev TM_DECALAGE : Nat := 50
abbrev TM_FREQUENCE : Nat := 51
abbrev TM_VOLUME : Nat := 52

abbrev LM_PALETTE : Nat := 10
abbrev LM_RETURN : Nat := 11
abbrev LM_BODY : Nat := 17
abbrev LM_BODY_OBJ : Nat := 18
abbrev LM_ANIM : Nat := 19
abbrev LM_ANIM_OBJ : Nat := 20
abbrev LM_SET_CAMERA : Nat := 21
abbrev LM_CAMERA_CENTER : Nat := 22
abbrev LM_SET_TRACK : Nat := 23
abbrev LM_SET_TRACK_OBJ : Nat := 24
abbrev LM_MESSAGE : Nat := 25
abbrev LM_FALLABLE : Nat := 26
abbrev LM_SET_CONTROL : Nat := 27
abbrev LM_SET_CONTROL_OBJ : Nat := 28
abbrev LM_CAM_FOLLOW : Nat := 29
abbrev LM_COMPORTEMENT_HERO : Nat := 30
abbrev LM_SET_COMPORTEMENT : Nat := 33
abbrev LM_SET_COMPORTEMENT_OBJ : Nat := 34
abbrev LM_KILL_OBJ : Nat := 37
abbrev LM_SUICIDE : Nat := 38
abbrev LM_USE_ONE_LITTLE_KEY : Nat := 39
abbrev LM_GIVE_GOLD_PIECES : Nat := 40
abbrev LM_END_LIFE : Nat := 41
abbrev LM_STOP_L_TRACK : Nat := 42
abbrev LM_RESTORE_L_TRACK : Nat := 43
abbrev LM_MESSAGE_OBJ : Nat := 44
abbrev LM_INC_CHAPTER : Nat := 45
abbrev LM_FOUND_OBJECT : Nat := 46
abbrev LM_SET_DOOR_LEFT : Nat := 47
abbrev LM_SET_DOOR_RIGHT : Nat := 48
abbrev LM_SET_DOOR_UP : Nat := 49
abbrev LM_SET_DOOR_DOWN : Nat := 50
abbrev LM_GIVE_BONUS : Nat := 51
abbrev LM_CHANGE_CUBE : Nat := 52
abbrev LM_OBJ_COL : Nat := 53
abbrev LM_BRICK_COL : Nat := 54
abbrev LM_INVISIBLE : Nat := 56
abbrev LM_SHADOW_OBJ : Nat := 57
abbrev LM_POS_POINT : Nat := 58
abbrev LM_SET_MAGIC_LEVEL : Nat := 59
abbrev LM_SUB_MAGIC_POINT : Nat := 60
abbrev LM_SET_LIFE_POINT_OBJ : Nat := 61
abbrev LM_SUB_LIFE_POINT_OBJ : Nat := 62
abbrev LM_HIT_OBJ : Nat := 63
abbrev LM_PLAY_ACF : Nat := 64
abbrev LM_ECLAIR : Nat := 65
abbrev LM_INC_CLOVER_BOX : Nat := 66
abbrev LM_SET_USED_INVENTORY : Nat := 67
abbrev LM_ADD_CHOICE : Nat := 68
abbrev LM_ASK_CHOICE : Nat := 69
abbrev LM_INIT_BUGGY : Nat := 70
abbrev LM_MEMO_ARDOISE : Nat := 71
abbrev LM_SET_HOLO_POS : Nat := 72
abbrev LM_CLR_HOLO_POS : Nat := 73
abbrev LM_SET_GRM : Nat := 76
abbrev LM_SET_CHANGE_CUBE : Nat := 77
abbrev LM_MESSAGE_ZOE : Nat := 78
abbrev LM_FULL_POINT : Nat := 79
abbrev LM_BETA : Nat := 80
abbrev LM_FADE_TO_PAL : Nat := 81
abbrev LM_ACTION : Nat := 82
abbrev LM_SET_FRAME : Nat := 83
abbrev LM_SET_SPRITE : Nat := 84
abbrev LM_SET_FRAME_3DS : Nat := 85
abbrev LM_IMPACT_OBJ : Nat := 86
abbrev LM_IMPACT_POINT : Nat := 87
abbrev LM_BULLE : Nat := 89
abbrev LM_NO_CHOC : Nat := 90
abbrev LM_ASK_CHOICE_OBJ : Nat := 91
abbrev LM_CINEMA_MODE : Nat := 92
abbrev LM_SAVE_HERO : Nat := 93
abbrev LM_RESTORE_HERO : Nat := 94
abbrev LM_ANIM_SET : Nat := 95
abbrev LM_PLUIE : Nat := 96
abbrev LM_GAME_OVER : Nat := 97
abbrev LM_THE_END : Nat := 98
abbrev LM_ESCALATOR : Nat := 99
abbrev LM_PLAY_MUSIC : Nat := 100
abbrev LM_TRACK_TO_VAR_GAME : Nat := 101
abbrev LM_VAR_GAME_TO_TRACK : Nat := 102
abbrev LM_ANIM_TEXTURE : Nat := 103
abbrev LM_BRUTAL_EXIT : Nat := 105
abbrev LM_ECHELLE : Nat := 107
abbrev LM_SET_ARMURE : Nat := 108
abbrev LM_SET_ARMURE_OBJ : Nat := 109
abbrev LM_ADD_LIFE_POINT_OBJ : Nat := 110
abbrev LM_STATE_INVENTORY : Nat := 111
abbrev LM_SET_HIT_ZONE : Nat := 119
abbrev LM_SAVE_COMPORTEMENT : Nat := 120
abbrev LM_RESTORE_COMPORTEMENT : Nat := 121
abbrev LM_SAMPLE : Nat := 122
abbrev LM_SAMPLE_RND : Nat := 123
abbrev LM_SAMPLE_ALWAYS : Nat := 124
abbrev LM_SAMPLE_STOP : Nat := 125
abbrev LM_REPEAT_SAMPLE : Nat := 126
abbrev LM_BACKGROUND : Nat := 127
abbrev LM_SET_RAIL : Nat := 133
abbrev LM_INVERSE_BETA : Nat := 134
abbrev LM_NO_BODY : Nat := 135
abbrev LM_ADD_GOLD_PIECES : Nat := 136
abbrev LM_STOP_L_TRACK_OBJ : Nat := 137
abbrev LM_RESTORE_L_TRACK_OBJ : Nat := 138
abbrev LM_SAVE_COMPORTEMENT_OBJ : Nat := 139
abbrev LM_RESTORE_COMPORTEMENT_OBJ : Nat := 140
abbrev LM_FLOW_POINT : Nat := 145
abbrev LM_FLOW_OBJ : Nat := 146
abbrev LM_SET_ANIM_DIAL : Nat := 147
abbrev LM_PCX : Nat := 148
abbrev LM_PARM_SAMPLE : Nat := 151
abbrev LM_NEW_SAMPLE : Nat := 152
abbrev LM_POS_OBJ_AROUND : Nat := 153
abbrev LM_PCX_MESS_OBJ : Nat := 154

abbrev LF_COL : Nat := 0
abbrev LF_COL_OBJ : Nat := 1
abbrev LF_DISTANCE : Nat := 2
abbrev LF_ZONE : Nat := 3
abbrev LF_ZONE_OBJ : Nat := 4
abbrev LF_L_TRACK : Nat := 9
abbrev LF_L_TRACK_OBJ : Nat := 10
abbrev LF_CONE_VIEW : Nat := 12
abbrev LF_HIT_BY : Nat := 13
abbrev LF_ACTION : Nat := 14
abbrev LF_COMPORTEMENT_HERO : Nat := 20
abbrev LF_DISTANCE_3D : Nat := 22
abbrev LF_USE_INVENTORY : Nat := 25
abbrev LF_CHOICE : Nat := 26
abbrev LF_CARRY_BY : Nat := 28
abbrev LF_ECHELLE : Nat := 30
abbrev LF_RAIL : Nat := 32
abbrev LF_CARRY_OBJ_BY : Nat := 35
abbrev LF_ANGLE : Nat := 36
abbrev LF_DISTANCE_MESSAGE : Nat := 37
abbrev LF_HIT_OBJ_BY : Nat := 38
abbrev LF_REAL_ANGLE : Nat := 39
abbrev LF_COL_DECORS : Nat := 41
abbrev LF_COL_DECORS_OBJ : Nat := 42
abbrev LF_OBJECT_DISPLAYED : Nat := 44
abbrev LF_ANGLE_OBJ : Nat := 45

abbrev TM_GOTO : Nat := 10
abbrev TM_LABEL : Nat := 9
abbrev TM_NOP : Nat := 1
abbrev TM_STOP : Nat := 11
abbrev TM_REM : Nat := 35
abbrev TM_DO : Nat := 37
abbrev TM_AFF_TIMER : Nat := 40

abbrev MOVE_FOLLOW : Nat := 2
abbrev MOVE_CIRCLE : Nat := 9
abbrev MOVE_CIRCLE2 : Nat := 10

/-! ## Script values and argument validation -/

/-- Contents of a `std::vector<uint8_t>`: bytes as naturals below 256. -/
abbrev Bytes := List Nat

/-- The runtime shapes of a script value the bridge distinguishes. -/
inductive JsValue where
  | undefined
  | boolean (b : Bool)
  | int (n : Int)
  | string (utf8 : Bytes)
  | intArray (items : List Int)
  | function (ref : Nat)
  | other
  deriving DecidableEq, Repr

/-- The integer a validated numeric argument is bound to (0 for any other value). -/
def JsValue.toInt : JsValue → Int
  | .int n => n
  | _ => 0

/-- The characters a validated string argument is bound to (none for any other value). -/
def JsValue.toBytes : JsValue → Bytes
  | .string s => s
  | _ => []

/-- The errors a template function can throw into the script. -/
inductive ScriptError where
  | policy (message : String)
  | argsCount (expected : Nat)
  | argValue
  | unsupportedOpcode (opcode : Nat)
  | range
  | reference
  | type
  | readOnly
  deriving DecidableEq, Repr

/-- The value of `args[i]`: `undefined` beyond `args.Length()`. -/
def argAt (args : List JsValue) (i : Nat) : JsValue := args.getD i JsValue.undefined

/-- The V8 integer kinds named in `VALIDATE_VALUE` / `VALIDATE_ARRAY`. -/
inductive V8Type where
  | Uint32
  | Int32
  deriving DecidableEq, Repr

/-- Whether an integer is representable in the V8 kind. -/
def V8Type.holds : V8Type → Int → Bool
  | .Uint32, n => decide (0 ≤ n ∧ n ≤ 4294967295)
  | .Int32, n => decide (-2147483648 ≤ n ∧ n ≤ 2147483647)

/-- Modelled from the spec: `VALIDATE_ARGS_COUNT(n)` of core/argumentsHandler.h, which is not
in the sources. A call with fewer than `n` arguments is an argument-count validation error;
the nested uses in script.cpp (3 then 4 on the same call) make `n` a minimum. -/
def validateArgsCount (args : List JsValue) (n : Nat) : Bool := decide (n ≤ args.length)

/-- Modelled from the spec: `VALIDATE_VALUE(type, V8Kind, arg, name, min, max)` of
core/argumentsHandler.h, which is not in the sources. Every scalar argument has an explicit
inclusive range; a value of the wrong runtime kind or outside `[min, max]` fails. An omitted
bound is `none`. -/
def validateValue (kind : V8Type) (arg : JsValue) (min max : Option Int) : Option Int :=
  match arg with
  | .int n =>
    if kind.holds n && decide (∀ lo ∈ min, lo ≤ n) && decide (∀ hi ∈ max, n ≤ hi) then some n
    else none
  | _ => none

/-- Modelled from the spec: `VALIDATE_INT16_VALUE(arg, name)` of core/argumentsHandler.h, which
is not in the sources: the signed 16-bit full range `[MIN_S16, MAX_S16]`, inclusive. -/
def validateInt16Value (arg : JsValue) : Option Int :=
  match arg with
  | .int n => if decide (-32768 ≤ n ∧ n ≤ 32767) then some n else none
  | _ => none

/-- Modelled from the spec: `VALIDATE_INT_VALUE(arg, name, min[, max])` of
core/argumentsHandler.h, which is not in the sources: a 32-bit integer within the inclusive
bounds given. -/
def validateIntValue (arg : JsValue) (min : Int) (max : Option Int) : Option Int :=
  validateValue V8Type.Int32 arg (some min) max

/-- Modelled from the spec: `VALIDATE_STRING(arg, name, required)` of core/argumentsHandler.h,
which is not in the sources: the argument must be a string, non-empty where required. -/
def validateString (arg : JsValue) (required : Bool) : Option Bytes :=
  match arg with
  | .string s => if required && s.isEmpty then none else some s
  | _ => none

/-- Modelled from the spec: `VALIDATE_ARRAY(type, V8Kind, arg, name, size)` of
core/argumentsHandler.h, which is not in the sources: an array whose elements are all of the
V8 kind, of exactly `size` elements when `size` is not 0. -/
def validateArray (kind : V8Type) (arg : JsValue) (size : Nat) : Option (List Int) :=
  match arg with
  | .intArray items =>
    if items.all kind.holds && (size == 0 || items.length == size) then some items else none
  | _ => none

/-- The `width` bytes of the object representation of an integral value, least significant
first (two's complement for negative values). -/
def leBytes : Nat → Int → Bytes
  | 0, _ => []
  | width + 1, v => (v % 256).toNat :: leBytes width (v / 256)

/-! ## idaInterop.h: the game's zone and waypoint records -/

/-- `T_ZONE`. -/
structure T_ZONE where
  X0 : Int
  Y0 : Int
  Z0 : Int
  X1 : Int
  Y1 : Int
  Z1 : Int
  Info0 : Int
  Info1 : Int
  Info2 : Int
  Info3 : Int
  Info4 : Int
  Info5 : Int
  Info6 : Int
  Info7 : Int
  Type_ : Int
  Num : Int
  deriving DecidableEq, Inhabited

/-- The value-initialised `T_ZONE{}`: every field zero. -/
def T_ZONE.zero : T_ZONE := ⟨0, 0, 0, 0, 0, 0, 0, 0, 0, 0, 0, 0, 0, 0, 0, 0⟩

/-- `T_TRACK`, a waypoint. -/
structure T_TRACK where
  X : Int
  Y : Int
  Z : Int
  deriving DecidableEq, Repr, Inhabited

/-- The value-initialised `T_TRACK{}`. -/
def T_TRACK.zero : T_TRACK := ⟨0, 0, 0⟩

/-! ## IdaBridge: the shared life buffer and the per-entity move buffers -/

/-- The buffer members of `class IdaBridge`. `mMoveScripts` is the `unordered_map` read
through `operator[]`, which value-initialises a missing entry: the total map that is empty
off its keys. -/
structure IdaBridge where
  mMinimumAllowedPcxId : Nat
  mMoveScripts : Nat → Bytes
  mLifeScript : Bytes
  mZones : List T_ZONE
  mWaypoints : List T_TRACK

namespace IdaBridge

/-- `getFirstPcxId`, of return type `uint8_t`. -/
def getFirstPcxId (b : IdaBridge) : Nat := b.mMinimumAllowedPcxId % 256

/-- Assignment to the vector `mMoveScripts[objectId]`. -/
def setMoveScript (b : IdaBridge) (objectId : Nat) (moveScript : Bytes) : IdaBridge :=
  { b with mMoveScripts := fun k => if k = objectId then moveScript else b.mMoveScripts k }

/-- `clear()`, `reserve(2 + argumentsSize)` (capacity only), `push_back(opcode)`. -/
def prepareLifeScript (b : IdaBridge) (opcode : Nat) (_argumentsSize : Nat) : IdaBridge :=
  { b with mLifeScript := ([] : Bytes) ++ [opcode] }

/-- `clear()`, `reserve(1 + argumentsSize)` (capacity only), `push_back(opcode)`. -/
def prepareLifeFunction (b : IdaBridge) (opcode : Nat) (_argumentsSize : Nat) : IdaBridge :=
  { b with mLifeScript := ([] : Bytes) ++ [opcode] }

def getLifeScript (b : IdaBridge) : Bytes := b.mLifeScript

def finalizeLifeScript (b : IdaBridge) : IdaBridge :=
  { b with mLifeScript := b.mLifeScript ++ [LM_RETURN] }

/-- The template `pushArgument<T>`: appends the `sizeof(T)` bytes of `value`. -/
def pushArgument (b : IdaBridge) (sizeofT : Nat) (value : Int) : IdaBridge :=
  { b with mLifeScript := b.mLifeScript ++ leBytes sizeofT value }

/-- The overload `pushArgument(length, value)`: inserts `value[0 .. length]`, the `length`
characters of the `c_str()` and the null that ends it. -/
def pushArgumentStr (b : IdaBridge) (value : Bytes) : IdaBridge :=
  { b with mLifeScript := b.mLifeScript ++ (value ++ [0]) }

def prepareMoveScript (b : IdaBridge) (objectId : Nat) (opcode : Nat) (_argumentsSize : Nat) :
    IdaBridge :=
  b.setMoveScript objectId (([] : Bytes) ++ [opcode])

/-- The entry is cleared, then `code[0 .. length)` is inserted at its beginning. -/
def loadMoveScript (b : IdaBridge) (objectId : Nat) (length : Nat) (code : Bytes) : IdaBridge :=
  b.setMoveScript objectId (code.take length ++ ([] : Bytes))

/-- The `(size, data)` pair of the entry, as the bytes `data[0 .. size)`. -/
def getMoveScript (b : IdaBridge) (objectId : Nat) : Bytes := b.mMoveScripts objectId

def finalizeMoveScript (b : IdaBridge) (objectId : Nat) : IdaBridge :=
  b.setMoveScript objectId (b.mMoveScripts objectId ++ [TM_END])

/-- The template `pushMoveArgument<T>`. -/
def pushMoveArgument (b : IdaBridge) (objectId : Nat) (sizeofT : Nat) (value : Int) : IdaBridge :=
  b.setMoveScript objectId (b.mMoveScripts objectId ++ leBytes sizeofT value)

/-- The overload `pushMoveArgument(objectId, length, value)`. -/
def pushMoveArgumentStr (b : IdaBridge) (objectId : Nat) (value : Bytes) : IdaBridge :=
  b.setMoveScript objectId (b.mMoveScripts objectId ++ (value ++ [0]))

end IdaBridge

/-! ## game/script.cpp: the assemblers -/

/-- The outcome of an assembler call: the bridge as the call leaves it, the flag written to
`*result`, and the script error thrown, if any. -/
structure Loaded where
  bridge : IdaBridge
  result : Bool
  thrown : Option ScriptError

/-- `VALIDATE_VALUE(uint8_t, Uint32, arg, name, 0, max)`. -/
def validateU8 (arg : JsValue) (max : Int) : Option Int :=
  validateValue V8Type.Uint32 arg (some 0) (some max)

/-- `VALIDATE_VALUE(uint16_t, Uint32, arg, name, 0, 65535)`. -/
def validateU16 (arg : JsValue) : Option Int :=
  validateValue V8Type.Uint32 arg (some 0) (some 65535)

/-- The case labels of the one-`u8` life family. -/
def lifeOpsU8 : List Nat :=
  [LM_PALETTE, LM_BODY, LM_CAMERA_CENTER, LM_FALLABLE, LM_CAM_FOLLOW, LM_COMPORTEMENT_HERO,
   LM_KILL_OBJ, LM_GIVE_BONUS, LM_CHANGE_CUBE, LM_OBJ_COL, LM_BRICK_COL, LM_INVISIBLE,
   LM_POS_POINT, LM_SET_MAGIC_LEVEL, LM_SUB_MAGIC_POINT, LM_ECLAIR, LM_FOUND_OBJECT,
   LM_INIT_BUGGY, LM_MEMO_ARDOISE, LM_SET_HOLO_POS, LM_CLR_HOLO_POS, LM_FADE_TO_PAL,
   LM_SET_SPRITE, LM_SET_FRAME, LM_SET_FRAME_3DS, LM_BULLE, LM_NO_CHOC, LM_CINEMA_MODE,
   LM_PLUIE, LM_PLAY_MUSIC, LM_TRACK_TO_VAR_GAME, LM_VAR_GAME_TO_TRACK, LM_ANIM_TEXTURE,
   LM_SET_USED_INVENTORY, LM_SET_ARMURE, LM_BACKGROUND, LM_STOP_L_TRACK_OBJ,
   LM_RESTORE_L_TRACK_OBJ, LM_SAVE_COMPORTEMENT_OBJ, LM_RESTORE_COMPORTEMENT_OBJ]

/-- The case labels of the two-`u8` life family. -/
def lifeOpsU8U8 : List Nat :=
  [LM_BODY_OBJ, LM_SET_CAMERA, LM_SHADOW_OBJ, LM_SET_LIFE_POINT_OBJ, LM_SUB_LIFE_POINT_OBJ,
   LM_HIT_OBJ, LM_SET_GRM, LM_SET_CHANGE_CUBE, LM_ESCALATOR, LM_ECHELLE, LM_SET_ARMURE_OBJ,
   LM_ADD_LIFE_POINT_OBJ, LM_STATE_INVENTORY, LM_SET_HIT_ZONE, LM_SET_RAIL, LM_FLOW_POINT,
   LM_FLOW_OBJ, LM_POS_OBJ_AROUND]

/-- The case labels of the one-`u16` life family. -/
def lifeOpsU16 : List Nat := [LM_ANIM, LM_ANIM_SET, LM_SET_ANIM_DIAL]

/-- The case labels of the one-`i16` life family. -/
def lifeOpsI16 : List Nat :=
  [LM_SET_TRACK, LM_BETA, LM_MESSAGE, LM_SET_COMPORTEMENT, LM_GIVE_GOLD_PIECES,
   LM_SET_DOOR_LEFT, LM_SET_DOOR_RIGHT, LM_SET_DOOR_UP, LM_SET_DOOR_DOWN, LM_ADD_CHOICE,
   LM_ASK_CHOICE, LM_MESSAGE_ZOE, LM_SAMPLE, LM_SAMPLE_RND, LM_SAMPLE_ALWAYS, LM_SAMPLE_STOP,
   LM_ADD_GOLD_PIECES]

/-- The case labels of the `u8`, `i16` life family. -/
def lifeOpsU8I16 : List Nat :=
  [LM_SET_TRACK_OBJ, LM_SET_COMPORTEMENT_OBJ, LM_MESSAGE_OBJ, LM_IMPACT_POINT,
   LM_ASK_CHOICE_OBJ]

/-- The case labels of the no-argument life family. -/
def lifeOpsNone : List Nat :=
  [LM_SUICIDE, LM_END_LIFE, LM_USE_ONE_LITTLE_KEY, LM_STOP_L_TRACK, LM_RESTORE_L_TRACK,
   LM_INC_CHAPTER, LM_INC_CLOVER_BOX, LM_FULL_POINT, LM_ACTION, LM_SAVE_HERO, LM_RESTORE_HERO,
   LM_GAME_OVER, LM_THE_END, LM_NO_BODY, LM_BRUTAL_EXIT, LM_SAVE_COMPORTEMENT,
   LM_RESTORE_COMPORTEMENT, LM_INVERSE_BETA]

/-- The test `movementMode == MOVE_FOLLOW || movementMode == MOVE_CIRCLE ||
movementMode == MOVE_CIRCLE2`. -/
def needsActor (movementMode : Int) : Bool :=
  movementMode == MOVE_FOLLOW || movementMode == MOVE_CIRCLE || movementMode == MOVE_CIRCLE2

/-- The body of a `case` of `inscope_loadLifeOperation` up to its `break`: the bridge it
leaves and the error it returned with, if it did. -/
def lifeCase (bridge : IdaBridge) (args : List JsValue) (opcode : Nat) :
    IdaBridge × Option ScriptError :=
  if opcode ∈ lifeOpsU8 then
    if !validateArgsCount args 3 then (bridge, some (.argsCount 3)) else
    match validateU8 (argAt args 2) 255 with
    | none => (bridge, some .argValue)
    | some arg0 => ((bridge.prepareLifeScript opcode 1).pushArgument 1 arg0, none)
  else if opcode = LM_SET_CONTROL then
    if !validateArgsCount args 3 then (bridge, some (.argsCount 3)) else
    match validateU8 (argAt args 2) 255 with
    | none => (bridge, some .argValue)
    | some movementMode =>
      if needsActor movementMode then
        if !validateArgsCount args 4 then (bridge, some (.argsCount 4)) else
        match validateU8 (argAt args 3) 255 with
        | none => (bridge, some .argValue)
        | some actor =>
          (((bridge.prepareLifeScript opcode 2).pushArgument 1 movementMode).pushArgument 1 actor,
            none)
      else ((bridge.prepareLifeScript opcode 1).pushArgument 1 movementMode, none)
  else if opcode = LM_SET_CONTROL_OBJ then
    if !validateArgsCount args 4 then (bridge, some (.argsCount 4)) else
    match validateU8 (argAt args 2) 255 with
    | none => (bridge, some .argValue)
    | some arg0 =>
      match validateU8 (argAt args 3) 255 with
      | none => (bridge, some .argValue)
      | some movementMode =>
        if needsActor movementMode then
          if !validateArgsCount args 5 then (bridge, some (.argsCount 5)) else
          match validateU8 (argAt args 4) 255 with
          | none => (bridge, some .argValue)
          | some actor =>
            ((((bridge.prepareLifeScript opcode 3).pushArgument 1 arg0).pushArgument 1
              movementMode).pushArgument 1 actor, none)
        else
          (((bridge.prepareLifeScript opcode 2).pushArgument 1 arg0).pushArgument 1 movementMode,
            none)
  else if opcode ∈ lifeOpsU8U8 then
    if !validateArgsCount args 4 then (bridge, some (.argsCount 4)) else
    match validateU8 (argAt args 2) 255 with
    | none => (bridge, some .argValue)
    | some arg0 =>
      match validateU8 (argAt args 3) 255 with
      | none => (bridge, some .argValue)
      | some arg1 =>
        (((bridge.prepareLifeScript opcode 2).pushArgument 1 arg0).pushArgument 1 arg1, none)
  else if opcode = LM_PCX then
    if !validateArgsCount args 4 then (bridge, some (.argsCount 4)) else
    match validateU8 (argAt args 2) bridge.getFirstPcxId with
    | none => (bridge, some .argValue)
    | some arg0 =>
      match validateU8 (argAt args 3) 1 with
      | none => (bridge, some .argValue)
      | some arg1 =>
        (((bridge.prepareLifeScript opcode 2).pushArgument 1 arg0).pushArgument 1 arg1, none)
  else if opcode ∈ lifeOpsU16 then
    if !validateArgsCount args 3 then (bridge, some (.argsCount 3)) else
    match validateU16 (argAt args 2) with
    | none => (bridge, some .argValue)
    | some arg0 => ((bridge.prepareLifeScript opcode 2).pushArgument 2 arg0, none)
  else if opcode = LM_ANIM_OBJ then
    if !validateArgsCount args 4 then (bridge, some (.argsCount 4)) else
    match validateU8 (argAt args 2) 255 with
    | none => (bridge, some .argValue)
    | some arg0 =>
      match validateU16 (argAt args 3) with
      | none => (bridge, some .argValue)
      | some arg1 =>
        (((bridge.prepareLifeScript opcode 3).pushArgument 1 arg0).pushArgument 2 arg1, none)
  else if opcode ∈ lifeOpsI16 then
    if !validateArgsCount args 3 then (bridge, some (.argsCount 3)) else
    match validateInt16Value (argAt args 2) with
    | none => (bridge, some .argValue)
    | some arg0 => ((bridge.prepareLifeScript opcode 2).pushArgument 2 arg0, none)
  else if opcode ∈ lifeOpsU8I16 then
    if !validateArgsCount args 4 then (bridge, some (.argsCount 4)) else
    match validateU8 (argAt args 2) 255 with
    | none => (bridge, some .argValue)
    | some arg0 =>
      match validateInt16Value (argAt args 3) with
      | none => (bridge, some .argValue)
      | some arg1 =>
        (((bridge.prepareLifeScript opcode 3).pushArgument 1 arg0).pushArgument 2 arg1, none)
  else if opcode ∈ lifeOpsNone then
    (bridge.prepareLifeScript opcode 0, none)
  else if opcode = LM_PLAY_ACF then
    if !validateArgsCount args 3 then (bridge, some (.argsCount 3)) else
    match validateString (argAt args 2) true with
    | none => (bridge, some .argValue)
    | some arg0 => ((bridge.prepareLifeScript opcode 1).pushArgumentStr arg0, none)
  else if opcode = LM_IMPACT_OBJ then
    if !validateArgsCount args 5 then (bridge, some (.argsCount 5)) else
    match validateU8 (argAt args 2) 255 with
    | none => (bridge, some .argValue)
    | some arg0 =>
      match validateInt16Value (argAt args 3) with
      | none => (bridge, some .argValue)
      | some arg1 =>
        match validateInt16Value (argAt args 4) with
        | none => (bridge, some .argValue)
        | some arg2 =>
          ((((bridge.prepareLifeScript opcode 5).pushArgument 1 arg0).pushArgument 2
            arg1).pushArgument 2 arg2, none)
  else if opcode = LM_REPEAT_SAMPLE then
    if !validateArgsCount args 4 then (bridge, some (.argsCount 4)) else
    match validateInt16Value (argAt args 2) with
    | none => (bridge, some .argValue)
    | some arg0 =>
      match validateU8 (argAt args 3) 255 with
      | none => (bridge, some .argValue)
      | some arg1 =>
        (((bridge.prepareLifeScript opcode 3).pushArgument 2 arg0).pushArgument 1 arg1, none)
  else if opcode = LM_PARM_SAMPLE then
    if !validateArgsCount args 5 then (bridge, some (.argsCount 5)) else
    match validateInt16Value (argAt args 2) with
    | none => (bridge, some .argValue)
    | some arg0 =>
      match validateU8 (argAt args 3) 255 with
      | none => (bridge, some .argValue)
      | some arg1 =>
        match validateInt16Value (argAt args 4) with
        | none => (bridge, some .argValue)
        | some arg2 =>
          ((((bridge.prepareLifeScript opcode 5).pushArgument 2 arg0).pushArgument 1
            arg1).pushArgument 2 arg2, none)
  else if opcode = LM_NEW_SAMPLE then
    if !validateArgsCount args 6 then (bridge, some (.argsCount 6)) else
    match validateInt16Value (argAt args 2) with
    | none => (bridge, some .argValue)
    | some arg0 =>
      match validateInt16Value (argAt args 3) with
      | none => (bridge, some .argValue)
      | some arg1 =>
        match validateU8 (argAt args 4) 255 with
        | none => (bridge, some .argValue)
        | some arg2 =>
          match validateInt16Value (argAt args 5) with
          | none => (bridge, some .argValue)
          | some arg3 =>
            (((((bridge.prepareLifeScript opcode 4).pushArgument 2 arg0).pushArgument 2
              arg1).pushArgument 1 arg2).pushArgument 2 arg3, none)
  else if opcode = LM_PCX_MESS_OBJ then
    if !validateArgsCount args 6 then (bridge, some (.argsCount 6)) else
    match validateU8 (argAt args 2) bridge.getFirstPcxId with
    | none => (bridge, some .argValue)
    | some arg0 =>
      match validateU8 (argAt args 3) 1 with
      | none => (bridge, some .argValue)
      | some arg1 =>
        match validateU8 (argAt args 4) 255 with
        | none => (bridge, some .argValue)
        | some arg2 =>
          match validateInt16Value (argAt args 5) with
          | none => (bridge, some .argValue)
          | some arg3 =>
            (((((bridge.prepareLifeScript opcode 4).pushArgument 1 arg0).pushArgument 1
              arg1).pushArgument 1 arg2).pushArgument 2 arg3, none)
  else (bridge, some (.unsupportedOpcode opcode))

/-- `inscope_loadLifeOperation`: `*result = false`, the `switch`, then
`finalizeLifeScript()` and `*result = true` when the case reached its `break`. -/
def inscope_loadLifeOperation (bridge : IdaBridge) (args : List JsValue) (opcode : Nat) :
    Loaded :=
  match lifeCase bridge args opcode with
  | (b, some e) => ⟨b, false, some e⟩
  | (b, none) => ⟨b.finalizeLifeScript, true, none⟩

/-- The case labels of the no-argument life functions. -/
def lifeFuncsNone : List Nat :=
  [LF_COL, LF_ZONE, LF_L_TRACK, LF_HIT_BY, LF_ACTION, LF_COMPORTEMENT_HERO, LF_CHOICE,
   LF_CARRY_BY, LF_COL_DECORS]

/-- The case labels of the one-`u8` life functions. -/
def lifeFuncsU8 : List Nat :=
  [LF_COL_OBJ, LF_DISTANCE, LF_ZONE_OBJ, LF_L_TRACK_OBJ, LF_CONE_VIEW, LF_DISTANCE_3D,
   LF_USE_INVENTORY, LF_ECHELLE, LF_RAIL, LF_CARRY_OBJ_BY, LF_ANGLE, LF_DISTANCE_MESSAGE,
   LF_HIT_OBJ_BY, LF_REAL_ANGLE, LF_COL_DECORS_OBJ, LF_OBJECT_DISPLAYED, LF_ANGLE_OBJ]

/-- `inscope_loadLifeFunction`: no terminator is appended. -/
def inscope_loadLifeFunction (bridge : IdaBridge) (args : List JsValue) (opcode : Nat) :
    Loaded :=
  if opcode ∈ lifeFuncsNone then
    ⟨bridge.prepareLifeFunction opcode 0, true, none⟩
  else if opcode ∈ lifeFuncsU8 then
    if !validateArgsCount args 3 then ⟨bridge, false, some (.argsCount 3)⟩ else
    match validateU8 (argAt args 2) 255 with
    | none => ⟨bridge, false, some .argValue⟩
    | some arg0 => ⟨(bridge.prepareLifeFunction opcode 1).pushArgument 1 arg0, true, none⟩
  else ⟨bridge, false, some (.unsupportedOpcode opcode)⟩

/-- `const int baseArgsCount = 3` of `inscope_loadMoveOperation`. -/
abbrev baseArgsCount : Nat := 3

/-- The case labels of the no-argument move family. -/
def moveOpsNone : List Nat :=
  [TM_WAIT_ANIM, TM_NO_BODY, TM_CLOSE, TM_WAIT_DOOR, TM_STOP_ANIM_3DS, TM_WAIT_ANIM_3DS]

/-- The case labels of the one-`u8` move family. -/
def moveOpsU8 : List Nat :=
  [TM_BODY, TM_GOTO_POINT, TM_POS_POINT, TM_GOTO_SYM_POINT, TM_GOTO_POINT_3D, TM_BACKGROUND,
   TM_SET_FRAME, TM_SET_FRAME_3DS, TM_SET_START_3DS, TM_SET_END_3DS, TM_START_ANIM_3DS,
   TM_WAIT_FRAME_3DS, TM_VOLUME]

/-- The case labels of the one-`i16` move family. -/
def moveOpsI16 : List Nat :=
  [TM_ANGLE, TM_SAMPLE, TM_SPEED, TM_BETA, TM_OPEN_LEFT, TM_OPEN_RIGHT, TM_OPEN_UP,
   TM_OPEN_DOWN, TM_SAMPLE_RND, TM_SAMPLE_ALWAYS, TM_SAMPLE_STOP, TM_REPEAT_SAMPLE,
   TM_SIMPLE_SAMPLE, TM_FACE_TWINSEN, TM_SPRITE, TM_DECALAGE, TM_FREQUENCE]

/-- The case labels of the wait family. -/
def moveOpsWait : List Nat :=
  [TM_WAIT_NB_SECOND, TM_WAIT_NB_DIZIEME, TM_WAIT_NB_SECOND_RND, TM_WAIT_NB_DIZIEME_RND]

/-- The body of a `case` of `inscope_loadMoveOperation` up to its `break`. -/
def moveCase (bridge : IdaBridge) (args : List JsValue) (objectId : Nat) (opcode : Nat) :
    IdaBridge × Option ScriptError :=
  if opcode ∈ moveOpsNone then
    (bridge.prepareMoveScript objectId opcode 0, none)
  else if opcode ∈ moveOpsU8 then
    if !validateArgsCount args (baseArgsCount + 1) then
      (bridge, some (.argsCount (baseArgsCount + 1))) else
    match validateU8 (argAt args baseArgsCount) 255 with
    | none => (bridge, some .argValue)
    | some arg0 =>
      ((bridge.prepareMoveScript objectId opcode 1).pushMoveArgument objectId 1 arg0, none)
  else if opcode = TM_ANIM then
    if !validateArgsCount args (baseArgsCount + 1) then
      (bridge, some (.argsCount (baseArgsCount + 1))) else
    match validateU16 (argAt args baseArgsCount) with
    | none => (bridge, some .argValue)
    | some arg0 =>
      ((bridge.prepareMoveScript objectId opcode 2).pushMoveArgument objectId 2 arg0, none)
  else if opcode ∈ moveOpsI16 then
    if !validateArgsCount args (baseArgsCount + 1) then
      (bridge, some (.argsCount (baseArgsCount + 1))) else
    match validateInt16Value (argAt args baseArgsCount) with
    | none => (bridge, some .argValue)
    | some arg0 =>
      ((bridge.prepareMoveScript objectId opcode 2).pushMoveArgument objectId 2 arg0, none)
  else if opcode = TM_WAIT_NB_ANIM then
    if !validateArgsCount args (baseArgsCount + 2) then
      (bridge, some (.argsCount (baseArgsCount + 2))) else
    match validateU8 (argAt args baseArgsCount) 255 with
    | none => (bridge, some .argValue)
    | some arg0 =>
      match validateU8 (argAt args (baseArgsCount + 1)) 255 with
      | none => (bridge, some .argValue)
      | some arg1 =>
        (((bridge.prepareMoveScript objectId opcode 2).pushMoveArgument objectId 1
          arg0).pushMoveArgument objectId 1 arg1, none)
  else if opcode = TM_ANGLE_RND then
    if !validateArgsCount args (baseArgsCount + 2) then
      (bridge, some (.argsCount (baseArgsCount + 2))) else
    match validateInt16Value (argAt args baseArgsCount) with
    | none => (bridge, some .argValue)
    | some arg0 =>
      match validateInt16Value (argAt args (baseArgsCount + 1)) with
      | none => (bridge, some .argValue)
      | some arg1 =>
        (((bridge.prepareMoveScript objectId opcode 4).pushMoveArgument objectId 2
          arg0).pushMoveArgument objectId 2 arg1, none)
  else if opcode ∈ moveOpsWait then
    if !validateArgsCount args (baseArgsCount + 1) then
      (bridge, some (.argsCount (baseArgsCount + 1))) else
    match validateU8 (argAt args baseArgsCount) 255 with
    | none => (bridge, some .argValue)
    | some arg0 =>
      let arg1 : Int := 0
      (((bridge.prepareMoveScript objectId opcode 5).pushMoveArgument objectId 1
        arg0).pushMoveArgument objectId 4 arg1, none)
  else if opcode = TM_PLAY_ACF then
    if !validateArgsCount args (baseArgsCount + 1) then
      (bridge, some (.argsCount (baseArgsCount + 1))) else
    match validateString (argAt args baseArgsCount) true with
    | none => (bridge, some .argValue)
    | some arg0 =>
      ((bridge.prepareMoveScript objectId opcode arg0.length).pushMoveArgumentStr objectId arg0,
        none)
  else (bridge, some (.unsupportedOpcode opcode))

/-- `inscope_loadMoveOperation`: `*result = false`, the `switch`, then
`finalizeMoveScript(objectId)` and `*result = true` when the case reached its `break`. -/
def inscope_loadMoveOperation (bridge : IdaBridge) (args : List JsValue) (objectId : Nat)
    (opcode : Nat) : Loaded :=
  match moveCase bridge args objectId opcode with
  | (b, some e) => ⟨b, false, some e⟩
  | (b, none) => ⟨b.finalizeMoveScript objectId, true, none⟩

/-- `loadSavedMoveOperation`: `code[0]` is read first (the caller passes a non-empty vector;
an empty one has no first byte and is modelled as a mismatch). -/
def loadSavedMoveOperation (bridge : IdaBridge) (objectId : Nat) (code : Bytes) (opcode : Nat) :
    IdaBridge × Bool :=
  if some opcode ≠ code.head? then (bridge, false)
  else (bridge.loadMoveScript objectId code.length code, true)

/-- `isPersistentMoveOperation` (script.h). -/
def isPersistentMoveOperation (opcode : Nat) : Bool :=
  opcode == TM_ANGLE || opcode == TM_FACE_TWINSEN || opcode == TM_WAIT_NB_ANIM ||
    opcode == TM_WAIT_NB_DIZIEME || opcode == TM_WAIT_NB_SECOND || opcode == TM_ANGLE_RND ||
    opcode == TM_WAIT_NB_DIZIEME_RND || opcode == TM_WAIT_NB_SECOND_RND || opcode == TM_LOOP

/-! ## The opcode table: argument shapes of the families

A declarative reading of the three `switch` statements, in the spec's terms ("opcode →
argument widths/kinds, conditional-arity rule if any"). The assemblers above are compared
with it; nothing below is used by them. -/

/-- A script argument of an instruction, by its declared kind. -/
inductive Slot where
  | u8 (max : Nat)
  | u16
  | i16
  | str
  deriving DecidableEq, Repr

namespace Slot

/-- The declared inclusive range of a scalar slot. -/
def range : Slot → Option (Int × Int)
  | .u8 max => some (0, max)
  | .u16 => some (0, 65535)
  | .i16 => some (-32768, 32767)
  | .str => none

/-- Whether a script value is a correctly shaped, in-range argument for the slot. -/
def ok : Slot → JsValue → Bool
  | .u8 max, .int n => decide (0 ≤ n ∧ n ≤ (max : Int))
  | .u16, .int n => decide (0 ≤ n ∧ n ≤ 65535)
  | .i16, .int n => decide (-32768 ≤ n ∧ n ≤ 32767)
  | .str, .string s => !s.isEmpty
  | _, _ => false

/-- The number of bytes the slot occupies in the buffer. -/
def width : Slot → JsValue → Nat
  | .u8 _, _ => 1
  | .u16, _ => 2
  | .i16, _ => 2
  | .str, .string s => s.length + 1
  | .str, _ => 0

/-- The bytes the slot occupies: little-endian for scalars, the raw bytes and a null for a
string. -/
def encode : Slot → JsValue → Bytes
  | .u8 _, .int n => leBytes 1 n
  | .u16, .int n => leBytes 2 n
  | .i16, .int n => leBytes 2 n
  | .str, .string s => s ++ [0]
  | _, _ => []

end Slot

/-- The argument shape of an opcode: the slots read from the call, in order, and the constant
bytes written after them. -/
structure Shape where
  slots : List Slot
  trailer : Bytes
  deriving DecidableEq, Repr

/-- Whether the call supplies an in-range argument for every slot, the first at index `i`. -/
def acceptsAt : List Slot → List JsValue → Nat → Bool
  | [], _, _ => true
  | s :: ss, args, i =>
    decide (i < args.length) && s.ok (argAt args i) && acceptsAt ss args (i + 1)

/-- The argument bytes of the call, slot by slot, the first argument at index `i`. -/
def encodeAt : List Slot → List JsValue → Nat → Bytes
  | [], _, _ => []
  | s :: ss, args, i => s.encode (argAt args i) ++ encodeAt ss args (i + 1)

/-- The sum of the widths of the arguments, the first at index `i`. -/
def widthAt : List Slot → List JsValue → Nat → Nat
  | [], _, _ => 0
  | s :: ss, args, i => s.width (argAt args i) + widthAt ss args (i + 1)

/-- The table of move opcodes: one row per family of `inscope_loadMoveOperation`. -/
def moveShape (opcode : Nat) : Option Shape :=
  if opcode ∈ moveOpsNone then some ⟨[], []⟩
  else if opcode ∈ moveOpsU8 then some ⟨[.u8 255], []⟩
  else if opcode = TM_ANIM then some ⟨[.u16], []⟩
  else if opcode ∈ moveOpsI16 then some ⟨[.i16], []⟩
  else if opcode = TM_WAIT_NB_ANIM then some ⟨[.u8 255, .u8 255], []⟩
  else if opcode = TM_ANGLE_RND then some ⟨[.i16, .i16], []⟩
  else if opcode ∈ moveOpsWait then some ⟨[.u8 255], [0, 0, 0, 0]⟩
  else if opcode = TM_PLAY_ACF then some ⟨[.str], []⟩
  else none

/-- Whether a script value is a movement mode that requires a trailing actor. -/
def modeNeedsActor : JsValue → Bool
  | .int m => needsActor m
  | _ => false

/-- The table of life operation opcodes: one row per family of `inscope_loadLifeOperation`.
The two control-mode rows have one more `u8` slot when the movement mode of the call requires
an actor; the image rows are bounded by the first custom image id `pcx`. -/
def lifeShape (pcx : Nat) (args : List JsValue) (opcode : Nat) : Option Shape :=
  if opcode ∈ lifeOpsU8 then some ⟨[.u8 255], []⟩
  else if opcode = LM_SET_CONTROL then
    some ⟨if modeNeedsActor (argAt args 2) then [.u8 255, .u8 255] else [.u8 255], []⟩
  else if opcode = LM_SET_CONTROL_OBJ then
    some ⟨if modeNeedsActor (argAt args 3) then [.u8 255, .u8 255, .u8 255]
      else [.u8 255, .u8 255], []⟩
  else if opcode ∈ lifeOpsU8U8 then some ⟨[.u8 255, .u8 255], []⟩
  else if opcode = LM_PCX then some ⟨[.u8 pcx, .u8 1], []⟩
  else if opcode ∈ lifeOpsU16 then some ⟨[.u16], []⟩
  else if opcode = LM_ANIM_OBJ then some ⟨[.u8 255, .u16], []⟩
  else if opcode ∈ lifeOpsI16 then some ⟨[.i16], []⟩
  else if opcode ∈ lifeOpsU8I16 then some ⟨[.u8 255, .i16], []⟩
  else if opcode ∈ lifeOpsNone then some ⟨[], []⟩
  else if opcode = LM_PLAY_ACF then some ⟨[.str], []⟩
  else if opcode = LM_IMPACT_OBJ then some ⟨[.u8 255, .i16, .i16], []⟩
  else if opcode = LM_REPEAT_SAMPLE then some ⟨[.i16, .u8 255], []⟩
  else if opcode = LM_PARM_SAMPLE then some ⟨[.i16, .u8 255, .i16], []⟩
  else if opcode = LM_NEW_SAMPLE then some ⟨[.i16, .i16, .u8 255, .i16], []⟩
  else if opcode = LM_PCX_MESS_OBJ then some ⟨[.u8 pcx, .u8 1, .u8 255, .i16], []⟩
  else none

/-- The table of life function opcodes. -/
def lifeFunctionShape (opcode : Nat) : Option Shape :=
  if opcode ∈ lifeFuncsNone then some ⟨[], []⟩
  else if opcode ∈ lifeFuncsU8 then some ⟨[.u8 255], []⟩
  else none

/-! ## The host: game state behind `IdaLbaBridge` (SOURCES/Ida/IdaLbaBridge.cpp) -/

abbrev IDA_OBJ_LIFE : Nat := 0x01
abbrev IDA_OBJ_LIFE_ENABLED : Nat := 0x02
abbrev IDA_OBJ_NEW : Nat := 0x04
abbrev IDA_OBJ_MOVE : Nat := 0x08
abbrev IDA_OBJ_MOVE_ENABLED : Nat := 0x10

abbrev OBJ_DEAD : Nat := 32
abbrev SPRITE_3D : Nat := 1024
abbrev FLAG_MONEY : Int := 8
abbrev FLAG_ACF : Int := 235
abbrev FLAG_ACF2 : Int := 236
abbrev FLAG_ACF3 : Int := 237
abbrev FLAG_ESC : Int := 249
abbrev FLAG_DONT_USE : Int := 255

/-- Where a script pointer of an object (`PtrLife`, `PtrTrack`) points: nowhere, into the
game's own script memory, at the bridge's life buffer, or at the bridge's move buffer of an
entity. -/
inductive CodePtr where
  | null
  | game (address : Nat)
  | lifeScript
  | moveScript (objectId : Nat)
  deriving DecidableEq, Repr, Inhabited

/-- The fields of `T_OBJ_3D` the bridge reads or writes. -/
structure T_OBJ_3D where
  X : Int
  Y : Int
  Z : Int
  Beta : Int
  BodyNum : Int
  deriving DecidableEq, Repr, Inhabited

/-- The fields of `T_OBJET` the bridge reads or writes. -/
structure T_OBJET where
  GenBody : Int
  GenAnim : Int
  Info : Int
  Info1 : Int
  Info2 : Int
  Info3 : Int
  HitForce : Int
  LifePoint : Int
  OptionFlags : Int
  Sprite : Int
  OffsetLabelTrack : Int
  Obj : T_OBJ_3D
  PtrFile3D : Nat
  IndexFile3D : Int
  NbBonus : Int
  Armure : Int
  CoulObj : Int
  PtrTrack : CodePtr
  OffsetTrack : Int
  SRot : Int
  PtrLife : CodePtr
  OffsetLife : Int
  Move : Int
  ZoneSce : Int
  LabelTrack : Int
  MemoLabelTrack : Int
  Flags : Nat
  WorkFlags : Nat
  deriving Inhabited

/-- The array a `ListZone` / `ListBrickTrack` pointer designates: none, an array of the game,
or the storage of the bridge's own vector (`mZones.data()` / `mWaypoints.data()`). -/
inductive ArrayPtr (α : Type) where
  | null
  | game (data : List α)
  | ida
  deriving DecidableEq, Repr, Inhabited

/-- The globals of the game that `IdaLbaBridge` reads and writes. -/
structure Lba where
  NbObjets : Int
  ListObjet : List T_OBJET
  NbZones : Int
  ListZone : ArrayPtr T_ZONE
  NbBrickTrack : Int
  ListBrickTrack : ArrayPtr T_TRACK
  ListVarCube : List Nat
  ListVarGame : List Int
  CubeStartX : Int
  CubeStartY : Int
  CubeStartZ : Int
  NbGoldPieces : Int
  NbZlitosPieces : Int
  Planet : Int
  Island : Int
  NumCube : Int
  NbLittleKeys : Int
  MagicLevel : Int
  MagicPoint : Int
  FlagPal : Bool
  deriving Inhabited

/-- The parts of the original game the host adapter calls and that are outside the
repository: its compile-time limits and its interpreters. `DoTrack` may patch the
instruction it runs in place; it returns the bytes as it leaves them. -/
structure Engine where
  MAX_OBJETS : Nat
  MAX_VARS_CUBE : Nat
  MAX_VARS_GAME : Nat
  InitObject : Nat → Lba → Lba
  LoadFile3D : Int → Nat
  DoLife : Nat → Bytes → Lba → Lba
  DoFuncLife : Nat → Bytes → Lba → Lba × Int × Nat
  DoTrack : Nat → Bytes → Lba → Lba × Bytes

/-- An instruction buffer handed to one of the game's interpreters. -/
inductive HostCall where
  | executeLifeCode (objectIndex : Nat) (code : Bytes)
  | executeLifeFunction (objectIndex : Nat) (code : Bytes)
  | executeMoveCommand (objectIndex : Nat) (code : Bytes)
  | continueMoveCommand (objectIndex : Nat) (code : Bytes)
  deriving DecidableEq, Repr

/-- The members of `class IdaSpy` (introspection/IdaSpy.h) the Mark functions write, with the
`isActive` and `spyPeriodMs` members of its two info records. -/
structure IdaSpy where
  mNextMainMenuCommand : Int
  mSkipVideoOnce : Bool
  mGameInput : Nat
  mIsHotReloadEnabled : Bool
  mSaveGameName : Bytes
  mExitCode : Int
  dialogSpyActive : Bool
  dialogSpyPeriodMs : Int
  imageSpyActive : Bool
  imageSpyPeriodMs : Int
  deriving DecidableEq, Repr

/-- The member initialisers of `class IdaSpy`. -/
def IdaSpy.initial : IdaSpy :=
  { mNextMainMenuCommand := 0, mSkipVideoOnce := false, mGameInput := 0,
    mIsHotReloadEnabled := true, mSaveGameName := [], mExitCode := 0,
    dialogSpyActive := false, dialogSpyPeriodMs := 0,
    imageSpyActive := false, imageSpyPeriodMs := 0 }

/-- The members of `class Ida` and the statics of Ida.cpp that script calls reach. A life
handler entry holds a `v8::Global`, which may be empty. -/
structure IdaState where
  mIsScriptProvided : Bool
  mForcedStorm : Nat
  mForcedIslandModel : Nat
  mLightningDisabled : Bool
  mStartSceneId : Int
  mIntroVideo : Bytes
  mObjectFlags : List Nat
  mSceneLifeHandlers : Int → Option (Option Nat)
  mSceneMoveHandler : Option Nat
  mLoopType : Nat
  mLastProfileTime : Int
  mProfileFrameCount : Int

/-- Everything a script call can observe or change: the phase guard, the bridge's buffers,
the facade's state, the game's globals, the record of buffers dispatched to the game's
interpreters, the test spy, and the exit code once the process was ended by `exit`. -/
structure World where
  epp : Epp
  bridge : IdaBridge
  ida : IdaState
  lba : Lba
  dispatched : List HostCall
  spy : IdaSpy
  exited : Option Int

/-- How a template function ends: with its return value set (or left `undefined`), with a
script error thrown, or in a read outside the buffer it indexes. -/
inductive Outcome where
  | returned (value : JsValue)
  | thrown (error : ScriptError)
  | outOfBounds
  deriving DecidableEq, Repr

/-- The state a template function leaves and how it ended. -/
structure Ret where
  world : World
  outcome : Outcome

namespace Lba

def getNumObjects (l : Lba) : Int := l.NbObjets

/-- `setNumObjects`: ignored outside `[0, MAX_OBJETS]`. -/
def setNumObjects (E : Engine) (l : Lba) (numObjects : Int) : Lba :=
  if numObjects < 0 ∨ numObjects > E.MAX_OBJETS then l
  else { l with NbObjets := numObjects }

/-- `getObjectByIndex`: the index of the object, `none` for `nullptr`. -/
def getObjectByIndex (l : Lba) (objectIndex : Int) : Option Nat :=
  if objectIndex < 0 ∨ objectIndex ≥ l.NbObjets then none else some objectIndex.toNat

/-- The object `ListObjet[i]`. -/
def object (l : Lba) (i : Nat) : T_OBJET := l.ListObjet.getD i default

/-- A store through a `T_OBJET *`. -/
def setObject (l : Lba) (i : Nat) (o : T_OBJET) : Lba :=
  { l with ListObjet := l.ListObjet.set i o }

/-- `update3DModel`. -/
def update3DModel (E : Engine) (obj : T_OBJET) : T_OBJET :=
  if obj.Flags &&& SPRITE_3D = 0 then { obj with PtrFile3D := E.LoadFile3D obj.IndexFile3D }
  else obj

/-- `initObject`. -/
def initObject (E : Engine) (l : Lba) (objectIndex : Int) : Lba :=
  if objectIndex < 0 ∨ objectIndex ≥ l.NbObjets then l
  else
    let l1 := E.InitObject objectIndex.toNat l
    let obj := { l1.object objectIndex.toNat with IndexFile3D := 0 }
    l1.setObject objectIndex.toNat (update3DModel E obj)

def getMaxZones : Int := 128

def getMaxWaypoints : Int := 256

def getMaxObjects (E : Engine) : Int := E.MAX_OBJETS

def getMaxVarCubeIndex (E : Engine) : Int := (E.MAX_VARS_CUBE : Int) - 1

def getMaxVarGameIndex (E : Engine) : Int := (E.MAX_VARS_GAME : Int) - 1

/-- `getVarCube`: the index of the slot, `none` for `nullptr`. -/
def getVarCube (E : Engine) (varIndex : Int) : Option Nat :=
  if varIndex < 0 ∨ varIndex ≥ E.MAX_VARS_CUBE then none else some varIndex.toNat

/-- `getVarGame`: the index of the slot, `none` for `nullptr`. -/
def getVarGame (E : Engine) (varIndex : Int) : Option Nat :=
  if varIndex < 0 ∨ varIndex ≥ E.MAX_VARS_GAME then none else some varIndex.toNat

/-- `setZones`. -/
def setZones (l : Lba) (numZones : Int) (zonesPtr : ArrayPtr T_ZONE) : Lba :=
  if numZones < 0 ∨ numZones > getMaxZones ∨ zonesPtr = ArrayPtr.null then l
  else { l with NbZones := numZones, ListZone := zonesPtr }

/-- `setWaypoints`. -/
def setWaypoints (l : Lba) (numWaypoints : Int) (waypointsPtr : ArrayPtr T_TRACK) : Lba :=
  if numWaypoints < 0 ∨ numWaypoints > getMaxWaypoints ∨ waypointsPtr = ArrayPtr.null then l
  else { l with NbBrickTrack := numWaypoints, ListBrickTrack := waypointsPtr }

/-- `getZoneByIndex`: the index of the zone, `none` for `nullptr`. -/
def getZoneByIndex (l : Lba) (zoneIndex : Int) : Option Nat :=
  if zoneIndex < 0 ∨ zoneIndex ≥ l.NbZones then none else some zoneIndex.toNat

/-- `getWaypointByIndex`. -/
def getWaypointByIndex (l : Lba) (waypointIndex : Int) : Option Nat :=
  if waypointIndex < 0 ∨ waypointIndex ≥ l.NbBrickTrack then none else some waypointIndex.toNat

/-- `isMoveCommandActive`. -/
def isMoveCommandActive (l : Lba) (objectIndex : Nat) : Bool :=
  decide ((l.object objectIndex).OffsetTrack > -1)

/-- `stopMoveCommand`. -/
def stopMoveCommand (l : Lba) (objectIndex : Nat) : Lba :=
  l.setObject objectIndex { l.object objectIndex with
    OffsetTrack := -1, MemoLabelTrack := -1, OffsetLabelTrack := -1, LabelTrack := -1 }

end Lba

namespace IdaBridge

/-- `std::vector::resize(newSize)`: truncates, or appends value-initialised elements. -/
def vectorResize {α : Type} (zero : α) (v : List α) (newSize : Nat) : List α :=
  v.take newSize ++ List.replicate (newSize - v.length) zero

/-- `resizeZones`: `zonesPtr == mZones.data()` holds when the game's pointer designates the
bridge's vector; otherwise the first `oldSize` zones of the game's array are copied in; the
entries from `oldSize` on are filled with `T_ZONE{}`. The result is `mZones.data()`. -/
def resizeZones (b : IdaBridge) (oldSize newSize : Nat) (zonesPtr : ArrayPtr T_ZONE) :
    IdaBridge :=
  let zonesAreManagedByIda : Bool := decide (zonesPtr = ArrayPtr.ida)
  let resized := vectorResize T_ZONE.zero b.mZones newSize
  let copied :=
    match zonesPtr with
    | .game data =>
      if !zonesAreManagedByIda && decide (oldSize > 0) then
        data.take oldSize ++ resized.drop oldSize
      else resized
    | _ => resized
  { b with mZones := copied.take oldSize ++ List.replicate (copied.length - oldSize) T_ZONE.zero }

/-- `resizeWaypoints`, as `resizeZones`. -/
def resizeWaypoints (b : IdaBridge) (oldSize newSize : Nat) (waypointsPtr : ArrayPtr T_TRACK) :
    IdaBridge :=
  let waypointsAreManagedByIda : Bool := decide (waypointsPtr = ArrayPtr.ida)
  let resized := vectorResize T_TRACK.zero b.mWaypoints newSize
  let copied :=
    match waypointsPtr with
    | .game data =>
      if !waypointsAreManagedByIda && decide (oldSize > 0) then
        data.take oldSize ++ resized.drop oldSize
      else resized
    | _ => resized
  { b with mWaypoints :=
      copied.take oldSize ++ List.replicate (copied.length - oldSize) T_TRACK.zero }

end IdaBridge

namespace World

/-- The zone array the game's `ListZone` designates. -/
def zones (w : World) : List T_ZONE :=
  match w.lba.ListZone with
  | .null => []
  | .game data => data
  | .ida => w.bridge.mZones

/-- A store through a `T_ZONE *` into `ListZone[i]`. -/
def setZone (w : World) (i : Nat) (z : T_ZONE) : World :=
  match w.lba.ListZone with
  | .null => w
  | .game data => { w with lba := { w.lba with ListZone := .game (data.set i z) } }
  | .ida => { w with bridge := { w.bridge with mZones := w.bridge.mZones.set i z } }

/-- The waypoint array the game's `ListBrickTrack` designates. -/
def waypoints (w : World) : List T_TRACK :=
  match w.lba.ListBrickTrack with
  | .null => []
  | .game data => data
  | .ida => w.bridge.mWaypoints

/-- A store through a `T_OBJET *`. -/
def setObject (w : World) (i : Nat) (o : T_OBJET) : World :=
  { w with lba := w.lba.setObject i o }

/-- A store into `getObjectFlags()[i]`. -/
def setObjectFlag (w : World) (i : Nat) (flag : Nat) : World :=
  { w with ida := { w.ida with mObjectFlags := w.ida.mObjectFlags.set i flag } }

/-- The byte `getObjectFlags()[i]`. -/
def objectFlag (w : World) (i : Nat) : Nat := w.ida.mObjectFlags.getD i 0

/-- A store through the `unsigned char *` of `getVarCube`. -/
def setVarCube (w : World) (i : Nat) (value : Nat) : World :=
  { w with lba := { w.lba with ListVarCube := w.lba.ListVarCube.set i value } }

/-- A store through the `short *` of `getVarGame`. -/
def setVarGame (w : World) (i : Nat) (value : Int) : World :=
  { w with lba := { w.lba with ListVarGame := w.lba.ListVarGame.set i value } }

def setGold (w : World) (gold : Int) : World :=
  { w with lba := { w.lba with NbGoldPieces := gold } }

def setZlitos (w : World) (zlitos : Int) : World :=
  { w with lba := { w.lba with NbZlitosPieces := zlitos } }

end World

/-- The bytes a vector holds after the game wrote `written` through its `data()` pointer:
the size of the vector does not change. -/
def inPlace (old written : Bytes) : Bytes :=
  written.take old.length ++ old.drop written.length

namespace IdaLbaBridge

/-- `executeLifeCode`: the object's life pointer is swapped to the code for the duration of
`DoLife`, then restored. -/
def executeLifeCode (E : Engine) (w : World) (objectIndex : Nat) (code : Bytes) : World :=
  let obj := w.lba.object objectIndex
  let currentPtrLife := obj.PtrLife
  let currentOfsLife := obj.OffsetLife
  let l1 := w.lba.setObject objectIndex
    { obj with PtrLife := CodePtr.lifeScript, OffsetLife := 0 }
  let l2 := E.DoLife objectIndex code l1
  let l3 := l2.setObject objectIndex
    { l2.object objectIndex with PtrLife := currentPtrLife, OffsetLife := currentOfsLife }
  { w with lba := l3, dispatched := w.dispatched ++ [HostCall.executeLifeCode objectIndex code] }

/-- `executeLifeFunction`: the resulting world, `Value` and `TypeAnswer`. -/
def executeLifeFunction (E : Engine) (w : World) (objectIndex : Nat) (code : Bytes) :
    World × Int × Nat :=
  let r := E.DoFuncLife objectIndex code w.lba
  ({ w with lba := r.1,
            dispatched := w.dispatched ++ [HostCall.executeLifeFunction objectIndex code] },
    r.2.1, r.2.2)

/-- `executeMoveCommand`: the track pointer is set to the entity's move buffer, the offset to
its start, and `DoTrack` runs on it. -/
def executeMoveCommand (E : Engine) (w : World) (objectIndex : Nat) : World :=
  let code := w.bridge.getMoveScript objectIndex
  let l1 := w.lba.setObject objectIndex
    { w.lba.object objectIndex with PtrTrack := CodePtr.moveScript objectIndex,
                                    OffsetTrack := 0 }
  let r := E.DoTrack objectIndex code l1
  { w with lba := r.1,
           bridge := w.bridge.setMoveScript objectIndex (inPlace code r.2),
           dispatched := w.dispatched ++ [HostCall.executeMoveCommand objectIndex code] }

/-- `continueMoveCommand`: as `executeMoveCommand`, keeping the track offset. -/
def continueMoveCommand (E : Engine) (w : World) (objectIndex : Nat) : World :=
  let code := w.bridge.getMoveScript objectIndex
  let l1 := w.lba.setObject objectIndex
    { w.lba.object objectIndex with PtrTrack := CodePtr.moveScript objectIndex }
  let r := E.DoTrack objectIndex code l1
  { w with lba := r.1,
           bridge := w.bridge.setMoveScript objectIndex (inPlace code r.2),
           dispatched := w.dispatched ++ [HostCall.continueMoveCommand objectIndex code] }

end IdaLbaBridge

/-! ## templateUtils.h and the template functions (game/*Template.cpp) -/

namespace Ret

/-- The function returns with its return value left `undefined`. -/
def done (w : World) : Ret := ⟨w, Outcome.returned JsValue.undefined⟩

/-- `args.GetReturnValue().Set(value)` and return. -/
def value (w : World) (v : JsValue) : Ret := ⟨w, Outcome.returned v⟩

/-- A script error is thrown and the function returns. -/
def throw (w : World) (e : ScriptError) : Ret := ⟨w, Outcome.thrown e⟩

end Ret

/-- The macro `EPP_ALLOW(...)`: throws naming the allowed phases and returns unless
`isEppAllowed`; otherwise control continues with `k`. -/
def EPP_ALLOW (w : World) (phases : List ExecutionPhase) (k : Ret) : Ret :=
  if !w.epp.isExecutionAllowed phases then
    Ret.throw w (ScriptError.policy
      ("Execution of this function is only allowed in the following phases: " ++
        Epp.getPhaseNames phases))
  else k

/-- `VALIDATE_ARGS_COUNT(n)` in a template function. -/
def VALIDATE_ARGS_COUNT (w : World) (args : List JsValue) (n : Nat) (k : Ret) : Ret :=
  if !validateArgsCount args n then Ret.throw w (ScriptError.argsCount n) else k

/-- A `VALIDATE_...` macro binding a variable: throws and returns when the argument is not
valid, otherwise continues with the bound value. -/
def VALIDATE {α : Type} (w : World) (validated : Option α) (k : α → Ret) : Ret :=
  match validated with
  | none => Ret.throw w ScriptError.argValue
  | some v => k v

/-- The macro `BIND_OBJECT(T_OBJET, object)`: resolves the wrapped index, throwing a
reference error and returning when the game has no such object. -/
def BIND_OBJECT (w : World) (objectIndexValue : Int) (k : Nat → T_OBJET → Ret) : Ret :=
  match w.lba.getObjectByIndex objectIndexValue with
  | none => Ret.throw w ScriptError.reference
  | some i => k i (w.lba.object i)

/-- The macro `BIND_OBJECT(T_ZONE, zone)`. -/
def BIND_ZONE (w : World) (zoneIndexValue : Int) (k : Nat → T_ZONE → Ret) : Ret :=
  match w.lba.getZoneByIndex zoneIndexValue with
  | none => Ret.throw w ScriptError.reference
  | some i => k i (w.zones.getD i default)

open ExecutionPhase

namespace GameObjectTemplate

def setControlMode (w : World) (this : Int) (args : List JsValue) : Ret :=
  EPP_ALLOW w [SceneLoad] <|
  VALIDATE_ARGS_COUNT w args 1 <|
  VALIDATE w (validateValue V8Type.Int32 (argAt args 0) (some 0) (some 13)) fun controlMode =>
  BIND_OBJECT w this fun i object =>
  Ret.done (w.setObject i { object with Move := controlMode })

def setStaticFlags (w : World) (this : Int) (args : List JsValue) : Ret :=
  EPP_ALLOW w [SceneLoad] <|
  VALIDATE_ARGS_COUNT w args 1 <|
  VALIDATE w (validateValue V8Type.Uint32 (argAt args 0) none none) fun staticFlags =>
  BIND_OBJECT w this fun i object =>
  Ret.done (w.setObject i { object with Flags := staticFlags.toNat })

def setBonusFlags (w : World) (this : Int) (args : List JsValue) : Ret :=
  EPP_ALLOW w [SceneLoad] <|
  VALIDATE_ARGS_COUNT w args 1 <|
  VALIDATE w (validateInt16Value (argAt args 0)) fun bonusFlags =>
  BIND_OBJECT w this fun i object =>
  Ret.done (w.setObject i { object with OptionFlags := bonusFlags })

def setBonusQuantity (w : World) (this : Int) (args : List JsValue) : Ret :=
  EPP_ALLOW w [SceneLoad] <|
  VALIDATE_ARGS_COUNT w args 1 <|
  VALIDATE w (validateInt16Value (argAt args 0)) fun bonusQuantity =>
  BIND_OBJECT w this fun i object =>
  Ret.done (w.setObject i { object with NbBonus := bonusQuantity })

def setPos (w : World) (this : Int) (args : List JsValue) : Ret :=
  EPP_ALLOW w [SceneLoad] <|
  VALIDATE_ARGS_COUNT w args 1 <|
  VALIDATE w (validateArray V8Type.Int32 (argAt args 0) 3) fun pos =>
  BIND_OBJECT w this fun i object =>
  Ret.done (w.setObject i { object with
    Obj := { object.Obj with X := pos.getD 0 0, Y := pos.getD 1 0, Z := pos.getD 2 0 } })

def setAngle (w : World) (this : Int) (args : List JsValue) : Ret :=
  EPP_ALLOW w [SceneLoad] <|
  VALIDATE_ARGS_COUNT w args 1 <|
  VALIDATE w (validateValue V8Type.Int32 (argAt args 0) none none) fun angle =>
  BIND_OBJECT w this fun i object =>
  Ret.done (w.setObject i { object with Obj := { object.Obj with Beta := angle } })

def setRegisters (w : World) (this : Int) (args : List JsValue) : Ret :=
  EPP_ALLOW w [SceneLoad] <|
  VALIDATE_ARGS_COUNT w args 1 <|
  VALIDATE w (validateArray V8Type.Int32 (argAt args 0) 4) fun registers =>
  BIND_OBJECT w this fun i object =>
  Ret.done (w.setObject i { object with
    Info := registers.getD 0 0, Info1 := registers.getD 1 0, Info2 := registers.getD 2 0,
    Info3 := registers.getD 3 0 })

def setLifePoints (w : World) (this : Int) (args : List JsValue) : Ret :=
  EPP_ALLOW w [SceneLoad] <|
  VALIDATE_ARGS_COUNT w args 1 <|
  VALIDATE w (validateInt16Value (argAt args 0)) fun lifePoints =>
  BIND_OBJECT w this fun i object =>
  Ret.done (w.setObject i { object with LifePoint := lifePoints })

def setArmor (w : World) (this : Int) (args : List JsValue) : Ret :=
  EPP_ALLOW w [SceneLoad] <|
  VALIDATE_ARGS_COUNT w args 1 <|
  VALIDATE w (validateU8 (argAt args 0) 255) fun armor =>
  BIND_OBJECT w this fun i object =>
  Ret.done (w.setObject i { object with Armure := armor })

def setHitPower (w : World) (this : Int) (args : List JsValue) : Ret :=
  EPP_ALLOW w [SceneLoad] <|
  VALIDATE_ARGS_COUNT w args 1 <|
  VALIDATE w (validateU8 (argAt args 0) 255) fun hitPower =>
  BIND_OBJECT w this fun i object =>
  Ret.done (w.setObject i { object with HitForce := hitPower })

def setRotationSpeed (w : World) (this : Int) (args : List JsValue) : Ret :=
  EPP_ALLOW w [SceneLoad] <|
  VALIDATE_ARGS_COUNT w args 1 <|
  VALIDATE w (validateInt16Value (argAt args 0)) fun rotationSpeed =>
  BIND_OBJECT w this fun i object =>
  Ret.done (w.setObject i { object with SRot := rotationSpeed })

def setTalkColor (w : World) (this : Int) (args : List JsValue) : Ret :=
  EPP_ALLOW w [SceneLoad] <|
  VALIDATE_ARGS_COUNT w args 1 <|
  VALIDATE w (validateU8 (argAt args 0) 15) fun talkColor =>
  BIND_OBJECT w this fun i object =>
  Ret.done (w.setObject i { object with CoulObj := talkColor })

def setEntity (E : Engine) (w : World) (this : Int) (args : List JsValue) : Ret :=
  EPP_ALLOW w [SceneLoad] <|
  VALIDATE_ARGS_COUNT w args 1 <|
  VALIDATE w (validateValue V8Type.Int32 (argAt args 0) none none) fun entity =>
  BIND_OBJECT w this fun i object =>
  let hasChanged : Bool := decide (object.IndexFile3D ≠ entity)
  let object1 := { object with IndexFile3D := entity }
  if hasChanged then Ret.done (w.setObject i (Lba.update3DModel E object1))
  else Ret.done (w.setObject i object1)

def setBody (w : World) (this : Int) (args : List JsValue) : Ret :=
  EPP_ALLOW w [SceneLoad] <|
  VALIDATE_ARGS_COUNT w args 1 <|
  VALIDATE w (validateU8 (argAt args 0) 255) fun body =>
  BIND_OBJECT w this fun i object =>
  Ret.done (w.setObject i { object with GenBody := body })

def setAnimation (w : World) (this : Int) (args : List JsValue) : Ret :=
  EPP_ALLOW w [SceneLoad] <|
  VALIDATE_ARGS_COUNT w args 1 <|
  VALIDATE w (validateU16 (argAt args 0)) fun animation =>
  BIND_OBJECT w this fun i object =>
  Ret.done (w.setObject i { object with GenAnim := animation })

def setSpriteId (w : World) (this : Int) (args : List JsValue) : Ret :=
  EPP_ALLOW w [SceneLoad] <|
  VALIDATE_ARGS_COUNT w args 1 <|
  VALIDATE w (validateInt16Value (argAt args 0)) fun spriteId =>
  BIND_OBJECT w this fun i object =>
  Ret.done (w.setObject i { object with Sprite := spriteId })

def disable (w : World) (this : Int) (_args : List JsValue) : Ret :=
  EPP_ALLOW w [SceneLoad] <|
  BIND_OBJECT w this fun i object =>
  Ret.done (w.setObject i { object with
    WorkFlags := object.WorkFlags ||| OBJ_DEAD,
    Obj := { object.Obj with BodyNum := -1 },
    ZoneSce := -1,
    LifePoint := 0 })

/-- `Ida::setLifeHandler`: an existing entry is reset (emptied, not erased); a non-empty
handler is then stored. -/
def setLifeHandler (s : IdaState) (objectId : Int) (handler : Option Nat) : IdaState :=
  let reset : Int → Option (Option Nat) := fun k =>
    if k = objectId then (s.mSceneLifeHandlers k).map (fun _ => none)
    else s.mSceneLifeHandlers k
  match handler with
  | none => { s with mSceneLifeHandlers := reset }
  | some f =>
    { s with mSceneLifeHandlers := fun k => if k = objectId then some (some f) else reset k }

def handleLifeScript (w : World) (this : Int) (args : List JsValue) : Ret :=
  EPP_ALLOW w [SceneLoad] <|
  let bound (lifeScriptHandler : Option Nat) : Ret :=
    BIND_OBJECT w this fun i _object =>
    let w1 := w.setObjectFlag i (w.objectFlag i ||| IDA_OBJ_LIFE)
    let w2 :=
      if lifeScriptHandler.isNone then
        w1.setObjectFlag i (w1.objectFlag i &&& (255 - IDA_OBJ_LIFE_ENABLED))
      else w1.setObjectFlag i (w1.objectFlag i ||| IDA_OBJ_LIFE_ENABLED)
    Ret.done { w2 with ida := setLifeHandler w2.ida i lifeScriptHandler }
  if args.length > 0 then
    match argAt args 0 with
    | .function ref => bound (some ref)
    | _ => Ret.throw w ScriptError.type
  else bound none

def handleMoveScript (w : World) (this : Int) (_args : List JsValue) : Ret :=
  EPP_ALLOW w [SceneLoad] <|
  BIND_OBJECT w this fun i object =>
  let w1 := w.setObjectFlag i (w.objectFlag i ||| IDA_OBJ_MOVE)
  Ret.done (w1.setObject i { object with
    OffsetTrack := -1, MemoLabelTrack := -1, OffsetLabelTrack := -1, LabelTrack := -1 })

end GameObjectTemplate

namespace ZoneTemplate

def setZoneValue (w : World) (this : Int) (args : List JsValue) : Ret :=
  EPP_ALLOW w [SceneLoad] <|
  VALIDATE_ARGS_COUNT w args 1 <|
  VALIDATE w (validateInt16Value (argAt args 0)) fun zoneValue =>
  BIND_ZONE w this fun i zone =>
  Ret.done (w.setZone i { zone with Num := zoneValue })

def setPos1 (w : World) (this : Int) (args : List JsValue) : Ret :=
  EPP_ALLOW w [SceneLoad] <|
  VALIDATE_ARGS_COUNT w args 1 <|
  VALIDATE w (validateArray V8Type.Int32 (argAt args 0) 3) fun pos1 =>
  BIND_ZONE w this fun i zone =>
  Ret.done (w.setZone i { zone with
    X0 := pos1.getD 0 0, Y0 := pos1.getD 1 0, Z0 := pos1.getD 2 0 })

def setPos2 (w : World) (this : Int) (args : List JsValue) : Ret :=
  EPP_ALLOW w [SceneLoad] <|
  VALIDATE_ARGS_COUNT w args 1 <|
  VALIDATE w (validateArray V8Type.Int32 (argAt args 0) 3) fun pos2 =>
  BIND_ZONE w this fun i zone =>
  Ret.done (w.setZone i { zone with
    X1 := pos2.getD 0 0, Y1 := pos2.getD 1 0, Z1 := pos2.getD 2 0 })

def setRegisters (w : World) (this : Int) (args : List JsValue) : Ret :=
  EPP_ALLOW w [SceneLoad] <|
  VALIDATE_ARGS_COUNT w args 1 <|
  VALIDATE w (validateArray V8Type.Int32 (argAt args 0) 8) fun registers =>
  BIND_ZONE w this fun i zone =>
  Ret.done (w.setZone i { zone with
    Info0 := registers.getD 0 0, Info1 := registers.getD 1 0, Info2 := registers.getD 2 0,
    Info3 := registers.getD 3 0, Info4 := registers.getD 4 0, Info5 := registers.getD 5 0,
    Info6 := registers.getD 6 0, Info7 := registers.getD 7 0 })

def setType (w : World) (this : Int) (args : List JsValue) : Ret :=
  EPP_ALLOW w [SceneLoad] <|
  VALIDATE_ARGS_COUNT w args 1 <|
  VALIDATE w (validateInt16Value (argAt args 0)) fun type =>
  BIND_ZONE w this fun i zone =>
  Ret.done (w.setZone i { zone with Type_ := type })

end ZoneTemplate

namespace SceneTemplate

/-- `isReadOnlyGameVariable`. -/
def isReadOnlyGameVariable (variableIndex : Int) : Bool :=
  variableIndex == FLAG_MONEY || variableIndex == FLAG_ACF || variableIndex == FLAG_ACF2 ||
    variableIndex == FLAG_ACF3 || variableIndex == FLAG_ESC || variableIndex == FLAG_DONT_USE

def setVariable (E : Engine) (w : World) (args : List JsValue) : Ret :=
  EPP_ALLOW w [SceneLoad, Life, Move] <|
  VALIDATE_ARGS_COUNT w args 2 <|
  VALIDATE w (validateIntValue (argAt args 0) 0 (some (Lba.getMaxVarCubeIndex E)))
    fun variableIndex =>
  if variableIndex = Lba.getMaxVarCubeIndex E then Ret.throw w ScriptError.readOnly else
  VALIDATE w (validateU8 (argAt args 1) 255) fun value =>
  match Lba.getVarCube E variableIndex with
  | none => Ret.done w
  | some i => Ret.done (w.setVarCube i value.toNat)

def setGameVariable (E : Engine) (w : World) (args : List JsValue) : Ret :=
  EPP_ALLOW w [SceneLoad, Life, Move] <|
  VALIDATE_ARGS_COUNT w args 2 <|
  VALIDATE w (validateIntValue (argAt args 0) 0 (some (Lba.getMaxVarGameIndex E)))
    fun variableIndex =>
  if isReadOnlyGameVariable variableIndex then Ret.throw w ScriptError.readOnly else
  VALIDATE w (validateInt16Value (argAt args 1)) fun value =>
  match Lba.getVarGame E variableIndex with
  | none => Ret.done w
  | some i => Ret.done (w.setVarGame i value)

def setStartPos (w : World) (args : List JsValue) : Ret :=
  EPP_ALLOW w [SceneLoad] <|
  VALIDATE_ARGS_COUNT w args 1 <|
  VALIDATE w (validateArray V8Type.Int32 (argAt args 0) 3) fun pos =>
  Ret.done { w with lba := { w.lba with
    CubeStartX := pos.getD 0 0, CubeStartY := pos.getD 1 0, CubeStartZ := pos.getD 2 0 } }

/-- The loop of `addObjects` over `i = first, ..., first + count - 1`: `initObject(i)`, then
`objectFlags[i] |= IDA_OBJ_NEW`. -/
def initNewObjects (E : Engine) : Nat → Nat → World → World
  | _, 0, w => w
  | first, count + 1, w =>
    let w1 := { w with lba := Lba.initObject E w.lba first }
    let w2 := w1.setObjectFlag first (w1.objectFlag first ||| IDA_OBJ_NEW)
    initNewObjects E (first + 1) count w2

def addObjects (E : Engine) (w : World) (args : List JsValue) : Ret :=
  EPP_ALLOW w [SceneLoad] <|
  let numObjects := w.lba.getNumObjects
  let maximumMoreObjects := Lba.getMaxObjects E - numObjects
  if maximumMoreObjects < 1 then Ret.throw w ScriptError.range else
  let grow (desiredCount : Int) : Ret :=
    let w1 := { w with lba := Lba.setNumObjects E w.lba (numObjects + desiredCount) }
    Ret.value (initNewObjects E numObjects.toNat desiredCount.toNat w1) (JsValue.int numObjects)
  if args.length > 0 then
    VALIDATE w (validateValue V8Type.Uint32 (argAt args 0) (some 1) (some maximumMoreObjects))
      fun count => grow count
  else grow 1

def addZones (w : World) (args : List JsValue) : Ret :=
  EPP_ALLOW w [SceneLoad] <|
  let numZones := w.lba.NbZones
  let maximumMoreZones := Lba.getMaxZones - numZones
  if maximumMoreZones < 1 then Ret.throw w ScriptError.range else
  let grow (desiredCount : Int) : Ret :=
    let gameZones := w.lba.ListZone
    let newSize := numZones + desiredCount
    let bridge1 := w.bridge.resizeZones numZones.toNat newSize.toNat gameZones
    Ret.value { w with bridge := bridge1, lba := w.lba.setZones newSize ArrayPtr.ida }
      (JsValue.int numZones)
  if args.length > 0 then
    VALIDATE w (validateValue V8Type.Uint32 (argAt args 0) (some 1) (some maximumMoreZones))
      fun count => grow count
  else grow 1

def addWaypoints (w : World) (args : List JsValue) : Ret :=
  EPP_ALLOW w [SceneLoad] <|
  let numWaypoints := w.lba.NbBrickTrack
  let maximumMoreWaypoints := Lba.getMaxWaypoints - numWaypoints
  if maximumMoreWaypoints < 1 then Ret.throw w ScriptError.range else
  let grow (desiredCount : Int) : Ret :=
    let gameWaypoints := w.lba.ListBrickTrack
    let newSize := numWaypoints + desiredCount
    let bridge1 := w.bridge.resizeWaypoints numWaypoints.toNat newSize.toNat gameWaypoints
    Ret.value { w with bridge := bridge1, lba := w.lba.setWaypoints newSize ArrayPtr.ida }
      (JsValue.int numWaypoints)
  if args.length > 0 then
    VALIDATE w (validateValue V8Type.Uint32 (argAt args 0) (some 1) (some maximumMoreWaypoints))
      fun count => grow count
  else grow 1

/-- The store `*inventoryMoney = v` through `getVarGame(8)`. -/
def setInventoryMoney (w : World) (v : Int) : World := w.setVarGame 8 v

def setGold (w : World) (args : List JsValue) : Ret :=
  EPP_ALLOW w [SceneLoad, Life] <|
  VALIDATE_ARGS_COUNT w args 1 <|
  VALIDATE w (validateInt16Value (argAt args 0)) fun gold =>
  let w1 := w.setGold gold
  if w1.lba.Planet ≥ 2 then Ret.done (setInventoryMoney w1 gold) else Ret.done w1

def setZlitos (w : World) (args : List JsValue) : Ret :=
  EPP_ALLOW w [SceneLoad, Life] <|
  VALIDATE_ARGS_COUNT w args 1 <|
  VALIDATE w (validateInt16Value (argAt args 0)) fun zlitos =>
  let w1 := w.setZlitos zlitos
  if w1.lba.Planet < 2 then Ret.done (setInventoryMoney w1 zlitos) else Ret.done w1

def setCurrentMoney (w : World) (args : List JsValue) : Ret :=
  EPP_ALLOW w [SceneLoad, Life] <|
  VALIDATE_ARGS_COUNT w args 1 <|
  VALIDATE w (validateInt16Value (argAt args 0)) fun money =>
  if w.lba.Planet ≥ 2 then Ret.done (w.setZlitos money) else Ret.done (w.setGold money)

def setForeignMoney (w : World) (args : List JsValue) : Ret :=
  EPP_ALLOW w [SceneLoad, Life] <|
  VALIDATE_ARGS_COUNT w args 1 <|
  VALIDATE w (validateInt16Value (argAt args 0)) fun money =>
  if w.lba.Planet ≥ 2 then Ret.done ((setInventoryMoney w money).setGold money)
  else Ret.done ((setInventoryMoney w money).setZlitos money)

end SceneTemplate

/-- `convertResult` (script.cpp): the low bytes of the 32-bit `input` reinterpreted in the
return type of the life function. -/
def convertResult (input : Int) (returnType : Nat) : Int :=
  if returnType = 0 then
    if input % 256 ≥ 128 then input % 256 - 256 else input % 256
  else if returnType = 1 then
    if input % 65536 ≥ 32768 then input % 65536 - 65536 else input % 65536
  else if returnType = 4 then input % 256
  else input

namespace IdaTemplate

/-- `IdaTemplate::life`. -/
def life (E : Engine) (w : World) (args : List JsValue) : Ret :=
  EPP_ALLOW w [Life] <|
  VALIDATE_ARGS_COUNT w args 2 <|
  VALIDATE w (validateIntValue (argAt args 0) 0 (some (w.lba.getNumObjects - 1)))
    fun objectIndex =>
  VALIDATE w (validateU8 (argAt args 1) 255) fun opcode =>
  let loaded := inscope_loadLifeOperation w.bridge args opcode.toNat
  let w1 := { w with bridge := loaded.bridge }
  if !loaded.result then
    ⟨w1, match loaded.thrown with
      | some e => Outcome.thrown e
      | none => Outcome.returned JsValue.undefined⟩
  else
    Ret.done (IdaLbaBridge.executeLifeCode E w1 objectIndex.toNat w1.bridge.getLifeScript)

/-- `IdaTemplate::lifef`. -/
def lifef (E : Engine) (w : World) (args : List JsValue) : Ret :=
  EPP_ALLOW w [Life] <|
  VALIDATE_ARGS_COUNT w args 2 <|
  VALIDATE w (validateIntValue (argAt args 0) 0 (some (w.lba.getNumObjects - 1)))
    fun objectIndex =>
  VALIDATE w (validateU8 (argAt args 1) 255) fun opcode =>
  let loaded := inscope_loadLifeFunction w.bridge args opcode.toNat
  let w1 := { w with bridge := loaded.bridge }
  if !loaded.result then
    ⟨w1, match loaded.thrown with
      | some e => Outcome.thrown e
      | none => Outcome.returned JsValue.undefined⟩
  else
    let r := IdaLbaBridge.executeLifeFunction E w1 objectIndex.toNat w1.bridge.getLifeScript
    Ret.value r.1 (JsValue.int (convertResult r.2.1 r.2.2))

/-- `IdaTemplate::_move`. The elements of `savedCode` are `uint8_t`. -/
def _move (E : Engine) (w : World) (args : List JsValue) : Ret :=
  EPP_ALLOW w [Move] <|
  VALIDATE_ARGS_COUNT w args 3 <|
  VALIDATE w (validateIntValue (argAt args 0) 0 (some (w.lba.getNumObjects - 1)))
    fun objectIndex =>
  if w.lba.isMoveCommandActive objectIndex.toNat then Ret.done w else
  VALIDATE w (validateArray V8Type.Uint32 (argAt args 1) 0) fun savedCodeValues =>
  let savedCode : Bytes := savedCodeValues.map fun x => (x % 256).toNat
  VALIDATE w (validateU8 (argAt args 2) 255) fun opcode =>
  let restored : IdaBridge × Bool :=
    if savedCode.length > 0 then
      loadSavedMoveOperation w.bridge objectIndex.toNat savedCode opcode.toNat
    else (w.bridge, false)
  let w1 := { w with bridge := restored.1 }
  let isLoadedSavedOperation := restored.2
  if !isLoadedSavedOperation then
    let loaded := inscope_loadMoveOperation w1.bridge args objectIndex.toNat opcode.toNat
    let w2 := { w1 with bridge := loaded.bridge }
    if !loaded.result then
      ⟨w2, match loaded.thrown with
        | some e => Outcome.thrown e
        | none => Outcome.returned JsValue.undefined⟩
    else Ret.done (IdaLbaBridge.executeMoveCommand E w2 objectIndex.toNat)
  else Ret.done (IdaLbaBridge.executeMoveCommand E w1 objectIndex.toNat)

/-- `IdaTemplate::_cmove`: after the game's continuation step, the first byte of the buffer
decides whether a copy of its `moveScript.first` bytes is returned. -/
def _cmove (E : Engine) (w : World) (args : List JsValue) : Ret :=
  EPP_ALLOW w [Move] <|
  VALIDATE_ARGS_COUNT w args 1 <|
  VALIDATE w (validateIntValue (argAt args 0) 0 (some (w.lba.getNumObjects - 1)))
    fun objectIndex =>
  if !w.lba.isMoveCommandActive objectIndex.toNat then Ret.done w else
  let size := (w.bridge.getMoveScript objectIndex.toNat).length
  let w1 := IdaLbaBridge.continueMoveCommand E w objectIndex.toNat
  let data := w1.bridge.getMoveScript objectIndex.toNat
  match data.head? with
  | none => ⟨w1, Outcome.outOfBounds⟩
  | some first =>
    if isPersistentMoveOperation first then
      Ret.value w1 (JsValue.intArray ((data.take size).map Int.ofNat))
    else Ret.done w1

/-- `IdaTemplate::setStorm`. -/
def setStorm (w : World) (args : List JsValue) : Ret :=
  EPP_ALLOW w [BeforeSceneLoad] <|
  VALIDATE_ARGS_COUNT w args 1 <|
  VALIDATE w (validateIntValue (argAt args 0) 0 (some 2)) fun stormMode =>
  if (w.ida.mForcedStorm : Int) = stormMode then Ret.done w else
  Ret.done { w with ida := { w.ida with mForcedStorm := stormMode.toNat },
                    lba := { w.lba with FlagPal := true } }

/-- `IdaTemplate::forceIsland`. -/
def forceIsland (w : World) (args : List JsValue) : Ret :=
  EPP_ALLOW w [BeforeSceneLoad] <|
  VALIDATE_ARGS_COUNT w args 1 <|
  VALIDATE w (validateIntValue (argAt args 0) 0 (some 4)) fun forcedIsland =>
  Ret.done { w with ida := { w.ida with mForcedIslandModel := forcedIsland.toNat } }

/-- `IdaTemplate::setStartSceneId`. -/
def setStartSceneId (w : World) (args : List JsValue) : Ret :=
  EPP_ALLOW w [None] <|
  VALIDATE_ARGS_COUNT w args 1 <|
  VALIDATE w (validateIntValue (argAt args 0) 0 none) fun sceneId =>
  Ret.done { w with ida := { w.ida with mStartSceneId := sceneId } }

/-- `IdaTemplate::setIntroVideo`. -/
def setIntroVideo (w : World) (args : List JsValue) : Ret :=
  EPP_ALLOW w [None] <|
  VALIDATE_ARGS_COUNT w args 1 <|
  VALIDATE w (validateString (argAt args 0) false) fun videoName =>
  Ret.done { w with ida := { w.ida with mIntroVideo := videoName } }

/-- `IdaTemplate::halt`. -/
def halt (w : World) (_args : List JsValue) : Ret :=
  EPP_ALLOW w [None, InScene] <|
  Ret.done { w with ida := { w.ida with mIsScriptProvided := false } }

/-- `IdaTemplate::_setMoveHandler`. -/
def _setMoveHandler (w : World) (args : List JsValue) : Ret :=
  EPP_ALLOW w [None] <|
  VALIDATE_ARGS_COUNT w args 1 <|
  match argAt args 0 with
  | .function ref => Ret.done { w with ida := { w.ida with mSceneMoveHandler := some ref } }
  | _ => Ret.throw w ScriptError.type

end IdaTemplate

/-- A call of a template function: the function and, for an entity wrapper, the index held
in its internal field. -/
inductive Op where
  | scene (f : SceneOp)
  | gameObject (f : GameObjectOp) (this : Int)
  | zone (f : ZoneOp) (this : Int)
  | ida (f : IdaOp)
  deriving DecidableEq, Repr

/-- The gate the function of the call opens with. -/
def Op.gate : Op → Gate
  | .scene f => f.gate
  | .gameObject f _ => f.gate
  | .zone f _ => f.gate
  | .ida f => f.gate

/-- The embedded template function of a call: every function whose gate is `EPP_ALLOW`
(`none` for the functions gated by `EPP_DENY`, which are not embedded). -/
def Op.call (E : Engine) (w : World) (args : List JsValue) : Op → Option Ret
  | .scene .setStartPos => some (SceneTemplate.setStartPos w args)
  | .scene .addObjects => some (SceneTemplate.addObjects E w args)
  | .scene .addZones => some (SceneTemplate.addZones w args)
  | .scene .addWaypoints => some (SceneTemplate.addWaypoints w args)
  | .scene .setGameVariable => some (SceneTemplate.setGameVariable E w args)
  | .scene .setVariable => some (SceneTemplate.setVariable E w args)
  | .scene .setGold => some (SceneTemplate.setGold w args)
  | .scene .setZlitos => some (SceneTemplate.setZlitos w args)
  | .scene .setCurrentMoney => some (SceneTemplate.setCurrentMoney w args)
  | .scene .setForeignMoney => some (SceneTemplate.setForeignMoney w args)
  | .gameObject .setControlMode this => some (GameObjectTemplate.setControlMode w this args)
  | .gameObject .setStaticFlags this => some (GameObjectTemplate.setStaticFlags w this args)
  | .gameObject .setBonusFlags this => some (GameObjectTemplate.setBonusFlags w this args)
  | .gameObject .setBonusQuantity this => some (GameObjectTemplate.setBonusQuantity w this args)
  | .gameObject .setPos this => some (GameObjectTemplate.setPos w this args)
  | .gameObject .setAngle this => some (GameObjectTemplate.setAngle w this args)
  | .gameObject .setRegisters this => some (GameObjectTemplate.setRegisters w this args)
  | .gameObject .setLifePoints this => some (GameObjectTemplate.setLifePoints w this args)
  | .gameObject .setArmor this => some (GameObjectTemplate.setArmor w this args)
  | .gameObject .setHitPower this => some (GameObjectTemplate.setHitPower w this args)
  | .gameObject .setRotationSpeed this => some (GameObjectTemplate.setRotationSpeed w this args)
  | .gameObject .setTalkColor this => some (GameObjectTemplate.setTalkColor w this args)
  | .gameObject .setEntity this => some (GameObjectTemplate.setEntity E w this args)
  | .gameObject .setBody this => some (GameObjectTemplate.setBody w this args)
  | .gameObject .setAnimation this => some (GameObjectTemplate.setAnimation w this args)
  | .gameObject .setSpriteId this => some (GameObjectTemplate.setSpriteId w this args)
  | .gameObject .disable this => some (GameObjectTemplate.disable w this args)
  | .gameObject .handleLifeScript this => some (GameObjectTemplate.handleLifeScript w this args)
  | .gameObject .handleMoveScript this => some (GameObjectTemplate.handleMoveScript w this args)
  | .zone .setZoneValue this => some (ZoneTemplate.setZoneValue w this args)
  | .zone .setPos1 this => some (ZoneTemplate.setPos1 w this args)
  | .zone .setPos2 this => some (ZoneTemplate.setPos2 w this args)
  | .zone .setRegisters this => some (ZoneTemplate.setRegisters w this args)
  | .zone .setType this => some (ZoneTemplate.setType w this args)
  | .ida .life => some (IdaTemplate.life E w args)
  | .ida .lifef => some (IdaTemplate.lifef E w args)
  | .ida ._move => some (IdaTemplate._move E w args)
  | .ida ._cmove => some (IdaTemplate._cmove E w args)
  | .ida .setStorm => some (IdaTemplate.setStorm w args)
  | .ida .forceIsland => some (IdaTemplate.forceIsland w args)
  | .ida .setStartSceneId => some (IdaTemplate.setStartSceneId w args)
  | .ida .setIntroVideo => some (IdaTemplate.setIntroVideo w args)
  | .ida .halt => some (IdaTemplate.halt w args)
  | .ida ._setMoveHandler => some (IdaTemplate._setMoveHandler w args)
  | _ => none

/-- A host whose interpreters do nothing, for concrete evaluation. -/
def Engine.stub : Engine :=
  { MAX_OBJETS := 100
    MAX_VARS_CUBE := 256
    MAX_VARS_GAME := 256
    InitObject := fun _ l => l
    LoadFile3D := fun _ => 0
    DoLife := fun _ _ l => l
    DoFuncLife := fun _ _ l => (l, 0, 0)
    DoTrack := fun _ code l => (l, code) }

/-- A small scene for concrete evaluation: three objects, two zones of the game, one
waypoint, guard enabled, phase `InScene`; the move buffer of every entity holds a
`TM_WAIT_NB_SECOND` in progress and the life buffer an `LM_SUICIDE`. -/
def World.sample : World :=
  { epp := { mCurrentPhase := ExecutionPhase.InScene, mIsTestMode := false, mIsEnabled := true }
    bridge :=
      { mMinimumAllowedPcxId := 50
        mMoveScripts := fun _ => [18, 5, 0, 0, 0, 0, 0]
        mLifeScript := [38, 11]
        mZones := []
        mWaypoints := [] }
    ida :=
      { mIsScriptProvided := true
        mForcedStorm := 0
        mForcedIslandModel := 0
        mLightningDisabled := false
        mStartSceneId := 0
        mIntroVideo := [73, 78, 84, 82, 79]
        mObjectFlags := List.replicate 100 0
        mSceneLifeHandlers := fun _ => none
        mSceneMoveHandler := none
        mLoopType := 0
        mLastProfileTime := 0
        mProfileFrameCount := 0 }
    lba :=
      { NbObjets := 3
        ListObjet := List.replicate 100 default
        NbZones := 2
        ListZone := ArrayPtr.game [T_ZONE.zero, T_ZONE.zero]
        NbBrickTrack := 1
        ListBrickTrack := ArrayPtr.game [T_TRACK.zero]
        ListVarCube := List.replicate 256 0
        ListVarGame := List.replicate 256 0
        CubeStartX := 0
        CubeStartY := 0
        CubeStartZ := 0
        NbGoldPieces := 10
        NbZlitosPieces := 20
        Planet := 0
        Island := 0
        NumCube := 0
        NbLittleKeys := 0
        MagicLevel := 0
        MagicPoint := 0
        FlagPal := false }
    dispatched := []
    spy := IdaSpy.initial
    exited := none }

/-! ## More template functions: ungated setters and the currency getters -/

namespace Epp

/-- `Epp::getPhaseNamesExcept`: the names of the phases not in the list (the table is walked
in declaration order here; the source walks an unordered map). -/
def getPhaseNamesExcept (exceptPhases : List ExecutionPhase) : String :=
  getPhaseNames (ExecutionPhase.all.filter fun phase => !Epp.phaseLoop phase exceptPhases)

end Epp

/-- The macro `EPP_DENY(...)`: throws naming the remaining phases and returns when
`isEppDenied`; otherwise control continues with `k`. -/
def EPP_DENY (w : World) (phases : List ExecutionPhase) (k : Ret) : Ret :=
  if w.epp.isExecutionDenied phases then
    Ret.throw w (ScriptError.policy
      ("Execution of this function is only allowed in the following phases: " ++
        Epp.getPhaseNamesExcept phases))
  else k

namespace IdaTemplate

/-- `IdaTemplate::enableLightning`: no phase gate. -/
def enableLightning (w : World) (_args : List JsValue) : Ret :=
  Ret.done { w with ida := { w.ida with mLightningDisabled := false } }

/-- `IdaTemplate::disableLightning`: no phase gate. -/
def disableLightning (w : World) (_args : List JsValue) : Ret :=
  Ret.done { w with ida := { w.ida with mLightningDisabled := true } }

end IdaTemplate

namespace SceneTemplate

def getGold (w : World) (_args : List JsValue) : Ret :=
  EPP_DENY w [ExecutionPhase.None, ExecutionPhase.BeforeSceneLoad] <|
  Ret.value w (JsValue.int w.lba.NbGoldPieces)

def getZlitos (w : World) (_args : List JsValue) : Ret :=
  EPP_DENY w [ExecutionPhase.None, ExecutionPhase.BeforeSceneLoad] <|
  Ret.value w (JsValue.int w.lba.NbZlitosPieces)

def getCurrentMoney (w : World) (_args : List JsValue) : Ret :=
  EPP_DENY w [ExecutionPhase.None, ExecutionPhase.BeforeSceneLoad] <|
  if w.lba.Planet ≥ 2 then Ret.value w (JsValue.int w.lba.NbZlitosPieces)
  else Ret.value w (JsValue.int w.lba.NbGoldPieces)

def getForeignMoney (w : World) (_args : List JsValue) : Ret :=
  EPP_DENY w [ExecutionPhase.None, ExecutionPhase.BeforeSceneLoad] <|
  if w.lba.Planet ≥ 2 then Ret.value w (JsValue.int w.lba.NbGoldPieces)
  else Ret.value w (JsValue.int w.lba.NbZlitosPieces)

end SceneTemplate

/-! ## Ida.cpp: the lifecycle hooks of the facade -/

/-- What a hook calls in the script: a named event of the scene object, a named function of
a script object, a held function reference, or the task pump. -/
inductive ScriptTarget where
  | event (name : String)
  | function (name : String)
  | handler (ref : Nat)
  | tasks
  deriving DecidableEq, Repr

/-- One call into the script: its target, its arguments and the phase in force when it is
made. -/
structure Invocation where
  target : ScriptTarget
  args : List JsValue
  phase : ExecutionPhase
  deriving DecidableEq, Repr

/-- A file operation of a hook on the JSON sidecar. -/
inductive FileOp where
  | delete (path : Bytes)
  | write (path : Bytes) (content : Bytes)
  deriving DecidableEq, Repr

/-- The shapes of a script answer that the text hooks tell apart: `IsBoolean`, `IsUint32`,
`IsUint8Array`, `IsArray` (with its elements), and any other value. -/
inductive TextAnswer where
  | boolean (b : Bool)
  | uint32 (n : Nat)
  | uint8Array (bytes : Bytes)
  | array (items : List JsValue)
  | other
  deriving DecidableEq, Repr

/-- The scripting runtime and the file helpers (core/engine.h, core/files.h), outside the
sources: what the script does to the world when called, and what it answers (`none` for an
empty result). `readJson` is the text of the sidecar of a path, empty when there is none. -/
structure Runtime where
  runSyncEvent : String → List JsValue → World → World
  runFunction : String → List JsValue → World → World × Option JsValue
  runTextFunction : String → List JsValue → World → World × Option TextAnswer
  runHandler : Nat → List JsValue → World → World × Option JsValue
  processTasks : World → World
  readJson : Bytes → Bytes
  jsonPath : Bytes → Bytes

/-- The world a hook has reached, the calls it made into the script so far, the file
operations it performed, and the last script answer. -/
structure Hooked where
  world : World
  invoked : List Invocation
  files : List FileOp
  answer : Option JsValue

namespace Hooked

/-- The start of a hook. -/
def start (w : World) : Hooked := ⟨w, [], [], none⟩

/-- `epp->setPhase(phase)`. -/
def setPhase (h : Hooked) (phase : ExecutionPhase) : Hooked :=
  { h with world := { h.world with epp := h.world.epp.setPhase phase } }

/-- `core::runSyncEvent(name, ...)` with the given arguments. -/
def runSyncEvent (R : Runtime) (h : Hooked) (name : String) (args : List JsValue) : Hooked :=
  { h with world := R.runSyncEvent name args h.world,
           invoked := h.invoked ++ [⟨ScriptTarget.event name, args, h.world.epp.getPhase⟩] }

/-- `core::runFunction(name, ...)` on a script object. -/
def runFunction (R : Runtime) (h : Hooked) (name : String) (args : List JsValue) : Hooked :=
  { h with world := (R.runFunction name args h.world).1,
           invoked := h.invoked ++ [⟨ScriptTarget.function name, args, h.world.epp.getPhase⟩],
           answer := (R.runFunction name args h.world).2 }

/-- `core::runFunction(handler, ...)` on a held function. -/
def runHandler (R : Runtime) (h : Hooked) (ref : Nat) (args : List JsValue) : Hooked :=
  { h with world := (R.runHandler ref args h.world).1,
           invoked := h.invoked ++ [⟨ScriptTarget.handler ref, args, h.world.epp.getPhase⟩],
           answer := (R.runHandler ref args h.world).2 }

end Hooked

/-- The facade `class Ida` (the hooks the game calls). -/
structure IdaFacade where
  engine : Engine
  runtime : Runtime

namespace IdaFacade

/-- `calculateIdaSceneLoadMode`. -/
def calculateIdaSceneLoadMode (sceneLoadMode : Int) (isLoadGame isRestoringValidPos : Bool) :
    Int :=
  if isLoadGame || isRestoringValidPos then 4 else sceneLoadMode

/-- `loadIdaSavedState`: the text of the sidecar is handed to the script's `__load`. -/
def loadIdaSavedState (R : Runtime) (h : Hooked) (loadFilePath : Bytes) : Hooked :=
  h.runFunction R "__load" [JsValue.string (R.readJson loadFilePath)]

/-- `Ida::clearSceneLoadOverrides`. -/
def clearSceneLoadOverrides (s : IdaState) : IdaState :=
  { s with mSceneMoveHandler := none, mForcedStorm := 0, mForcedIslandModel := 0,
           mLightningDisabled := false, mStartSceneId := 0,
           mIntroVideo := [73, 78, 84, 82, 79] }

/-- `Ida::clearSceneHandlers`: the handler map is emptied and all `getMaxObjects()` flag
bytes are zeroed. -/
def clearSceneHandlers (E : Engine) (s : IdaState) : IdaState :=
  { s with mSceneLifeHandlers := fun _ => none,
           mObjectFlags := List.replicate E.MAX_OBJETS 0 }

/-- `Ida::halt`. -/
def halt (w : World) : World := { w with ida := { w.ida with mIsScriptProvided := false } }

/-- `Ida::processTasks`. -/
def processTasks (F : IdaFacade) (w : World) (loopType : Nat) : Hooked :=
  let w1 := { w with ida := { w.ida with mLoopType := loopType } }
  if !w1.ida.mIsScriptProvided then Hooked.start w1
  else
    { Hooked.start w1 with
        world := F.runtime.processTasks w1,
        invoked := [⟨ScriptTarget.tasks, [], w1.epp.getPhase⟩] }

/-- `Ida::beforeLoadScene`. -/
def beforeLoadScene (F : IdaFacade) (w : World) (sceneId : Int) (loadFilePath : Bytes)
    (sceneLoadMode : Int) (isLoadGame isRestoringValidPos : Bool) : Hooked :=
  let w1 := { w with ida := { clearSceneHandlers F.engine w.ida with
    mLastProfileTime := 0, mProfileFrameCount := 0 } }
  if !w1.ida.mIsScriptProvided then Hooked.start w1
  else
    let idaSceneLoadMode := calculateIdaSceneLoadMode sceneLoadMode isLoadGame isRestoringValidPos
    let h1 := (Hooked.start w1).setPhase ExecutionPhase.BeforeSceneLoad
    let h2 := if idaSceneLoadMode = 4 then loadIdaSavedState F.runtime h1 loadFilePath else h1
    let h3 := h2.runSyncEvent F.runtime "beforeLoadScene"
      [JsValue.int sceneId, JsValue.int idaSceneLoadMode]
    h3.setPhase ExecutionPhase.None

/-- `Ida::afterLoadScene` (the media cache it clears first is not part of the world). -/
def afterLoadScene (F : IdaFacade) (w : World) (sceneId : Int) (sceneLoadMode : Int)
    (isLoadGame isRestoringValidPos : Bool) : Hooked :=
  if !w.ida.mIsScriptProvided then Hooked.start w
  else
    let idaSceneLoadMode := calculateIdaSceneLoadMode sceneLoadMode isLoadGame isRestoringValidPos
    let h1 := (Hooked.start w).setPhase ExecutionPhase.SceneLoad
    let h2 := h1.runSyncEvent F.runtime "afterLoadScene"
      [JsValue.int sceneId, JsValue.int idaSceneLoadMode]
    h2.setPhase ExecutionPhase.InScene

/-- `Ida::afterLoadGame`. -/
def afterLoadGame (F : IdaFacade) (w : World) (sceneId : Int) (loadFilePath : Bytes) : Hooked :=
  if !w.ida.mIsScriptProvided then Hooked.start w
  else
    let h1 := loadIdaSavedState F.runtime (Hooked.start w) loadFilePath
    let h2 := h1.setPhase ExecutionPhase.GameLoad
    let h3 := h2.runSyncEvent F.runtime "afterLoadSavedState"
      [JsValue.int sceneId, JsValue.string loadFilePath]
    h3.setPhase ExecutionPhase.InScene

/-- `Ida::afterSaveGame`: without a script the sidecar is deleted; otherwise the string the
script's `__save` answers (empty for any other answer) is written to it. -/
def afterSaveGame (F : IdaFacade) (w : World) (saveFilePath : Bytes) : Hooked :=
  let filePathWithExtension := F.runtime.jsonPath saveFilePath
  if !w.ida.mIsScriptProvided then
    { Hooked.start w with files := [FileOp.delete filePathWithExtension] }
  else
    let h1 := (Hooked.start w).runFunction F.runtime "__save" []
    let savedGame : Bytes :=
      match h1.answer with
      | some (JsValue.string s) => s
      | _ => []
    { h1 with files := [FileOp.write filePathWithExtension savedGame] }

/-- `Ida::saveValidPos`. -/
def saveValidPos (F : IdaFacade) (w : World) : Hooked :=
  if !w.ida.mIsScriptProvided then Hooked.start w
  else (Hooked.start w).runFunction F.runtime "__saveBackup" []

/-- `Ida::restoreValidPos`: the function opens with the call of `__loadBackup`. -/
def restoreValidPos (F : IdaFacade) (w : World) : Hooked :=
  let h1 := (Hooked.start w).runFunction F.runtime "__loadBackup" []
  let h2 := h1.setPhase ExecutionPhase.GameLoad
  let h3 := h2.runSyncEvent F.runtime "afterLoadSavedState"
    [JsValue.int (-1), JsValue.string []]
  h3.setPhase ExecutionPhase.InScene

/-- `Ida::doBeforeLife`: the hooked world and the `bool` returned. -/
def doBeforeLife (F : IdaFacade) (w : World) (objectId : Int) : Hooked × Bool :=
  if !w.ida.mIsScriptProvided then (Hooked.start w, true)
  else
    match w.ida.mSceneLifeHandlers objectId with
    | none => (Hooked.start w, true)
    | some none => (Hooked.start w, true)
    | some (some lifeHandler) =>
      let h1 := (Hooked.start w).setPhase ExecutionPhase.Life
      let h2 := h1.runHandler F.runtime lifeHandler [JsValue.int objectId]
      let resultHandle : Bool := decide (h2.answer = some (JsValue.boolean true))
      (h2.setPhase ExecutionPhase.InScene, resultHandle)

/-- `Ida::doTrack`. -/
def doTrack (F : IdaFacade) (w : World) (objectId : Int) : Hooked :=
  if !w.ida.mIsScriptProvided then Hooked.start w
  else
    match w.ida.mSceneMoveHandler with
    | none => Hooked.start w
    | some moveHandler =>
      let h1 := (Hooked.start w).setPhase ExecutionPhase.Move
      let h2 := h1.runHandler F.runtime moveHandler [JsValue.int objectId]
      h2.setPhase ExecutionPhase.InScene

end IdaFacade

/-- A script that does nothing and answers nothing, for concrete evaluation. -/
def Runtime.stub : Runtime :=
  { runSyncEvent := fun _ _ w => w
    runFunction := fun _ _ w => (w, none)
    runTextFunction := fun _ _ w => (w, none)
    runHandler := fun _ _ w => (w, none)
    processTasks := fun w => w
    readJson := fun _ => []
    jsonPath := fun p => p }

/-- The facade over the stub host and the stub script. -/
def IdaFacade.stub : IdaFacade := ⟨Engine.stub, Runtime.stub⟩

/-- The world with the guard's phase set, as the facade does before it calls the script. -/
def World.atPhase (w : World) (phase : ExecutionPhase) : World :=
  { w with epp := w.epp.setPhase phase }

/-- The sample scene during `SceneLoad` with 120 zones of the game, for concrete
evaluation of the growth functions. -/
def World.crowded : World :=
  { World.sample.atPhase ExecutionPhase.SceneLoad with
    lba := { World.sample.lba with
      NbZones := 120
      ListZone := ArrayPtr.game (List.replicate 120 T_ZONE.zero) } }

/-! ## Ida.cpp: the text override hooks -/

/-- `DialogColorHandle` (idaTypes.h); `MainColor` holds the value of the `DialogColors`
enumerator, `None` being -1. -/
structure DialogColorHandle where
  MainColor : Int
  StartColor256 : Int
  EndColor256 : Int
  deriving DecidableEq, Repr

/-- The default member initialisers of `DialogColorHandle`. -/
def DialogColorHandle.initial : DialogColorHandle := ⟨-1, -1, -1⟩

/-- `IsUint32()` of a script value. -/
def JsValue.isUint32 : JsValue → Option Nat
  | .int n => if 0 ≤ n ∧ n ≤ 4294967295 then some n.toNat else none
  | _ => none

/-- `inscope_readDialogColor` (idajs.cpp). -/
def inscope_readDialogColor (colorValue : JsValue) : Int :=
  match colorValue.isUint32 with
  | none => -1
  | some color => if color > 15 then -1 else color

/-- `inscope_read256Color` (idajs.cpp). -/
def inscope_read256Color (colorValue : JsValue) : Int :=
  match colorValue.isUint32 with
  | none => -1
  | some color => if color > 255 then -1 else color

/-- `core::runFunction(name, ...)` on the text object: the hooked world and the answer handed
to the result callback (`none` when it is empty). -/
def Hooked.runTextFunction (R : Runtime) (h : Hooked) (name : String) (args : List JsValue) :
    Hooked × Option TextAnswer :=
  ({ h with world := (R.runTextFunction name args h.world).1,
            invoked := h.invoked ++
              [⟨ScriptTarget.function name, args, h.world.epp.getPhase⟩] },
   (R.runTextFunction name args h.world).2)

namespace IdaFacade

/-- `Ida::controlsDialogText`. `firstTextId` is `idaBridge->getFirstTextId()`. The local
`bool resultValue;` has no initialiser: `indeterminate` is the value it holds when the
callback returns without assigning it. -/
def controlsDialogText (F : IdaFacade) (w : World) (firstTextId : Int) (textId : Int)
    (indeterminate : Bool) : Hooked × Bool :=
  if !w.ida.mIsScriptProvided then (Hooked.start w, false)
  else if textId ≥ firstTextId then (Hooked.start w, true)
  else
    let r := (Hooked.start w).runTextFunction F.runtime "__isReplaced" [JsValue.int textId]
    match r.2 with
    | some (TextAnswer.boolean b) => (r.1, b)
    | _ => (r.1, indeterminate)

/-- `Ida::getDialogFlag`. The local `uint8_t resultValue;` has no initialiser:
`indeterminate` is the byte it holds when the callback returns without assigning it. -/
def getDialogFlag (F : IdaFacade) (w : World) (firstTextId : Int) (textId : Int)
    (indeterminate : Nat) : Hooked × Nat :=
  if !w.ida.mIsScriptProvided then (Hooked.start w, 0)
  else if textId ≥ firstTextId then (Hooked.start w, 0)
  else
    let r := (Hooked.start w).runTextFunction F.runtime "__getFlags" [JsValue.int textId]
    match r.2 with
    | some (TextAnswer.uint32 n) => (r.1, n % 256)
    | _ => (r.1, indeterminate % 256)

/-- `Ida::getText`: `none` for `nullptr`, otherwise the text buffer (the bytes and a null)
and the `*textSize` written. -/
def getText (F : IdaFacade) (w : World) (textId : Int) : Hooked × Option (Bytes × Nat) :=
  if !w.ida.mIsScriptProvided then (Hooked.start w, none)
  else
    let r := (Hooked.start w).runTextFunction F.runtime "__get" [JsValue.int textId]
    let filled : Option Bytes × Nat :=
      match r.2 with
      | some (TextAnswer.uint8Array bytes) =>
        if bytes.length = 0 then (none, bytes.length)
        else (some (bytes ++ [0]), bytes.length)
      | _ => (none, 0)
    let length := filled.2
    if length = 0 then (r.1, none)
    else (r.1, filled.1.map fun buffer => (buffer, length))

/-- `Ida::getTextColor`. -/
def getTextColor (F : IdaFacade) (w : World) (textId : Int) : Hooked × DialogColorHandle :=
  let resultColorHandle := DialogColorHandle.initial
  if !w.ida.mIsScriptProvided then (Hooked.start w, resultColorHandle)
  else
    let r := (Hooked.start w).runTextFunction F.runtime "__getColor" [JsValue.int textId]
    match r.2 with
    | some (TextAnswer.array resultArray) =>
      if resultArray.length < 3 then (r.1, resultColorHandle)
      else
        let element0 := resultArray.getD 0 JsValue.undefined
        let element1 := resultArray.getD 1 JsValue.undefined
        let element2 := resultArray.getD 2 JsValue.undefined
        let color := inscope_readDialogColor element0
        let handle1 := { resultColorHandle with MainColor := color }
        if color ≠ -1 then (r.1, handle1)
        else
          (r.1, { handle1 with StartColor256 := inscope_read256Color element1,
                               EndColor256 := inscope_read256Color element2 })
    | _ => (r.1, resultColorHandle)

end IdaFacade

/-! ## MarkTemplate.cpp: the test-mode functions -/

/-- The macro `EPP_TEST`: throws and returns unless `isEppTestMode`. -/
def EPP_TEST (w : World) (k : Ret) : Ret :=
  if !w.epp.isTestMode then
    Ret.throw w (ScriptError.policy "Execution of this function is only allowed in test mode.")
  else k

namespace IdaBridge

def newGame (s : IdaSpy) : IdaSpy := { s with mNextMainMenuCommand := 71 }

def saveGame (s : IdaSpy) (saveName : Bytes) : IdaSpy :=
  { s with mSaveGameName := saveName, mNextMainMenuCommand := 73 }

def loadGame (s : IdaSpy) (saveName : Bytes) : IdaSpy :=
  { s with mSaveGameName := saveName, mNextMainMenuCommand := 72 }

def exitGame (s : IdaSpy) (exitCode : Int) : IdaSpy :=
  { s with mExitCode := exitCode, mNextMainMenuCommand := 75 }

end IdaBridge

/-- `LoopType::GameMenu`. -/
abbrev LoopType_GameMenu : Nat := 1

namespace MarkTemplate

/-- `MarkTemplate::exitProcess`: the game's `exitProcess` ends the process. -/
def exitProcess (w : World) (args : List JsValue) : Ret :=
  EPP_TEST w <|
  VALIDATE_ARGS_COUNT w args 1 <|
  VALIDATE w (validateValue V8Type.Int32 (argAt args 0) none none) fun exitCode =>
  Ret.done { w with exited := some exitCode }

def exit (w : World) (args : List JsValue) : Ret :=
  EPP_TEST w <|
  if w.ida.mLoopType ≠ LoopType_GameMenu then
    Ret.throw w (ScriptError.policy "Cannot exit the game when not in the main menu.")
  else if args.length > 0 then
    VALIDATE w (validateIntValue (argAt args 0) 0 (some 255)) fun exitCode =>
    Ret.done { w with spy := IdaBridge.exitGame w.spy exitCode }
  else Ret.done { w with spy := IdaBridge.exitGame w.spy 0 }

def newGame (w : World) (_args : List JsValue) : Ret :=
  EPP_TEST w <|
  if w.ida.mLoopType ≠ LoopType_GameMenu then
    Ret.throw w (ScriptError.policy "Cannot start a new game when not in the main menu.")
  else Ret.done { w with spy := IdaBridge.newGame w.spy }

def saveGame (w : World) (args : List JsValue) : Ret :=
  EPP_TEST w <|
  if w.ida.mLoopType ≠ LoopType_GameMenu then
    Ret.throw w (ScriptError.policy "Cannot start a new game when not in the main menu.")
  else
  VALIDATE_ARGS_COUNT w args 1 <|
  VALIDATE w (validateString (argAt args 0) true) fun saveName =>
  if saveName.length > 100 then
    Ret.throw w (ScriptError.policy
      "Save game name is too long. Maximum length is 100 characters.")
  else Ret.done { w with spy := IdaBridge.saveGame w.spy saveName }

def loadGame (w : World) (args : List JsValue) : Ret :=
  EPP_TEST w <|
  if w.ida.mLoopType ≠ LoopType_GameMenu then
    Ret.throw w (ScriptError.policy "Cannot load a game when not in the main menu.")
  else
  VALIDATE_ARGS_COUNT w args 1 <|
  VALIDATE w (validateString (argAt args 0) true) fun saveName =>
  if saveName.length > 100 then
    Ret.throw w (ScriptError.policy
      "Load game name is too long. Maximum length is 100 characters.")
  else Ret.done { w with spy := IdaBridge.loadGame w.spy saveName }

def skipVideoOnce (w : World) (_args : List JsValue) : Ret :=
  EPP_TEST w <|
  Ret.done { w with spy := { w.spy with mSkipVideoOnce := true } }

def setGameInputOnce (w : World) (args : List JsValue) : Ret :=
  EPP_TEST w <|
  VALIDATE_ARGS_COUNT w args 1 <|
  VALIDATE w (validateValue V8Type.Uint32 (argAt args 0) none none) fun input =>
  Ret.done { w with spy := { w.spy with mGameInput := input.toNat } }

def getGameLoop (w : World) (_args : List JsValue) : Ret :=
  EPP_TEST w <|
  Ret.value w (JsValue.int w.ida.mLoopType)

def isHotReloadEnabled (w : World) (_args : List JsValue) : Ret :=
  EPP_TEST w <|
  Ret.value w (JsValue.boolean w.spy.mIsHotReloadEnabled)

def disableHotReload (w : World) (_args : List JsValue) : Ret :=
  EPP_TEST w <|
  Ret.done { w with spy := { w.spy with mIsHotReloadEnabled := false } }

def enableHotReload (w : World) (_args : List JsValue) : Ret :=
  EPP_TEST w <|
  Ret.done { w with spy := { w.spy with mIsHotReloadEnabled := true } }

def doDialogSpy (w : World) (args : List JsValue) : Ret :=
  EPP_TEST w <|
  VALIDATE_ARGS_COUNT w args 1 <|
  VALIDATE w (validateIntValue (argAt args 0) 0 none) fun time =>
  Ret.done { w with spy := { w.spy with dialogSpyActive := true, dialogSpyPeriodMs := time } }

/-- `MarkTemplate::getDialogSpyInfo`: the answer is a script object built from the record. -/
def getDialogSpyInfo (w : World) (_args : List JsValue) : Ret :=
  EPP_TEST w <|
  Ret.value w JsValue.other

def doImageSpy (w : World) (args : List JsValue) : Ret :=
  EPP_TEST w <|
  VALIDATE_ARGS_COUNT w args 1 <|
  VALIDATE w (validateIntValue (argAt args 0) 0 none) fun time =>
  Ret.done { w with spy := { w.spy with imageSpyActive := true, imageSpyPeriodMs := time } }

/-- `MarkTemplate::getImageSpyInfo`: the answer is a script object built from the record. -/
def getImageSpyInfo (w : World) (_args : List JsValue) : Ret :=
  EPP_TEST w <|
  Ret.value w JsValue.other

end MarkTemplate

/-- The functions bound by `MarkTemplate::init`. -/
inductive MarkOp where
  | exitProcess | exit | newGame | saveGame | loadGame | skipVideoOnce | setGameInputOnce
  | getGameLoop | isHotReloadEnabled | disableHotReload | enableHotReload
  | doDialogSpy | getDialogSpyInfo | doImageSpy | getImageSpyInfo
  deriving DecidableEq, Repr

/-- A call of a Mark function. -/
def MarkOp.call (w : World) (args : List JsValue) : MarkOp → Ret
  | .exitProcess => MarkTemplate.exitProcess w args
  | .exit => MarkTemplate.exit w args
  | .newGame => MarkTemplate.newGame w args
  | .saveGame => MarkTemplate.saveGame w args
  | .loadGame => MarkTemplate.loadGame w args
  | .skipVideoOnce => MarkTemplate.skipVideoOnce w args
  | .setGameInputOnce => MarkTemplate.setGameInputOnce w args
  | .getGameLoop => MarkTemplate.getGameLoop w args
  | .isHotReloadEnabled => MarkTemplate.isHotReloadEnabled w args
  | .disableHotReload => MarkTemplate.disableHotReload w args
  | .enableHotReload => MarkTemplate.enableHotReload w args
  | .doDialogSpy => MarkTemplate.doDialogSpy w args
  | .getDialogSpyInfo => MarkTemplate.getDialogSpyInfo w args
  | .doImageSpy => MarkTemplate.doImageSpy w args
  | .getImageSpyInfo => MarkTemplate.getImageSpyInfo w args

/-! ## Sample states for concrete evaluation -/

/-- The sample scene in phase `Move` before any move instruction was assembled: every move
buffer of the bridge is empty; the objects are the game's, with a track in progress
(`OffsetTrack` 0). -/
def World.untracked : World :=
  { World.sample.atPhase ExecutionPhase.Move with
    bridge := { World.sample.bridge with mMoveScripts := fun _ => [] } }

/-- The sample scene in phase `Move` with no move command active on object 1. -/
def World.idle : World :=
  { World.sample.atPhase ExecutionPhase.Move with
    lba := World.sample.lba.stopMoveCommand 1 }

/-- A script that calls `ida.setStorm(1)` in each of its event handlers. -/
def Runtime.stormy : Runtime :=
  { Runtime.stub with
    runSyncEvent := fun _ _ w => (IdaTemplate.setStorm w [JsValue.int 1]).world }

/-! ## Script callbacks as calls into the bridge -/

/-- Modelled from the spec: `VALIDATE_BOOL(arg, name)` of core/argumentsHandler.h, which is not
in the sources: the argument of `enable(bool)` must be of the boolean runtime kind. -/
def validateBool (arg : JsValue) : Option Bool :=
  match arg with
  | .boolean b => some b
  | _ => none

/-- `IdaTemplate::_setEppEnabled`: no phase gate. -/
def IdaTemplate._setEppEnabled (w : World) (args : List JsValue) : Ret :=
  VALIDATE_ARGS_COUNT w args 1 <|
  VALIDATE w (validateBool (argAt args 0)) fun enabled =>
  Ret.done { w with epp := w.epp.setEnabled enabled }

/-- A call a script makes into the bridge from one of its callbacks: a phase-gated template
function, one of the two lightning switches, the guard switch, or a Mark function. -/
inductive ScriptCall where
  | template (op : Op) (args : List JsValue)
  | enableLightning (args : List JsValue)
  | disableLightning (args : List JsValue)
  | setEppEnabled (args : List JsValue)
  | mark (op : MarkOp) (args : List JsValue)

namespace ScriptCall

/-- The world after the call, whether it returned or threw. The functions gated by
`EPP_DENY` are not embedded: `denied` stands for what follows their gate. -/
def run (E : Engine) (denied : Op → World → List JsValue → Ret) (w : World) :
    ScriptCall → World
  | .template op args =>
    match op.call E w args with
    | some r => r.world
    | none =>
      match op.gate with
      | .deny phases => (EPP_DENY w phases (denied op w args)).world
      | .allow _ => w
  | .enableLightning args => (IdaTemplate.enableLightning w args).world
  | .disableLightning args => (IdaTemplate.disableLightning w args).world
  | .setEppEnabled args => (IdaTemplate._setEppEnabled w args).world
  | .mark op args => (op.call w args).world

/-- Whether the call is not `_setEppEnabled(false)`. -/
def keepsGuard : ScriptCall → Bool
  | .setEppEnabled args => decide (argAt args 0 ≠ JsValue.boolean false)
  | _ => true

/-- Whether the call is `setStorm`. -/
def setsStorm : ScriptCall → Bool
  | .template (.ida .setStorm) _ => true
  | _ => false

/-- Whether the call is `forceIsland`. -/
def setsIsland : ScriptCall → Bool
  | .template (.ida .forceIsland) _ => true
  | _ => false

/-- Whether the call is `enableLightning` or `disableLightning`. -/
def setsLightning : ScriptCall → Bool
  | .enableLightning _ => true
  | .disableLightning _ => true
  | _ => false

end ScriptCall

/-- A callback of the script as the calls it makes, in order. -/
def runScript (E : Engine) (denied : Op → World → List JsValue → Ret)
    (calls : List ScriptCall) (w : World) : World :=
  calls.foldl (fun w1 c => c.run E denied w1) w

/-- The guard and the state no call passes its gate to write in `BeforeSceneLoad`: object
flags, life handler map, start scene id and intro video. -/
def World.sceneState (w : World) :
    Bool × ExecutionPhase × List Nat × (Int → Option (Option Nat)) × Int × Bytes :=
  (w.epp.mIsEnabled, w.epp.mCurrentPhase, w.ida.mObjectFlags, w.ida.mSceneLifeHandlers,
    w.ida.mStartSceneId, w.ida.mIntroVideo)

/-- A script whose event handlers each make the given calls, on the stub host; its
functions gated by `EPP_DENY` do nothing past their gate. -/
def Runtime.scripted (calls : List ScriptCall) : Runtime :=
  { Runtime.stub with
    runSyncEvent := fun _ _ w => runScript Engine.stub (fun _ w0 _ => Ret.done w0) calls w }

/-! # Theorems -/

/-! ## The guard's decision rule and the static policy table -/

theorem Epp.phaseLoop_iff (cur : ExecutionPhase) (phases : List ExecutionPhase) :
    Epp.phaseLoop cur phases = true ↔ cur ∈ phases := by
  induction phases with
  | nil => simp [Epp.phaseLoop]
  | cons phase rest ih =>
    by_cases h : cur = phase
    · simp [Epp.phaseLoop, h]
    · simp [Epp.phaseLoop, h, ih]

/-- C2. For every current phase `p`, test-mode flag `t`, enabled flag `e` and list `S` of
phases, `isExecutionAllowed S` is true exactly when `e` is false or `p` occurs in `S`, and
`isExecutionDenied S` is true exactly when `e` is true and `p` occurs in `S`; with the guard
disabled every allow-check passes and no deny-check fires. -/
theorem C2_guard_decision_rule (p : ExecutionPhase) (t e : Bool) (S : List ExecutionPhase) :
    ((Epp.mk p t e).isExecutionAllowed S = true ↔ (e = false ∨ p ∈ S)) ∧
    ((Epp.mk p t e).isExecutionDenied S = true ↔ (e = true ∧ p ∈ S)) ∧
    (Epp.mk p t false).isExecutionAllowed S = true ∧
    (Epp.mk p t false).isExecutionDenied S = false := by
  refine ⟨?_, ?_, ?_, ?_⟩
  · cases e <;> simp [Epp.isExecutionAllowed, Epp.phaseLoop_iff]
  · cases e <;> simp [Epp.isExecutionDenied, Epp.phaseLoop_iff]
  · simp [Epp.isExecutionAllowed]
  · simp [Epp.isExecutionDenied]

open ExecutionPhase in
/-- C3. With the guard enabled and current phase `p`: every Scene, GameObject and Zone getter
and `updateWaypoint` pass their gate exactly when `p` is one of SceneLoad, GameLoad, InScene,
Life, Move (the phases other than None and BeforeSceneLoad); every GameObject and Zone setter,
`setStartPos`, `addObjects`, `addZones` and `addWaypoints` pass exactly in SceneLoad;
`setVariable` and `setGameVariable` pass exactly in SceneLoad, Life and Move; `setGold`,
`setZlitos`, `setCurrentMoney` and `setForeignMoney` pass exactly in SceneLoad and Life. -/
theorem C3_static_policy_table (p : ExecutionPhase) (t : Bool) :
    (∀ op : SceneOp, op.isGetter = true ∨ op = SceneOp.updateWaypoint →
      (op.gate.passes ⟨p, t, true⟩ = true ↔ p ∈ [SceneLoad, GameLoad, InScene, Life, Move])) ∧
    (∀ op : GameObjectOp, op.isGetter = true →
      (op.gate.passes ⟨p, t, true⟩ = true ↔ p ∈ [SceneLoad, GameLoad, InScene, Life, Move])) ∧
    (∀ op : ZoneOp, op.isGetter = true →
      (op.gate.passes ⟨p, t, true⟩ = true ↔ p ∈ [SceneLoad, GameLoad, InScene, Life, Move])) ∧
    (∀ op : GameObjectOp, op.isSetter = true →
      (op.gate.passes ⟨p, t, true⟩ = true ↔ p = SceneLoad)) ∧
    (∀ op : ZoneOp, op.isSetter = true →
      (op.gate.passes ⟨p, t, true⟩ = true ↔ p = SceneLoad)) ∧
    (∀ op ∈ [SceneOp.setStartPos, SceneOp.addObjects, SceneOp.addZones, SceneOp.addWaypoints],
      (op.gate.passes ⟨p, t, true⟩ = true ↔ p = SceneLoad)) ∧
    (∀ op ∈ [SceneOp.setVariable, SceneOp.setGameVariable],
      (op.gate.passes ⟨p, t, true⟩ = true ↔ p ∈ [SceneLoad, Life, Move])) ∧
    (∀ op ∈ [SceneOp.setGold, SceneOp.setZlitos, SceneOp.setCurrentMoney,
        SceneOp.setForeignMoney],
      (op.gate.passes ⟨p, t, true⟩ = true ↔ p ∈ [SceneLoad, Life])) ∧
    (p ∈ [SceneLoad, GameLoad, InScene, Life, Move] ↔ (p ≠ None ∧ p ≠ BeforeSceneLoad)) := by
  refine ⟨?_, ?_, ?_, ?_, ?_, ?_, ?_, ?_, ?_⟩
  · intro op h
    cases op <;> simp [SceneOp.isGetter] at h <;> cases p <;>
      simp [SceneOp.gate, Gate.passes, Epp.isExecutionDenied, Epp.phaseLoop]
  · intro op h
    cases op <;> simp [GameObjectOp.isGetter] at h <;> cases p <;>
      simp [GameObjectOp.gate, Gate.passes, Epp.isExecutionDenied, Epp.phaseLoop]
  · intro op h
    cases op <;> simp [ZoneOp.isGetter] at h <;> cases p <;>
      simp [ZoneOp.gate, Gate.passes, Epp.isExecutionDenied, Epp.phaseLoop]
  · intro op h
    cases op <;> simp [GameObjectOp.isSetter] at h <;> cases p <;>
      simp [GameObjectOp.gate, Gate.passes, Epp.isExecutionAllowed, Epp.phaseLoop]
  · intro op h
    cases op <;> simp [ZoneOp.isSetter] at h <;> cases p <;>
      simp [ZoneOp.gate, Gate.passes, Epp.isExecutionAllowed, Epp.phaseLoop]
  · intro op h
    simp only [List.mem_cons, List.mem_singleton, List.not_mem_nil, or_false] at h
    rcases h with h | h | h | h <;> subst h <;> cases p <;>
      simp [SceneOp.gate, Gate.passes, Epp.isExecutionAllowed, Epp.phaseLoop]
  · intro op h
    simp only [List.mem_cons, List.mem_singleton, List.not_mem_nil, or_false] at h
    rcases h with h | h <;> subst h <;> cases p <;>
      simp [SceneOp.gate, Gate.passes, Epp.isExecutionAllowed, Epp.phaseLoop]
  · intro op h
    simp only [List.mem_cons, List.mem_singleton, List.not_mem_nil, or_false] at h
    rcases h with h | h | h | h <;> subst h <;> cases p <;>
      simp [SceneOp.gate, Gate.passes, Epp.isExecutionAllowed, Epp.phaseLoop]
  · cases p <;> simp

/-- C3 at a concrete input: in phase Life the getter `Scene.getId` passes, the setter
`GameObject.setPos` does not, and `setGold` passes. -/
theorem C3_static_policy_table_witness :
    (SceneOp.getId.gate.passes ⟨ExecutionPhase.Life, false, true⟩ = true ↔
      ExecutionPhase.Life ∈ [ExecutionPhase.SceneLoad, ExecutionPhase.GameLoad,
        ExecutionPhase.InScene, ExecutionPhase.Life, ExecutionPhase.Move]) ∧
    (GameObjectOp.setPos.gate.passes ⟨ExecutionPhase.Life, false, true⟩ = true ↔
      ExecutionPhase.Life = ExecutionPhase.SceneLoad) ∧
    (SceneOp.setGold.gate.passes ⟨ExecutionPhase.Life, false, true⟩ = true ↔
      ExecutionPhase.Life ∈ [ExecutionPhase.SceneLoad, ExecutionPhase.Life]) :=
  ⟨(C3_static_policy_table ExecutionPhase.Life false).1 SceneOp.getId (Or.inl rfl),
   (C3_static_policy_table ExecutionPhase.Life false).2.2.2.1 GameObjectOp.setPos rfl,
   (C3_static_policy_table ExecutionPhase.Life false).2.2.2.2.2.2.2.1 SceneOp.setGold
     (by decide)⟩

/-! ## The byte buffers -/

@[simp] theorem IdaBridge.setMoveScript_get (b : IdaBridge) (id : Nat) (x : Bytes) :
    (b.setMoveScript id x).mMoveScripts id = x := by
  simp [IdaBridge.setMoveScript]

theorem IdaBridge.setMoveScript_get_ne (b : IdaBridge) (id k : Nat) (x : Bytes) (h : k ≠ id) :
    (b.setMoveScript id x).mMoveScripts k = b.mMoveScripts k := by
  simp [IdaBridge.setMoveScript, h]

@[simp] theorem IdaBridge.setMoveScript_set (b : IdaBridge) (id : Nat) (x y : Bytes) :
    (b.setMoveScript id x).setMoveScript id y = b.setMoveScript id y := by
  unfold IdaBridge.setMoveScript
  congr 1
  funext k
  by_cases h : k = id <;> simp [h]

@[simp] theorem IdaBridge.setMoveScript_life (b : IdaBridge) (id : Nat) (x : Bytes) :
    (b.setMoveScript id x).mLifeScript = b.mLifeScript := rfl

@[simp] theorem IdaBridge.setMoveScript_pcx (b : IdaBridge) (id : Nat) (x : Bytes) :
    (b.setMoveScript id x).mMinimumAllowedPcxId = b.mMinimumAllowedPcxId := rfl

theorem leBytes_length (w : Nat) (v : Int) : (leBytes w v).length = w := by
  induction w generalizing v with
  | zero => rfl
  | succ n ih => simp [leBytes, ih]

theorem leBytes_lt (w : Nat) (v : Int) : ∀ x ∈ leBytes w v, x < 256 := by
  induction w generalizing v with
  | zero => simp [leBytes]
  | succ n ih =>
    intro x hx
    simp only [leBytes, List.mem_cons] at hx
    rcases hx with hx | hx
    · subst hx; omega
    · exact ih _ x hx

/-- The two bytes of a signed 16-bit value: those of its two's complement `u`. -/
theorem leBytes_two (v : Int) (h : -32768 ≤ v ∧ v ≤ 32767) :
    leBytes 2 v = [((if v < 0 then v + 65536 else v) % 256).toNat,
      ((if v < 0 then v + 65536 else v) / 256).toNat] := by
  simp only [leBytes]
  split_ifs with hv
  · have h1 : v % 256 = (v + 65536) % 256 := by omega
    have h2 : v / 256 % 256 = (v + 65536) / 256 := by omega
    rw [h1, h2]
  · have h2 : v / 256 % 256 = v / 256 := by omega
    rw [h2]

/-- C7. For every entity id, opcode byte `op`, signed 16-bit value `v` and any prior bridge
state, `prepareMoveScript(id, op, 2)`, `pushMoveArgument(id, v)`, `finalizeMoveScript(id)`
leaves the entity's buffer exactly `[op, low byte, high byte, TM_END]` of the two's complement
of `v`, little-endian, both bytes below 256; for `v = 7` the buffer is `[op, 7, 0, 0]`. -/
theorem C7_continuation_store_encoding (b : IdaBridge) (id op : Nat) (v : Int)
    (hv : -32768 ≤ v ∧ v ≤ 32767) :
    (((b.prepareMoveScript id op 2).pushMoveArgument id 2 v).finalizeMoveScript id).getMoveScript
        id =
      [op, ((if v < 0 then v + 65536 else v) % 256).toNat,
        ((if v < 0 then v + 65536 else v) / 256).toNat, TM_END] ∧
    ((if v < 0 then v + 65536 else v) % 256).toNat < 256 ∧
    ((if v < 0 then v + 65536 else v) / 256).toNat < 256 ∧
    (v = 7 →
      (((b.prepareMoveScript id op 2).pushMoveArgument id 2 v).finalizeMoveScript
        id).getMoveScript id = [op, 7, 0, 0]) := by
  have hbuf : (((b.prepareMoveScript id op 2).pushMoveArgument id 2 v).finalizeMoveScript
      id).getMoveScript id = [op] ++ leBytes 2 v ++ [TM_END] := by
    simp [IdaBridge.prepareMoveScript, IdaBridge.pushMoveArgument, IdaBridge.finalizeMoveScript,
      IdaBridge.getMoveScript]
  refine ⟨?_, ?_, ?_, ?_⟩
  · rw [hbuf, leBytes_two v hv]; rfl
  · split_ifs <;> omega
  · split_ifs <;> omega
  · intro h7
    subst h7
    rw [hbuf]
    rfl

/-- C7 at the spec's scenario: entity 3, opcode `LM_SET_TRACK`'s byte 23, value 7, over a
bridge whose buffer for entity 3 held other bytes. -/
theorem C7_continuation_store_encoding_witness :
    ((-32768 : Int) ≤ 7 ∧ (7 : Int) ≤ 32767) ∧
    ((((IdaBridge.mk 0 (fun _ => [9, 9, 9]) [] [] []).prepareMoveScript 3 23 2).pushMoveArgument 3 2
        7).finalizeMoveScript 3).getMoveScript 3 = [23, 7, 0, 0] :=
  ⟨by decide,
   (C7_continuation_store_encoding (IdaBridge.mk 0 (fun _ => [9, 9, 9]) [] [] []) 3 23 7
     (by decide)).2.2.2 rfl⟩

/-- C9. For every entity id, non-empty byte sequence `code` and opcode `op`:
`loadSavedMoveOperation(id, code, op)` succeeds if and only if `code[0] = op`; on success
`getMoveScript(id)` is exactly `code`, whatever the buffer held before, and no other buffer
changes; on failure the bridge is left unchanged; so reloading the bytes read from an
entity's buffer with their own first byte as opcode reproduces that buffer. -/
theorem C9_continuation_load_contract (b : IdaBridge) (id op c : Nat) (cs : Bytes) :
    ((loadSavedMoveOperation b id (c :: cs) op).2 = true ↔ c = op) ∧
    ((loadSavedMoveOperation b id (c :: cs) op).2 = true →
      (loadSavedMoveOperation b id (c :: cs) op).1.getMoveScript id = c :: cs ∧
      ((loadSavedMoveOperation b id (c :: cs) op).1.getMoveScript id).length = (c :: cs).length ∧
      (∀ k, k ≠ id → (loadSavedMoveOperation b id (c :: cs) op).1.getMoveScript k =
        b.getMoveScript k) ∧
      (loadSavedMoveOperation b id (c :: cs) op).1.mLifeScript = b.mLifeScript) ∧
    ((loadSavedMoveOperation b id (c :: cs) op).2 = false →
      (loadSavedMoveOperation b id (c :: cs) op).1 = b) ∧
    (∀ b0 : IdaBridge, b0.getMoveScript id = c :: cs →
      (loadSavedMoveOperation b id (b0.getMoveScript id) c).2 = true ∧
      (loadSavedMoveOperation b id (b0.getMoveScript id) c).1.getMoveScript id =
        b0.getMoveScript id) := by
  have key : ∀ o : Nat, c = o →
      loadSavedMoveOperation b id (c :: cs) o = (b.setMoveScript id (c :: cs), true) := by
    intro o ho
    subst ho
    simp [loadSavedMoveOperation, IdaBridge.loadMoveScript]
  have key2 : ∀ o : Nat, c ≠ o → loadSavedMoveOperation b id (c :: cs) o = (b, false) := by
    intro o ho
    have : ¬ o = c := fun h => ho h.symm
    simp [loadSavedMoveOperation, this]
  refine ⟨?_, ?_, ?_, ?_⟩
  · by_cases h : c = op
    · rw [key op h]; simp [h]
    · rw [key2 op h]; simp [h]
  · intro hs
    by_cases h : c = op
    · rw [key op h]
      refine ⟨by simp [IdaBridge.getMoveScript], by simp [IdaBridge.getMoveScript], ?_, rfl⟩
      intro k hk
      simp [IdaBridge.getMoveScript, IdaBridge.setMoveScript, hk]
    · rw [key2 op h] at hs
      simp at hs
  · intro hs
    by_cases h : c = op
    · rw [key op h] at hs
      simp at hs
    · rw [key2 op h]
  · intro b0 hb0
    rw [hb0, key c rfl]
    simp [IdaBridge.getMoveScript]

/-- C9 at a concrete input: the saved bytes `[18, 5, 0, 0, 0, 0, 0]` of a `TM_WAIT_NB_SECOND`
are restored over a different buffer with opcode 18, and refused with opcode 7. -/
theorem C9_continuation_load_contract_witness :
    (loadSavedMoveOperation (IdaBridge.mk 0 (fun _ => [5, 0]) [] [] []) 4 [18, 5, 0, 0, 0, 0, 0] 18).2
        = true ∧
    (loadSavedMoveOperation (IdaBridge.mk 0 (fun _ => [5, 0]) [] [] []) 4 [18, 5, 0, 0, 0, 0, 0]
        18).1.getMoveScript 4 = [18, 5, 0, 0, 0, 0, 0] ∧
    (loadSavedMoveOperation (IdaBridge.mk 0 (fun _ => [5, 0]) [] [] []) 4 [18, 5, 0, 0, 0, 0, 0] 7).2
        = false ∧
    (loadSavedMoveOperation (IdaBridge.mk 0 (fun _ => [5, 0]) [] [] []) 4 [18, 5, 0, 0, 0, 0, 0]
        7).1.getMoveScript 4 = [5, 0] :=
  ⟨(C9_continuation_load_contract (IdaBridge.mk 0 (fun _ => [5, 0]) [] [] []) 4 18 18
      [5, 0, 0, 0, 0, 0]).1.mpr rfl,
   ((C9_continuation_load_contract (IdaBridge.mk 0 (fun _ => [5, 0]) [] [] []) 4 18 18
      [5, 0, 0, 0, 0, 0]).2.1 rfl).1,
   rfl,
   by rw [(C9_continuation_load_contract (IdaBridge.mk 0 (fun _ => [5, 0]) [] [] []) 4 7 18
      [5, 0, 0, 0, 0, 0]).2.2.1 rfl]; rfl⟩

/-! ## The assemblers against the opcode table -/

theorem validateArgsCount_succ (args : List JsValue) (n : Nat) :
    validateArgsCount args (n + 1) = decide (n < args.length) := by
  simp [validateArgsCount, Nat.succ_le]

theorem validateU8_eq (a : JsValue) (max : Nat) (hmax : max ≤ 4294967295) :
    validateU8 a max = if (Slot.u8 max).ok a then some a.toInt else none := by
  cases a <;> simp [validateU8, validateValue, Slot.ok, V8Type.holds, JsValue.toInt]
  split_ifs <;> first | rfl | omega

theorem validateU8_255 (a : JsValue) :
    validateU8 a 255 = if (Slot.u8 255).ok a then some a.toInt else none := by
  simpa using validateU8_eq a 255 (by norm_num)

theorem validateU8_1 (a : JsValue) :
    validateU8 a 1 = if (Slot.u8 1).ok a then some a.toInt else none := by
  simpa using validateU8_eq a 1 (by norm_num)

theorem validateU16_eq (a : JsValue) :
    validateU16 a = if Slot.u16.ok a then some a.toInt else none := by
  cases a <;> simp [validateU16, validateValue, Slot.ok, V8Type.holds, JsValue.toInt]
  split_ifs <;> first | rfl | omega

theorem validateInt16Value_eq (a : JsValue) :
    validateInt16Value a = if Slot.i16.ok a then some a.toInt else none := by
  cases a <;> simp [validateInt16Value, Slot.ok, JsValue.toInt]

theorem validateString_eq (a : JsValue) :
    validateString a true = if Slot.str.ok a then some a.toBytes else none := by
  cases a <;> simp [validateString, Slot.ok, JsValue.toBytes]

theorem Slot.encode_u8 (a : JsValue) (max : Nat) (h : (Slot.u8 max).ok a = true) :
    (Slot.u8 max).encode a = leBytes 1 a.toInt := by
  cases a <;> simp_all [Slot.ok, Slot.encode, JsValue.toInt]

theorem Slot.encode_u16 (a : JsValue) (h : Slot.u16.ok a = true) :
    Slot.u16.encode a = leBytes 2 a.toInt := by
  cases a <;> simp_all [Slot.ok, Slot.encode, JsValue.toInt]

theorem Slot.encode_i16 (a : JsValue) (h : Slot.i16.ok a = true) :
    Slot.i16.encode a = leBytes 2 a.toInt := by
  cases a <;> simp_all [Slot.ok, Slot.encode, JsValue.toInt]

theorem Slot.encode_str (a : JsValue) (h : Slot.str.ok a = true) :
    Slot.str.encode a = a.toBytes ++ [0] := by
  cases a <;> simp_all [Slot.ok, Slot.encode, JsValue.toBytes]

theorem validateArgsCount_three (args : List JsValue) :
    validateArgsCount args 3 = decide (2 < args.length) := validateArgsCount_succ args 2

theorem validateU8_pcx (b : IdaBridge) (a : JsValue) :
    validateU8 a b.getFirstPcxId =
      if (Slot.u8 b.getFirstPcxId).ok a then some a.toInt else none := by
  apply validateU8_eq
  unfold IdaBridge.getFirstPcxId
  omega

theorem modeNeedsActor_eq (a : JsValue) : modeNeedsActor a = needsActor a.toInt := by
  cases a <;> rfl

theorem moveCase_accept (b : IdaBridge) (args : List JsValue) (id op : Nat) (shape : Shape)
    (hs : moveShape op = some shape) (ha : acceptsAt shape.slots args 3 = true) :
    moveCase b args id op =
      (b.setMoveScript id ([op] ++ encodeAt shape.slots args 3 ++ shape.trailer), none) := by
  unfold moveShape at hs
  unfold moveCase
  by_cases h0 : op ∈ moveOpsNone
  · simp only [h0, ↓reduceIte, Option.some.injEq] at hs ⊢
    subst hs
    simp only [acceptsAt, Bool.and_eq_true, decide_eq_true_eq, Bool.and_true] at ha
    simp [validateArgsCount_succ, validateArgsCount_three, validateU8_255, validateU8_1, validateU8_pcx,
      validateU16_eq, validateInt16Value_eq, validateString_eq, encodeAt, Slot.encode_u8,
      Slot.encode_u16, Slot.encode_i16, Slot.encode_str, IdaBridge.prepareMoveScript,
      IdaBridge.pushMoveArgument, IdaBridge.pushMoveArgumentStr, IdaBridge.prepareLifeScript,
      IdaBridge.pushArgument, IdaBridge.pushArgumentStr, baseArgsCount, leBytes, ha]
  simp only [h0, ↓reduceIte] at hs ⊢
  by_cases h1 : op ∈ moveOpsU8
  · simp only [h1, ↓reduceIte, Option.some.injEq] at hs ⊢
    subst hs
    simp only [acceptsAt, Bool.and_eq_true, decide_eq_true_eq, Bool.and_true] at ha
    simp [validateArgsCount_succ, validateArgsCount_three, validateU8_255, validateU8_1, validateU8_pcx,
      validateU16_eq, validateInt16Value_eq, validateString_eq, encodeAt, Slot.encode_u8,
      Slot.encode_u16, Slot.encode_i16, Slot.encode_str, IdaBridge.prepareMoveScript,
      IdaBridge.pushMoveArgument, IdaBridge.pushMoveArgumentStr, IdaBridge.prepareLifeScript,
      IdaBridge.pushArgument, IdaBridge.pushArgumentStr, baseArgsCount, leBytes, ha]
  simp only [h1, ↓reduceIte] at hs ⊢
  by_cases h2 : op = TM_ANIM
  · simp only [h2, ↓reduceIte, Option.some.injEq] at hs ⊢
    subst hs
    simp only [acceptsAt, Bool.and_eq_true, decide_eq_true_eq, Bool.and_true] at ha
    simp [validateArgsCount_succ, validateArgsCount_three, validateU8_255, validateU8_1, validateU8_pcx,
      validateU16_eq, validateInt16Value_eq, validateString_eq, encodeAt, Slot.encode_u8,
      Slot.encode_u16, Slot.encode_i16, Slot.encode_str, IdaBridge.prepareMoveScript,
      IdaBridge.pushMoveArgument, IdaBridge.pushMoveArgumentStr, IdaBridge.prepareLifeScript,
      IdaBridge.pushArgument, IdaBridge.pushArgumentStr, baseArgsCount, leBytes, ha]
  simp only [h2, ↓reduceIte] at hs ⊢
  by_cases h3 : op ∈ moveOpsI16
  · simp only [h3, ↓reduceIte, Option.some.injEq] at hs ⊢
    subst hs
    simp only [acceptsAt, Bool.and_eq_true, decide_eq_true_eq, Bool.and_true] at ha
    simp [validateArgsCount_succ, validateArgsCount_three, validateU8_255, validateU8_1, validateU8_pcx,
      validateU16_eq, validateInt16Value_eq, validateString_eq, encodeAt, Slot.encode_u8,
      Slot.encode_u16, Slot.encode_i16, Slot.encode_str, IdaBridge.prepareMoveScript,
      IdaBridge.pushMoveArgument, IdaBridge.pushMoveArgumentStr, IdaBridge.prepareLifeScript,
      IdaBridge.pushArgument, IdaBridge.pushArgumentStr, baseArgsCount, leBytes, ha]
  simp only [h3, ↓reduceIte] at hs ⊢
  by_cases h4 : op = TM_WAIT_NB_ANIM
  · simp only [h4, ↓reduceIte, Option.some.injEq] at hs ⊢
    subst hs
    simp only [acceptsAt, Bool.and_eq_true, decide_eq_true_eq, Bool.and_true] at ha
    simp [validateArgsCount_succ, validateArgsCount_three, validateU8_255, validateU8_1, validateU8_pcx,
      validateU16_eq, validateInt16Value_eq, validateString_eq, encodeAt, Slot.encode_u8,
      Slot.encode_u16, Slot.encode_i16, Slot.encode_str, IdaBridge.prepareMoveScript,
      IdaBridge.pushMoveArgument, IdaBridge.pushMoveArgumentStr, IdaBridge.prepareLifeScript,
      IdaBridge.pushArgument, IdaBridge.pushArgumentStr, baseArgsCount, leBytes, ha]
  simp only [h4, ↓reduceIte] at hs ⊢
  by_cases h5 : op = TM_ANGLE_RND
  · simp only [h5, ↓reduceIte, Option.some.injEq] at hs ⊢
    subst hs
    simp only [acceptsAt, Bool.and_eq_true, decide_eq_true_eq, Bool.and_true] at ha
    simp [validateArgsCount_succ, validateArgsCount_three, validateU8_255, validateU8_1, validateU8_pcx,
      validateU16_eq, validateInt16Value_eq, validateString_eq, encodeAt, Slot.encode_u8,
      Slot.encode_u16, Slot.encode_i16, Slot.encode_str, IdaBridge.prepareMoveScript,
      IdaBridge.pushMoveArgument, IdaBridge.pushMoveArgumentStr, IdaBridge.prepareLifeScript,
      IdaBridge.pushArgument, IdaBridge.pushArgumentStr, baseArgsCount, leBytes, ha]
  simp only [h5, ↓reduceIte] at hs ⊢
  by_cases h6 : op ∈ moveOpsWait
  · simp only [h6, ↓reduceIte, Option.some.injEq] at hs ⊢
    subst hs
    simp only [acceptsAt, Bool.and_eq_true, decide_eq_true_eq, Bool.and_true] at ha
    simp [validateArgsCount_succ, validateArgsCount_three, validateU8_255, validateU8_1, validateU8_pcx,
      validateU16_eq, validateInt16Value_eq, validateString_eq, encodeAt, Slot.encode_u8,
      Slot.encode_u16, Slot.encode_i16, Slot.encode_str, IdaBridge.prepareMoveScript,
      IdaBridge.pushMoveArgument, IdaBridge.pushMoveArgumentStr, IdaBridge.prepareLifeScript,
      IdaBridge.pushArgument, IdaBridge.pushArgumentStr, baseArgsCount, leBytes, ha]
  simp only [h6, ↓reduceIte] at hs ⊢
  by_cases h7 : op = TM_PLAY_ACF
  · simp only [h7, ↓reduceIte, Option.some.injEq] at hs ⊢
    subst hs
    simp only [acceptsAt, Bool.and_eq_true, decide_eq_true_eq, Bool.and_true] at ha
    simp [validateArgsCount_succ, validateArgsCount_three, validateU8_255, validateU8_1, validateU8_pcx,
      validateU16_eq, validateInt16Value_eq, validateString_eq, encodeAt, Slot.encode_u8,
      Slot.encode_u16, Slot.encode_i16, Slot.encode_str, IdaBridge.prepareMoveScript,
      IdaBridge.pushMoveArgument, IdaBridge.pushMoveArgumentStr, IdaBridge.prepareLifeScript,
      IdaBridge.pushArgument, IdaBridge.pushArgumentStr, baseArgsCount, leBytes, ha]
  simp only [h7, ↓reduceIte] at hs ⊢
  exact absurd hs (by simp)

theorem moveCase_reject (b : IdaBridge) (args : List JsValue) (id op : Nat) (shape : Shape)
    (hs : moveShape op = some shape) (ha : acceptsAt shape.slots args 3 = false) :
    (moveCase b args id op).1 = b ∧ (moveCase b args id op).2.isSome = true := by
  unfold moveShape at hs
  unfold moveCase
  by_cases h0 : op ∈ moveOpsNone
  · simp only [h0, ↓reduceIte, Option.some.injEq] at hs ⊢
    subst hs
    exact absurd ha (by simp [acceptsAt])
  simp only [h0, ↓reduceIte] at hs ⊢
  by_cases h1 : op ∈ moveOpsU8
  · simp only [h1, ↓reduceIte, Option.some.injEq] at hs ⊢
    subst hs
    simp only [acceptsAt, Bool.and_eq_false_iff, Bool.and_true, decide_eq_false_iff_not] at ha
    simp only [validateArgsCount_succ, validateArgsCount_three, validateU8_255, validateU8_1, validateU8_pcx,
      validateU16_eq, validateInt16Value_eq, validateString_eq, encodeAt, Slot.encode_u8,
      Slot.encode_u16, Slot.encode_i16, Slot.encode_str, IdaBridge.prepareMoveScript,
      IdaBridge.pushMoveArgument, IdaBridge.pushMoveArgumentStr, IdaBridge.prepareLifeScript,
      IdaBridge.pushArgument, IdaBridge.pushArgumentStr, baseArgsCount, leBytes]
    split_ifs <;> simp_all <;> omega
  simp only [h1, ↓reduceIte] at hs ⊢
  by_cases h2 : op = TM_ANIM
  · simp only [h2, ↓reduceIte, Option.some.injEq] at hs ⊢
    subst hs
    simp only [acceptsAt, Bool.and_eq_false_iff, Bool.and_true, decide_eq_false_iff_not] at ha
    simp only [validateArgsCount_succ, validateArgsCount_three, validateU8_255, validateU8_1, validateU8_pcx,
      validateU16_eq, validateInt16Value_eq, validateString_eq, encodeAt, Slot.encode_u8,
      Slot.encode_u16, Slot.encode_i16, Slot.encode_str, IdaBridge.prepareMoveScript,
      IdaBridge.pushMoveArgument, IdaBridge.pushMoveArgumentStr, IdaBridge.prepareLifeScript,
      IdaBridge.pushArgument, IdaBridge.pushArgumentStr, baseArgsCount, leBytes]
    split_ifs <;> simp_all <;> omega
  simp only [h2, ↓reduceIte] at hs ⊢
  by_cases h3 : op ∈ moveOpsI16
  · simp only [h3, ↓reduceIte, Option.some.injEq] at hs ⊢
    subst hs
    simp only [acceptsAt, Bool.and_eq_false_iff, Bool.and_true, decide_eq_false_iff_not] at ha
    simp only [validateArgsCount_succ, validateArgsCount_three, validateU8_255, validateU8_1, validateU8_pcx,
      validateU16_eq, validateInt16Value_eq, validateString_eq, encodeAt, Slot.encode_u8,
      Slot.encode_u16, Slot.encode_i16, Slot.encode_str, IdaBridge.prepareMoveScript,
      IdaBridge.pushMoveArgument, IdaBridge.pushMoveArgumentStr, IdaBridge.prepareLifeScript,
      IdaBridge.pushArgument, IdaBridge.pushArgumentStr, baseArgsCount, leBytes]
    split_ifs <;> simp_all <;> omega
  simp only [h3, ↓reduceIte] at hs ⊢
  by_cases h4 : op = TM_WAIT_NB_ANIM
  · simp only [h4, ↓reduceIte, Option.some.injEq] at hs ⊢
    subst hs
    simp only [acceptsAt, Bool.and_eq_false_iff, Bool.and_true, decide_eq_false_iff_not] at ha
    simp only [validateArgsCount_succ, validateArgsCount_three, validateU8_255, validateU8_1, validateU8_pcx,
      validateU16_eq, validateInt16Value_eq, validateString_eq, encodeAt, Slot.encode_u8,
      Slot.encode_u16, Slot.encode_i16, Slot.encode_str, IdaBridge.prepareMoveScript,
      IdaBridge.pushMoveArgument, IdaBridge.pushMoveArgumentStr, IdaBridge.prepareLifeScript,
      IdaBridge.pushArgument, IdaBridge.pushArgumentStr, baseArgsCount, leBytes]
    split_ifs <;> simp_all <;> omega
  simp only [h4, ↓reduceIte] at hs ⊢
  by_cases h5 : op = TM_ANGLE_RND
  · simp only [h5, ↓reduceIte, Option.some.injEq] at hs ⊢
    subst hs
    simp only [acceptsAt, Bool.and_eq_false_iff, Bool.and_true, decide_eq_false_iff_not] at ha
    simp only [validateArgsCount_succ, validateArgsCount_three, validateU8_255, validateU8_1, validateU8_pcx,
      validateU16_eq, validateInt16Value_eq, validateString_eq, encodeAt, Slot.encode_u8,
      Slot.encode_u16, Slot.encode_i16, Slot.encode_str, IdaBridge.prepareMoveScript,
      IdaBridge.pushMoveArgument, IdaBridge.pushMoveArgumentStr, IdaBridge.prepareLifeScript,
      IdaBridge.pushArgument, IdaBridge.pushArgumentStr, baseArgsCount, leBytes]
    split_ifs <;> simp_all <;> omega
  simp only [h5, ↓reduceIte] at hs ⊢
  by_cases h6 : op ∈ moveOpsWait
  · simp only [h6, ↓reduceIte, Option.some.injEq] at hs ⊢
    subst hs
    simp only [acceptsAt, Bool.and_eq_false_iff, Bool.and_true, decide_eq_false_iff_not] at ha
    simp only [validateArgsCount_succ, validateArgsCount_three, validateU8_255, validateU8_1, validateU8_pcx,
      validateU16_eq, validateInt16Value_eq, validateString_eq, encodeAt, Slot.encode_u8,
      Slot.encode_u16, Slot.encode_i16, Slot.encode_str, IdaBridge.prepareMoveScript,
      IdaBridge.pushMoveArgument, IdaBridge.pushMoveArgumentStr, IdaBridge.prepareLifeScript,
      IdaBridge.pushArgument, IdaBridge.pushArgumentStr, baseArgsCount, leBytes]
    split_ifs <;> simp_all <;> omega
  simp only [h6, ↓reduceIte] at hs ⊢
  by_cases h7 : op = TM_PLAY_ACF
  · simp only [h7, ↓reduceIte, Option.some.injEq] at hs ⊢
    subst hs
    simp only [acceptsAt, Bool.and_eq_false_iff, Bool.and_true, decide_eq_false_iff_not] at ha
    simp only [validateArgsCount_succ, validateArgsCount_three, validateU8_255, validateU8_1, validateU8_pcx,
      validateU16_eq, validateInt16Value_eq, validateString_eq, encodeAt, Slot.encode_u8,
      Slot.encode_u16, Slot.encode_i16, Slot.encode_str, IdaBridge.prepareMoveScript,
      IdaBridge.pushMoveArgument, IdaBridge.pushMoveArgumentStr, IdaBridge.prepareLifeScript,
      IdaBridge.pushArgument, IdaBridge.pushArgumentStr, baseArgsCount, leBytes]
    split_ifs <;> simp_all <;> omega
  simp only [h7, ↓reduceIte] at hs ⊢
  exact absurd hs (by simp)

theorem moveCase_unsupported (b : IdaBridge) (args : List JsValue) (id op : Nat)
    (hs : moveShape op = none) :
    moveCase b args id op = (b, some (ScriptError.unsupportedOpcode op)) := by
  unfold moveShape at hs
  unfold moveCase
  split_ifs at hs ⊢
  rfl

theorem lifeCase_accept (b : IdaBridge) (args : List JsValue) (op : Nat) (shape : Shape)
    (hs : lifeShape b.getFirstPcxId args op = some shape)
    (ha : acceptsAt shape.slots args 2 = true) :
    lifeCase b args op =
      ({ b with mLifeScript := [op] ++ encodeAt shape.slots args 2 ++ shape.trailer }, none) := by
  unfold lifeShape at hs
  unfold lifeCase
  by_cases h0 : op ∈ lifeOpsU8
  · simp only [h0, ↓reduceIte, Option.some.injEq] at hs ⊢
    subst hs
    simp only [acceptsAt, Bool.and_eq_true, decide_eq_true_eq, Bool.and_true] at ha
    simp [validateArgsCount_succ, validateArgsCount_three, validateU8_255, validateU8_1, validateU8_pcx,
      validateU16_eq, validateInt16Value_eq, validateString_eq, encodeAt, Slot.encode_u8,
      Slot.encode_u16, Slot.encode_i16, Slot.encode_str, IdaBridge.prepareMoveScript,
      IdaBridge.pushMoveArgument, IdaBridge.pushMoveArgumentStr, IdaBridge.prepareLifeScript,
      IdaBridge.pushArgument, IdaBridge.pushArgumentStr, baseArgsCount, leBytes, ha]
  simp only [h0, ↓reduceIte] at hs ⊢
  by_cases h1 : op = LM_SET_CONTROL
  · simp only [h1, ↓reduceIte, Option.some.injEq] at hs ⊢
    subst hs
    simp only [modeNeedsActor_eq] at ha ⊢
    by_cases hm : needsActor (argAt args 2).toInt = true <;>
    simp only [hm, ↓reduceIte, acceptsAt, Bool.and_eq_true, decide_eq_true_eq,
      Bool.and_true] at ha <;>
    simp [validateArgsCount_succ, validateArgsCount_three, validateU8_255, validateU8_1, validateU8_pcx,
      validateU16_eq, validateInt16Value_eq, validateString_eq, encodeAt, Slot.encode_u8,
      Slot.encode_u16, Slot.encode_i16, Slot.encode_str, IdaBridge.prepareMoveScript,
      IdaBridge.pushMoveArgument, IdaBridge.pushMoveArgumentStr, IdaBridge.prepareLifeScript,
      IdaBridge.pushArgument, IdaBridge.pushArgumentStr, baseArgsCount, leBytes, ha, hm]
  simp only [h1, ↓reduceIte] at hs ⊢
  by_cases h2 : op = LM_SET_CONTROL_OBJ
  · simp only [h2, ↓reduceIte, Option.some.injEq] at hs ⊢
    subst hs
    simp only [modeNeedsActor_eq] at ha ⊢
    by_cases hm : needsActor (argAt args 3).toInt = true <;>
    simp only [hm, ↓reduceIte, acceptsAt, Bool.and_eq_true, decide_eq_true_eq,
      Bool.and_true] at ha <;>
    simp [validateArgsCount_succ, validateArgsCount_three, validateU8_255, validateU8_1, validateU8_pcx,
      validateU16_eq, validateInt16Value_eq, validateString_eq, encodeAt, Slot.encode_u8,
      Slot.encode_u16, Slot.encode_i16, Slot.encode_str, IdaBridge.prepareMoveScript,
      IdaBridge.pushMoveArgument, IdaBridge.pushMoveArgumentStr, IdaBridge.prepareLifeScript,
      IdaBridge.pushArgument, IdaBridge.pushArgumentStr, baseArgsCount, leBytes, ha, hm]
  simp only [h2, ↓reduceIte] at hs ⊢
  by_cases h3 : op ∈ lifeOpsU8U8
  · simp only [h3, ↓reduceIte, Option.some.injEq] at hs ⊢
    subst hs
    simp only [acceptsAt, Bool.and_eq_true, decide_eq_true_eq, Bool.and_true] at ha
    simp [validateArgsCount_succ, validateArgsCount_three, validateU8_255, validateU8_1, validateU8_pcx,
      validateU16_eq, validateInt16Value_eq, validateString_eq, encodeAt, Slot.encode_u8,
      Slot.encode_u16, Slot.encode_i16, Slot.encode_str, IdaBridge.prepareMoveScript,
      IdaBridge.pushMoveArgument, IdaBridge.pushMoveArgumentStr, IdaBridge.prepareLifeScript,
      IdaBridge.pushArgument, IdaBridge.pushArgumentStr, baseArgsCount, leBytes, ha]
  simp only [h3, ↓reduceIte] at hs ⊢
  by_cases h4 : op = LM_PCX
  · simp only [h4, ↓reduceIte, Option.some.injEq] at hs ⊢
    subst hs
    simp only [acceptsAt, Bool.and_eq_true, decide_eq_true_eq, Bool.and_true] at ha
    simp [validateArgsCount_succ, validateArgsCount_three, validateU8_255, validateU8_1, validateU8_pcx,
      validateU16_eq, validateInt16Value_eq, validateString_eq, encodeAt, Slot.encode_u8,
      Slot.encode_u16, Slot.encode_i16, Slot.encode_str, IdaBridge.prepareMoveScript,
      IdaBridge.pushMoveArgument, IdaBridge.pushMoveArgumentStr, IdaBridge.prepareLifeScript,
      IdaBridge.pushArgument, IdaBridge.pushArgumentStr, baseArgsCount, leBytes, ha]
  simp only [h4, ↓reduceIte] at hs ⊢
  by_cases h5 : op ∈ lifeOpsU16
  · simp only [h5, ↓reduceIte, Option.some.injEq] at hs ⊢
    subst hs
    simp only [acceptsAt, Bool.and_eq_true, decide_eq_true_eq, Bool.and_true] at ha
    simp [validateArgsCount_succ, validateArgsCount_three, validateU8_255, validateU8_1, validateU8_pcx,
      validateU16_eq, validateInt16Value_eq, validateString_eq, encodeAt, Slot.encode_u8,
      Slot.encode_u16, Slot.encode_i16, Slot.encode_str, IdaBridge.prepareMoveScript,
      IdaBridge.pushMoveArgument, IdaBridge.pushMoveArgumentStr, IdaBridge.prepareLifeScript,
      IdaBridge.pushArgument, IdaBridge.pushArgumentStr, baseArgsCount, leBytes, ha]
  simp only [h5, ↓reduceIte] at hs ⊢
  by_cases h6 : op = LM_ANIM_OBJ
  · simp only [h6, ↓reduceIte, Option.some.injEq] at hs ⊢
    subst hs
    simp only [acceptsAt, Bool.and_eq_true, decide_eq_true_eq, Bool.and_true] at ha
    simp [validateArgsCount_succ, validateArgsCount_three, validateU8_255, validateU8_1, validateU8_pcx,
      validateU16_eq, validateInt16Value_eq, validateString_eq, encodeAt, Slot.encode_u8,
      Slot.encode_u16, Slot.encode_i16, Slot.encode_str, IdaBridge.prepareMoveScript,
      IdaBridge.pushMoveArgument, IdaBridge.pushMoveArgumentStr, IdaBridge.prepareLifeScript,
      IdaBridge.pushArgument, IdaBridge.pushArgumentStr, baseArgsCount, leBytes, ha]
  simp only [h6, ↓reduceIte] at hs ⊢
  by_cases h7 : op ∈ lifeOpsI16
  · simp only [h7, ↓reduceIte, Option.some.injEq] at hs ⊢
    subst hs
    simp only [acceptsAt, Bool.and_eq_true, decide_eq_true_eq, Bool.and_true] at ha
    simp [validateArgsCount_succ, validateArgsCount_three, validateU8_255, validateU8_1, validateU8_pcx,
      validateU16_eq, validateInt16Value_eq, validateString_eq, encodeAt, Slot.encode_u8,
      Slot.encode_u16, Slot.encode_i16, Slot.encode_str, IdaBridge.prepareMoveScript,
      IdaBridge.pushMoveArgument, IdaBridge.pushMoveArgumentStr, IdaBridge.prepareLifeScript,
      IdaBridge.pushArgument, IdaBridge.pushArgumentStr, baseArgsCount, leBytes, ha]
  simp only [h7, ↓reduceIte] at hs ⊢
  by_cases h8 : op ∈ lifeOpsU8I16
  · simp only [h8, ↓reduceIte, Option.some.injEq] at hs ⊢
    subst hs
    simp only [acceptsAt, Bool.and_eq_true, decide_eq_true_eq, Bool.and_true] at ha
    simp [validateArgsCount_succ, validateArgsCount_three, validateU8_255, validateU8_1, validateU8_pcx,
      validateU16_eq, validateInt16Value_eq, validateString_eq, encodeAt, Slot.encode_u8,
      Slot.encode_u16, Slot.encode_i16, Slot.encode_str, IdaBridge.prepareMoveScript,
      IdaBridge.pushMoveArgument, IdaBridge.pushMoveArgumentStr, IdaBridge.prepareLifeScript,
      IdaBridge.pushArgument, IdaBridge.pushArgumentStr, baseArgsCount, leBytes, ha]
  simp only [h8, ↓reduceIte] at hs ⊢
  by_cases h9 : op ∈ lifeOpsNone
  · simp only [h9, ↓reduceIte, Option.some.injEq] at hs ⊢
    subst hs
    simp only [acceptsAt, Bool.and_eq_true, decide_eq_true_eq, Bool.and_true] at ha
    simp [validateArgsCount_succ, validateArgsCount_three, validateU8_255, validateU8_1, validateU8_pcx,
      validateU16_eq, validateInt16Value_eq, validateString_eq, encodeAt, Slot.encode_u8,
      Slot.encode_u16, Slot.encode_i16, Slot.encode_str, IdaBridge.prepareMoveScript,
      IdaBridge.pushMoveArgument, IdaBridge.pushMoveArgumentStr, IdaBridge.prepareLifeScript,
      IdaBridge.pushArgument, IdaBridge.pushArgumentStr, baseArgsCount, leBytes, ha]
  simp only [h9, ↓reduceIte] at hs ⊢
  by_cases h10 : op = LM_PLAY_ACF
  · simp only [h10, ↓reduceIte, Option.some.injEq] at hs ⊢
    subst hs
    simp only [acceptsAt, Bool.and_eq_true, decide_eq_true_eq, Bool.and_true] at ha
    simp [validateArgsCount_succ, validateArgsCount_three, validateU8_255, validateU8_1, validateU8_pcx,
      validateU16_eq, validateInt16Value_eq, validateString_eq, encodeAt, Slot.encode_u8,
      Slot.encode_u16, Slot.encode_i16, Slot.encode_str, IdaBridge.prepareMoveScript,
      IdaBridge.pushMoveArgument, IdaBridge.pushMoveArgumentStr, IdaBridge.prepareLifeScript,
      IdaBridge.pushArgument, IdaBridge.pushArgumentStr, baseArgsCount, leBytes, ha]
  simp only [h10, ↓reduceIte] at hs ⊢
  by_cases h11 : op = LM_IMPACT_OBJ
  · simp only [h11, ↓reduceIte, Option.some.injEq] at hs ⊢
    subst hs
    simp only [acceptsAt, Bool.and_eq_true, decide_eq_true_eq, Bool.and_true] at ha
    simp [validateArgsCount_succ, validateArgsCount_three, validateU8_255, validateU8_1, validateU8_pcx,
      validateU16_eq, validateInt16Value_eq, validateString_eq, encodeAt, Slot.encode_u8,
      Slot.encode_u16, Slot.encode_i16, Slot.encode_str, IdaBridge.prepareMoveScript,
      IdaBridge.pushMoveArgument, IdaBridge.pushMoveArgumentStr, IdaBridge.prepareLifeScript,
      IdaBridge.pushArgument, IdaBridge.pushArgumentStr, baseArgsCount, leBytes, ha]
  simp only [h11, ↓reduceIte] at hs ⊢
  by_cases h12 : op = LM_REPEAT_SAMPLE
  · simp only [h12, ↓reduceIte, Option.some.injEq] at hs ⊢
    subst hs
    simp only [acceptsAt, Bool.and_eq_true, decide_eq_true_eq, Bool.and_true] at ha
    simp [validateArgsCount_succ, validateArgsCount_three, validateU8_255, validateU8_1, validateU8_pcx,
      validateU16_eq, validateInt16Value_eq, validateString_eq, encodeAt, Slot.encode_u8,
      Slot.encode_u16, Slot.encode_i16, Slot.encode_str, IdaBridge.prepareMoveScript,
      IdaBridge.pushMoveArgument, IdaBridge.pushMoveArgumentStr, IdaBridge.prepareLifeScript,
      IdaBridge.pushArgument, IdaBridge.pushArgumentStr, baseArgsCount, leBytes, ha]
  simp only [h12, ↓reduceIte] at hs ⊢
  by_cases h13 : op = LM_PARM_SAMPLE
  · simp only [h13, ↓reduceIte, Option.some.injEq] at hs ⊢
    subst hs
    simp only [acceptsAt, Bool.and_eq_true, decide_eq_true_eq, Bool.and_true] at ha
    simp [validateArgsCount_succ, validateArgsCount_three, validateU8_255, validateU8_1, validateU8_pcx,
      validateU16_eq, validateInt16Value_eq, validateString_eq, encodeAt, Slot.encode_u8,
      Slot.encode_u16, Slot.encode_i16, Slot.encode_str, IdaBridge.prepareMoveScript,
      IdaBridge.pushMoveArgument, IdaBridge.pushMoveArgumentStr, IdaBridge.prepareLifeScript,
      IdaBridge.pushArgument, IdaBridge.pushArgumentStr, baseArgsCount, leBytes, ha]
  simp only [h13, ↓reduceIte] at hs ⊢
  by_cases h14 : op = LM_NEW_SAMPLE
  · simp only [h14, ↓reduceIte, Option.some.injEq] at hs ⊢
    subst hs
    simp only [acceptsAt, Bool.and_eq_true, decide_eq_true_eq, Bool.and_true] at ha
    simp [validateArgsCount_succ, validateArgsCount_three, validateU8_255, validateU8_1, validateU8_pcx,
      validateU16_eq, validateInt16Value_eq, validateString_eq, encodeAt, Slot.encode_u8,
      Slot.encode_u16, Slot.encode_i16, Slot.encode_str, IdaBridge.prepareMoveScript,
      IdaBridge.pushMoveArgument, IdaBridge.pushMoveArgumentStr, IdaBridge.prepareLifeScript,
      IdaBridge.pushArgument, IdaBridge.pushArgumentStr, baseArgsCount, leBytes, ha]
  simp only [h14, ↓reduceIte] at hs ⊢
  by_cases h15 : op = LM_PCX_MESS_OBJ
  · simp only [h15, ↓reduceIte, Option.some.injEq] at hs ⊢
    subst hs
    simp only [acceptsAt, Bool.and_eq_true, decide_eq_true_eq, Bool.and_true] at ha
    simp [validateArgsCount_succ, validateArgsCount_three, validateU8_255, validateU8_1, validateU8_pcx,
      validateU16_eq, validateInt16Value_eq, validateString_eq, encodeAt, Slot.encode_u8,
      Slot.encode_u16, Slot.encode_i16, Slot.encode_str, IdaBridge.prepareMoveScript,
      IdaBridge.pushMoveArgument, IdaBridge.pushMoveArgumentStr, IdaBridge.prepareLifeScript,
      IdaBridge.pushArgument, IdaBridge.pushArgumentStr, baseArgsCount, leBytes, ha]
  simp only [h15, ↓reduceIte] at hs ⊢
  exact absurd hs (by simp)

theorem lifeCase_reject (b : IdaBridge) (args : List JsValue) (op : Nat) (shape : Shape)
    (hs : lifeShape b.getFirstPcxId args op = some shape)
    (ha : acceptsAt shape.slots args 2 = false) :
    (lifeCase b args op).1 = b ∧ (lifeCase b args op).2.isSome = true := by
  unfold lifeShape at hs
  unfold lifeCase
  by_cases h0 : op ∈ lifeOpsU8
  · simp only [h0, ↓reduceIte, Option.some.injEq] at hs ⊢
    subst hs
    simp only [acceptsAt, Bool.and_eq_false_iff, Bool.and_true, decide_eq_false_iff_not] at ha
    simp only [validateArgsCount_succ, validateArgsCount_three, validateU8_255, validateU8_1, validateU8_pcx,
      validateU16_eq, validateInt16Value_eq, validateString_eq, encodeAt, Slot.encode_u8,
      Slot.encode_u16, Slot.encode_i16, Slot.encode_str, IdaBridge.prepareMoveScript,
      IdaBridge.pushMoveArgument, IdaBridge.pushMoveArgumentStr, IdaBridge.prepareLifeScript,
      IdaBridge.pushArgument, IdaBridge.pushArgumentStr, baseArgsCount, leBytes]
    split_ifs <;> simp_all <;> omega
  simp only [h0, ↓reduceIte] at hs ⊢
  by_cases h1 : op = LM_SET_CONTROL
  · simp only [h1, ↓reduceIte, Option.some.injEq] at hs ⊢
    subst hs
    simp only [modeNeedsActor_eq] at ha ⊢
    by_cases hm : needsActor (argAt args 2).toInt = true <;>
    simp only [hm, ↓reduceIte, acceptsAt, Bool.and_eq_false_iff, Bool.and_true,
      decide_eq_false_iff_not] at ha <;>
    simp only [validateArgsCount_succ, validateArgsCount_three, validateU8_255, validateU8_1, validateU8_pcx,
      validateU16_eq, validateInt16Value_eq, validateString_eq, encodeAt, Slot.encode_u8,
      Slot.encode_u16, Slot.encode_i16, Slot.encode_str, IdaBridge.prepareMoveScript,
      IdaBridge.pushMoveArgument, IdaBridge.pushMoveArgumentStr, IdaBridge.prepareLifeScript,
      IdaBridge.pushArgument, IdaBridge.pushArgumentStr, baseArgsCount, leBytes, hm] <;>
    split_ifs <;> simp_all <;> omega
  simp only [h1, ↓reduceIte] at hs ⊢
  by_cases h2 : op = LM_SET_CONTROL_OBJ
  · simp only [h2, ↓reduceIte, Option.some.injEq] at hs ⊢
    subst hs
    simp only [modeNeedsActor_eq] at ha ⊢
    by_cases hm : needsActor (argAt args 3).toInt = true <;>
    simp only [hm, ↓reduceIte, acceptsAt, Bool.and_eq_false_iff, Bool.and_true,
      decide_eq_false_iff_not] at ha <;>
    simp only [validateArgsCount_succ, validateArgsCount_three, validateU8_255, validateU8_1, validateU8_pcx,
      validateU16_eq, validateInt16Value_eq, validateString_eq, encodeAt, Slot.encode_u8,
      Slot.encode_u16, Slot.encode_i16, Slot.encode_str, IdaBridge.prepareMoveScript,
      IdaBridge.pushMoveArgument, IdaBridge.pushMoveArgumentStr, IdaBridge.prepareLifeScript,
      IdaBridge.pushArgument, IdaBridge.pushArgumentStr, baseArgsCount, leBytes, hm] <;>
    split_ifs <;> simp_all <;> omega
  simp only [h2, ↓reduceIte] at hs ⊢
  by_cases h3 : op ∈ lifeOpsU8U8
  · simp only [h3, ↓reduceIte, Option.some.injEq] at hs ⊢
    subst hs
    simp only [acceptsAt, Bool.and_eq_false_iff, Bool.and_true, decide_eq_false_iff_not] at ha
    simp only [validateArgsCount_succ, validateArgsCount_three, validateU8_255, validateU8_1, validateU8_pcx,
      validateU16_eq, validateInt16Value_eq, validateString_eq, encodeAt, Slot.encode_u8,
      Slot.encode_u16, Slot.encode_i16, Slot.encode_str, IdaBridge.prepareMoveScript,
      IdaBridge.pushMoveArgument, IdaBridge.pushMoveArgumentStr, IdaBridge.prepareLifeScript,
      IdaBridge.pushArgument, IdaBridge.pushArgumentStr, baseArgsCount, leBytes]
    split_ifs <;> simp_all <;> omega
  simp only [h3, ↓reduceIte] at hs ⊢
  by_cases h4 : op = LM_PCX
  · simp only [h4, ↓reduceIte, Option.some.injEq] at hs ⊢
    subst hs
    simp only [acceptsAt, Bool.and_eq_false_iff, Bool.and_true, decide_eq_false_iff_not] at ha
    simp only [validateArgsCount_succ, validateArgsCount_three, validateU8_255, validateU8_1, validateU8_pcx,
      validateU16_eq, validateInt16Value_eq, validateString_eq, encodeAt, Slot.encode_u8,
      Slot.encode_u16, Slot.encode_i16, Slot.encode_str, IdaBridge.prepareMoveScript,
      IdaBridge.pushMoveArgument, IdaBridge.pushMoveArgumentStr, IdaBridge.prepareLifeScript,
      IdaBridge.pushArgument, IdaBridge.pushArgumentStr, baseArgsCount, leBytes]
    split_ifs <;> simp_all <;> omega
  simp only [h4, ↓reduceIte] at hs ⊢
  by_cases h5 : op ∈ lifeOpsU16
  · simp only [h5, ↓reduceIte, Option.some.injEq] at hs ⊢
    subst hs
    simp only [acceptsAt, Bool.and_eq_false_iff, Bool.and_true, decide_eq_false_iff_not] at ha
    simp only [validateArgsCount_succ, validateArgsCount_three, validateU8_255, validateU8_1, validateU8_pcx,
      validateU16_eq, validateInt16Value_eq, validateString_eq, encodeAt, Slot.encode_u8,
      Slot.encode_u16, Slot.encode_i16, Slot.encode_str, IdaBridge.prepareMoveScript,
      IdaBridge.pushMoveArgument, IdaBridge.pushMoveArgumentStr, IdaBridge.prepareLifeScript,
      IdaBridge.pushArgument, IdaBridge.pushArgumentStr, baseArgsCount, leBytes]
    split_ifs <;> simp_all <;> omega
  simp only [h5, ↓reduceIte] at hs ⊢
  by_cases h6 : op = LM_ANIM_OBJ
  · simp only [h6, ↓reduceIte, Option.some.injEq] at hs ⊢
    subst hs
    simp only [acceptsAt, Bool.and_eq_false_iff, Bool.and_true, decide_eq_false_iff_not] at ha
    simp only [validateArgsCount_succ, validateArgsCount_three, validateU8_255, validateU8_1, validateU8_pcx,
      validateU16_eq, validateInt16Value_eq, validateString_eq, encodeAt, Slot.encode_u8,
      Slot.encode_u16, Slot.encode_i16, Slot.encode_str, IdaBridge.prepareMoveScript,
      IdaBridge.pushMoveArgument, IdaBridge.pushMoveArgumentStr, IdaBridge.prepareLifeScript,
      IdaBridge.pushArgument, IdaBridge.pushArgumentStr, baseArgsCount, leBytes]
    split_ifs <;> simp_all <;> omega
  simp only [h6, ↓reduceIte] at hs ⊢
  by_cases h7 : op ∈ lifeOpsI16
  · simp only [h7, ↓reduceIte, Option.some.injEq] at hs ⊢
    subst hs
    simp only [acceptsAt, Bool.and_eq_false_iff, Bool.and_true, decide_eq_false_iff_not] at ha
    simp only [validateArgsCount_succ, validateArgsCount_three, validateU8_255, validateU8_1, validateU8_pcx,
      validateU16_eq, validateInt16Value_eq, validateString_eq, encodeAt, Slot.encode_u8,
      Slot.encode_u16, Slot.encode_i16, Slot.encode_str, IdaBridge.prepareMoveScript,
      IdaBridge.pushMoveArgument, IdaBridge.pushMoveArgumentStr, IdaBridge.prepareLifeScript,
      IdaBridge.pushArgument, IdaBridge.pushArgumentStr, baseArgsCount, leBytes]
    split_ifs <;> simp_all <;> omega
  simp only [h7, ↓reduceIte] at hs ⊢
  by_cases h8 : op ∈ lifeOpsU8I16
  · simp only [h8, ↓reduceIte, Option.some.injEq] at hs ⊢
    subst hs
    simp only [acceptsAt, Bool.and_eq_false_iff, Bool.and_true, decide_eq_false_iff_not] at ha
    simp only [validateArgsCount_succ, validateArgsCount_three, validateU8_255, validateU8_1, validateU8_pcx,
      validateU16_eq, validateInt16Value_eq, validateString_eq, encodeAt, Slot.encode_u8,
      Slot.encode_u16, Slot.encode_i16, Slot.encode_str, IdaBridge.prepareMoveScript,
      IdaBridge.pushMoveArgument, IdaBridge.pushMoveArgumentStr, IdaBridge.prepareLifeScript,
      IdaBridge.pushArgument, IdaBridge.pushArgumentStr, baseArgsCount, leBytes]
    split_ifs <;> simp_all <;> omega
  simp only [h8, ↓reduceIte] at hs ⊢
  by_cases h9 : op ∈ lifeOpsNone
  · simp only [h9, ↓reduceIte, Option.some.injEq] at hs ⊢
    subst hs
    exact absurd ha (by simp [acceptsAt])
  simp only [h9, ↓reduceIte] at hs ⊢
  by_cases h10 : op = LM_PLAY_ACF
  · simp only [h10, ↓reduceIte, Option.some.injEq] at hs ⊢
    subst hs
    simp only [acceptsAt, Bool.and_eq_false_iff, Bool.and_true, decide_eq_false_iff_not] at ha
    simp only [validateArgsCount_succ, validateArgsCount_three, validateU8_255, validateU8_1, validateU8_pcx,
      validateU16_eq, validateInt16Value_eq, validateString_eq, encodeAt, Slot.encode_u8,
      Slot.encode_u16, Slot.encode_i16, Slot.encode_str, IdaBridge.prepareMoveScript,
      IdaBridge.pushMoveArgument, IdaBridge.pushMoveArgumentStr, IdaBridge.prepareLifeScript,
      IdaBridge.pushArgument, IdaBridge.pushArgumentStr, baseArgsCount, leBytes]
    split_ifs <;> simp_all <;> omega
  simp only [h10, ↓reduceIte] at hs ⊢
  by_cases h11 : op = LM_IMPACT_OBJ
  · simp only [h11, ↓reduceIte, Option.some.injEq] at hs ⊢
    subst hs
    simp only [acceptsAt, Bool.and_eq_false_iff, Bool.and_true, decide_eq_false_iff_not] at ha
    simp only [validateArgsCount_succ, validateArgsCount_three, validateU8_255, validateU8_1, validateU8_pcx,
      validateU16_eq, validateInt16Value_eq, validateString_eq, encodeAt, Slot.encode_u8,
      Slot.encode_u16, Slot.encode_i16, Slot.encode_str, IdaBridge.prepareMoveScript,
      IdaBridge.pushMoveArgument, IdaBridge.pushMoveArgumentStr, IdaBridge.prepareLifeScript,
      IdaBridge.pushArgument, IdaBridge.pushArgumentStr, baseArgsCount, leBytes]
    split_ifs <;> simp_all <;> omega
  simp only [h11, ↓reduceIte] at hs ⊢
  by_cases h12 : op = LM_REPEAT_SAMPLE
  · simp only [h12, ↓reduceIte, Option.some.injEq] at hs ⊢
    subst hs
    simp only [acceptsAt, Bool.and_eq_false_iff, Bool.and_true, decide_eq_false_iff_not] at ha
    simp only [validateArgsCount_succ, validateArgsCount_three, validateU8_255, validateU8_1, validateU8_pcx,
      validateU16_eq, validateInt16Value_eq, validateString_eq, encodeAt, Slot.encode_u8,
      Slot.encode_u16, Slot.encode_i16, Slot.encode_str, IdaBridge.prepareMoveScript,
      IdaBridge.pushMoveArgument, IdaBridge.pushMoveArgumentStr, IdaBridge.prepareLifeScript,
      IdaBridge.pushArgument, IdaBridge.pushArgumentStr, baseArgsCount, leBytes]
    split_ifs <;> simp_all <;> omega
  simp only [h12, ↓reduceIte] at hs ⊢
  by_cases h13 : op = LM_PARM_SAMPLE
  · simp only [h13, ↓reduceIte, Option.some.injEq] at hs ⊢
    subst hs
    simp only [acceptsAt, Bool.and_eq_false_iff, Bool.and_true, decide_eq_false_iff_not] at ha
    simp only [validateArgsCount_succ, validateArgsCount_three, validateU8_255, validateU8_1, validateU8_pcx,
      validateU16_eq, validateInt16Value_eq, validateString_eq, encodeAt, Slot.encode_u8,
      Slot.encode_u16, Slot.encode_i16, Slot.encode_str, IdaBridge.prepareMoveScript,
      IdaBridge.pushMoveArgument, IdaBridge.pushMoveArgumentStr, IdaBridge.prepareLifeScript,
      IdaBridge.pushArgument, IdaBridge.pushArgumentStr, baseArgsCount, leBytes]
    split_ifs <;> simp_all <;> omega
  simp only [h13, ↓reduceIte] at hs ⊢
  by_cases h14 : op = LM_NEW_SAMPLE
  · simp only [h14, ↓reduceIte, Option.some.injEq] at hs ⊢
    subst hs
    simp only [acceptsAt, Bool.and_eq_false_iff, Bool.and_true, decide_eq_false_iff_not] at ha
    simp only [validateArgsCount_succ, validateArgsCount_three, validateU8_255, validateU8_1, validateU8_pcx,
      validateU16_eq, validateInt16Value_eq, validateString_eq, encodeAt, Slot.encode_u8,
      Slot.encode_u16, Slot.encode_i16, Slot.encode_str, IdaBridge.prepareMoveScript,
      IdaBridge.pushMoveArgument, IdaBridge.pushMoveArgumentStr, IdaBridge.prepareLifeScript,
      IdaBridge.pushArgument, IdaBridge.pushArgumentStr, baseArgsCount, leBytes]
    split_ifs <;> simp_all <;> omega
  simp only [h14, ↓reduceIte] at hs ⊢
  by_cases h15 : op = LM_PCX_MESS_OBJ
  · simp only [h15, ↓reduceIte, Option.some.injEq] at hs ⊢
    subst hs
    simp only [acceptsAt, Bool.and_eq_false_iff, Bool.and_true, decide_eq_false_iff_not] at ha
    simp only [validateArgsCount_succ, validateArgsCount_three, validateU8_255, validateU8_1, validateU8_pcx,
      validateU16_eq, validateInt16Value_eq, validateString_eq, encodeAt, Slot.encode_u8,
      Slot.encode_u16, Slot.encode_i16, Slot.encode_str, IdaBridge.prepareMoveScript,
      IdaBridge.pushMoveArgument, IdaBridge.pushMoveArgumentStr, IdaBridge.prepareLifeScript,
      IdaBridge.pushArgument, IdaBridge.pushArgumentStr, baseArgsCount, leBytes]
    split_ifs <;> simp_all <;> omega
  simp only [h15, ↓reduceIte] at hs ⊢
  exact absurd hs (by simp)

theorem lifeCase_unsupported (b : IdaBridge) (args : List JsValue) (op : Nat)
    (hs : lifeShape b.getFirstPcxId args op = none) :
    lifeCase b args op = (b, some (ScriptError.unsupportedOpcode op)) := by
  unfold lifeShape at hs
  unfold lifeCase
  by_cases h0 : op ∈ lifeOpsU8
  · simp [h0] at hs
  simp only [h0, ↓reduceIte] at hs ⊢
  by_cases h1 : op = LM_SET_CONTROL
  · simp [h1] at hs
  simp only [h1, ↓reduceIte] at hs ⊢
  by_cases h2 : op = LM_SET_CONTROL_OBJ
  · simp [h2] at hs
  simp only [h2, ↓reduceIte] at hs ⊢
  by_cases h3 : op ∈ lifeOpsU8U8
  · simp [h3] at hs
  simp only [h3, ↓reduceIte] at hs ⊢
  by_cases h4 : op = LM_PCX
  · simp [h4] at hs
  simp only [h4, ↓reduceIte] at hs ⊢
  by_cases h5 : op ∈ lifeOpsU16
  · simp [h5] at hs
  simp only [h5, ↓reduceIte] at hs ⊢
  by_cases h6 : op = LM_ANIM_OBJ
  · simp [h6] at hs
  simp only [h6, ↓reduceIte] at hs ⊢
  by_cases h7 : op ∈ lifeOpsI16
  · simp [h7] at hs
  simp only [h7, ↓reduceIte] at hs ⊢
  by_cases h8 : op ∈ lifeOpsU8I16
  · simp [h8] at hs
  simp only [h8, ↓reduceIte] at hs ⊢
  by_cases h9 : op ∈ lifeOpsNone
  · simp [h9] at hs
  simp only [h9, ↓reduceIte] at hs ⊢
  by_cases h10 : op = LM_PLAY_ACF
  · simp [h10] at hs
  simp only [h10, ↓reduceIte] at hs ⊢
  by_cases h11 : op = LM_IMPACT_OBJ
  · simp [h11] at hs
  simp only [h11, ↓reduceIte] at hs ⊢
  by_cases h12 : op = LM_REPEAT_SAMPLE
  · simp [h12] at hs
  simp only [h12, ↓reduceIte] at hs ⊢
  by_cases h13 : op = LM_PARM_SAMPLE
  · simp [h13] at hs
  simp only [h13, ↓reduceIte] at hs ⊢
  by_cases h14 : op = LM_NEW_SAMPLE
  · simp [h14] at hs
  simp only [h14, ↓reduceIte] at hs ⊢
  by_cases h15 : op = LM_PCX_MESS_OBJ
  · simp [h15] at hs
  simp only [h15, ↓reduceIte] at hs ⊢

theorem lifeFunction_accept (b : IdaBridge) (args : List JsValue) (op : Nat) (shape : Shape)
    (hs : lifeFunctionShape op = some shape) (ha : acceptsAt shape.slots args 2 = true) :
    inscope_loadLifeFunction b args op =
      ⟨{ b with mLifeScript := [op] ++ encodeAt shape.slots args 2 ++ shape.trailer }, true,
        none⟩ := by
  unfold lifeFunctionShape at hs
  unfold inscope_loadLifeFunction
  by_cases h0 : op ∈ lifeFuncsNone
  · simp only [h0, ↓reduceIte, Option.some.injEq] at hs ⊢
    subst hs
    simp [encodeAt, IdaBridge.prepareLifeFunction]
  simp only [h0, ↓reduceIte] at hs ⊢
  by_cases h1 : op ∈ lifeFuncsU8
  · simp only [h1, ↓reduceIte, Option.some.injEq] at hs ⊢
    subst hs
    simp only [acceptsAt, Bool.and_eq_true, decide_eq_true_eq, Bool.and_true] at ha
    simp [validateArgsCount_three, validateU8_255, ha, encodeAt, Slot.encode_u8,
      IdaBridge.prepareLifeFunction, IdaBridge.pushArgument, leBytes]
  simp only [h1, ↓reduceIte] at hs ⊢
  exact absurd hs (by simp)

theorem lifeFunction_reject (b : IdaBridge) (args : List JsValue) (op : Nat) (shape : Shape)
    (hs : lifeFunctionShape op = some shape) (ha : acceptsAt shape.slots args 2 = false) :
    (inscope_loadLifeFunction b args op).bridge = b ∧
    (inscope_loadLifeFunction b args op).result = false ∧
    (inscope_loadLifeFunction b args op).thrown.isSome = true := by
  unfold lifeFunctionShape at hs
  unfold inscope_loadLifeFunction
  by_cases h0 : op ∈ lifeFuncsNone
  · simp only [h0, ↓reduceIte, Option.some.injEq] at hs ⊢
    subst hs
    exact absurd ha (by simp [acceptsAt])
  simp only [h0, ↓reduceIte] at hs ⊢
  by_cases h1 : op ∈ lifeFuncsU8
  · simp only [h1, ↓reduceIte, Option.some.injEq] at hs ⊢
    subst hs
    simp only [acceptsAt, Bool.and_eq_false_iff, Bool.and_true, decide_eq_false_iff_not] at ha
    simp only [validateArgsCount_three, validateU8_255]
    split_ifs <;> simp_all
  simp only [h1, ↓reduceIte] at hs ⊢
  exact absurd hs (by simp)

theorem lifeFunction_unsupported (b : IdaBridge) (args : List JsValue) (op : Nat)
    (hs : lifeFunctionShape op = none) :
    inscope_loadLifeFunction b args op = ⟨b, false, some (ScriptError.unsupportedOpcode op)⟩ := by
  unfold lifeFunctionShape at hs
  unfold inscope_loadLifeFunction
  split_ifs at hs ⊢
  rfl

theorem Slot.encode_length (s : Slot) (a : JsValue) (h : s.ok a = true) :
    (s.encode a).length = s.width a := by
  cases s <;> cases a <;> simp_all [Slot.ok, Slot.encode, Slot.width, leBytes]

theorem encodeAt_length (slots : List Slot) (args : List JsValue) (i : Nat)
    (h : acceptsAt slots args i = true) : (encodeAt slots args i).length = widthAt slots args i := by
  induction slots generalizing i with
  | nil => rfl
  | cons s ss ih =>
    simp only [acceptsAt, Bool.and_eq_true, decide_eq_true_eq] at h
    simp [encodeAt, widthAt, Slot.encode_length s _ h.1.2, ih _ h.2]

theorem moveLoad_accept (b : IdaBridge) (args : List JsValue) (id op : Nat) (shape : Shape)
    (hs : moveShape op = some shape) (ha : acceptsAt shape.slots args 3 = true) :
    inscope_loadMoveOperation b args id op =
      ⟨b.setMoveScript id ([op] ++ encodeAt shape.slots args 3 ++ shape.trailer ++ [TM_END]),
        true, none⟩ := by
  unfold inscope_loadMoveOperation
  rw [moveCase_accept b args id op shape hs ha]
  simp [IdaBridge.finalizeMoveScript]

theorem moveLoad_reject (b : IdaBridge) (args : List JsValue) (id op : Nat)
    (h : ∀ shape, moveShape op = some shape → acceptsAt shape.slots args 3 = false) :
    (inscope_loadMoveOperation b args id op).bridge = b ∧
    (inscope_loadMoveOperation b args id op).result = false ∧
    (inscope_loadMoveOperation b args id op).thrown.isSome = true := by
  unfold inscope_loadMoveOperation
  cases hs : moveShape op with
  | none => rw [moveCase_unsupported b args id op hs]; simp
  | some shape =>
    obtain ⟨h1, h2⟩ := moveCase_reject b args id op shape hs (h shape hs)
    revert h1 h2
    cases moveCase b args id op with
    | mk b1 e =>
      cases e with
      | none => intro _ h2; simp at h2
      | some e => intro h1 _; simp at h1; simp [h1]

theorem lifeLoad_accept (b : IdaBridge) (args : List JsValue) (op : Nat) (shape : Shape)
    (hs : lifeShape b.getFirstPcxId args op = some shape)
    (ha : acceptsAt shape.slots args 2 = true) :
    inscope_loadLifeOperation b args op =
      ⟨{ b with mLifeScript := [op] ++ encodeAt shape.slots args 2 ++ shape.trailer ++
          [LM_RETURN] }, true, none⟩ := by
  unfold inscope_loadLifeOperation
  rw [lifeCase_accept b args op shape hs ha]
  simp [IdaBridge.finalizeLifeScript]

theorem lifeLoad_reject (b : IdaBridge) (args : List JsValue) (op : Nat)
    (h : ∀ shape, lifeShape b.getFirstPcxId args op = some shape →
      acceptsAt shape.slots args 2 = false) :
    (inscope_loadLifeOperation b args op).bridge = b ∧
    (inscope_loadLifeOperation b args op).result = false ∧
    (inscope_loadLifeOperation b args op).thrown.isSome = true := by
  unfold inscope_loadLifeOperation
  cases hs : lifeShape b.getFirstPcxId args op with
  | none => rw [lifeCase_unsupported b args op hs]; simp
  | some shape =>
    obtain ⟨h1, h2⟩ := lifeCase_reject b args op shape hs (h shape hs)
    revert h1 h2
    cases lifeCase b args op with
    | mk b1 e =>
      cases e with
      | none => intro _ h2; simp at h2
      | some e => intro h1 _; simp at h1; simp [h1]

theorem lifeFunctionLoad_reject (b : IdaBridge) (args : List JsValue) (op : Nat)
    (h : ∀ shape, lifeFunctionShape op = some shape → acceptsAt shape.slots args 2 = false) :
    (inscope_loadLifeFunction b args op).bridge = b ∧
    (inscope_loadLifeFunction b args op).result = false ∧
    (inscope_loadLifeFunction b args op).thrown.isSome = true := by
  cases hs : lifeFunctionShape op with
  | none => rw [lifeFunction_unsupported b args op hs]; simp
  | some shape => exact lifeFunction_reject b args op shape hs (h shape hs)

/-! ## The shape of an assembled instruction -/

theorem moveShape_none : ∀ op ∈ moveOpsNone, moveShape op = some ⟨[], []⟩ := by decide

theorem moveShape_u8 : ∀ op ∈ moveOpsU8, moveShape op = some ⟨[Slot.u8 255], []⟩ := by decide

theorem moveShape_i16 : ∀ op ∈ moveOpsI16, moveShape op = some ⟨[Slot.i16], []⟩ := by decide

theorem moveShape_wait :
    ∀ op ∈ moveOpsWait, moveShape op = some ⟨[Slot.u8 255], [0, 0, 0, 0]⟩ := by decide

/-- C5. For every supported move opcode `op` (a row `shape` of the table) and arguments that
are in range for every slot, `inscope_loadMoveOperation` succeeds and leaves the entity's
buffer as exactly `[op] ++ argument bytes ++ [TM_END]`, whatever the bridge held before, of
length `1 + sum of the argument widths + 1`: 2 bytes for the no-argument family, 3 for one
`u8`, 4 for one `u16` (`TM_ANIM`), one `i16` or two `u8` (`TM_WAIT_NB_ANIM`), 6 for two `i16`
(`TM_ANGLE_RND`), 7 for the wait family (one `u8` and a 32-bit zero) and `n + 3` for
`TM_PLAY_ACF` with an `n`-byte string. -/
theorem C5_move_assembler_shape (b : IdaBridge) (args : List JsValue) (id op : Nat)
    (shape : Shape) (hs : moveShape op = some shape)
    (ha : acceptsAt shape.slots args 3 = true) :
    (inscope_loadMoveOperation b args id op).result = true ∧
    (inscope_loadMoveOperation b args id op).thrown = none ∧
    (inscope_loadMoveOperation b args id op).bridge.getMoveScript id =
      [op] ++ (encodeAt shape.slots args 3 ++ shape.trailer) ++ [TM_END] ∧
    ((inscope_loadMoveOperation b args id op).bridge.getMoveScript id).length =
      1 + (widthAt shape.slots args 3 + shape.trailer.length) + 1 ∧
    (op ∈ moveOpsNone →
      (inscope_loadMoveOperation b args id op).bridge.getMoveScript id = [op, TM_END]) ∧
    (op ∈ moveOpsU8 →
      (inscope_loadMoveOperation b args id op).bridge.getMoveScript id =
        [op, (argAt args 3).toInt.toNat, TM_END]) ∧
    (op = TM_ANIM ∨ op ∈ moveOpsI16 →
      (inscope_loadMoveOperation b args id op).bridge.getMoveScript id =
        [op] ++ leBytes 2 (argAt args 3).toInt ++ [TM_END] ∧
      ((inscope_loadMoveOperation b args id op).bridge.getMoveScript id).length = 4) ∧
    (op = TM_WAIT_NB_ANIM →
      (inscope_loadMoveOperation b args id op).bridge.getMoveScript id =
        [op, (argAt args 3).toInt.toNat, (argAt args 4).toInt.toNat, TM_END]) ∧
    (op = TM_ANGLE_RND →
      (inscope_loadMoveOperation b args id op).bridge.getMoveScript id =
        [op] ++ leBytes 2 (argAt args 3).toInt ++ leBytes 2 (argAt args 4).toInt ++ [TM_END] ∧
      ((inscope_loadMoveOperation b args id op).bridge.getMoveScript id).length = 6) ∧
    (op ∈ moveOpsWait →
      (inscope_loadMoveOperation b args id op).bridge.getMoveScript id =
        [op, (argAt args 3).toInt.toNat, 0, 0, 0, 0, TM_END]) ∧
    (op = TM_PLAY_ACF →
      (inscope_loadMoveOperation b args id op).bridge.getMoveScript id =
        [op] ++ (argAt args 3).toBytes ++ [0] ++ [TM_END] ∧
      ((inscope_loadMoveOperation b args id op).bridge.getMoveScript id).length =
        (argAt args 3).toBytes.length + 3) := by
  have hu8 : ∀ a : JsValue, (Slot.u8 255).ok a = true →
      (Slot.u8 255).encode a = [a.toInt.toNat] := by
    intro a h
    cases a <;> simp_all [Slot.ok, Slot.encode, JsValue.toInt, leBytes]
    omega
  rw [moveLoad_accept b args id op shape hs ha]
  simp only [IdaBridge.getMoveScript, IdaBridge.setMoveScript_get]
  refine ⟨trivial, trivial, by simp, ?_, ?_, ?_, ?_, ?_, ?_, ?_, ?_⟩
  · simp [encodeAt_length _ _ _ ha]; omega
  · intro h
    rw [moveShape_none op h] at hs
    cases hs
    rfl
  · intro h
    rw [moveShape_u8 op h] at hs
    cases hs
    simp only [acceptsAt, Bool.and_eq_true, decide_eq_true_eq, Bool.and_true] at ha
    simp [encodeAt, hu8 _ ha.2]
  · intro h
    have hsl : (shape = ⟨[Slot.u16], []⟩ ∨ shape = ⟨[Slot.i16], []⟩) := by
      rcases h with h | h
      · subst h
        left
        have : moveShape TM_ANIM = some ⟨[Slot.u16], []⟩ := by decide
        rw [this] at hs
        cases hs
        rfl
      · right
        rw [moveShape_i16 op h] at hs
        cases hs
        rfl
    rcases hsl with hsl | hsl <;> subst hsl <;>
      simp only [acceptsAt, Bool.and_eq_true, decide_eq_true_eq, Bool.and_true] at ha
    · simp [encodeAt, Slot.encode_u16 _ ha.2, leBytes]
    · simp [encodeAt, Slot.encode_i16 _ ha.2, leBytes]
  · intro h
    subst h
    have : moveShape TM_WAIT_NB_ANIM = some ⟨[Slot.u8 255, Slot.u8 255], []⟩ := by decide
    rw [this] at hs
    cases hs
    simp only [acceptsAt, Bool.and_eq_true, decide_eq_true_eq, Bool.and_true] at ha
    simp [encodeAt, hu8 _ ha.1.2, hu8 _ ha.2.2]
  · intro h
    subst h
    have : moveShape TM_ANGLE_RND = some ⟨[Slot.i16, Slot.i16], []⟩ := by decide
    rw [this] at hs
    cases hs
    simp only [acceptsAt, Bool.and_eq_true, decide_eq_true_eq, Bool.and_true] at ha
    simp [encodeAt, Slot.encode_i16 _ ha.1.2, Slot.encode_i16 _ ha.2.2, leBytes]
  · intro h
    rw [moveShape_wait op h] at hs
    cases hs
    simp only [acceptsAt, Bool.and_eq_true, decide_eq_true_eq, Bool.and_true] at ha
    simp [encodeAt, hu8 _ ha.2]
  · intro h
    subst h
    have : moveShape TM_PLAY_ACF = some ⟨[Slot.str], []⟩ := by decide
    rw [this] at hs
    cases hs
    simp only [acceptsAt, Bool.and_eq_true, decide_eq_true_eq, Bool.and_true] at ha
    simp [encodeAt, Slot.encode_str _ ha.2]

/-- C5 at concrete inputs: `TM_WAIT_NB_SECOND` (18) with argument 5 for entity 2, over a
bridge whose buffers held `[1, 2, 3]`, leaves the seven bytes `[18, 5, 0, 0, 0, 0, 0]`. -/
theorem C5_move_assembler_shape_witness :
    moveShape 18 = some ⟨[Slot.u8 255], [0, 0, 0, 0]⟩ ∧
    acceptsAt [Slot.u8 255] [JsValue.int 2, JsValue.intArray [], JsValue.int 18, JsValue.int 5]
      3 = true ∧
    (inscope_loadMoveOperation (IdaBridge.mk 0 (fun _ => [1, 2, 3]) [] [] [])
      [JsValue.int 2, JsValue.intArray [], JsValue.int 18, JsValue.int 5] 2
      18).bridge.getMoveScript 2 = [18, 5, 0, 0, 0, 0, 0] :=
  ⟨by decide, by decide,
   (C5_move_assembler_shape (IdaBridge.mk 0 (fun _ => [1, 2, 3]) [] [] [])
      [JsValue.int 2, JsValue.intArray [], JsValue.int 18, JsValue.int 5] 2 18
      ⟨[Slot.u8 255], [0, 0, 0, 0]⟩ (by decide) (by decide)).2.2.2.2.2.2.2.2.2.1 (by decide)⟩

/-- C6. For every supported life operation opcode `op` (a row `shape` of the table) and
arguments in range for every slot, `inscope_loadLifeOperation` succeeds and leaves the shared
life buffer as exactly `[op] ++ argument bytes ++ [LM_RETURN]`, whatever it held before, of
length `1 + sum of the argument widths + 1` (2 for `LM_SUICIDE`, 3 for `LM_BODY`, 4 for
`LM_ANIM` and `LM_SET_TRACK`, 5 for `LM_ANIM_OBJ`, 7 for `LM_IMPACT_OBJ` and
`LM_PCX_MESS_OBJ`, 9 for `LM_NEW_SAMPLE`); for a supported life function opcode
`inscope_loadLifeFunction` leaves it as `[op]` or `[op, u8 argument]`, with no terminator. -/
theorem C6_life_assembler_shape (b : IdaBridge) (args : List JsValue) (op : Nat) :
    (∀ shape : Shape, lifeShape b.getFirstPcxId args op = some shape →
      acceptsAt shape.slots args 2 = true →
      (inscope_loadLifeOperation b args op).result = true ∧
      (inscope_loadLifeOperation b args op).thrown = none ∧
      (inscope_loadLifeOperation b args op).bridge.getLifeScript =
        [op] ++ (encodeAt shape.slots args 2 ++ shape.trailer) ++ [LM_RETURN] ∧
      ((inscope_loadLifeOperation b args op).bridge.getLifeScript).length =
        1 + (widthAt shape.slots args 2 + shape.trailer.length) + 1 ∧
      (op = LM_SUICIDE →
        (inscope_loadLifeOperation b args op).bridge.getLifeScript = [op, LM_RETURN]) ∧
      (op = LM_BODY →
        ((inscope_loadLifeOperation b args op).bridge.getLifeScript).length = 3) ∧
      (op = LM_ANIM ∨ op = LM_SET_TRACK →
        (inscope_loadLifeOperation b args op).bridge.getLifeScript =
          [op] ++ leBytes 2 (argAt args 2).toInt ++ [LM_RETURN] ∧
        ((inscope_loadLifeOperation b args op).bridge.getLifeScript).length = 4) ∧
      (op = LM_ANIM_OBJ →
        ((inscope_loadLifeOperation b args op).bridge.getLifeScript).length = 5) ∧
      (op = LM_IMPACT_OBJ ∨ op = LM_PCX_MESS_OBJ →
        ((inscope_loadLifeOperation b args op).bridge.getLifeScript).length = 7) ∧
      (op = LM_NEW_SAMPLE →
        ((inscope_loadLifeOperation b args op).bridge.getLifeScript).length = 9)) ∧
    (∀ shape : Shape, lifeFunctionShape op = some shape →
      acceptsAt shape.slots args 2 = true →
      (inscope_loadLifeFunction b args op).result = true ∧
      (inscope_loadLifeFunction b args op).thrown = none ∧
      (inscope_loadLifeFunction b args op).bridge.getLifeScript =
        [op] ++ encodeAt shape.slots args 2 ∧
      (op ∈ lifeFuncsNone →
        (inscope_loadLifeFunction b args op).bridge.getLifeScript = [op]) ∧
      (op ∈ lifeFuncsU8 →
        (inscope_loadLifeFunction b args op).bridge.getLifeScript =
          [op, (argAt args 2).toInt.toNat])) := by
  have hu8 : ∀ a : JsValue, (Slot.u8 255).ok a = true →
      (Slot.u8 255).encode a = [a.toInt.toNat] := by
    intro a h
    cases a <;> simp_all [Slot.ok, Slot.encode, JsValue.toInt, leBytes]
    omega
  constructor
  · intro shape hs ha
    have hlen : ((inscope_loadLifeOperation b args op).bridge.getLifeScript).length =
        1 + (widthAt shape.slots args 2 + shape.trailer.length) + 1 := by
      rw [lifeLoad_accept b args op shape hs ha]
      simp [IdaBridge.getLifeScript, encodeAt_length _ _ _ ha]; omega
    refine ⟨?_, ?_, ?_, hlen, ?_, ?_, ?_, ?_, ?_, ?_⟩
    · rw [lifeLoad_accept b args op shape hs ha]
    · rw [lifeLoad_accept b args op shape hs ha]
    · rw [lifeLoad_accept b args op shape hs ha]; simp [IdaBridge.getLifeScript]
    · intro h
      subst h
      have : lifeShape b.getFirstPcxId args LM_SUICIDE = some ⟨[], []⟩ := rfl
      rw [this] at hs
      cases hs
      rw [lifeLoad_accept b args _ _ this ha]
      rfl
    · intro h
      subst h
      have : lifeShape b.getFirstPcxId args LM_BODY = some ⟨[Slot.u8 255], []⟩ := rfl
      rw [this] at hs
      cases hs
      rw [hlen]
      rfl
    · intro h
      have hsl : (shape = ⟨[Slot.u16], []⟩ ∨ shape = ⟨[Slot.i16], []⟩) := by
        rcases h with h | h <;> subst h
        · left
          have : lifeShape b.getFirstPcxId args LM_ANIM = some ⟨[Slot.u16], []⟩ := rfl
          rw [this] at hs
          cases hs
          rfl
        · right
          have : lifeShape b.getFirstPcxId args LM_SET_TRACK = some ⟨[Slot.i16], []⟩ := rfl
          rw [this] at hs
          cases hs
          rfl
      rw [lifeLoad_accept b args op shape hs ha]
      rcases hsl with hsl | hsl <;> subst hsl <;>
        simp only [acceptsAt, Bool.and_eq_true, decide_eq_true_eq, Bool.and_true] at ha
      · simp [encodeAt, Slot.encode_u16 _ ha.2, leBytes, IdaBridge.getLifeScript]
      · simp [encodeAt, Slot.encode_i16 _ ha.2, leBytes, IdaBridge.getLifeScript]
    · intro h
      subst h
      have : lifeShape b.getFirstPcxId args LM_ANIM_OBJ = some ⟨[Slot.u8 255, Slot.u16], []⟩ :=
        rfl
      rw [this] at hs
      cases hs
      rw [hlen]
      rfl
    · intro h
      rcases h with h | h <;> subst h
      · have : lifeShape b.getFirstPcxId args LM_IMPACT_OBJ =
            some ⟨[Slot.u8 255, Slot.i16, Slot.i16], []⟩ := rfl
        rw [this] at hs
        cases hs
        rw [hlen]
        rfl
      · have : lifeShape b.getFirstPcxId args LM_PCX_MESS_OBJ =
            some ⟨[Slot.u8 b.getFirstPcxId, Slot.u8 1, Slot.u8 255, Slot.i16], []⟩ := rfl
        rw [this] at hs
        cases hs
        rw [hlen]
        rfl
    · intro h
      subst h
      have : lifeShape b.getFirstPcxId args LM_NEW_SAMPLE =
          some ⟨[Slot.i16, Slot.i16, Slot.u8 255, Slot.i16], []⟩ := rfl
      rw [this] at hs
      cases hs
      rw [hlen]
      rfl
  · intro shape hs ha
    rw [lifeFunction_accept b args op shape hs ha]
    refine ⟨rfl, rfl, ?_, ?_, ?_⟩
    · have htr : shape.trailer = [] := by
        unfold lifeFunctionShape at hs
        split_ifs at hs <;> cases hs <;> rfl
      simp [IdaBridge.getLifeScript, htr]
    · intro h
      have : lifeFunctionShape op = some ⟨[], []⟩ :=
        (by decide : ∀ o ∈ lifeFuncsNone, lifeFunctionShape o = some ⟨[], []⟩) op h
      rw [this] at hs
      cases hs
      rfl
    · intro h
      have : lifeFunctionShape op = some ⟨[Slot.u8 255], []⟩ :=
        (by decide : ∀ o ∈ lifeFuncsU8, lifeFunctionShape o = some ⟨[Slot.u8 255], []⟩) op h
      rw [this] at hs
      cases hs
      simp only [acceptsAt, Bool.and_eq_true, decide_eq_true_eq, Bool.and_true] at ha
      simp [encodeAt, hu8 _ ha.2, IdaBridge.getLifeScript]

/-- C6 at concrete inputs: `LM_NEW_SAMPLE` (152) with arguments 300, -2, 7, 1000 leaves nine
bytes over a buffer that held `[1, 2]`; the life function `LF_DISTANCE` (2) with argument 9
leaves `[2, 9]`. -/
theorem C6_life_assembler_shape_witness :
    (inscope_loadLifeOperation (IdaBridge.mk 0 (fun _ => []) [1, 2] [] [])
      [JsValue.int 0, JsValue.int 152, JsValue.int 300, JsValue.int (-2), JsValue.int 7,
        JsValue.int 1000] 152).bridge.getLifeScript.length = 9 ∧
    (inscope_loadLifeFunction (IdaBridge.mk 0 (fun _ => []) [1, 2] [] [])
      [JsValue.int 0, JsValue.int 2, JsValue.int 9] 2).bridge.getLifeScript = [2, 9] :=
  ⟨((C6_life_assembler_shape (IdaBridge.mk 0 (fun _ => []) [1, 2] [] [])
      [JsValue.int 0, JsValue.int 152, JsValue.int 300, JsValue.int (-2), JsValue.int 7,
        JsValue.int 1000] 152).1 ⟨[Slot.i16, Slot.i16, Slot.u8 255, Slot.i16], []⟩
      (by decide) (by decide)).2.2.2.2.2.2.2.2.2 rfl,
   ((C6_life_assembler_shape (IdaBridge.mk 0 (fun _ => []) [1, 2] [] [])
      [JsValue.int 0, JsValue.int 2, JsValue.int 9] 2).2 ⟨[Slot.u8 255], []⟩
      (by decide) (by decide)).2.2.2.2 (by decide)⟩

/-! ## Range boundaries -/

theorem acceptsAt_iff (slots : List Slot) (args : List JsValue) (i : Nat) :
    acceptsAt slots args i = true ↔
      ∀ j s, slots.get? j = some s → i + j < args.length ∧ s.ok (argAt args (i + j)) = true := by
  induction slots generalizing i with
  | nil => simp [acceptsAt]
  | cons t ts ih =>
    simp only [acceptsAt, Bool.and_eq_true, decide_eq_true_eq, ih]
    constructor
    · rintro ⟨⟨h1, h2⟩, h3⟩ j s hj
      cases j with
      | zero =>
        simp only [List.get?_cons_zero, Option.some.injEq] at hj
        subst hj
        exact ⟨h1, h2⟩
      | succ j =>
        simp only [List.get?_cons_succ] at hj
        have := h3 j s hj
        have e : i + 1 + j = i + (j + 1) := by omega
        rw [e] at this
        exact this
    · intro h
      refine ⟨?_, ?_⟩
      · simpa using h 0 t rfl
      · intro j s hj
        have := h (j + 1) s (by simpa using hj)
        have e : i + 1 + j = i + (j + 1) := by omega
        rw [e]
        exact this

theorem argAt_set (args : List JsValue) (n m : Nat) (a : JsValue) (hn : n < args.length) :
    argAt (args.set n a) m = if m = n then a else argAt args m := by
  unfold argAt
  by_cases h : m = n
  · subst h
    simp [List.getD_eq_getElem?_getD, hn]
  · have h' : n ≠ m := fun e => h e.symm
    simp [List.getD_eq_getElem?_getD, h, List.getElem?_set_ne h']

/-- Replacing the argument of slot `k` while every other slot holds an in-range value: the
call is accepted exactly when the new value is in range for slot `k`. -/
theorem acceptsAt_set (slots : List Slot) (args : List JsValue) (i k : Nat) (s : Slot)
    (a : JsValue) (hk : slots.get? k = some s) (hlen : i + k < args.length)
    (hothers : ∀ j t, slots.get? j = some t → j ≠ k →
      i + j < args.length ∧ t.ok (argAt args (i + j)) = true) :
    acceptsAt slots (args.set (i + k) a) i = s.ok a := by
  rw [Bool.eq_iff_iff, acceptsAt_iff]
  constructor
  · intro h
    have := (h k s hk).2
    rw [argAt_set _ _ _ _ hlen] at this
    simpa using this
  · intro h j t hj
    rw [argAt_set _ _ _ _ hlen, List.length_set]
    by_cases hjk : j = k
    · subst hjk
      rw [hk] at hj
      cases hj
      exact ⟨hlen, by simpa using h⟩
    · have hne : i + j ≠ i + k := by omega
      simp only [hne, if_false]
      exact hothers j t hj hjk

theorem Slot.ok_int_iff (s : Slot) (lo hi v : Int) (hr : s.range = some (lo, hi)) :
    s.ok (JsValue.int v) = true ↔ lo ≤ v ∧ v ≤ hi := by
  cases s <;> simp [Slot.range] at hr <;> obtain ⟨h1, h2⟩ := hr <;> subst h1 <;> subst h2 <;>
    simp [Slot.ok]

theorem moveLoad_result_iff (b : IdaBridge) (args : List JsValue) (id op : Nat) (shape : Shape)
    (hs : moveShape op = some shape) :
    (inscope_loadMoveOperation b args id op).result = acceptsAt shape.slots args 3 := by
  cases ha : acceptsAt shape.slots args 3 with
  | true => rw [moveLoad_accept b args id op shape hs ha]
  | false =>
    refine (moveLoad_reject b args id op ?_).2.1
    intro sh hsh
    rw [hs] at hsh
    cases hsh
    exact ha

theorem lifeLoad_result_iff (b : IdaBridge) (args : List JsValue) (op : Nat) (shape : Shape)
    (hs : lifeShape b.getFirstPcxId args op = some shape) :
    (inscope_loadLifeOperation b args op).result = acceptsAt shape.slots args 2 := by
  cases ha : acceptsAt shape.slots args 2 with
  | true => rw [lifeLoad_accept b args op shape hs ha]
  | false =>
    refine (lifeLoad_reject b args op ?_).2.1
    intro sh hsh
    rw [hs] at hsh
    cases hsh
    exact ha

theorem lifeFunctionLoad_result_iff (b : IdaBridge) (args : List JsValue) (op : Nat)
    (shape : Shape) (hs : lifeFunctionShape op = some shape) :
    (inscope_loadLifeFunction b args op).result = acceptsAt shape.slots args 2 := by
  cases ha : acceptsAt shape.slots args 2 with
  | true => rw [lifeFunction_accept b args op shape hs ha]
  | false =>
    refine (lifeFunctionLoad_reject b args op ?_).2.1
    intro sh hsh
    rw [hs] at hsh
    cases hsh
    exact ha

theorem lifeShape_u8 (pcx : Nat) (args : List JsValue) (o : Nat) (h : o ∈ lifeOpsU8) :
    lifeShape pcx args o = some ⟨[Slot.u8 255], []⟩ := by
  simp [lifeShape, h]

theorem lifeShape_i16 (pcx : Nat) (args : List JsValue) (o : Nat) (h : o ∈ lifeOpsI16) :
    lifeShape pcx args o = some ⟨[Slot.i16], []⟩ := by
  have hne : o ∉ lifeOpsU8 ∧ o ≠ LM_SET_CONTROL ∧ o ≠ LM_SET_CONTROL_OBJ ∧ o ∉ lifeOpsU8U8 ∧
      o ≠ LM_PCX ∧ o ∉ lifeOpsU16 ∧ o ≠ LM_ANIM_OBJ :=
    (by decide : ∀ x ∈ lifeOpsI16, x ∉ lifeOpsU8 ∧ x ≠ LM_SET_CONTROL ∧
      x ≠ LM_SET_CONTROL_OBJ ∧ x ∉ lifeOpsU8U8 ∧ x ≠ LM_PCX ∧ x ∉ lifeOpsU16 ∧
      x ≠ LM_ANIM_OBJ) o h
  obtain ⟨h1, h2, h3, h4, h5, h6, h7⟩ := hne
  simp [lifeShape, h, h1, h2, h3, h4, h5, h6, h7]

/-- C8. For every scalar argument (slot `k`, of declared range `[lo, hi]`) of a supported life
operation, life function or move opcode, with the other arguments in range, the call is
accepted exactly when the value `v` given for it satisfies `lo ≤ v ≤ hi`: both boundary
values are accepted and the values one past them rejected. With the declared ranges of the
table: 0 and 255 accepted and -1 and 256 rejected for a `u8` argument, 0 and 65535 accepted
and -1 and 65536 rejected for the `u16` argument of `TM_ANIM` and `LM_ANIM`, -32768 and 32767
accepted and -32769 and 32768 rejected for an `i16` argument. -/
theorem C8_inclusive_range_boundaries (b : IdaBridge) (args : List JsValue) (id op k : Nat)
    (s : Slot) (lo hi : Int) (hr : s.range = some (lo, hi)) :
    (∀ (shape : Shape) (v : Int),
      lifeShape b.getFirstPcxId (args.set (2 + k) (JsValue.int v)) op = some shape →
      shape.slots.get? k = some s → 2 + k < args.length →
      (∀ j t, shape.slots.get? j = some t → j ≠ k →
        2 + j < args.length ∧ t.ok (argAt args (2 + j)) = true) →
      ((inscope_loadLifeOperation b (args.set (2 + k) (JsValue.int v)) op).result = true ↔
        lo ≤ v ∧ v ≤ hi)) ∧
    (∀ (shape : Shape) (v : Int), lifeFunctionShape op = some shape →
      shape.slots.get? k = some s → 2 + k < args.length →
      (∀ j t, shape.slots.get? j = some t → j ≠ k →
        2 + j < args.length ∧ t.ok (argAt args (2 + j)) = true) →
      ((inscope_loadLifeFunction b (args.set (2 + k) (JsValue.int v)) op).result = true ↔
        lo ≤ v ∧ v ≤ hi)) ∧
    (∀ (shape : Shape) (v : Int), moveShape op = some shape →
      shape.slots.get? k = some s → 3 + k < args.length →
      (∀ j t, shape.slots.get? j = some t → j ≠ k →
        3 + j < args.length ∧ t.ok (argAt args (3 + j)) = true) →
      ((inscope_loadMoveOperation b (args.set (3 + k) (JsValue.int v)) id op).result = true ↔
        lo ≤ v ∧ v ≤ hi)) ∧
    (lo ≤ hi) ∧
    ((Slot.u8 255).range = some (0, 255) ∧ Slot.u16.range = some (0, 65535) ∧
      Slot.i16.range = some (-32768, 32767)) ∧
    (∀ (a0 a1 a2 : JsValue) (rest : List JsValue), ∀ o ∈ moveOpsU8,
      (inscope_loadMoveOperation b (a0 :: a1 :: a2 :: JsValue.int 0 :: rest) id o).result = true ∧
      (inscope_loadMoveOperation b (a0 :: a1 :: a2 :: JsValue.int 255 :: rest) id o).result
        = true ∧
      (inscope_loadMoveOperation b (a0 :: a1 :: a2 :: JsValue.int (-1) :: rest) id o).result
        = false ∧
      (inscope_loadMoveOperation b (a0 :: a1 :: a2 :: JsValue.int 256 :: rest) id o).result
        = false) ∧
    (∀ (a0 a1 : JsValue) (rest : List JsValue), ∀ o ∈ lifeOpsU8,
      (inscope_loadLifeOperation b (a0 :: a1 :: JsValue.int 0 :: rest) o).result = true ∧
      (inscope_loadLifeOperation b (a0 :: a1 :: JsValue.int 255 :: rest) o).result = true ∧
      (inscope_loadLifeOperation b (a0 :: a1 :: JsValue.int (-1) :: rest) o).result = false ∧
      (inscope_loadLifeOperation b (a0 :: a1 :: JsValue.int 256 :: rest) o).result = false) ∧
    (∀ (a0 a1 a2 : JsValue) (rest : List JsValue),
      (inscope_loadMoveOperation b (a0 :: a1 :: a2 :: JsValue.int 0 :: rest) id TM_ANIM).result
        = true ∧
      (inscope_loadMoveOperation b (a0 :: a1 :: a2 :: JsValue.int 65535 :: rest) id
        TM_ANIM).result = true ∧
      (inscope_loadMoveOperation b (a0 :: a1 :: a2 :: JsValue.int (-1) :: rest) id
        TM_ANIM).result = false ∧
      (inscope_loadMoveOperation b (a0 :: a1 :: a2 :: JsValue.int 65536 :: rest) id
        TM_ANIM).result = false) ∧
    (∀ (a0 a1 : JsValue) (rest : List JsValue),
      (inscope_loadLifeOperation b (a0 :: a1 :: JsValue.int 0 :: rest) LM_ANIM).result = true ∧
      (inscope_loadLifeOperation b (a0 :: a1 :: JsValue.int 65535 :: rest) LM_ANIM).result
        = true ∧
      (inscope_loadLifeOperation b (a0 :: a1 :: JsValue.int (-1) :: rest) LM_ANIM).result
        = false ∧
      (inscope_loadLifeOperation b (a0 :: a1 :: JsValue.int 65536 :: rest) LM_ANIM).result
        = false) ∧
    (∀ (a0 a1 a2 : JsValue) (rest : List JsValue), ∀ o ∈ moveOpsI16,
      (inscope_loadMoveOperation b (a0 :: a1 :: a2 :: JsValue.int (-32768) :: rest) id o).result
        = true ∧
      (inscope_loadMoveOperation b (a0 :: a1 :: a2 :: JsValue.int 32767 :: rest) id o).result
        = true ∧
      (inscope_loadMoveOperation b (a0 :: a1 :: a2 :: JsValue.int (-32769) :: rest) id o).result
        = false ∧
      (inscope_loadMoveOperation b (a0 :: a1 :: a2 :: JsValue.int 32768 :: rest) id o).result
        = false) ∧
    (∀ (a0 a1 : JsValue) (rest : List JsValue), ∀ o ∈ lifeOpsI16,
      (inscope_loadLifeOperation b (a0 :: a1 :: JsValue.int (-32768) :: rest) o).result = true ∧
      (inscope_loadLifeOperation b (a0 :: a1 :: JsValue.int 32767 :: rest) o).result = true ∧
      (inscope_loadLifeOperation b (a0 :: a1 :: JsValue.int (-32769) :: rest) o).result
        = false ∧
      (inscope_loadLifeOperation b (a0 :: a1 :: JsValue.int 32768 :: rest) o).result
        = false) := by
  refine ⟨?_, ?_, ?_, ?_, ⟨rfl, rfl, rfl⟩, ?_, ?_, ?_, ?_, ?_, ?_⟩
  · intro shape v hs hk hlen hothers
    rw [lifeLoad_result_iff b _ op shape hs,
      acceptsAt_set shape.slots args 2 k s _ hk hlen hothers]
    exact Slot.ok_int_iff s lo hi v hr
  · intro shape v hs hk hlen hothers
    rw [lifeFunctionLoad_result_iff b _ op shape hs,
      acceptsAt_set shape.slots args 2 k s _ hk hlen hothers]
    exact Slot.ok_int_iff s lo hi v hr
  · intro shape v hs hk hlen hothers
    rw [moveLoad_result_iff b _ id op shape hs,
      acceptsAt_set shape.slots args 3 k s _ hk hlen hothers]
    exact Slot.ok_int_iff s lo hi v hr
  · cases s <;> simp [Slot.range] at hr <;> obtain ⟨h1, h2⟩ := hr <;> subst h1 <;> subst h2 <;>
      simp
  · intro a0 a1 a2 rest o ho
    simp only [moveLoad_result_iff b _ id o _ (moveShape_u8 o ho)]
    simp [acceptsAt, argAt, Slot.ok]
  · intro a0 a1 rest o ho
    simp only [lifeLoad_result_iff b _ o _ (lifeShape_u8 _ _ o ho)]
    simp [acceptsAt, argAt, Slot.ok]
  · intro a0 a1 a2 rest
    have hs : moveShape TM_ANIM = some ⟨[Slot.u16], []⟩ := by decide
    simp only [moveLoad_result_iff b _ id _ _ hs]
    simp [acceptsAt, argAt, Slot.ok]
  · intro a0 a1 rest
    have hs : ∀ l, lifeShape b.getFirstPcxId l LM_ANIM = some ⟨[Slot.u16], []⟩ := fun _ => rfl
    simp only [lifeLoad_result_iff b _ _ _ (hs _)]
    simp [acceptsAt, argAt, Slot.ok]
  · intro a0 a1 a2 rest o ho
    simp only [moveLoad_result_iff b _ id o _ (moveShape_i16 o ho)]
    simp [acceptsAt, argAt, Slot.ok]
  · intro a0 a1 rest o ho
    simp only [lifeLoad_result_iff b _ o _ (lifeShape_i16 _ _ o ho)]
    simp [acceptsAt, argAt, Slot.ok]

/-- C8 at concrete inputs: the actor argument (slot 1) of `LM_SET_CONTROL` (27) with movement
mode 2 is accepted at 255 exactly because `0 ≤ 255 ≤ 255`, and `TM_BODY` (2) accepts 0. -/
theorem C8_inclusive_range_boundaries_witness :
    ((inscope_loadLifeOperation (IdaBridge.mk 0 (fun _ => []) [] [] [])
        ([JsValue.int 0, JsValue.int 27, JsValue.int 2, JsValue.int 0].set (2 + 1)
          (JsValue.int 255)) 27).result = true ↔ (0 : Int) ≤ 255 ∧ (255 : Int) ≤ 255) ∧
    (inscope_loadMoveOperation (IdaBridge.mk 0 (fun _ => []) [] [] [])
      [JsValue.int 0, JsValue.intArray [], JsValue.int 2, JsValue.int 0] 0 2).result = true :=
  ⟨(C8_inclusive_range_boundaries (IdaBridge.mk 0 (fun _ => []) [] [] [])
      [JsValue.int 0, JsValue.int 27, JsValue.int 2, JsValue.int 0] 0 27 1 (Slot.u8 255) 0 255
      rfl).1 ⟨[Slot.u8 255, Slot.u8 255], []⟩ 255 (by decide) (by decide) (by decide)
      (by
        intro j t hj hjk
        match j, hj, hjk with
        | 0, hj, _ =>
          simp only [List.get?_cons_zero, Option.some.injEq] at hj
          subst hj
          decide
        | 1, _, h => exact absurd rfl h
        | (n + 2), hj, _ => simp at hj),
   ((C8_inclusive_range_boundaries (IdaBridge.mk 0 (fun _ => []) [] [] []) [] 0 0 0 (Slot.u8 255) 0
      255 rfl).2.2.2.2.2.1 (JsValue.int 0) (JsValue.intArray []) (JsValue.int 2) [] 2
      (by decide)).1⟩

/-! ## Phase gating of the template functions -/

theorem EPP_ALLOW_denied (w : World) (phases : List ExecutionPhase) (k : Ret)
    (hen : w.epp.mIsEnabled = true) (hph : w.epp.mCurrentPhase ∉ phases) :
    EPP_ALLOW w phases k =
      Ret.throw w (ScriptError.policy
        ("Execution of this function is only allowed in the following phases: " ++
          Epp.getPhaseNames phases)) := by
  have h : w.epp.isExecutionAllowed phases = false := by
    cases hb : w.epp.isExecutionAllowed phases with
    | false => rfl
    | true =>
      simp only [Epp.isExecutionAllowed, hen, Bool.not_true, Bool.false_eq_true, if_false] at hb
      exact absurd ((Epp.phaseLoop_iff _ _).mp hb) hph
  simp [EPP_ALLOW, h]

theorem EPP_ALLOW_passed (w : World) (phases : List ExecutionPhase) (k : Ret)
    (h : w.epp.isExecutionAllowed phases = true) : EPP_ALLOW w phases k = k := by
  simp [EPP_ALLOW, h]

/-- C1. For every template function guarded by `EPP_ALLOW` (its gate is an allow-list
`phases`): if the guard is enabled and the current phase is not in `phases`, then for any
arguments (and any wrapped entity index) the call throws the policy error naming the allowed
phases and leaves the whole world unchanged: host entities and counts, object flags, life and
move buffers, forced overrides, current phase, and the record of dispatched instructions. -/
theorem C1_phase_gating_fails_closed (E : Engine) (w : World) (args : List JsValue) (op : Op)
    (phases : List ExecutionPhase) (hgate : op.gate = Gate.allow phases)
    (hen : w.epp.mIsEnabled = true) (hph : w.epp.mCurrentPhase ∉ phases) :
    op.call E w args =
      some ⟨w, Outcome.thrown (ScriptError.policy
        ("Execution of this function is only allowed in the following phases: " ++
          Epp.getPhaseNames phases))⟩ := by
  cases op with
  | scene f =>
    cases f <;> simp [Op.gate, SceneOp.gate] at hgate <;> subst hgate <;>
      exact congrArg some (EPP_ALLOW_denied w _ _ hen hph)
  | gameObject f this =>
    cases f <;> simp [Op.gate, GameObjectOp.gate] at hgate <;> subst hgate <;>
      exact congrArg some (EPP_ALLOW_denied w _ _ hen hph)
  | zone f this =>
    cases f <;> simp [Op.gate, ZoneOp.gate] at hgate <;> subst hgate <;>
      exact congrArg some (EPP_ALLOW_denied w _ _ hen hph)
  | ida f =>
    cases f <;> simp [Op.gate, IdaOp.gate] at hgate <;> subst hgate <;>
      exact congrArg some (EPP_ALLOW_denied w _ _ hen hph)

/-- C1 at a concrete input: `addZones(5)` in phase InScene, guard enabled, on the sample
scene: the call throws and the scene keeps its two zones. -/
theorem C1_phase_gating_fails_closed_witness :
    (Op.scene SceneOp.addZones).gate = Gate.allow [ExecutionPhase.SceneLoad] ∧
    World.sample.epp.mIsEnabled = true ∧
    World.sample.epp.mCurrentPhase ∉ [ExecutionPhase.SceneLoad] ∧
    (Op.scene SceneOp.addZones).call Engine.stub World.sample [JsValue.int 5] =
      some ⟨World.sample, Outcome.thrown (ScriptError.policy
        ("Execution of this function is only allowed in the following phases: " ++
          Epp.getPhaseNames [ExecutionPhase.SceneLoad]))⟩ :=
  ⟨rfl, rfl, by decide,
   C1_phase_gating_fails_closed Engine.stub World.sample [JsValue.int 5]
     (Op.scene SceneOp.addZones) [ExecutionPhase.SceneLoad] rfl rfl (by decide)⟩

/-! ## All-or-nothing assembly -/

theorem VALIDATE_world {α : Type} (w : World) (v : Option α) (k : α → Ret)
    (hk : ∀ a, v = some a → (k a).world = w ∧ ∃ e, (k a).outcome = Outcome.thrown e) :
    (VALIDATE w v k).world = w ∧ ∃ e, (VALIDATE w v k).outcome = Outcome.thrown e := by
  cases v with
  | none => exact ⟨rfl, _, rfl⟩
  | some a => exact hk a rfl

theorem gate_world (w : World) (phases : List ExecutionPhase) (args : List JsValue) (n : Nat)
    (k : Ret) (hk : (k.world = w ∧ ∃ e, k.outcome = Outcome.thrown e)) :
    (EPP_ALLOW w phases (VALIDATE_ARGS_COUNT w args n k)).world = w ∧
    ∃ e, (EPP_ALLOW w phases (VALIDATE_ARGS_COUNT w args n k)).outcome = Outcome.thrown e := by
  unfold EPP_ALLOW VALIDATE_ARGS_COUNT
  split_ifs
  · exact ⟨rfl, _, rfl⟩
  · exact ⟨rfl, _, rfl⟩
  · exact hk

theorem validateU8_int (a : JsValue) (max v : Int) (h : validateU8 a max = some v) :
    a = JsValue.int v := by
  cases a <;> simp [validateU8, validateValue] at h
  exact congrArg _ h.2

theorem validateIntValue_int (a : JsValue) (lo : Int) (hi : Option Int) (v : Int)
    (h : validateIntValue a lo hi = some v) : a = JsValue.int v := by
  cases a <;> simp [validateIntValue, validateValue] at h
  exact congrArg _ h.2

/-- C4. A rejected assembler call changes nothing. At the assembler: a call is rejected
exactly when its opcode is in no family of the table or its arguments do not fill the
family's slots (too few, out of range, empty required string); then the bridge (the life
buffer and every move buffer) is what it was, the result flag is false and an error is
thrown; `TM_LOOP`, `TM_GOTO` and `TM_LABEL` are in no move family. At the script functions:
when the assembler rejects the opcode and arguments of a `life`, `lifef` or `_move` call
(for `_move`, with no saved bytes restorable for that opcode), the world after the call is
the world before it, so no buffer changed and nothing was dispatched to the game, and (for
`_move`, when no move command is active) the call ends in a thrown error. -/
theorem C4_all_or_nothing_assembly (E : Engine) (w : World) (args : List JsValue)
    (objectIndex opcode : Int) :
    (∀ (b : IdaBridge) (id op : Nat),
      ((inscope_loadLifeOperation b args op).result = false ↔
        ∀ shape, lifeShape b.getFirstPcxId args op = some shape →
          acceptsAt shape.slots args 2 = false) ∧
      ((inscope_loadLifeFunction b args op).result = false ↔
        ∀ shape, lifeFunctionShape op = some shape → acceptsAt shape.slots args 2 = false) ∧
      ((inscope_loadMoveOperation b args id op).result = false ↔
        ∀ shape, moveShape op = some shape → acceptsAt shape.slots args 3 = false) ∧
      ((inscope_loadLifeOperation b args op).result = false →
        (inscope_loadLifeOperation b args op).bridge = b ∧
        (inscope_loadLifeOperation b args op).thrown.isSome = true) ∧
      ((inscope_loadLifeFunction b args op).result = false →
        (inscope_loadLifeFunction b args op).bridge = b ∧
        (inscope_loadLifeFunction b args op).thrown.isSome = true) ∧
      ((inscope_loadMoveOperation b args id op).result = false →
        (inscope_loadMoveOperation b args id op).bridge = b ∧
        (inscope_loadMoveOperation b args id op).thrown.isSome = true)) ∧
    (moveShape TM_LOOP = none ∧ moveShape TM_GOTO = none ∧ moveShape TM_LABEL = none) ∧
    (argAt args 1 = JsValue.int opcode →
      (inscope_loadLifeOperation w.bridge args opcode.toNat).result = false →
      (IdaTemplate.life E w args).world = w ∧
      (IdaTemplate.life E w args).world.dispatched = w.dispatched ∧
      ∃ e, (IdaTemplate.life E w args).outcome = Outcome.thrown e) ∧
    (argAt args 1 = JsValue.int opcode →
      (inscope_loadLifeFunction w.bridge args opcode.toNat).result = false →
      (IdaTemplate.lifef E w args).world = w ∧
      (IdaTemplate.lifef E w args).world.dispatched = w.dispatched ∧
      ∃ e, (IdaTemplate.lifef E w args).outcome = Outcome.thrown e) ∧
    (argAt args 0 = JsValue.int objectIndex → argAt args 2 = JsValue.int opcode →
      (∀ saved, argAt args 1 = JsValue.intArray saved →
        (saved.map fun x => (x % 256).toNat).head? ≠ some opcode.toNat) →
      (inscope_loadMoveOperation w.bridge args objectIndex.toNat opcode.toNat).result = false →
      (IdaTemplate._move E w args).world = w ∧
      (IdaTemplate._move E w args).world.dispatched = w.dispatched ∧
      (w.lba.isMoveCommandActive objectIndex.toNat = false →
        ∃ e, (IdaTemplate._move E w args).outcome = Outcome.thrown e)) := by
  have hL : ∀ (b : IdaBridge) (op : Nat),
      (inscope_loadLifeOperation b args op).result = false →
      (∀ shape, lifeShape b.getFirstPcxId args op = some shape →
          acceptsAt shape.slots args 2 = false) := by
    intro b op h shape hs
    rw [lifeLoad_result_iff b args op shape hs] at h
    exact h
  have hF : ∀ (b : IdaBridge) (op : Nat),
      (inscope_loadLifeFunction b args op).result = false →
      (∀ shape, lifeFunctionShape op = some shape → acceptsAt shape.slots args 2 = false) := by
    intro b op h shape hs
    rw [lifeFunctionLoad_result_iff b args op shape hs] at h
    exact h
  have hM : ∀ (b : IdaBridge) (id op : Nat),
      (inscope_loadMoveOperation b args id op).result = false →
      (∀ shape, moveShape op = some shape → acceptsAt shape.slots args 3 = false) := by
    intro b id op h shape hs
    rw [moveLoad_result_iff b args id op shape hs] at h
    exact h
  refine ⟨?_, ⟨by decide, by decide, by decide⟩, ?_, ?_, ?_⟩
  · intro b id op
    refine ⟨⟨hL b op, fun h => (lifeLoad_reject b args op h).2.1⟩,
      ⟨hF b op, fun h => (lifeFunctionLoad_reject b args op h).2.1⟩,
      ⟨hM b id op, fun h => (moveLoad_reject b args id op h).2.1⟩, ?_, ?_, ?_⟩
    · intro h
      have := lifeLoad_reject b args op (hL b op h)
      exact ⟨this.1, this.2.2⟩
    · intro h
      have := lifeFunctionLoad_reject b args op (hF b op h)
      exact ⟨this.1, this.2.2⟩
    · intro h
      have := moveLoad_reject b args id op (hM b id op h)
      exact ⟨this.1, this.2.2⟩
  · intro hop hrej
    have key : (IdaTemplate.life E w args).world = w ∧
        ∃ e, (IdaTemplate.life E w args).outcome = Outcome.thrown e := by
      unfold IdaTemplate.life
      apply gate_world
      apply VALIDATE_world
      intro oi _
      apply VALIDATE_world
      intro oc hoc
      have hoc' := validateU8_int _ _ _ hoc
      rw [hop] at hoc'
      cases hoc'
      have hr := lifeLoad_reject w.bridge args opcode.toNat (hL _ _ hrej)
      obtain ⟨e, he⟩ := Option.isSome_iff_exists.mp hr.2.2
      simp only [hr.1, hr.2.1, he, Bool.not_false, if_true]
      exact ⟨trivial, e, rfl⟩
    exact ⟨key.1, by rw [key.1], key.2⟩
  · intro hop hrej
    have key : (IdaTemplate.lifef E w args).world = w ∧
        ∃ e, (IdaTemplate.lifef E w args).outcome = Outcome.thrown e := by
      unfold IdaTemplate.lifef
      apply gate_world
      apply VALIDATE_world
      intro oi _
      apply VALIDATE_world
      intro oc hoc
      have hoc' := validateU8_int _ _ _ hoc
      rw [hop] at hoc'
      cases hoc'
      have hr := lifeFunctionLoad_reject w.bridge args opcode.toNat (hF _ _ hrej)
      obtain ⟨e, he⟩ := Option.isSome_iff_exists.mp hr.2.2
      simp only [hr.1, hr.2.1, he, Bool.not_false, if_true]
      exact ⟨trivial, e, rfl⟩
    exact ⟨key.1, by rw [key.1], key.2⟩
  · intro hoi hop hsaved hrej
    have hr := moveLoad_reject w.bridge args objectIndex.toNat opcode.toNat (hM _ _ _ hrej)
    obtain ⟨e, he⟩ := Option.isSome_iff_exists.mp hr.2.2
    have key : (IdaTemplate._move E w args).world = w ∧
        (w.lba.isMoveCommandActive objectIndex.toNat = false →
          ∃ e, (IdaTemplate._move E w args).outcome = Outcome.thrown e) := by
      unfold IdaTemplate._move EPP_ALLOW VALIDATE_ARGS_COUNT
      split_ifs
      · exact ⟨rfl, fun _ => ⟨_, rfl⟩⟩
      · exact ⟨rfl, fun _ => ⟨_, rfl⟩⟩
      · cases hv0 : validateIntValue (argAt args 0) 0 (some (w.lba.getNumObjects - 1)) with
        | none => exact ⟨rfl, fun _ => ⟨_, rfl⟩⟩
        | some oi =>
          have hoi' := validateIntValue_int _ _ _ _ hv0
          rw [hoi] at hoi'
          cases hoi'
          simp only [VALIDATE]
          cases hact : w.lba.isMoveCommandActive objectIndex.toNat with
          | true => simp [Ret.done]
          | false =>
            simp only [Bool.false_eq_true, if_false]
            cases hv1 : validateArray V8Type.Uint32 (argAt args 1) 0 with
            | none => exact ⟨rfl, fun _ => ⟨_, rfl⟩⟩
            | some saved =>
              simp only []
              cases hv2 : validateU8 (argAt args 2) 255 with
              | none => exact ⟨rfl, fun _ => ⟨_, rfl⟩⟩
              | some oc =>
                have hoc' := validateU8_int _ _ _ hv2
                rw [hop] at hoc'
                cases hoc'
                have hsv : argAt args 1 = JsValue.intArray saved := by
                  revert hv1
                  cases argAt args 1 <;> simp [validateArray]
                have hne := hsaved saved hsv
                have hrest : (if (List.map (fun x => (x % 256).toNat) saved).length > 0 then
                    loadSavedMoveOperation w.bridge objectIndex.toNat
                      (List.map (fun x => (x % 256).toNat) saved) opcode.toNat
                    else (w.bridge, false)) = (w.bridge, false) := by
                  split_ifs
                  · unfold loadSavedMoveOperation
                    rw [if_pos (fun h => hne h.symm)]
                  · rfl
                simp only [hrest, hr.1, hr.2.1, he, Bool.not_false, if_true]
                exact ⟨trivial, fun _ => ⟨e, rfl⟩⟩
    exact ⟨key.1, by rw [key.1], key.2⟩

/-- C4 at concrete inputs, in phase Life resp. Move on the sample scene: `life(0, LM_BODY,
256)` and `_move(0, [], TM_LOOP)` are rejected; the life buffer still holds `[38, 11]`, the
move buffer of entity 0 its seven bytes, and nothing was dispatched. -/
theorem C4_all_or_nothing_assembly_witness :
    ((IdaTemplate.life Engine.stub
        { World.sample with epp := ⟨ExecutionPhase.Life, false, true⟩ }
        [JsValue.int 0, JsValue.int 17, JsValue.int 256]).world.dispatched = [] ∧
      (IdaTemplate.life Engine.stub
        { World.sample with epp := ⟨ExecutionPhase.Life, false, true⟩ }
        [JsValue.int 0, JsValue.int 17, JsValue.int 256]).world.bridge.mLifeScript
        = [38, 11]) ∧
    ((IdaTemplate._move Engine.stub
        { World.sample with epp := ⟨ExecutionPhase.Move, false, true⟩ }
        [JsValue.int 0, JsValue.intArray [], JsValue.int 6]).world.dispatched = [] ∧
      (IdaTemplate._move Engine.stub
        { World.sample with epp := ⟨ExecutionPhase.Move, false, true⟩ }
        [JsValue.int 0, JsValue.intArray [], JsValue.int 6]).world.bridge.getMoveScript 0
        = [18, 5, 0, 0, 0, 0, 0]) :=
  ⟨⟨((C4_all_or_nothing_assembly Engine.stub
        { World.sample with epp := ⟨ExecutionPhase.Life, false, true⟩ }
        [JsValue.int 0, JsValue.int 17, JsValue.int 256] 0 17).2.2.1 rfl (by decide)).2.1,
     by rw [((C4_all_or_nothing_assembly Engine.stub
        { World.sample with epp := ⟨ExecutionPhase.Life, false, true⟩ }
        [JsValue.int 0, JsValue.int 17, JsValue.int 256] 0 17).2.2.1 rfl (by decide)).1]; rfl⟩,
   ⟨((C4_all_or_nothing_assembly Engine.stub
        { World.sample with epp := ⟨ExecutionPhase.Move, false, true⟩ }
        [JsValue.int 0, JsValue.intArray [], JsValue.int 6] 0 6).2.2.2.2 rfl rfl
        (by intro saved h; cases h; decide) (by decide)).2.1,
     by rw [((C4_all_or_nothing_assembly Engine.stub
        { World.sample with epp := ⟨ExecutionPhase.Move, false, true⟩ }
        [JsValue.int 0, JsValue.intArray [], JsValue.int 6] 0 6).2.2.2.2 rfl rfl
        (by intro saved h; cases h; decide) (by decide)).1]; rfl⟩⟩

/-! ## The continuation handed back by `_cmove` -/

theorem inPlace_length (old written : Bytes) : (inPlace old written).length = old.length := by
  simp [inPlace]
  omega

theorem isPersistentMoveOperation_iff (opcode : Nat) :
    isPersistentMoveOperation opcode = true ↔
      opcode ∈ [TM_ANGLE, TM_FACE_TWINSEN, TM_WAIT_NB_ANIM, TM_WAIT_NB_DIZIEME,
        TM_WAIT_NB_SECOND, TM_ANGLE_RND, TM_WAIT_NB_DIZIEME_RND, TM_WAIT_NB_SECOND_RND,
        TM_LOOP] := by
  simp [isPersistentMoveOperation, or_assoc]

/-- C10. In phase Move (or with the guard disabled), for an object index in range whose move
command is active and whose buffer, after the game's continuation step, is `first :: rest`:
`_cmove` returns a copy of that whole buffer (every byte, as the game left it) if `first` is
one of `TM_ANGLE` (7), `TM_FACE_TWINSEN` (33), `TM_WAIT_NB_ANIM` (13), `TM_WAIT_NB_DIZIEME`
(36), `TM_WAIT_NB_SECOND` (18), `TM_ANGLE_RND` (34), `TM_WAIT_NB_DIZIEME_RND` (49),
`TM_WAIT_NB_SECOND_RND` (39) or `TM_LOOP` (6), and returns nothing (its return value is left
undefined) for every other first byte. -/
theorem C10_cmove_returns_persistent_continuation (E : Engine) (w : World)
    (args : List JsValue) (objectIndex : Int) (first : Nat) (rest : Bytes)
    (hgate : w.epp.isExecutionAllowed [ExecutionPhase.Move] = true)
    (harg : argAt args 0 = JsValue.int objectIndex)
    (hrange : 0 ≤ objectIndex ∧ objectIndex ≤ w.lba.getNumObjects - 1)
    (hint : -2147483648 ≤ objectIndex ∧ objectIndex ≤ 2147483647)
    (hactive : w.lba.isMoveCommandActive objectIndex.toNat = true)
    (hbuf : (IdaLbaBridge.continueMoveCommand E w objectIndex.toNat).bridge.getMoveScript
      objectIndex.toNat = first :: rest) :
    (first ∈ [7, 33, 13, 36, 18, 34, 49, 39, 6] →
      (IdaTemplate._cmove E w args).outcome =
        Outcome.returned (JsValue.intArray ((first :: rest).map Int.ofNat))) ∧
    (first ∉ [7, 33, 13, 36, 18, 34, 49, 39, 6] →
      (IdaTemplate._cmove E w args).outcome = Outcome.returned JsValue.undefined) ∧
    (IdaTemplate._cmove E w args).world = IdaLbaBridge.continueMoveCommand E w objectIndex.toNat ∧
    ((IdaTemplate._cmove E w args).world.bridge.getMoveScript objectIndex.toNat).length =
      (w.bridge.getMoveScript objectIndex.toNat).length := by
  have hlen : args.length ≥ 1 := by
    cases args with
    | nil => simp [argAt] at harg
    | cons a t => simp
  have hv : validateIntValue (argAt args 0) 0 (some (w.lba.getNumObjects - 1)) =
      some objectIndex := by
    rw [harg]
    simp [validateIntValue, validateValue, V8Type.holds, hrange.1, hrange.2, hint.1, hint.2]
  have hsize : (w.bridge.getMoveScript objectIndex.toNat).length = (first :: rest).length := by
    rw [← hbuf]
    simp [IdaLbaBridge.continueMoveCommand, IdaBridge.getMoveScript, inPlace_length]
  have hcm : IdaTemplate._cmove E w args =
      if isPersistentMoveOperation first then
        Ret.value (IdaLbaBridge.continueMoveCommand E w objectIndex.toNat)
          (JsValue.intArray ((first :: rest).map Int.ofNat))
      else Ret.done (IdaLbaBridge.continueMoveCommand E w objectIndex.toNat) := by
    unfold IdaTemplate._cmove
    rw [EPP_ALLOW_passed _ _ _ hgate]
    have hc : validateArgsCount args 1 = true := by simp [validateArgsCount, hlen]
    simp only [VALIDATE_ARGS_COUNT, hc, Bool.not_true, Bool.false_eq_true, if_false, hv,
      VALIDATE, hactive, hbuf, List.head?_cons, hsize]
    simp
  have hp := isPersistentMoveOperation_iff first
  refine ⟨?_, ?_, ?_, ?_⟩
  · intro h
    rw [hcm, if_pos (hp.mpr h)]
    rfl
  · intro h
    have : isPersistentMoveOperation first = false := by
      cases hb : isPersistentMoveOperation first with
      | false => rfl
      | true => exact absurd (hp.mp hb) h
    rw [hcm, this]
    rfl
  · rw [hcm]
    split_ifs <;> rfl
  · have hw : (IdaTemplate._cmove E w args).world =
        IdaLbaBridge.continueMoveCommand E w objectIndex.toNat := by
      rw [hcm]
      split_ifs <;> rfl
    rw [hw, hbuf, hsize]

/-- C10 at concrete inputs, in phase Move on the sample scene with object 1 running a
`TM_WAIT_NB_SECOND` (18): `_cmove(1)` returns the seven bytes; with a `TM_BODY` (2) in the
buffer it returns nothing. -/
theorem C10_cmove_returns_persistent_continuation_witness :
    (IdaTemplate._cmove Engine.stub
      { World.sample with epp := ⟨ExecutionPhase.Move, false, true⟩ }
      [JsValue.int 1]).outcome =
        Outcome.returned (JsValue.intArray [18, 5, 0, 0, 0, 0, 0]) ∧
    (IdaTemplate._cmove Engine.stub
      { World.sample with
          epp := ⟨ExecutionPhase.Move, false, true⟩,
          bridge := { World.sample.bridge with mMoveScripts := fun _ => [2, 4, 0] } }
      [JsValue.int 1]).outcome = Outcome.returned JsValue.undefined :=
  ⟨(C10_cmove_returns_persistent_continuation Engine.stub
      { World.sample with epp := ⟨ExecutionPhase.Move, false, true⟩ }
      [JsValue.int 1] 1 18 [5, 0, 0, 0, 0, 0] rfl rfl (by decide) (by decide) (by decide)
      rfl).1 (by decide),
   (C10_cmove_returns_persistent_continuation Engine.stub
      { World.sample with
          epp := ⟨ExecutionPhase.Move, false, true⟩,
          bridge := { World.sample.bridge with mMoveScripts := fun _ => [2, 4, 0] } }
      [JsValue.int 1] 1 2 [4, 0] rfl rfl (by decide) (by decide) (by decide)
      rfl).2.1 (by decide)⟩

/-! ## Buffer isolation -/

/-- C11. Buffers are never shared. For two distinct entity ids `a` and `c`, each of
`prepareMoveScript`, `pushMoveArgument` (scalar and string), `finalizeMoveScript` and
`loadMoveScript` applied to `a` leaves the move buffer of `c` byte-identical and leaves the
shared life buffer unchanged; each life-buffer operation (`prepareLifeScript`,
`prepareLifeFunction`, `pushArgument` scalar and string, `finalizeLifeScript`) leaves every
move buffer unchanged. -/
theorem C11_buffers_never_shared (b : IdaBridge) (a c : Nat) (hne : a ≠ c)
    (opcode size sizeofT length : Nat) (value : Int) (s code : Bytes) :
    ((b.prepareMoveScript a opcode size).getMoveScript c = b.getMoveScript c ∧
      (b.prepareMoveScript a opcode size).getLifeScript = b.getLifeScript) ∧
    ((b.pushMoveArgument a sizeofT value).getMoveScript c = b.getMoveScript c ∧
      (b.pushMoveArgument a sizeofT value).getLifeScript = b.getLifeScript) ∧
    ((b.pushMoveArgumentStr a s).getMoveScript c = b.getMoveScript c ∧
      (b.pushMoveArgumentStr a s).getLifeScript = b.getLifeScript) ∧
    ((b.finalizeMoveScript a).getMoveScript c = b.getMoveScript c ∧
      (b.finalizeMoveScript a).getLifeScript = b.getLifeScript) ∧
    ((b.loadMoveScript a length code).getMoveScript c = b.getMoveScript c ∧
      (b.loadMoveScript a length code).getLifeScript = b.getLifeScript) ∧
    (∀ id, (b.prepareLifeScript opcode size).getMoveScript id = b.getMoveScript id) ∧
    (∀ id, (b.prepareLifeFunction opcode size).getMoveScript id = b.getMoveScript id) ∧
    (∀ id, (b.pushArgument sizeofT value).getMoveScript id = b.getMoveScript id) ∧
    (∀ id, (b.pushArgumentStr s).getMoveScript id = b.getMoveScript id) ∧
    (∀ id, b.finalizeLifeScript.getMoveScript id = b.getMoveScript id) := by
  have h : ¬ c = a := fun e => hne e.symm
  simp [IdaBridge.prepareMoveScript, IdaBridge.pushMoveArgument, IdaBridge.pushMoveArgumentStr,
    IdaBridge.finalizeMoveScript, IdaBridge.loadMoveScript, IdaBridge.prepareLifeScript,
    IdaBridge.prepareLifeFunction, IdaBridge.pushArgument, IdaBridge.pushArgumentStr,
    IdaBridge.finalizeLifeScript, IdaBridge.setMoveScript, IdaBridge.getMoveScript,
    IdaBridge.getLifeScript, h]

theorem C11_buffers_never_shared_witness :
    (0 : Nat) ≠ 1 ∧
    ((World.sample.bridge.pushMoveArgument 0 2 (-2)).getMoveScript 0 =
        [18, 5, 0, 0, 0, 0, 0, 254, 255] ∧
      (World.sample.bridge.pushMoveArgument 0 2 (-2)).getMoveScript 1 =
        World.sample.bridge.getMoveScript 1 ∧
      (World.sample.bridge.pushMoveArgument 0 2 (-2)).getLifeScript =
        World.sample.bridge.getLifeScript) := by
  have h := C11_buffers_never_shared World.sample.bridge 0 1 (by decide) 18 1 2 3 (-2) [65] [1]
  exact ⟨by decide, by decide, h.2.1.1, h.2.1.2⟩

/-! ## Growth of the zone and waypoint arrays -/

theorem resize_spec {α : Type} (zero : α) (mine : List α) (oldSize newSize : Nat)
    (ptr : Option (List α)) (old : List α)
    (hold : old = (match ptr with | some data => data | none => mine))
    (hlen : oldSize ≤ old.length) (hgrow : oldSize < newSize) :
    let resized := IdaBridge.vectorResize zero mine newSize
    let copied := (match ptr with
      | some data => if oldSize > 0 then data.take oldSize ++ resized.drop oldSize else resized
      | none => resized)
    let final := copied.take oldSize ++ List.replicate (copied.length - oldSize) zero
    final = old.take oldSize ++ List.replicate (newSize - oldSize) zero := by
  intro resized copied final
  have hres : resized.length = newSize := by
    simp only [resized, IdaBridge.vectorResize, List.length_append, List.length_take,
      List.length_replicate]
    omega
  have hcl : copied.length = newSize := by
    cases ptr with
    | none => exact hres
    | some data =>
      simp only [copied]
      split_ifs with h0
      · subst hold
        simp only [List.length_append, List.length_take, List.length_drop, hres]
        omega
      · exact hres
  have hct : copied.take oldSize = old.take oldSize := by
    cases ptr with
    | none =>
      subst hold
      simp only [copied, resized, IdaBridge.vectorResize]
      rw [List.take_append_of_le_length (by simp only [List.length_take]; omega)]
      rw [List.take_take]
      congr 1
      omega
    | some data =>
      subst hold
      simp only [copied]
      split_ifs with h0
      · rw [List.take_append_of_le_length (by simp only [List.length_take]; omega)]
        rw [List.take_take]
        simp
      · have : oldSize = 0 := by omega
        subst this
        simp
  simp only [final, hct, hcl]

theorem resizeZones_game (b : IdaBridge) (oldSize newSize : Nat) (data : List T_ZONE)
    (hlen : oldSize ≤ data.length) (hgrow : oldSize < newSize) :
    (b.resizeZones oldSize newSize (ArrayPtr.game data)).mZones =
      data.take oldSize ++ List.replicate (newSize - oldSize) T_ZONE.zero := by
  have h := resize_spec T_ZONE.zero b.mZones oldSize newSize (some data) data rfl hlen hgrow
  simpa [IdaBridge.resizeZones] using h

theorem resizeZones_ida (b : IdaBridge) (oldSize newSize : Nat)
    (hlen : oldSize ≤ b.mZones.length) (hgrow : oldSize < newSize) :
    (b.resizeZones oldSize newSize ArrayPtr.ida).mZones =
      b.mZones.take oldSize ++ List.replicate (newSize - oldSize) T_ZONE.zero := by
  have h := resize_spec T_ZONE.zero b.mZones oldSize newSize none b.mZones rfl hlen hgrow
  simpa [IdaBridge.resizeZones] using h

theorem resizeWaypoints_game (b : IdaBridge) (oldSize newSize : Nat) (data : List T_TRACK)
    (hlen : oldSize ≤ data.length) (hgrow : oldSize < newSize) :
    (b.resizeWaypoints oldSize newSize (ArrayPtr.game data)).mWaypoints =
      data.take oldSize ++ List.replicate (newSize - oldSize) T_TRACK.zero := by
  have h := resize_spec T_TRACK.zero b.mWaypoints oldSize newSize (some data) data rfl hlen hgrow
  simpa [IdaBridge.resizeWaypoints] using h

theorem resizeWaypoints_ida (b : IdaBridge) (oldSize newSize : Nat)
    (hlen : oldSize ≤ b.mWaypoints.length) (hgrow : oldSize < newSize) :
    (b.resizeWaypoints oldSize newSize ArrayPtr.ida).mWaypoints =
      b.mWaypoints.take oldSize ++ List.replicate (newSize - oldSize) T_TRACK.zero := by
  have h := resize_spec T_TRACK.zero b.mWaypoints oldSize newSize none b.mWaypoints rfl hlen hgrow
  simpa [IdaBridge.resizeWaypoints] using h

/-- C13. Growth preserves and zero-fills. For an old array of `oldSize` entries and every
`newSize > oldSize`, the array `resizeZones` returns (the bridge's vector) is the old
entries followed by `newSize - oldSize` zones with every field zero, so it has exactly
`newSize` entries; this holds when the old array is the game's own (`game data`) and when it
is the bridge's vector left by an earlier growth (`ida`); two successive growths, the second
on the bridge's vector, keep the old entries and the zones added by the first. The same holds
of `resizeWaypoints`. -/
theorem C13_growth_preserves_and_zero_fills (b : IdaBridge) (oldSize newSize newSize2 : Nat)
    (hgrow : oldSize < newSize) (hgrow2 : newSize < newSize2) :
    (∀ data : List T_ZONE, data.length = oldSize →
      (b.resizeZones oldSize newSize (ArrayPtr.game data)).mZones =
        data ++ List.replicate (newSize - oldSize) T_ZONE.zero ∧
      (b.resizeZones oldSize newSize (ArrayPtr.game data)).mZones.length = newSize ∧
      ((b.resizeZones oldSize newSize (ArrayPtr.game data)).resizeZones newSize newSize2
          ArrayPtr.ida).mZones =
        (data ++ List.replicate (newSize - oldSize) T_ZONE.zero) ++
          List.replicate (newSize2 - newSize) T_ZONE.zero) ∧
    (b.mZones.length = oldSize →
      (b.resizeZones oldSize newSize ArrayPtr.ida).mZones =
        b.mZones ++ List.replicate (newSize - oldSize) T_ZONE.zero ∧
      (b.resizeZones oldSize newSize ArrayPtr.ida).mZones.length = newSize) ∧
    (∀ data : List T_TRACK, data.length = oldSize →
      (b.resizeWaypoints oldSize newSize (ArrayPtr.game data)).mWaypoints =
        data ++ List.replicate (newSize - oldSize) T_TRACK.zero ∧
      (b.resizeWaypoints oldSize newSize (ArrayPtr.game data)).mWaypoints.length = newSize ∧
      ((b.resizeWaypoints oldSize newSize (ArrayPtr.game data)).resizeWaypoints newSize newSize2
          ArrayPtr.ida).mWaypoints =
        (data ++ List.replicate (newSize - oldSize) T_TRACK.zero) ++
          List.replicate (newSize2 - newSize) T_TRACK.zero) ∧
    (b.mWaypoints.length = oldSize →
      (b.resizeWaypoints oldSize newSize ArrayPtr.ida).mWaypoints =
        b.mWaypoints ++ List.replicate (newSize - oldSize) T_TRACK.zero ∧
      (b.resizeWaypoints oldSize newSize ArrayPtr.ida).mWaypoints.length = newSize) ∧
    T_ZONE.zero = ⟨0, 0, 0, 0, 0, 0, 0, 0, 0, 0, 0, 0, 0, 0, 0, 0⟩ ∧
    T_TRACK.zero = ⟨0, 0, 0⟩ := by
  refine ⟨?_, ?_, ?_, ?_, rfl, rfl⟩
  · intro data hd
    have h1 := resizeZones_game b oldSize newSize data (by omega) hgrow
    rw [← hd, List.take_length] at h1
    rw [← hd] at hgrow
    have hl : (b.resizeZones data.length newSize (ArrayPtr.game data)).mZones.length =
        newSize := by
      rw [h1]; simp only [List.length_append, List.length_replicate]; omega
    subst hd
    refine ⟨h1, hl, ?_⟩
    rw [resizeZones_ida _ newSize newSize2 (by omega) hgrow2, h1]
    rw [List.take_of_length_le
      (by simp only [List.length_append, List.length_replicate]; omega)]
  · intro hd
    have h1 := resizeZones_ida b oldSize newSize (by omega) hgrow
    rw [← hd, List.take_length] at h1
    subst hd
    refine ⟨h1, ?_⟩
    rw [h1]; simp only [List.length_append, List.length_replicate]; omega
  · intro data hd
    have h1 := resizeWaypoints_game b oldSize newSize data (by omega) hgrow
    rw [← hd, List.take_length] at h1
    rw [← hd] at hgrow
    have hl : (b.resizeWaypoints data.length newSize (ArrayPtr.game data)).mWaypoints.length =
        newSize := by
      rw [h1]; simp only [List.length_append, List.length_replicate]; omega
    subst hd
    refine ⟨h1, hl, ?_⟩
    rw [resizeWaypoints_ida _ newSize newSize2 (by omega) hgrow2, h1]
    rw [List.take_of_length_le
      (by simp only [List.length_append, List.length_replicate]; omega)]
  · intro hd
    have h1 := resizeWaypoints_ida b oldSize newSize (by omega) hgrow
    rw [← hd, List.take_length] at h1
    subst hd
    refine ⟨h1, ?_⟩
    rw [h1]; simp only [List.length_append, List.length_replicate]; omega

theorem C13_growth_preserves_and_zero_fills_witness :
    (World.sample.bridge.resizeZones 2 4 (ArrayPtr.game World.sample.zones)).mZones =
      World.sample.zones ++ [T_ZONE.zero, T_ZONE.zero] ∧
    ((World.sample.bridge.resizeZones 2 4 (ArrayPtr.game World.sample.zones)).resizeZones 4 5
        ArrayPtr.ida).mZones =
      World.sample.zones ++ [T_ZONE.zero, T_ZONE.zero] ++ [T_ZONE.zero] := by
  have h := (C13_growth_preserves_and_zero_fills World.sample.bridge 2 4 5 (by decide)
    (by decide)).1 World.sample.zones (by decide)
  exact ⟨h.1, h.2.2⟩

/-! ## Conditional arity and string arguments -/

theorem needsActor_iff (m : Int) : needsActor m = true ↔ m = 2 ∨ m = 9 ∨ m = 10 := by
  simp [needsActor, or_assoc]

theorem leBytes_one (v : Int) (h : 0 ≤ v ∧ v ≤ 255) : leBytes 1 v = [v.toNat] := by
  have : v % 256 = v := by omega
  simp [leBytes, this]

/-- C19. Conditional arity of the control-mode opcodes. A movement mode requires the trailing
actor exactly when it is 2 (`MOVE_FOLLOW`), 9 (`MOVE_CIRCLE`) or 10 (`MOVE_CIRCLE2`). For
`LM_SET_CONTROL` with mode `m` in `[0, 255]`: when the actor is required and supplied (in
`[0, 255]`) the life buffer is `[LM_SET_CONTROL, m, actor, LM_RETURN]`, and without it the
call is rejected and the bridge is unchanged; for every other `m` the buffer is
`[LM_SET_CONTROL, m, LM_RETURN]`, whatever further arguments are supplied.
`LM_SET_CONTROL_OBJ` behaves the same after one leading object byte. The first two call
arguments (`a0`, `a1`) are not read by the assembler. -/
theorem C19_control_mode_conditional_arity (b : IdaBridge) (a0 a1 : JsValue)
    (obj m actor : Int) (extra : List JsValue)
    (hobj : 0 ≤ obj ∧ obj ≤ 255) (hm : 0 ≤ m ∧ m ≤ 255) (hactor : 0 ≤ actor ∧ actor ≤ 255) :
    (needsActor m = true ↔ m = MOVE_FOLLOW ∨ m = MOVE_CIRCLE ∨ m = MOVE_CIRCLE2) ∧
    (needsActor m = true →
      inscope_loadLifeOperation b (a0 :: a1 :: JsValue.int m :: JsValue.int actor :: extra)
          LM_SET_CONTROL =
        ⟨{ b with mLifeScript := [LM_SET_CONTROL, m.toNat, actor.toNat, LM_RETURN] },
          true, none⟩ ∧
      (inscope_loadLifeOperation b [a0, a1, JsValue.int m] LM_SET_CONTROL).result = false ∧
      (inscope_loadLifeOperation b [a0, a1, JsValue.int m] LM_SET_CONTROL).bridge = b ∧
      inscope_loadLifeOperation b
          (a0 :: a1 :: JsValue.int obj :: JsValue.int m :: JsValue.int actor :: extra)
          LM_SET_CONTROL_OBJ =
        ⟨{ b with mLifeScript :=
            [LM_SET_CONTROL_OBJ, obj.toNat, m.toNat, actor.toNat, LM_RETURN] }, true, none⟩ ∧
      (inscope_loadLifeOperation b [a0, a1, JsValue.int obj, JsValue.int m]
        LM_SET_CONTROL_OBJ).result = false ∧
      (inscope_loadLifeOperation b [a0, a1, JsValue.int obj, JsValue.int m]
        LM_SET_CONTROL_OBJ).bridge = b) ∧
    (needsActor m = false →
      inscope_loadLifeOperation b (a0 :: a1 :: JsValue.int m :: extra) LM_SET_CONTROL =
        ⟨{ b with mLifeScript := [LM_SET_CONTROL, m.toNat, LM_RETURN] }, true, none⟩ ∧
      inscope_loadLifeOperation b (a0 :: a1 :: JsValue.int obj :: JsValue.int m :: extra)
          LM_SET_CONTROL_OBJ =
        ⟨{ b with mLifeScript := [LM_SET_CONTROL_OBJ, obj.toNat, m.toNat, LM_RETURN] },
          true, none⟩) := by
  refine ⟨needsActor_iff m, ?_, ?_⟩
  · intro hn
    refine ⟨?_, ?_, ?_, ?_, ?_, ?_⟩
    · rw [lifeLoad_accept b _ LM_SET_CONTROL ⟨[.u8 255, .u8 255], []⟩
        (by simp [lifeShape, lifeOpsU8, modeNeedsActor, argAt, hn])
        (by simp [acceptsAt, argAt, Slot.ok, hm, hactor])]
      simp [encodeAt, argAt, Slot.encode, leBytes_one, hm, hactor]
    · exact (lifeLoad_reject b _ LM_SET_CONTROL (by
        intro sh hsh
        simp [lifeShape, lifeOpsU8, modeNeedsActor, argAt, hn] at hsh
        subst hsh
        simp [acceptsAt, argAt, Slot.ok, hm])).2.1
    · exact (lifeLoad_reject b _ LM_SET_CONTROL (by
        intro sh hsh
        simp [lifeShape, lifeOpsU8, modeNeedsActor, argAt, hn] at hsh
        subst hsh
        simp [acceptsAt, argAt, Slot.ok, hm])).1
    · rw [lifeLoad_accept b _ LM_SET_CONTROL_OBJ ⟨[.u8 255, .u8 255, .u8 255], []⟩
        (by simp [lifeShape, lifeOpsU8, modeNeedsActor, argAt, hn])
        (by simp [acceptsAt, argAt, Slot.ok, hm, hactor, hobj])]
      simp [encodeAt, argAt, Slot.encode, leBytes_one, hm, hactor, hobj]
    · exact (lifeLoad_reject b _ LM_SET_CONTROL_OBJ (by
        intro sh hsh
        simp [lifeShape, lifeOpsU8, modeNeedsActor, argAt, hn] at hsh
        subst hsh
        simp [acceptsAt, argAt, Slot.ok, hm])).2.1
    · exact (lifeLoad_reject b _ LM_SET_CONTROL_OBJ (by
        intro sh hsh
        simp [lifeShape, lifeOpsU8, modeNeedsActor, argAt, hn] at hsh
        subst hsh
        simp [acceptsAt, argAt, Slot.ok, hm])).1
  · intro hn
    refine ⟨?_, ?_⟩
    · rw [lifeLoad_accept b _ LM_SET_CONTROL ⟨[.u8 255], []⟩
        (by simp [lifeShape, lifeOpsU8, modeNeedsActor, argAt, hn])
        (by simp [acceptsAt, argAt, Slot.ok, hm])]
      simp [encodeAt, argAt, Slot.encode, leBytes_one, hm]
    · rw [lifeLoad_accept b _ LM_SET_CONTROL_OBJ ⟨[.u8 255, .u8 255], []⟩
        (by simp [lifeShape, lifeOpsU8, modeNeedsActor, argAt, hn])
        (by simp [acceptsAt, argAt, Slot.ok, hm, hobj])]
      simp [encodeAt, argAt, Slot.encode, leBytes_one, hm, hobj]

theorem C19_control_mode_conditional_arity_witness :
    inscope_loadLifeOperation World.sample.bridge
        [JsValue.int 0, JsValue.int 27, JsValue.int 9, JsValue.int 3] LM_SET_CONTROL =
      ⟨{ World.sample.bridge with mLifeScript := [27, 9, 3, 11] }, true, none⟩ ∧
    inscope_loadLifeOperation World.sample.bridge
        [JsValue.int 0, JsValue.int 27, JsValue.int 1, JsValue.int 3] LM_SET_CONTROL =
      ⟨{ World.sample.bridge with mLifeScript := [27, 1, 11] }, true, none⟩ :=
  ⟨((C19_control_mode_conditional_arity World.sample.bridge (JsValue.int 0) (JsValue.int 27)
      0 9 3 [] (by decide) (by decide) (by decide)).2.1 (by decide)).1,
   ((C19_control_mode_conditional_arity World.sample.bridge (JsValue.int 0) (JsValue.int 27)
      0 1 3 [JsValue.int 3] (by decide) (by decide) (by decide)).2.2 (by decide)).1⟩

/-- C20. String argument encoding. For `TM_PLAY_ACF` and `LM_PLAY_ACF` with a non-empty
string `s`, the assembled buffer is the opcode, the bytes of `s`, one null byte, and the
terminator (`TM_END` for a move, `LM_RETURN` for a life operation): `s.length + 3` bytes, the
string occupying `s.length + 1` of them, with no length byte; an empty string is rejected and
the bridge is unchanged. The arguments before the string (three for a move, two for a life
operation) are not read by the assembler. -/
theorem C20_string_argument_encoding (b : IdaBridge) (a0 a1 a2 : JsValue) (id : Nat)
    (s : Bytes) (extra : List JsValue) :
    (s ≠ [] →
      inscope_loadMoveOperation b (a0 :: a1 :: a2 :: JsValue.string s :: extra) id TM_PLAY_ACF =
        ⟨b.setMoveScript id ([TM_PLAY_ACF] ++ s ++ [0] ++ [TM_END]), true, none⟩ ∧
      ((inscope_loadMoveOperation b (a0 :: a1 :: a2 :: JsValue.string s :: extra) id
        TM_PLAY_ACF).bridge.getMoveScript id).length = s.length + 3 ∧
      inscope_loadLifeOperation b (a0 :: a1 :: JsValue.string s :: extra) LM_PLAY_ACF =
        ⟨{ b with mLifeScript := [LM_PLAY_ACF] ++ s ++ [0] ++ [LM_RETURN] }, true, none⟩ ∧
      (inscope_loadLifeOperation b (a0 :: a1 :: JsValue.string s :: extra)
        LM_PLAY_ACF).bridge.getLifeScript.length = s.length + 3) ∧
    ((inscope_loadMoveOperation b (a0 :: a1 :: a2 :: JsValue.string [] :: extra) id
        TM_PLAY_ACF).result = false ∧
      (inscope_loadMoveOperation b (a0 :: a1 :: a2 :: JsValue.string [] :: extra) id
        TM_PLAY_ACF).bridge = b ∧
      (inscope_loadLifeOperation b (a0 :: a1 :: JsValue.string [] :: extra)
        LM_PLAY_ACF).result = false ∧
      (inscope_loadLifeOperation b (a0 :: a1 :: JsValue.string [] :: extra)
        LM_PLAY_ACF).bridge = b) := by
  have hm : moveShape TM_PLAY_ACF = some ⟨[.str], []⟩ := rfl
  have hl : ∀ args, lifeShape b.getFirstPcxId args LM_PLAY_ACF = some ⟨[.str], []⟩ :=
    fun _ => rfl
  refine ⟨?_, ?_⟩
  · intro hs
    have hne : s.isEmpty = false := by cases s with
      | nil => exact absurd rfl hs
      | cons x xs => rfl
    have e1 := moveLoad_accept b (a0 :: a1 :: a2 :: JsValue.string s :: extra) id TM_PLAY_ACF
      ⟨[.str], []⟩ hm (by simp [acceptsAt, argAt, Slot.ok, hne])
    have e2 := lifeLoad_accept b (a0 :: a1 :: JsValue.string s :: extra) LM_PLAY_ACF
      ⟨[.str], []⟩ (hl _) (by simp [acceptsAt, argAt, Slot.ok, hne])
    simp only [encodeAt, argAt, Slot.encode, List.getD_cons_succ, List.getD_cons_zero,
      List.append_nil] at e1 e2
    refine ⟨?_, ?_, ?_, ?_⟩
    · rw [e1]; simp
    · rw [e1]; simp [IdaBridge.getMoveScript, IdaBridge.setMoveScript]
    · rw [e2]; simp
    · rw [e2]; simp [IdaBridge.getLifeScript]
  · have r1 := moveLoad_reject b (a0 :: a1 :: a2 :: JsValue.string [] :: extra) id TM_PLAY_ACF
      (by intro sh hsh; rw [hm] at hsh; cases hsh; simp [acceptsAt, argAt, Slot.ok])
    have r2 := lifeLoad_reject b (a0 :: a1 :: JsValue.string [] :: extra) LM_PLAY_ACF
      (by intro sh hsh; rw [hl] at hsh; cases hsh; simp [acceptsAt, argAt, Slot.ok])
    exact ⟨r1.2.1, r1.1, r2.2.1, r2.1⟩

theorem C20_string_argument_encoding_witness :
    inscope_loadMoveOperation World.sample.bridge
        [JsValue.int 0, JsValue.int 30, JsValue.undefined, JsValue.string [65, 66]] 1
        TM_PLAY_ACF =
      ⟨World.sample.bridge.setMoveScript 1 [30, 65, 66, 0, 0], true, none⟩ ∧
    inscope_loadLifeOperation World.sample.bridge
        [JsValue.int 0, JsValue.int 64, JsValue.string [65, 66]] LM_PLAY_ACF =
      ⟨{ World.sample.bridge with mLifeScript := [64, 65, 66, 0, 11] }, true, none⟩ :=
  ⟨((C20_string_argument_encoding World.sample.bridge (JsValue.int 0) (JsValue.int 30)
      JsValue.undefined 1 [65, 66] []).1 (by decide)).1,
   ((C20_string_argument_encoding World.sample.bridge (JsValue.int 0) (JsValue.int 64)
      JsValue.undefined 1 [65, 66] []).1 (by decide)).2.2.1⟩

/-! ## Reserved variable slots -/

theorem validateIntValue_eq (a : JsValue) (lo hi : Int) :
    validateIntValue a lo (some hi) =
      match a with
      | .int n => if -2147483648 ≤ n ∧ n ≤ 2147483647 ∧ lo ≤ n ∧ n ≤ hi then some n else none
      | _ => none := by
  cases a <;> simp [validateIntValue, validateValue, V8Type.holds, and_assoc]

theorem isReadOnlyGameVariable_iff (i : Int) :
    SceneTemplate.isReadOnlyGameVariable i = true ↔
      i = 8 ∨ i = 235 ∨ i = 236 ∨ i = 237 ∨ i = 249 ∨ i = 255 := by
  simp [SceneTemplate.isReadOnlyGameVariable, or_assoc]

/-- C17. Reserved variable slots are read-only. In an allowed phase (`SceneLoad`, `Life`,
`Move`, or any phase with the guard disabled): `setVariable` with the last scene-variable
index `getMaxVarCubeIndex()` as first argument, and `setGameVariable` with 8, 235, 236, 237,
249 or 255 as first argument, end in a thrown error whatever the other arguments are, and the
world (so every scene and game variable) is what it was. A write of a value in `[0, 255]` to
any other scene index in range stores the value in that slot, changes no other scene slot
and no game variable; a write of a signed 16-bit value to any other game index in range
stores it in that slot, changes no other game slot and no scene variable. The variable arrays
have `MAX_VARS_CUBE` and `MAX_VARS_GAME` entries. -/
theorem C17_reserved_variable_slots (E : Engine) (w : World)
    (hallow : w.epp.isExecutionAllowed [SceneLoad, Life, Move] = true)
    (hcube : w.lba.ListVarCube.length = E.MAX_VARS_CUBE)
    (hgame : w.lba.ListVarGame.length = E.MAX_VARS_GAME) :
    (∀ args : List JsValue, argAt args 0 = JsValue.int (Lba.getMaxVarCubeIndex E) →
      (SceneTemplate.setVariable E w args).world = w ∧
      ∃ e, (SceneTemplate.setVariable E w args).outcome = Outcome.thrown e) ∧
    (∀ (args : List JsValue) (i : Int), argAt args 0 = JsValue.int i →
      (i = 8 ∨ i = 235 ∨ i = 236 ∨ i = 237 ∨ i = 249 ∨ i = 255) →
      (SceneTemplate.setGameVariable E w args).world = w ∧
      ∃ e, (SceneTemplate.setGameVariable E w args).outcome = Outcome.thrown e) ∧
    (∀ (i v : Int) (rest : List JsValue), 0 ≤ i → i < Lba.getMaxVarCubeIndex E →
      i ≤ 2147483647 → 0 ≤ v → v ≤ 255 →
      (SceneTemplate.setVariable E w (JsValue.int i :: JsValue.int v :: rest)).outcome =
        Outcome.returned JsValue.undefined ∧
      (SceneTemplate.setVariable E w (JsValue.int i :: JsValue.int v :: rest)).world =
        w.setVarCube i.toNat v.toNat ∧
      (w.setVarCube i.toNat v.toNat).lba.ListVarCube[i.toNat]? = some v.toNat ∧
      (∀ j, j ≠ i.toNat →
        (w.setVarCube i.toNat v.toNat).lba.ListVarCube[j]? = w.lba.ListVarCube[j]?) ∧
      (w.setVarCube i.toNat v.toNat).lba.ListVarGame = w.lba.ListVarGame) ∧
    (∀ (i v : Int) (rest : List JsValue), 0 ≤ i → i ≤ Lba.getMaxVarGameIndex E →
      i ≤ 2147483647 → ¬ (i = 8 ∨ i = 235 ∨ i = 236 ∨ i = 237 ∨ i = 249 ∨ i = 255) →
      -32768 ≤ v → v ≤ 32767 →
      (SceneTemplate.setGameVariable E w (JsValue.int i :: JsValue.int v :: rest)).outcome =
        Outcome.returned JsValue.undefined ∧
      (SceneTemplate.setGameVariable E w (JsValue.int i :: JsValue.int v :: rest)).world =
        w.setVarGame i.toNat v ∧
      (w.setVarGame i.toNat v).lba.ListVarGame[i.toNat]? = some v ∧
      (∀ j, j ≠ i.toNat →
        (w.setVarGame i.toNat v).lba.ListVarGame[j]? = w.lba.ListVarGame[j]?) ∧
      (w.setVarGame i.toNat v).lba.ListVarCube = w.lba.ListVarCube) := by
  refine ⟨?_, ?_, ?_, ?_⟩
  · intro args h0
    unfold SceneTemplate.setVariable
    apply gate_world
    rw [h0, validateIntValue_eq]
    simp only
    split_ifs with hr
    · simp [VALIDATE, Ret.throw]
    · simp [VALIDATE, Ret.throw]
  · intro args i h0 hi
    unfold SceneTemplate.setGameVariable
    apply gate_world
    rw [h0, validateIntValue_eq]
    simp only
    split_ifs with hr
    · simp [VALIDATE, Ret.throw, (isReadOnlyGameVariable_iff i).mpr hi]
    · simp [VALIDATE, Ret.throw]
  · intro i v rest h0 h1 h2 hv0 hv1
    have hlt : i.toNat < w.lba.ListVarCube.length := by
      rw [hcube]; simp only [Lba.getMaxVarCubeIndex] at h1; omega
    have hne : ¬ i = Lba.getMaxVarCubeIndex E := by omega
    have hget : Lba.getVarCube E i = some i.toNat := by
      simp only [Lba.getMaxVarCubeIndex] at h1
      simp only [Lba.getVarCube]
      rw [if_neg (by omega)]
    have hval : validateU8 (JsValue.int v) 255 = some v := by
      simp [validateU8, validateValue, V8Type.holds, hv0, hv1]; omega
    have hrun : SceneTemplate.setVariable E w (JsValue.int i :: JsValue.int v :: rest) =
        Ret.done (w.setVarCube i.toNat v.toNat) := by
      unfold SceneTemplate.setVariable
      rw [EPP_ALLOW_passed _ _ _ hallow]
      simp only [VALIDATE_ARGS_COUNT, validateArgsCount, argAt, List.getD_cons_zero,
        List.getD_cons_succ, validateIntValue_eq]
      have hc : -2147483648 ≤ i ∧ i ≤ 2147483647 ∧ 0 ≤ i ∧ i ≤ Lba.getMaxVarCubeIndex E :=
        ⟨by omega, h2, h0, le_of_lt h1⟩
      simp [VALIDATE, hc, hne, hval, hget]
    refine ⟨by rw [hrun]; rfl, by rw [hrun]; rfl, ?_, ?_, rfl⟩
    · simp [World.setVarCube, List.getElem?_set, hlt]
    · intro j hj
      simp [World.setVarCube, List.getElem?_set, Ne.symm hj]
  · intro i v rest h0 h1 h2 hro hv0 hv1
    have hlt : i.toNat < w.lba.ListVarGame.length := by
      rw [hgame]; simp only [Lba.getMaxVarGameIndex] at h1; omega
    have hnro : SceneTemplate.isReadOnlyGameVariable i = false := by
      cases hb : SceneTemplate.isReadOnlyGameVariable i with
      | false => rfl
      | true => exact absurd ((isReadOnlyGameVariable_iff i).mp hb) hro
    have hget : Lba.getVarGame E i = some i.toNat := by
      simp only [Lba.getMaxVarGameIndex] at h1
      simp only [Lba.getVarGame]
      rw [if_neg (by omega)]
    have hval : validateInt16Value (JsValue.int v) = some v := by
      simp [validateInt16Value, hv0, hv1]
    have hrun : SceneTemplate.setGameVariable E w (JsValue.int i :: JsValue.int v :: rest) =
        Ret.done (w.setVarGame i.toNat v) := by
      unfold SceneTemplate.setGameVariable
      rw [EPP_ALLOW_passed _ _ _ hallow]
      simp only [VALIDATE_ARGS_COUNT, validateArgsCount, argAt, List.getD_cons_zero,
        List.getD_cons_succ, validateIntValue_eq]
      have hc : -2147483648 ≤ i ∧ i ≤ 2147483647 ∧ 0 ≤ i ∧ i ≤ Lba.getMaxVarGameIndex E :=
        ⟨by omega, h2, h0, h1⟩
      simp [VALIDATE, hc, hnro, hval, hget]
    refine ⟨by rw [hrun]; rfl, by rw [hrun]; rfl, ?_, ?_, rfl⟩
    · simp [World.setVarGame, List.getElem?_set, hlt]
    · intro j hj
      simp [World.setVarGame, List.getElem?_set, Ne.symm hj]

theorem C17_reserved_variable_slots_witness :
    (World.sample.atPhase Life).epp.isExecutionAllowed [SceneLoad, Life, Move] = true ∧
    (SceneTemplate.setVariable Engine.stub (World.sample.atPhase Life)
      [JsValue.int 255, JsValue.int 7]).world = World.sample.atPhase Life ∧
    (SceneTemplate.setGameVariable Engine.stub (World.sample.atPhase Life)
      [JsValue.int 8, JsValue.int 7]).world = World.sample.atPhase Life ∧
    (SceneTemplate.setGameVariable Engine.stub (World.sample.atPhase Life)
      [JsValue.int 9, JsValue.int (-7)]).world =
        (World.sample.atPhase Life).setVarGame 9 (-7) := by
  have h := C17_reserved_variable_slots Engine.stub (World.sample.atPhase Life) (by decide)
    (List.length_replicate 256 0) (List.length_replicate 256 0)
  exact ⟨by decide, (h.1 [JsValue.int 255, JsValue.int 7] rfl).1,
    (h.2.1 [JsValue.int 8, JsValue.int 7] 8 rfl (Or.inl rfl)).1,
    (h.2.2.2 9 (-7) [] (by decide) (by decide) (by decide) (by decide) (by decide)
      (by decide)).2.1⟩

/-! ## The currency pair -/

theorem EPP_DENY_passed (w : World) (phases : List ExecutionPhase) (k : Ret)
    (h : w.epp.isExecutionDenied phases = false) : EPP_DENY w phases k = k := by
  simp [EPP_DENY, h]

/-- C18. The logical currency pair. Where both the money setters (`SceneLoad`, `Life`) and
the money getters (every phase but `None` and `BeforeSceneLoad`) pass their gates, for every
planet value and every amount `m` in the signed 16-bit range: `getCurrentMoney` returns the
Zlitos store when `Planet >= 2` and the Gold store otherwise, and `getForeignMoney` returns
the other store; after `setCurrentMoney(m)`, `getCurrentMoney()` returns `m` and
`getForeignMoney()` returns what it returned before; after `setForeignMoney(m)`,
`getForeignMoney()` returns `m` and `getCurrentMoney()` returns what it returned before. -/
theorem C18_logical_currency_pair (w : World) (m : Int) (rest args : List JsValue)
    (hset : w.epp.isExecutionAllowed [SceneLoad, Life] = true)
    (hget : w.epp.isExecutionDenied [ExecutionPhase.None, BeforeSceneLoad] = false)
    (hm : -32768 ≤ m ∧ m ≤ 32767) :
    (SceneTemplate.getCurrentMoney w args).outcome = Outcome.returned (JsValue.int
      (if w.lba.Planet ≥ 2 then w.lba.NbZlitosPieces else w.lba.NbGoldPieces)) ∧
    (SceneTemplate.getForeignMoney w args).outcome = Outcome.returned (JsValue.int
      (if w.lba.Planet ≥ 2 then w.lba.NbGoldPieces else w.lba.NbZlitosPieces)) ∧
    (SceneTemplate.setCurrentMoney w (JsValue.int m :: rest)).outcome =
      Outcome.returned JsValue.undefined ∧
    (SceneTemplate.getCurrentMoney
      (SceneTemplate.setCurrentMoney w (JsValue.int m :: rest)).world args).outcome =
        Outcome.returned (JsValue.int m) ∧
    (SceneTemplate.getForeignMoney
      (SceneTemplate.setCurrentMoney w (JsValue.int m :: rest)).world args).outcome =
        (SceneTemplate.getForeignMoney w args).outcome ∧
    (SceneTemplate.setForeignMoney w (JsValue.int m :: rest)).outcome =
      Outcome.returned JsValue.undefined ∧
    (SceneTemplate.getForeignMoney
      (SceneTemplate.setForeignMoney w (JsValue.int m :: rest)).world args).outcome =
        Outcome.returned (JsValue.int m) ∧
    (SceneTemplate.getCurrentMoney
      (SceneTemplate.setForeignMoney w (JsValue.int m :: rest)).world args).outcome =
        (SceneTemplate.getCurrentMoney w args).outcome := by
  have hval : validateInt16Value (JsValue.int m) = some m := by
    simp [validateInt16Value, hm.1, hm.2]
  have hcur : SceneTemplate.setCurrentMoney w (JsValue.int m :: rest) =
      if w.lba.Planet ≥ 2 then Ret.done (w.setZlitos m) else Ret.done (w.setGold m) := by
    unfold SceneTemplate.setCurrentMoney
    rw [EPP_ALLOW_passed _ _ _ hset]
    simp [VALIDATE_ARGS_COUNT, validateArgsCount, argAt, VALIDATE, hval]
  have hfor : SceneTemplate.setForeignMoney w (JsValue.int m :: rest) =
      if w.lba.Planet ≥ 2 then Ret.done ((SceneTemplate.setInventoryMoney w m).setGold m)
      else Ret.done ((SceneTemplate.setInventoryMoney w m).setZlitos m) := by
    unfold SceneTemplate.setForeignMoney
    rw [EPP_ALLOW_passed _ _ _ hset]
    simp [VALIDATE_ARGS_COUNT, validateArgsCount, argAt, VALIDATE, hval]
  have hg : ∀ w2 : World, w2.epp = w.epp →
      SceneTemplate.getCurrentMoney w2 args = Ret.value w2 (JsValue.int
        (if w2.lba.Planet ≥ 2 then w2.lba.NbZlitosPieces else w2.lba.NbGoldPieces)) ∧
      SceneTemplate.getForeignMoney w2 args = Ret.value w2 (JsValue.int
        (if w2.lba.Planet ≥ 2 then w2.lba.NbGoldPieces else w2.lba.NbZlitosPieces)) := by
    intro w2 he
    unfold SceneTemplate.getCurrentMoney SceneTemplate.getForeignMoney
    rw [EPP_DENY_passed _ _ _ (by rw [he]; exact hget), EPP_DENY_passed _ _ _ (by rw [he]; exact hget)]
    constructor <;> split_ifs <;> rfl
  refine ⟨?_, ?_, ?_, ?_, ?_, ?_, ?_, ?_⟩
  · rw [(hg w rfl).1]; rfl
  · rw [(hg w rfl).2]; rfl
  · rw [hcur]; split_ifs <;> rfl
  · rw [hcur]
    split_ifs with hp
    · show (SceneTemplate.getCurrentMoney (w.setZlitos m) args).outcome = _
      rw [(hg (w.setZlitos m) rfl).1]; simp [Ret.value, World.setZlitos, hp]
    · show (SceneTemplate.getCurrentMoney (w.setGold m) args).outcome = _
      rw [(hg (w.setGold m) rfl).1]; simp [Ret.value, World.setGold, hp]
  · rw [hcur, (hg w rfl).2]
    split_ifs with hp
    · show (SceneTemplate.getForeignMoney (w.setZlitos m) args).outcome = _
      rw [(hg (w.setZlitos m) rfl).2]; simp [Ret.value, World.setZlitos, hp]
    · show (SceneTemplate.getForeignMoney (w.setGold m) args).outcome = _
      rw [(hg (w.setGold m) rfl).2]; simp [Ret.value, World.setGold, hp]
  · rw [hfor]; split_ifs <;> rfl
  · rw [hfor]
    split_ifs with hp
    · show (SceneTemplate.getForeignMoney ((SceneTemplate.setInventoryMoney w m).setGold m)
        args).outcome = _
      rw [(hg ((SceneTemplate.setInventoryMoney w m).setGold m) rfl).2]
      simp [Ret.value, World.setGold, SceneTemplate.setInventoryMoney, World.setVarGame, hp]
    · show (SceneTemplate.getForeignMoney ((SceneTemplate.setInventoryMoney w m).setZlitos m)
        args).outcome = _
      rw [(hg ((SceneTemplate.setInventoryMoney w m).setZlitos m) rfl).2]
      simp [Ret.value, World.setZlitos, SceneTemplate.setInventoryMoney, World.setVarGame, hp]
  · rw [hfor, (hg w rfl).1]
    split_ifs with hp
    · show (SceneTemplate.getCurrentMoney ((SceneTemplate.setInventoryMoney w m).setGold m)
        args).outcome = _
      rw [(hg ((SceneTemplate.setInventoryMoney w m).setGold m) rfl).1]
      simp [Ret.value, World.setGold, SceneTemplate.setInventoryMoney, World.setVarGame, hp]
    · show (SceneTemplate.getCurrentMoney ((SceneTemplate.setInventoryMoney w m).setZlitos m)
        args).outcome = _
      rw [(hg ((SceneTemplate.setInventoryMoney w m).setZlitos m) rfl).1]
      simp [Ret.value, World.setZlitos, SceneTemplate.setInventoryMoney, World.setVarGame, hp]

theorem C18_logical_currency_pair_witness :
    (SceneTemplate.getCurrentMoney (World.sample.atPhase Life) []).outcome =
      Outcome.returned (JsValue.int 10) ∧
    (SceneTemplate.getCurrentMoney
      (SceneTemplate.setCurrentMoney (World.sample.atPhase Life) [JsValue.int 77]).world
        []).outcome = Outcome.returned (JsValue.int 77) ∧
    (SceneTemplate.getForeignMoney
      (SceneTemplate.setCurrentMoney (World.sample.atPhase Life) [JsValue.int 77]).world
        []).outcome = Outcome.returned (JsValue.int 20) := by
  have h := C18_logical_currency_pair (World.sample.atPhase Life) 77 [] [] (by decide)
    (by decide) (by decide)
  exact ⟨h.1, h.2.2.2.1, h.2.2.2.2.1.trans h.2.1⟩

/-! ## The growth boundary -/

theorem initObject_NbObjets (E : Engine)
    (hInit : ∀ i l, (E.InitObject i l).NbObjets = l.NbObjets) (l : Lba) (i : Int) :
    (Lba.initObject E l i).NbObjets = l.NbObjets := by
  unfold Lba.initObject
  split_ifs
  · rfl
  · simp [Lba.setObject, hInit]

theorem initNewObjects_NbObjets (E : Engine)
    (hInit : ∀ i l, (E.InitObject i l).NbObjets = l.NbObjets) (count first : Nat) (w : World) :
    (SceneTemplate.initNewObjects E first count w).lba.NbObjets = w.lba.NbObjets := by
  induction count generalizing first w with
  | zero => rfl
  | succ n ih =>
    unfold SceneTemplate.initNewObjects
    simp only
    rw [ih]
    simp [World.setObjectFlag, initObject_NbObjets E hInit]

theorem validateCount (k hi : Int) (hhi : hi ≤ 4294967295) :
    validateValue V8Type.Uint32 (JsValue.int k) (some 1) (some hi) =
      if 1 ≤ k ∧ k ≤ hi then some k else none := by
  simp only [validateValue, V8Type.holds]
  by_cases h : 1 ≤ k ∧ k ≤ hi
  · have h0 : 0 ≤ k ∧ k ≤ 4294967295 := ⟨by omega, by omega⟩
    simp [h, h0]
  · simp only [if_neg h]
    simp
    intro _ _ h1
    by_contra h2
    exact h ⟨h1, by omega⟩

/-- C12. The growth boundary. For `addZones` (hard maximum `M` = 128), `addWaypoints` (`M` =
256) and `addObjects` (`M` = `MAX_OBJETS`), called where the gate of `SceneLoad` passes, with
current count `n >= 0`: a request for `k` entities with `1 <= k <= M - n` returns `n` and the
new count is `n + k`; any other request (`k < 1`, `k > M - n`, or any `k` when `M - n < 1`)
ends in a thrown error and the world, so the count and the array, is what it was; a call
without argument adds exactly one when `n < M` and fails, changing nothing, otherwise. For
objects, the game's `InitObject` is taken to leave the object count alone. -/
theorem C12_growth_boundary (E : Engine) (w : World) (k : Int) (rest : List JsValue)
    (hgate : w.epp.isExecutionAllowed [SceneLoad] = true)
    (hInit : ∀ i l, (E.InitObject i l).NbObjets = l.NbObjets)
    (hmax : (E.MAX_OBJETS : Int) ≤ 4294967295) :
    (0 ≤ w.lba.NbZones →
      ((1 ≤ k ∧ k ≤ 128 - w.lba.NbZones) →
        (SceneTemplate.addZones w (JsValue.int k :: rest)).outcome =
          Outcome.returned (JsValue.int w.lba.NbZones) ∧
        (SceneTemplate.addZones w (JsValue.int k :: rest)).world.lba.NbZones =
          w.lba.NbZones + k) ∧
      (¬ (1 ≤ k ∧ k ≤ 128 - w.lba.NbZones) →
        (SceneTemplate.addZones w (JsValue.int k :: rest)).world = w ∧
        ∃ e, (SceneTemplate.addZones w (JsValue.int k :: rest)).outcome = Outcome.thrown e) ∧
      (w.lba.NbZones < 128 →
        (SceneTemplate.addZones w []).outcome = Outcome.returned (JsValue.int w.lba.NbZones) ∧
        (SceneTemplate.addZones w []).world.lba.NbZones = w.lba.NbZones + 1) ∧
      (128 ≤ w.lba.NbZones →
        (SceneTemplate.addZones w []).world = w ∧
        ∃ e, (SceneTemplate.addZones w []).outcome = Outcome.thrown e)) ∧
    (0 ≤ w.lba.NbBrickTrack →
      ((1 ≤ k ∧ k ≤ 256 - w.lba.NbBrickTrack) →
        (SceneTemplate.addWaypoints w (JsValue.int k :: rest)).outcome =
          Outcome.returned (JsValue.int w.lba.NbBrickTrack) ∧
        (SceneTemplate.addWaypoints w (JsValue.int k :: rest)).world.lba.NbBrickTrack =
          w.lba.NbBrickTrack + k) ∧
      (¬ (1 ≤ k ∧ k ≤ 256 - w.lba.NbBrickTrack) →
        (SceneTemplate.addWaypoints w (JsValue.int k :: rest)).world = w ∧
        ∃ e, (SceneTemplate.addWaypoints w (JsValue.int k :: rest)).outcome =
          Outcome.thrown e) ∧
      (w.lba.NbBrickTrack < 256 →
        (SceneTemplate.addWaypoints w []).outcome =
          Outcome.returned (JsValue.int w.lba.NbBrickTrack) ∧
        (SceneTemplate.addWaypoints w []).world.lba.NbBrickTrack = w.lba.NbBrickTrack + 1) ∧
      (256 ≤ w.lba.NbBrickTrack →
        (SceneTemplate.addWaypoints w []).world = w ∧
        ∃ e, (SceneTemplate.addWaypoints w []).outcome = Outcome.thrown e)) ∧
    (0 ≤ w.lba.NbObjets →
      ((1 ≤ k ∧ k ≤ (E.MAX_OBJETS : Int) - w.lba.NbObjets) →
        (SceneTemplate.addObjects E w (JsValue.int k :: rest)).outcome =
          Outcome.returned (JsValue.int w.lba.NbObjets) ∧
        (SceneTemplate.addObjects E w (JsValue.int k :: rest)).world.lba.NbObjets =
          w.lba.NbObjets + k) ∧
      (¬ (1 ≤ k ∧ k ≤ (E.MAX_OBJETS : Int) - w.lba.NbObjets) →
        (SceneTemplate.addObjects E w (JsValue.int k :: rest)).world = w ∧
        ∃ e, (SceneTemplate.addObjects E w (JsValue.int k :: rest)).outcome =
          Outcome.thrown e) ∧
      (w.lba.NbObjets < (E.MAX_OBJETS : Int) →
        (SceneTemplate.addObjects E w []).outcome =
          Outcome.returned (JsValue.int w.lba.NbObjets) ∧
        (SceneTemplate.addObjects E w []).world.lba.NbObjets = w.lba.NbObjets + 1) ∧
      ((E.MAX_OBJETS : Int) ≤ w.lba.NbObjets →
        (SceneTemplate.addObjects E w []).world = w ∧
        ∃ e, (SceneTemplate.addObjects E w []).outcome = Outcome.thrown e)) := by
  refine ⟨?_, ?_, ?_⟩
  · intro hn
    refine ⟨?_, ?_, ?_, ?_⟩
    · intro hk
      unfold SceneTemplate.addZones
      rw [EPP_ALLOW_passed _ _ _ hgate]
      simp only [Lba.getMaxZones, argAt, List.getD_cons_zero]
      rw [validateCount k _ (by omega), if_pos hk, if_neg (by omega)]
      simp only [List.length_cons, gt_iff_lt, Nat.zero_lt_succ, ↓reduceIte, VALIDATE,
        Ret.value, Lba.setZones, Lba.getMaxZones]
      rw [if_neg (by simp; omega)]
      exact ⟨by first | rfl | trivial, by first | rfl | trivial | simp⟩
    · intro hk
      unfold SceneTemplate.addZones
      rw [EPP_ALLOW_passed _ _ _ hgate]
      simp only [Lba.getMaxZones, argAt, List.getD_cons_zero]
      split_ifs with h1 h2
      · exact ⟨rfl, _, rfl⟩
      · rw [validateCount k _ (by omega), if_neg hk]
        exact ⟨rfl, _, rfl⟩
      · simp at h2
    · intro hlt
      unfold SceneTemplate.addZones
      rw [EPP_ALLOW_passed _ _ _ hgate]
      simp only [Lba.getMaxZones]
      rw [if_neg (by omega)]
      simp only [List.length_nil, gt_iff_lt, lt_self_iff_false, ↓reduceIte,
        Ret.value, Lba.setZones, Lba.getMaxZones]
      rw [if_neg (by simp; omega)]
      exact ⟨by first | rfl | trivial, by first | rfl | trivial | simp⟩
    · intro hge
      unfold SceneTemplate.addZones
      rw [EPP_ALLOW_passed _ _ _ hgate]
      simp only [Lba.getMaxZones]
      rw [if_pos (by omega)]
      exact ⟨rfl, _, rfl⟩
  · intro hn
    refine ⟨?_, ?_, ?_, ?_⟩
    · intro hk
      unfold SceneTemplate.addWaypoints
      rw [EPP_ALLOW_passed _ _ _ hgate]
      simp only [Lba.getMaxWaypoints, argAt, List.getD_cons_zero]
      rw [validateCount k _ (by omega), if_pos hk, if_neg (by omega)]
      simp only [List.length_cons, gt_iff_lt, Nat.zero_lt_succ, ↓reduceIte, VALIDATE,
        Ret.value, Lba.setWaypoints, Lba.getMaxWaypoints]
      rw [if_neg (by simp; omega)]
      exact ⟨by first | rfl | trivial, by first | rfl | trivial | simp⟩
    · intro hk
      unfold SceneTemplate.addWaypoints
      rw [EPP_ALLOW_passed _ _ _ hgate]
      simp only [Lba.getMaxWaypoints, argAt, List.getD_cons_zero]
      split_ifs with h1 h2
      · exact ⟨rfl, _, rfl⟩
      · rw [validateCount k _ (by omega), if_neg hk]
        exact ⟨rfl, _, rfl⟩
      · simp at h2
    · intro hlt
      unfold SceneTemplate.addWaypoints
      rw [EPP_ALLOW_passed _ _ _ hgate]
      simp only [Lba.getMaxWaypoints]
      rw [if_neg (by omega)]
      simp only [List.length_nil, gt_iff_lt, lt_self_iff_false, ↓reduceIte,
        Ret.value, Lba.setWaypoints, Lba.getMaxWaypoints]
      rw [if_neg (by simp; omega)]
      exact ⟨by first | rfl | trivial, by first | rfl | trivial | simp⟩
    · intro hge
      unfold SceneTemplate.addWaypoints
      rw [EPP_ALLOW_passed _ _ _ hgate]
      simp only [Lba.getMaxWaypoints]
      rw [if_pos (by omega)]
      exact ⟨rfl, _, rfl⟩
  · intro hn
    refine ⟨?_, ?_, ?_, ?_⟩
    · intro hk
      unfold SceneTemplate.addObjects
      rw [EPP_ALLOW_passed _ _ _ hgate]
      simp only [Lba.getMaxObjects, Lba.getNumObjects, argAt, List.getD_cons_zero]
      rw [validateCount k _ (by omega), if_pos hk, if_neg (by omega)]
      simp only [List.length_cons, gt_iff_lt, Nat.zero_lt_succ, ↓reduceIte, VALIDATE,
        Ret.value]
      refine ⟨by first | rfl | trivial, ?_⟩
      rw [initNewObjects_NbObjets E hInit]
      simp only [Lba.setNumObjects]
      rw [if_neg (by omega)]
    · intro hk
      unfold SceneTemplate.addObjects
      rw [EPP_ALLOW_passed _ _ _ hgate]
      simp only [Lba.getMaxObjects, Lba.getNumObjects, argAt, List.getD_cons_zero]
      split_ifs with h1 h2
      · exact ⟨rfl, _, rfl⟩
      · rw [validateCount k _ (by omega), if_neg hk]
        exact ⟨rfl, _, rfl⟩
      · simp at h2
    · intro hlt
      unfold SceneTemplate.addObjects
      rw [EPP_ALLOW_passed _ _ _ hgate]
      simp only [Lba.getMaxObjects, Lba.getNumObjects]
      rw [if_neg (by omega)]
      simp only [List.length_nil, gt_iff_lt, lt_self_iff_false, ↓reduceIte, Ret.value]
      refine ⟨by first | rfl | trivial, ?_⟩
      rw [initNewObjects_NbObjets E hInit]
      simp only [Lba.setNumObjects]
      rw [if_neg (by omega)]
    · intro hge
      unfold SceneTemplate.addObjects
      rw [EPP_ALLOW_passed _ _ _ hgate]
      simp only [Lba.getMaxObjects, Lba.getNumObjects]
      rw [if_pos (by omega)]
      exact ⟨rfl, _, rfl⟩

theorem C12_growth_boundary_witness :
    World.crowded.lba.NbZones = 120 ∧
    (SceneTemplate.addZones World.crowded [JsValue.int 5]).outcome =
      Outcome.returned (JsValue.int 120) ∧
    (SceneTemplate.addZones World.crowded [JsValue.int 5]).world.lba.NbZones = 125 ∧
    (SceneTemplate.addZones World.crowded [JsValue.int 10]).world = World.crowded ∧
    (∃ e, (SceneTemplate.addZones World.crowded [JsValue.int 10]).outcome =
      Outcome.thrown e) := by
  have h5 := (C12_growth_boundary Engine.stub World.crowded 5 [] (by decide)
    (fun _ _ => rfl) (by decide)).1 (by decide)
  have h10 := (C12_growth_boundary Engine.stub World.crowded 10 [] (by decide)
    (fun _ _ => rfl) (by decide)).1 (by decide)
  exact ⟨rfl, (h5.1 (by decide)).1, (h5.1 (by decide)).2, (h10.2.1 (by decide)).1,
    (h10.2.1 (by decide)).2⟩

/-! ## The facade: phases of the lifecycle hooks -/

/-- C14. The facade phase machine. With scripting active, each hook calls the script under
its declared phase and leaves its declared phase on return. `beforeLoadScene` fires its
event, with the scene id and the load mode, under `BeforeSceneLoad` and ends in `None` (when
the load mode is 4 the saved state is first handed to `__load`, also under
`BeforeSceneLoad`; the script, which has no binding that sets the phase, is taken to return
from `__load` in the phase it was called in); `afterLoadScene` fires under `SceneLoad` and
ends in `InScene`; `afterLoadGame` and `restoreValidPos` fire `afterLoadSavedState` under
`GameLoad`, after the call of `__load` / `__loadBackup` made in the phase the hook was
entered in, and end in `InScene`; `doBeforeLife` with a registered handler runs it under
`Life` and ends in `InScene`; `doTrack` with a move handler set runs it under `Move` and ends
in `InScene`. -/
theorem C14_facade_phase_machine (F : IdaFacade) (w : World) (sceneId : Int)
    (loadFilePath : Bytes) (sceneLoadMode : Int) (isLoadGame isRestoringValidPos : Bool)
    (objectId : Int) (hs : w.ida.mIsScriptProvided = true) :
    ((F.beforeLoadScene w sceneId loadFilePath sceneLoadMode isLoadGame
        isRestoringValidPos).world.epp.getPhase = ExecutionPhase.None ∧
      (IdaFacade.calculateIdaSceneLoadMode sceneLoadMode isLoadGame isRestoringValidPos ≠ 4 →
        (F.beforeLoadScene w sceneId loadFilePath sceneLoadMode isLoadGame
          isRestoringValidPos).invoked =
          [⟨ScriptTarget.event "beforeLoadScene", [JsValue.int sceneId,
            JsValue.int (IdaFacade.calculateIdaSceneLoadMode sceneLoadMode isLoadGame
              isRestoringValidPos)], BeforeSceneLoad⟩]) ∧
      (IdaFacade.calculateIdaSceneLoadMode sceneLoadMode isLoadGame isRestoringValidPos = 4 →
        (∀ name args w0, (F.runtime.runFunction name args w0).1.epp.mCurrentPhase =
          w0.epp.mCurrentPhase) →
        (F.beforeLoadScene w sceneId loadFilePath sceneLoadMode isLoadGame
          isRestoringValidPos).invoked =
          [⟨ScriptTarget.function "__load",
              [JsValue.string (F.runtime.readJson loadFilePath)], BeforeSceneLoad⟩,
           ⟨ScriptTarget.event "beforeLoadScene", [JsValue.int sceneId, JsValue.int 4],
              BeforeSceneLoad⟩])) ∧
    ((F.afterLoadScene w sceneId sceneLoadMode isLoadGame
        isRestoringValidPos).world.epp.getPhase = InScene ∧
      (F.afterLoadScene w sceneId sceneLoadMode isLoadGame isRestoringValidPos).invoked =
        [⟨ScriptTarget.event "afterLoadScene", [JsValue.int sceneId,
          JsValue.int (IdaFacade.calculateIdaSceneLoadMode sceneLoadMode isLoadGame
            isRestoringValidPos)], SceneLoad⟩]) ∧
    ((F.afterLoadGame w sceneId loadFilePath).world.epp.getPhase = InScene ∧
      (F.afterLoadGame w sceneId loadFilePath).invoked =
        [⟨ScriptTarget.function "__load",
            [JsValue.string (F.runtime.readJson loadFilePath)], w.epp.getPhase⟩,
         ⟨ScriptTarget.event "afterLoadSavedState",
            [JsValue.int sceneId, JsValue.string loadFilePath], GameLoad⟩]) ∧
    ((F.restoreValidPos w).world.epp.getPhase = InScene ∧
      (F.restoreValidPos w).invoked =
        [⟨ScriptTarget.function "__loadBackup", [], w.epp.getPhase⟩,
         ⟨ScriptTarget.event "afterLoadSavedState",
            [JsValue.int (-1), JsValue.string []], GameLoad⟩]) ∧
    (∀ lifeHandler, w.ida.mSceneLifeHandlers objectId = some (some lifeHandler) →
      (F.doBeforeLife w objectId).1.world.epp.getPhase = InScene ∧
      (F.doBeforeLife w objectId).1.invoked =
        [⟨ScriptTarget.handler lifeHandler, [JsValue.int objectId], Life⟩] ∧
      (F.doBeforeLife w objectId).2 =
        decide ((F.runtime.runHandler lifeHandler [JsValue.int objectId]
          (w.atPhase Life)).2 = some (JsValue.boolean true))) ∧
    (∀ moveHandler, w.ida.mSceneMoveHandler = some moveHandler →
      (F.doTrack w objectId).world.epp.getPhase = InScene ∧
      (F.doTrack w objectId).invoked =
        [⟨ScriptTarget.handler moveHandler, [JsValue.int objectId], Move⟩]) := by
  refine ⟨⟨?_, ?_, ?_⟩, ⟨?_, ?_⟩, ⟨?_, ?_⟩, ⟨rfl, rfl⟩, ?_, ?_⟩
  · simp only [IdaFacade.beforeLoadScene, IdaFacade.clearSceneHandlers, hs, Bool.not_true,
      Bool.false_eq_true, ↓reduceIte]
    rfl
  · intro hm
    simp only [IdaFacade.beforeLoadScene, IdaFacade.clearSceneHandlers, hs, Bool.not_true,
      Bool.false_eq_true, ↓reduceIte, hm]
    rfl
  · intro hm hR
    simp only [IdaFacade.beforeLoadScene, IdaFacade.clearSceneHandlers, hs, Bool.not_true,
      Bool.false_eq_true, ↓reduceIte, hm]
    simp [Hooked.setPhase, Hooked.runSyncEvent, IdaFacade.loadIdaSavedState,
      Hooked.runFunction, Hooked.start, Epp.getPhase, Epp.setPhase, hR]
  · simp only [IdaFacade.afterLoadScene, hs, Bool.not_true, Bool.false_eq_true, ↓reduceIte]
    rfl
  · simp only [IdaFacade.afterLoadScene, hs, Bool.not_true, Bool.false_eq_true, ↓reduceIte]
    rfl
  · simp only [IdaFacade.afterLoadGame, hs, Bool.not_true, Bool.false_eq_true, ↓reduceIte]
    rfl
  · simp only [IdaFacade.afterLoadGame, hs, Bool.not_true, Bool.false_eq_true, ↓reduceIte]
    rfl
  · intro lifeHandler hh
    simp only [IdaFacade.doBeforeLife, hs, hh, Bool.not_true, Bool.false_eq_true, ↓reduceIte]
    exact ⟨rfl, rfl, rfl⟩
  · intro moveHandler hh
    simp only [IdaFacade.doTrack, hs, hh, Bool.not_true, Bool.false_eq_true, ↓reduceIte]
    exact ⟨rfl, rfl⟩

theorem C14_facade_phase_machine_witness :
    World.sample.ida.mIsScriptProvided = true ∧
    (IdaFacade.stub.afterLoadScene World.sample 7 0 false false).world.epp.getPhase =
      InScene ∧
    (IdaFacade.stub.afterLoadScene World.sample 7 0 false false).invoked =
      [⟨ScriptTarget.event "afterLoadScene", [JsValue.int 7, JsValue.int 0], SceneLoad⟩] ∧
    (IdaFacade.stub.beforeLoadScene World.sample 7 [] 0 false false).world.epp.getPhase =
      ExecutionPhase.None := by
  have h := C14_facade_phase_machine IdaFacade.stub World.sample 7 [] 0 false false 0 rfl
  exact ⟨rfl, h.2.1.1, h.2.1.2, h.1.1⟩

/-! ## The facade: `halt` -/

theorem halted_hooks_are_silent (F : IdaFacade) (w : World) (sceneId : Int)
    (path : Bytes) (sceneLoadMode : Int) (isLoadGame isRestoringValidPos : Bool)
    (objectId : Int) (loopType : Nat) (hs : w.ida.mIsScriptProvided = false) :
    ((F.processTasks w loopType).invoked = [] ∧
      (F.processTasks w loopType).world.epp = w.epp) ∧
    ((F.beforeLoadScene w sceneId path sceneLoadMode isLoadGame isRestoringValidPos).invoked
        = [] ∧
      (F.beforeLoadScene w sceneId path sceneLoadMode isLoadGame
        isRestoringValidPos).world.epp = w.epp) ∧
    ((F.afterLoadScene w sceneId sceneLoadMode isLoadGame isRestoringValidPos).invoked = [] ∧
      (F.afterLoadScene w sceneId sceneLoadMode isLoadGame isRestoringValidPos).world = w) ∧
    ((F.afterLoadGame w sceneId path).invoked = [] ∧
      (F.afterLoadGame w sceneId path).world = w) ∧
    ((F.afterSaveGame w path).invoked = [] ∧ (F.afterSaveGame w path).world = w) ∧
    ((F.saveValidPos w).invoked = [] ∧ (F.saveValidPos w).world = w) ∧
    ((F.doBeforeLife w objectId).1.invoked = [] ∧ (F.doBeforeLife w objectId).1.world = w ∧
      (F.doBeforeLife w objectId).2 = true) ∧
    ((F.doTrack w objectId).invoked = [] ∧ (F.doTrack w objectId).world = w) := by
  simp [IdaFacade.processTasks, IdaFacade.beforeLoadScene, IdaFacade.afterLoadScene,
    IdaFacade.afterLoadGame, IdaFacade.afterSaveGame, IdaFacade.saveValidPos,
    IdaFacade.doBeforeLife, IdaFacade.doTrack, IdaFacade.clearSceneHandlers, hs, Hooked.start]

theorem restoreValidPos_unguarded (F : IdaFacade) (w : World) :
    (F.restoreValidPos w).invoked =
      [⟨ScriptTarget.function "__loadBackup", [], w.epp.getPhase⟩,
       ⟨ScriptTarget.event "afterLoadSavedState",
          [JsValue.int (-1), JsValue.string []], GameLoad⟩] ∧
    (F.restoreValidPos w).world.epp.getPhase = InScene :=
  ⟨rfl, rfl⟩

/-- C15. The hook `restoreValidPos` after `halt`: on the sample scene in phase `None`, once
`halt()` has cleared the script flag, `restoreValidPos` still calls the script's
`__loadBackup`, fires `afterLoadSavedState` under `GameLoad` and leaves the phase `InScene`
instead of `None`, while its sibling `saveValidPos` on the same input calls nothing and
changes nothing. -/
theorem C15_restoreValidPos_ignores_halt :
    (IdaFacade.halt (World.sample.atPhase ExecutionPhase.None)).ida.mIsScriptProvided =
      false ∧
    (IdaFacade.halt (World.sample.atPhase ExecutionPhase.None)).epp.getPhase =
      ExecutionPhase.None ∧
    (IdaFacade.stub.restoreValidPos
      (IdaFacade.halt (World.sample.atPhase ExecutionPhase.None))).invoked =
        [⟨ScriptTarget.function "__loadBackup", [], ExecutionPhase.None⟩,
         ⟨ScriptTarget.event "afterLoadSavedState",
            [JsValue.int (-1), JsValue.string []], GameLoad⟩] ∧
    (IdaFacade.stub.restoreValidPos
      (IdaFacade.halt (World.sample.atPhase ExecutionPhase.None))).world.epp.getPhase =
        InScene ∧
    (IdaFacade.stub.saveValidPos
      (IdaFacade.halt (World.sample.atPhase ExecutionPhase.None))).invoked = [] ∧
    (IdaFacade.stub.saveValidPos
      (IdaFacade.halt (World.sample.atPhase ExecutionPhase.None))).world.epp.getPhase =
        ExecutionPhase.None :=
  ⟨rfl, rfl, rfl, rfl, rfl, rfl⟩

/-! ## Forced overrides -/

/-- C16, counterexample. The forced overrides are not all writable only in
`BeforeSceneLoad`. On the sample scene with the guard enabled: in phase `InScene`,
`disableLightning` returns normally and turns the lightning-disabled flag from `false` to
`true`; in phase `BeforeSceneLoad`, `setStartSceneId(5)` and `setIntroVideo("A")` end in a
thrown error and keep the value; in phase `None`, `setStartSceneId(5)` changes the start
scene from 0 to 5 and `setIntroVideo("A")` changes the intro video name. -/
theorem C16_forced_overrides_counterexample :
    World.sample.epp.mIsEnabled = true ∧ World.sample.epp.getPhase = InScene ∧
    World.sample.ida.mLightningDisabled = false ∧
    (IdaTemplate.disableLightning World.sample []).outcome =
      Outcome.returned JsValue.undefined ∧
    (IdaTemplate.disableLightning World.sample []).world.ida.mLightningDisabled = true ∧
    (∃ e, (IdaTemplate.setStartSceneId (World.sample.atPhase BeforeSceneLoad)
      [JsValue.int 5]).outcome = Outcome.thrown e) ∧
    (IdaTemplate.setStartSceneId (World.sample.atPhase BeforeSceneLoad)
      [JsValue.int 5]).world.ida.mStartSceneId = 0 ∧
    (∃ e, (IdaTemplate.setIntroVideo (World.sample.atPhase BeforeSceneLoad)
      [JsValue.string [65]]).outcome = Outcome.thrown e) ∧
    (IdaTemplate.setStartSceneId (World.sample.atPhase ExecutionPhase.None)
      [JsValue.int 5]).outcome = Outcome.returned JsValue.undefined ∧
    (IdaTemplate.setStartSceneId (World.sample.atPhase ExecutionPhase.None)
      [JsValue.int 5]).world.ida.mStartSceneId = 5 ∧
    (IdaTemplate.setIntroVideo (World.sample.atPhase ExecutionPhase.None)
      [JsValue.string [65]]).world.ida.mIntroVideo = [65] :=
  ⟨rfl, rfl, rfl, rfl, rfl, ⟨_, rfl⟩, rfl, ⟨_, rfl⟩, rfl, rfl, rfl⟩

/-- C16, amended. With the guard enabled: `setStorm` and `forceIsland` are writable only in
`BeforeSceneLoad` (in every other phase the call ends in the policy error and the world is
what it was; in `BeforeSceneLoad` a valid argument becomes the override);
`setStartSceneId` and `setIntroVideo` are writable only in `None` (in every other phase,
`BeforeSceneLoad` included, the call ends in the policy error and the world is what it was;
in `None` a valid argument becomes the override); `enableLightning` and `disableLightning`
have no phase gate: in every phase they return normally and set the lightning-disabled flag
to `false` and `true`. -/
theorem C16_forced_overrides_phase_rules (w : World) (args rest : List JsValue) (v : Int)
    (s : Bytes) (hen : w.epp.mIsEnabled = true) :
    (w.epp.mCurrentPhase ≠ BeforeSceneLoad →
      ((IdaTemplate.setStorm w args).world = w ∧
        ∃ m, (IdaTemplate.setStorm w args).outcome = Outcome.thrown (ScriptError.policy m)) ∧
      ((IdaTemplate.forceIsland w args).world = w ∧
        ∃ m, (IdaTemplate.forceIsland w args).outcome =
          Outcome.thrown (ScriptError.policy m))) ∧
    (w.epp.mCurrentPhase = BeforeSceneLoad →
      (0 ≤ v ∧ v ≤ 2 →
        (IdaTemplate.setStorm w (JsValue.int v :: rest)).outcome =
          Outcome.returned JsValue.undefined ∧
        ((IdaTemplate.setStorm w (JsValue.int v :: rest)).world.ida.mForcedStorm : Int) = v) ∧
      (0 ≤ v ∧ v ≤ 4 →
        (IdaTemplate.forceIsland w (JsValue.int v :: rest)).outcome =
          Outcome.returned JsValue.undefined ∧
        ((IdaTemplate.forceIsland w (JsValue.int v :: rest)).world.ida.mForcedIslandModel
          : Int) = v)) ∧
    (w.epp.mCurrentPhase ≠ ExecutionPhase.None →
      ((IdaTemplate.setStartSceneId w args).world = w ∧
        ∃ m, (IdaTemplate.setStartSceneId w args).outcome =
          Outcome.thrown (ScriptError.policy m)) ∧
      ((IdaTemplate.setIntroVideo w args).world = w ∧
        ∃ m, (IdaTemplate.setIntroVideo w args).outcome =
          Outcome.thrown (ScriptError.policy m))) ∧
    (w.epp.mCurrentPhase = ExecutionPhase.None →
      (0 ≤ v ∧ v ≤ 2147483647 →
        (IdaTemplate.setStartSceneId w (JsValue.int v :: rest)).outcome =
          Outcome.returned JsValue.undefined ∧
        (IdaTemplate.setStartSceneId w (JsValue.int v :: rest)).world.ida.mStartSceneId = v) ∧
      ((IdaTemplate.setIntroVideo w (JsValue.string s :: rest)).outcome =
          Outcome.returned JsValue.undefined ∧
        (IdaTemplate.setIntroVideo w (JsValue.string s :: rest)).world.ida.mIntroVideo = s)) ∧
    ((IdaTemplate.enableLightning w args).outcome = Outcome.returned JsValue.undefined ∧
      (IdaTemplate.enableLightning w args).world.ida.mLightningDisabled = false ∧
      (IdaTemplate.disableLightning w args).outcome = Outcome.returned JsValue.undefined ∧
      (IdaTemplate.disableLightning w args).world.ida.mLightningDisabled = true) := by
  refine ⟨?_, ?_, ?_, ?_, ⟨rfl, rfl, rfl, rfl⟩⟩
  · intro hph
    have hmem : w.epp.mCurrentPhase ∉ [BeforeSceneLoad] := by simpa using hph
    refine ⟨?_, ?_⟩
    · unfold IdaTemplate.setStorm
      rw [EPP_ALLOW_denied w _ _ hen hmem]
      exact ⟨rfl, _, rfl⟩
    · unfold IdaTemplate.forceIsland
      rw [EPP_ALLOW_denied w _ _ hen hmem]
      exact ⟨rfl, _, rfl⟩
  · intro hph
    have hal : w.epp.isExecutionAllowed [BeforeSceneLoad] = true := by
      simp [Epp.isExecutionAllowed, Epp.phaseLoop, hen, hph]
    refine ⟨?_, ?_⟩
    · intro hv
      have hc : -2147483648 ≤ v ∧ v ≤ 2147483647 ∧ 0 ≤ v ∧ v ≤ 2 :=
        ⟨by omega, by omega, hv.1, hv.2⟩
      unfold IdaTemplate.setStorm
      rw [EPP_ALLOW_passed _ _ _ hal]
      simp only [VALIDATE_ARGS_COUNT, validateArgsCount, argAt, List.getD_cons_zero,
        validateIntValue_eq]
      simp only [hc, VALIDATE]
      simp only [List.length_cons, and_self, ↓reduceIte]
      split_ifs with h1 h2
      · simp at h1
      · exact ⟨rfl, h2⟩
      · refine ⟨rfl, ?_⟩
        simp only [Ret.done]
        omega
    · intro hv
      have hc : -2147483648 ≤ v ∧ v ≤ 2147483647 ∧ 0 ≤ v ∧ v ≤ 4 :=
        ⟨by omega, by omega, hv.1, hv.2⟩
      unfold IdaTemplate.forceIsland
      rw [EPP_ALLOW_passed _ _ _ hal]
      simp only [VALIDATE_ARGS_COUNT, validateArgsCount, argAt, List.getD_cons_zero,
        validateIntValue_eq]
      simp only [hc, VALIDATE]
      simp only [List.length_cons, and_self, ↓reduceIte]
      split_ifs with h1
      · simp at h1
      · refine ⟨rfl, ?_⟩
        simp only [Ret.done]
        omega
  · intro hph
    have hmem : w.epp.mCurrentPhase ∉ [ExecutionPhase.None] := by simpa using hph
    refine ⟨?_, ?_⟩
    · unfold IdaTemplate.setStartSceneId
      rw [EPP_ALLOW_denied w _ _ hen hmem]
      exact ⟨rfl, _, rfl⟩
    · unfold IdaTemplate.setIntroVideo
      rw [EPP_ALLOW_denied w _ _ hen hmem]
      exact ⟨rfl, _, rfl⟩
  · intro hph
    have hal : w.epp.isExecutionAllowed [ExecutionPhase.None] = true := by
      simp [Epp.isExecutionAllowed, Epp.phaseLoop, hen, hph]
    refine ⟨?_, ?_⟩
    · intro hv
      have hval : validateIntValue (JsValue.int v) 0 none = some v := by
        have h1 : -2147483648 ≤ v := by omega
        simp [validateIntValue, validateValue, V8Type.holds, hv.1, hv.2, h1]
      unfold IdaTemplate.setStartSceneId
      rw [EPP_ALLOW_passed _ _ _ hal]
      simp [VALIDATE_ARGS_COUNT, validateArgsCount, argAt, VALIDATE, hval, Ret.done]
    · unfold IdaTemplate.setIntroVideo
      rw [EPP_ALLOW_passed _ _ _ hal]
      simp [VALIDATE_ARGS_COUNT, validateArgsCount, argAt, VALIDATE, validateString, Ret.done]

theorem C16_forced_overrides_phase_rules_witness :
    World.sample.epp.mIsEnabled = true ∧
    (IdaTemplate.setStorm World.sample [JsValue.int 1]).world = World.sample ∧
    (IdaTemplate.setStorm (World.sample.atPhase BeforeSceneLoad)
      [JsValue.int 1]).world.ida.mForcedStorm = 1 ∧
    (IdaTemplate.setStartSceneId World.sample [JsValue.int 5]).world = World.sample ∧
    (IdaTemplate.setStartSceneId (World.sample.atPhase ExecutionPhase.None)
      [JsValue.int 5]).world.ida.mStartSceneId = 5 :=
  ⟨rfl,
   ((C16_forced_overrides_phase_rules World.sample [JsValue.int 1] [] 1 [] rfl).1
      (by decide)).1.1,
   by
    have h := ((C16_forced_overrides_phase_rules (World.sample.atPhase BeforeSceneLoad) []
      [] 1 [] rfl).2.1 rfl).1 (by decide)
    exact_mod_cast h.2,
   ((C16_forced_overrides_phase_rules World.sample [JsValue.int 5] [] 5 [] rfl).2.2.1
      (by decide)).1.1,
   (((C16_forced_overrides_phase_rules (World.sample.atPhase ExecutionPhase.None) []
      [] 5 [] rfl).2.2.2.1 rfl).1 (by decide)).2⟩

/-! ## Narrowing of life-function results -/

/-- C30. Life-function result narrowing. For every 32-bit integer `x`: with return type 0
(`INT8`) `convertResult` gives the value in `[-128, 127]` congruent to `x` modulo 256 (the
low 8 bits read as signed); with 1 (`INT16`) the value in `[-32768, 32767]` congruent to `x`
modulo 65536; with 4 (`UINT8`) the value in `[0, 255]` congruent to `x` modulo 256; with
every other type, 2 (`STRING`) included, `x` itself; and it is the identity on every `x`
already inside the target range. -/
theorem C30_life_function_result_narrowing (x : Int) (t : Nat)
    (hx : -2147483648 ≤ x ∧ x ≤ 2147483647) :
    (-128 ≤ convertResult x 0 ∧ convertResult x 0 ≤ 127 ∧
      (convertResult x 0 - x) % 256 = 0) ∧
    (-32768 ≤ convertResult x 1 ∧ convertResult x 1 ≤ 32767 ∧
      (convertResult x 1 - x) % 65536 = 0) ∧
    (0 ≤ convertResult x 4 ∧ convertResult x 4 ≤ 255 ∧ convertResult x 4 = x % 256) ∧
    (t ≠ 0 → t ≠ 1 → t ≠ 4 → convertResult x t = x) ∧
    convertResult x 2 = x ∧
    (-128 ≤ x ∧ x ≤ 127 → convertResult x 0 = x) ∧
    (-32768 ≤ x ∧ x ≤ 32767 → convertResult x 1 = x) ∧
    (0 ≤ x ∧ x ≤ 255 → convertResult x 4 = x) := by
  have e0 : convertResult x 0 = if x % 256 ≥ 128 then x % 256 - 256 else x % 256 := by
    simp [convertResult]
  have e1 : convertResult x 1 =
      if x % 65536 ≥ 32768 then x % 65536 - 65536 else x % 65536 := by
    simp [convertResult]
  have e4 : convertResult x 4 = x % 256 := by simp [convertResult]
  refine ⟨?_, ?_, ?_, ?_, ?_, ?_, ?_, ?_⟩
  · rw [e0]; split_ifs <;> omega
  · rw [e1]; split_ifs <;> omega
  · rw [e4]; omega
  · intro h0 h1 h4
    simp [convertResult, h0, h1, h4]
  · simp [convertResult]
  · intro h
    rw [e0]; split_ifs <;> omega
  · intro h
    rw [e1]; split_ifs <;> omega
  · intro h
    rw [e4]; omega

theorem C30_life_function_result_narrowing_witness :
    convertResult 255 0 = -1 ∧ convertResult 65535 1 = -1 ∧ convertResult (-1) 4 = 255 ∧
    convertResult 300 2 = 300 ∧ convertResult (-5) 0 = -5 := by
  have h := C30_life_function_result_narrowing (-5) 2 (by decide)
  exact ⟨by decide, by decide, by decide, by decide, h.2.2.2.2.2.1 (by decide)⟩

/-! ## The test-mode gate -/

theorem EPP_TEST_off (w : World) (k : Ret) (h : w.epp.isTestMode = false) :
    EPP_TEST w k =
      Ret.throw w (ScriptError.policy
        "Execution of this function is only allowed in test mode.") := by
  simp [EPP_TEST, h]

theorem EPP_TEST_on (w : World) (k : Ret) (h : w.epp.isTestMode = true) :
    EPP_TEST w k = k := by
  simp [EPP_TEST, h]

/-- C25. Test-mode gating is independent of the phase guard. Every Mark function opens with
`EPP_TEST`: with test mode off, whatever the phase and whether the phase guard is enabled,
each of the fifteen functions ends in the test-mode error and leaves the world unchanged;
with test mode on, whatever the phase and the guard, none of them ends in the test-mode
error (the gate is passed and the function body decides). The answer of the gate is the same
after any `setPhase` and `setEnabled`; `setPhase` and `setEnabled` never change the test-mode
flag, and `setTestMode` never changes the phase or the enabled flag. -/
theorem C25_test_mode_gate_independent (w : World) (args : List JsValue) (op : MarkOp)
    (e : Epp) (phase : ExecutionPhase) (b : Bool) :
    (w.epp.isTestMode = false →
      op.call w args = Ret.throw w (ScriptError.policy
        "Execution of this function is only allowed in test mode.")) ∧
    (w.epp.isTestMode = true →
      (op.call w args).outcome ≠ Outcome.thrown (ScriptError.policy
        "Execution of this function is only allowed in test mode.")) ∧
    ((op.call { w with epp := (w.epp.setPhase phase).setEnabled b } args).outcome =
        Outcome.thrown (ScriptError.policy
          "Execution of this function is only allowed in test mode.") ↔
      w.epp.isTestMode = false) ∧
    (e.setPhase phase).isTestMode = e.isTestMode ∧
    (e.setEnabled b).isTestMode = e.isTestMode ∧
    (e.setTestMode b).getPhase = e.getPhase ∧
    (e.setTestMode b).isEnabled = e.isEnabled := by
  have hoff : ∀ w : World, w.epp.isTestMode = false →
      op.call w args = Ret.throw w (ScriptError.policy
        "Execution of this function is only allowed in test mode.") := by
    intro w h
    cases op <;> exact EPP_TEST_off w _ h
  have hon : ∀ w : World, w.epp.isTestMode = true →
      (op.call w args).outcome ≠ Outcome.thrown (ScriptError.policy
        "Execution of this function is only allowed in test mode.") := by
    intro w h
    cases op <;>
      simp only [MarkOp.call, MarkTemplate.exitProcess, MarkTemplate.exit,
        MarkTemplate.newGame, MarkTemplate.saveGame, MarkTemplate.loadGame,
        MarkTemplate.skipVideoOnce, MarkTemplate.setGameInputOnce, MarkTemplate.getGameLoop,
        MarkTemplate.isHotReloadEnabled, MarkTemplate.disableHotReload,
        MarkTemplate.enableHotReload, MarkTemplate.doDialogSpy,
        MarkTemplate.getDialogSpyInfo, MarkTemplate.doImageSpy,
        MarkTemplate.getImageSpyInfo, EPP_TEST_on w _ h, VALIDATE_ARGS_COUNT, VALIDATE,
        Ret.throw, Ret.done, Ret.value] <;>
      (repeat' split) <;> simp
  refine ⟨hoff w, hon w, ?_, rfl, rfl, rfl, rfl⟩
  constructor
  · intro h
    by_contra hne
    have ht : w.epp.isTestMode = true := by
      cases hb : w.epp.isTestMode with
      | false => exact absurd hb hne
      | true => rfl
    exact hon { w with epp := (w.epp.setPhase phase).setEnabled b } ht h
  · intro h
    rw [hoff { w with epp := (w.epp.setPhase phase).setEnabled b } h]
    rfl

theorem C25_test_mode_gate_independent_witness :
    World.sample.epp.isTestMode = false ∧
    MarkOp.call World.sample [] MarkOp.newGame =
      Ret.throw World.sample (ScriptError.policy
        "Execution of this function is only allowed in test mode.") ∧
    (MarkOp.call { World.sample with epp := World.sample.epp.setTestMode true } []
      MarkOp.skipVideoOnce).outcome ≠ Outcome.thrown (ScriptError.policy
        "Execution of this function is only allowed in test mode.") :=
  ⟨rfl,
   (C25_test_mode_gate_independent World.sample [] MarkOp.newGame World.sample.epp
      ExecutionPhase.Life false).1 rfl,
   (C25_test_mode_gate_independent { World.sample with epp := World.sample.epp.setTestMode true }
      [] MarkOp.skipVideoOnce World.sample.epp ExecutionPhase.Life false).2.1 rfl⟩
/-! ## The facade: load mode and life handlers -/

/-- C22. Combined-load-mode rule, for the modes the host passes, which are other than the
reserved value 4. For every host `sceneLoadMode` and every pair of flags, the mode handed to
the `beforeLoadScene` and `afterLoadScene` events is 4 when `isLoadGame` or
`isRestoringValidPos` is set and the host's `sceneLoadMode` unchanged otherwise; for a host
mode other than 4 it is therefore 4 exactly when a flag is set, and with scripting active
`beforeLoadScene` performs the early saved-state read (its first script call is `__load`,
with the text of the sidecar) exactly when one of the two flags is set; with no flag set its
only script call is the event. -/
theorem C22_combined_load_mode_rule (F : IdaFacade) (w : World) (sceneId : Int)
    (loadFilePath : Bytes) (sceneLoadMode : Int) (isLoadGame isRestoringValidPos : Bool)
    (hs : w.ida.mIsScriptProvided = true) :
    IdaFacade.calculateIdaSceneLoadMode sceneLoadMode isLoadGame isRestoringValidPos =
      (if isLoadGame = true ∨ isRestoringValidPos = true then 4 else sceneLoadMode) ∧
    (∃ under, (F.beforeLoadScene w sceneId loadFilePath sceneLoadMode isLoadGame
        isRestoringValidPos).invoked.getLast? =
      some ⟨ScriptTarget.event "beforeLoadScene", [JsValue.int sceneId,
        JsValue.int (if isLoadGame = true ∨ isRestoringValidPos = true then 4
          else sceneLoadMode)], under⟩) ∧
    (F.afterLoadScene w sceneId sceneLoadMode isLoadGame isRestoringValidPos).invoked =
      [⟨ScriptTarget.event "afterLoadScene", [JsValue.int sceneId,
        JsValue.int (if isLoadGame = true ∨ isRestoringValidPos = true then 4
          else sceneLoadMode)], SceneLoad⟩] ∧
    (sceneLoadMode ≠ 4 →
      (IdaFacade.calculateIdaSceneLoadMode sceneLoadMode isLoadGame isRestoringValidPos = 4 ↔
        (isLoadGame = true ∨ isRestoringValidPos = true)) ∧
      ((F.beforeLoadScene w sceneId loadFilePath sceneLoadMode isLoadGame
          isRestoringValidPos).invoked.head? =
        some ⟨ScriptTarget.function "__load",
          [JsValue.string (F.runtime.readJson loadFilePath)], BeforeSceneLoad⟩ ↔
        (isLoadGame = true ∨ isRestoringValidPos = true)) ∧
      (¬ (isLoadGame = true ∨ isRestoringValidPos = true) →
        (F.beforeLoadScene w sceneId loadFilePath sceneLoadMode isLoadGame
          isRestoringValidPos).invoked =
          [⟨ScriptTarget.event "beforeLoadScene",
            [JsValue.int sceneId, JsValue.int sceneLoadMode], BeforeSceneLoad⟩])) := by
  have hcalc : IdaFacade.calculateIdaSceneLoadMode sceneLoadMode isLoadGame
      isRestoringValidPos =
      (if isLoadGame = true ∨ isRestoringValidPos = true then 4 else sceneLoadMode) := by
    simp [IdaFacade.calculateIdaSceneLoadMode]
  have hiff : sceneLoadMode ≠ 4 →
      (IdaFacade.calculateIdaSceneLoadMode sceneLoadMode isLoadGame
        isRestoringValidPos = 4 ↔ (isLoadGame = true ∨ isRestoringValidPos = true)) := by
    intro hne
    rw [hcalc]
    split_ifs with h
    · exact ⟨fun _ => h, fun _ => rfl⟩
    · exact ⟨fun h4 => absurd h4 hne, fun h1 => absurd h1 h⟩
  refine ⟨hcalc, ?_, ?_, ?_⟩
  · rw [← hcalc]
    simp only [IdaFacade.beforeLoadScene, IdaFacade.clearSceneHandlers, hs, Bool.not_true,
      Bool.false_eq_true, ↓reduceIte]
    simp [Hooked.setPhase, Hooked.runSyncEvent]
  · rw [← hcalc]
    simp only [IdaFacade.afterLoadScene, hs, Bool.not_true, Bool.false_eq_true, ↓reduceIte]
    rfl
  · intro hne
    refine ⟨hiff hne, ?_, ?_⟩
    · rw [← hiff hne]
      simp only [IdaFacade.beforeLoadScene, IdaFacade.clearSceneHandlers, hs, Bool.not_true,
        Bool.false_eq_true, ↓reduceIte]
      by_cases h4 : IdaFacade.calculateIdaSceneLoadMode sceneLoadMode isLoadGame
          isRestoringValidPos = 4
      · simp only [h4, ↓reduceIte, iff_true]
        rfl
      · simp only [h4, ↓reduceIte, iff_false]
        simp [Hooked.setPhase, Hooked.runSyncEvent, Hooked.start]
    · intro hno
      have h4 : ¬ IdaFacade.calculateIdaSceneLoadMode sceneLoadMode isLoadGame
          isRestoringValidPos = 4 := fun h => hno ((hiff hne).mp h)
      have hc : IdaFacade.calculateIdaSceneLoadMode sceneLoadMode isLoadGame
          isRestoringValidPos = sceneLoadMode := by rw [hcalc, if_neg hno]
      simp only [IdaFacade.beforeLoadScene, IdaFacade.clearSceneHandlers, hs, Bool.not_true,
        Bool.false_eq_true, ↓reduceIte, h4]
      rw [hc]
      rfl

theorem C22_combined_load_mode_rule_witness :
    World.sample.ida.mIsScriptProvided = true ∧
    IdaFacade.calculateIdaSceneLoadMode 2 true false = 4 ∧
    IdaFacade.calculateIdaSceneLoadMode 2 false false = 2 ∧
    (IdaFacade.stub.beforeLoadScene World.sample 7 [] 2 false false).invoked =
      [⟨ScriptTarget.event "beforeLoadScene", [JsValue.int 7, JsValue.int 2],
        BeforeSceneLoad⟩] ∧
    (IdaFacade.stub.beforeLoadScene World.sample 7 [] 2 false true).invoked.head? =
      some ⟨ScriptTarget.function "__load", [JsValue.string []], BeforeSceneLoad⟩ := by
  have h := C22_combined_load_mode_rule IdaFacade.stub World.sample 7 [] 2 false false rfl
  have h2 := C22_combined_load_mode_rule IdaFacade.stub World.sample 7 [] 2 false true rfl
  exact ⟨rfl, rfl, rfl, (h.2.2.2 (by decide)).2.2 (by decide),
    ((h2.2.2.2 (by decide)).2.1).mpr (Or.inr rfl)⟩

theorem setLifeHandler_empty (s : IdaState) (objectId : Int) :
    (GameObjectTemplate.setLifeHandler s objectId none).mSceneLifeHandlers objectId = none ∨
    (GameObjectTemplate.setLifeHandler s objectId none).mSceneLifeHandlers objectId =
      some none := by
  simp only [GameObjectTemplate.setLifeHandler, ↓reduceIte]
  cases s.mSceneLifeHandlers objectId with
  | none => exact Or.inl rfl
  | some h => exact Or.inr rfl

/-- C23. `doBeforeLife` without a handler proceeds with the built-in behaviour. For every
object id with no life handler registered (no entry in the handler map, as after
`clearSceneHandlers`, or an entry that is empty, as after `setLifeHandler` with an empty
handler), `doBeforeLife` returns `true`, calls nothing in the script and leaves the world as
it was, whether scripting is active or not; with scripting active and a handler registered,
it calls that handler once, with the object id, and returns `true` exactly when the handler's
answer is the boolean `true`. -/
theorem C23_doBeforeLife_without_handler (F : IdaFacade) (w : World) (objectId : Int)
    (E : Engine) (s : IdaState) :
    ((w.ida.mSceneLifeHandlers objectId = none ∨
        w.ida.mSceneLifeHandlers objectId = some none) →
      (F.doBeforeLife w objectId).2 = true ∧
      (F.doBeforeLife w objectId).1.invoked = [] ∧
      (F.doBeforeLife w objectId).1.world = w) ∧
    ((IdaFacade.clearSceneHandlers E s).mSceneLifeHandlers objectId = none) ∧
    ((GameObjectTemplate.setLifeHandler s objectId none).mSceneLifeHandlers objectId = none ∨
      (GameObjectTemplate.setLifeHandler s objectId none).mSceneLifeHandlers objectId =
        some none) ∧
    (∀ lifeHandler, w.ida.mIsScriptProvided = true →
      w.ida.mSceneLifeHandlers objectId = some (some lifeHandler) →
      (F.doBeforeLife w objectId).1.invoked =
        [⟨ScriptTarget.handler lifeHandler, [JsValue.int objectId], Life⟩] ∧
      ((F.doBeforeLife w objectId).2 = true ↔
        (F.runtime.runHandler lifeHandler [JsValue.int objectId] (w.atPhase Life)).2 =
          some (JsValue.boolean true))) := by
  refine ⟨?_, rfl, setLifeHandler_empty s objectId, ?_⟩
  · intro h
    unfold IdaFacade.doBeforeLife
    split_ifs with hs
    · exact ⟨rfl, rfl, rfl⟩
    · rcases h with h | h <;> rw [h] <;> exact ⟨rfl, rfl, rfl⟩
  · intro lifeHandler hs hh
    simp only [IdaFacade.doBeforeLife, hs, hh, Bool.not_true, Bool.false_eq_true, ↓reduceIte]
    refine ⟨rfl, ?_⟩
    simp only [decide_eq_true_eq]
    rfl

theorem C23_doBeforeLife_without_handler_witness :
    World.sample.ida.mSceneLifeHandlers 9 = none ∧
    (IdaFacade.stub.doBeforeLife World.sample 9).2 = true ∧
    (IdaFacade.stub.doBeforeLife World.sample 9).1.invoked = [] := by
  have h := (C23_doBeforeLife_without_handler IdaFacade.stub World.sample 9 Engine.stub
    World.sample.ida).1 (Or.inl rfl)
  exact ⟨rfl, h.1, h.2.1⟩

/-! ## The facade: text override hooks -/

theorem text_hooks_on_mismatch (F : IdaFacade) (w : World) (firstTextId textId : Int)
    (garbageBool : Bool) (garbageByte : Nat) (hs : w.ida.mIsScriptProvided = true)
    (hid : textId < firstTextId) :
    ((∀ b, (F.runtime.runTextFunction "__isReplaced" [JsValue.int textId] w).2 ≠
        some (TextAnswer.boolean b)) →
      (F.controlsDialogText w firstTextId textId garbageBool).2 = garbageBool) ∧
    ((∀ n, (F.runtime.runTextFunction "__getFlags" [JsValue.int textId] w).2 ≠
        some (TextAnswer.uint32 n)) →
      (F.getDialogFlag w firstTextId textId garbageByte).2 = garbageByte % 256) ∧
    ((∀ bytes, bytes ≠ [] →
        (F.runtime.runTextFunction "__get" [JsValue.int textId] w).2 ≠
          some (TextAnswer.uint8Array bytes)) →
      (F.getText w textId).2 = none) ∧
    ((∀ items, 3 ≤ items.length →
        (F.runtime.runTextFunction "__getColor" [JsValue.int textId] w).2 ≠
          some (TextAnswer.array items)) →
      (F.getTextColor w textId).2 = ⟨-1, -1, -1⟩) := by
  have hid2 : ¬ textId ≥ firstTextId := by omega
  refine ⟨?_, ?_, ?_, ?_⟩
  · intro h
    simp only [IdaFacade.controlsDialogText, hs, hid2, Bool.not_true, Bool.false_eq_true,
      ↓reduceIte, Hooked.runTextFunction, Hooked.start]
  · intro h
    simp only [IdaFacade.getDialogFlag, hs, hid2, Bool.not_true, Bool.false_eq_true,
      ↓reduceIte, Hooked.runTextFunction, Hooked.start]
  · intro h
    simp only [IdaFacade.getText, hs, Bool.not_true, Bool.false_eq_true, ↓reduceIte,
      Hooked.runTextFunction, Hooked.start]
    generalize (F.runtime.runTextFunction "__get" [JsValue.int textId] w).2 = ans at h ⊢
    rcases ans with _ | (b | n | bytes | items | _)
    · rfl
    · rfl
    · rfl
    · by_cases he : bytes = []
      · subst he; rfl
      · exact absurd rfl (h bytes he)
    · rfl
    · rfl
  · intro h
    simp only [IdaFacade.getTextColor, hs, Bool.not_true, Bool.false_eq_true, ↓reduceIte,
      Hooked.runTextFunction, Hooked.start]
    generalize (F.runtime.runTextFunction "__getColor" [JsValue.int textId] w).2 = ans
      at h ⊢
    rcases ans with _ | (b | n | bytes | items | _)
    · rfl
    · rfl
    · rfl
    · rfl
    · by_cases hl : items.length < 3
      · simp [hl, DialogColorHandle.initial]
      · exact absurd rfl (h items (by omega))
    · rfl

/-- C21. The hooks `controlsDialogText` and `getDialogFlag` on a missing answer: on the
sample scene, script active, text id 5 below the first mod text id 1000, with a script whose
`__isReplaced` and `__getFlags` give no answer, `controlsDialogText` returns the value its
uninitialised local held, here `true` and not `false`, and `getDialogFlag` returns the byte
its uninitialised local held, here 204 and not 0; on the same input `getText` returns null
and `getTextColor` the default handle. -/
theorem C21_uninitialised_override_answers :
    World.sample.ida.mIsScriptProvided = true ∧
    (Runtime.stub.runTextFunction "__isReplaced" [JsValue.int 5] World.sample).2 = none ∧
    (IdaFacade.stub.controlsDialogText World.sample 1000 5 true).2 = true ∧
    (IdaFacade.stub.getDialogFlag World.sample 1000 5 204).2 = 204 ∧
    (IdaFacade.stub.getText World.sample 5).2 = none ∧
    (IdaFacade.stub.getTextColor World.sample 5).2 = ⟨-1, -1, -1⟩ :=
  ⟨rfl, rfl, rfl, rfl, rfl, rfl⟩

/-! ## Object flags -/

theorem objectFlag_set_self (w : World) (i f : Nat) (h : i < w.ida.mObjectFlags.length) :
    (w.setObjectFlag i f).objectFlag i = f := by
  simp [World.setObjectFlag, World.objectFlag, List.getD_eq_getElem?_getD, h]

theorem objectFlag_set_ne (w : World) (i j f : Nat) (h : j ≠ i) :
    (w.setObjectFlag i f).objectFlag j = w.objectFlag j := by
  simp [World.setObjectFlag, World.objectFlag, List.getD_eq_getElem?_getD,
    List.getElem?_set_ne (Ne.symm h)]

theorem setObjectFlag_length (w : World) (i f : Nat) :
    (w.setObjectFlag i f).ida.mObjectFlags.length = w.ida.mObjectFlags.length := by
  simp [World.setObjectFlag]

theorem or_and_self_bits (x m : Nat) : (x ||| m) &&& m = m := by
  apply Nat.eq_of_testBit_eq
  intro j
  simp only [Nat.testBit_and, Nat.testBit_or]
  cases x.testBit j <;> cases m.testBit j <;> rfl

theorem initNewObjects_flags (E : Engine) (count first : Nat) (w : World)
    (h : first + count ≤ w.ida.mObjectFlags.length) :
    (SceneTemplate.initNewObjects E first count w).ida.mObjectFlags.length =
      w.ida.mObjectFlags.length ∧
    ∀ i, (SceneTemplate.initNewObjects E first count w).objectFlag i =
      if first ≤ i ∧ i < first + count then w.objectFlag i ||| IDA_OBJ_NEW
      else w.objectFlag i := by
  induction count generalizing first w with
  | zero =>
    refine ⟨rfl, fun i => ?_⟩
    rw [if_neg (by omega)]
    rfl
  | succ n ih =>
    unfold SceneTemplate.initNewObjects
    simp only
    set w1 : World := { w with lba := Lba.initObject E w.lba first } with hw1
    have hf1 : ∀ i, w1.objectFlag i = w.objectFlag i := fun _ => rfl
    have hl1 : w1.ida.mObjectFlags.length = w.ida.mObjectFlags.length := rfl
    set w2 : World := w1.setObjectFlag first (w1.objectFlag first ||| IDA_OBJ_NEW) with hw2
    have hl2 : w2.ida.mObjectFlags.length = w.ida.mObjectFlags.length := by
      rw [hw2, setObjectFlag_length, hl1]
    obtain ⟨ihl, ihf⟩ := ih (first + 1) w2 (by rw [hl2]; omega)
    refine ⟨by rw [ihl, hl2], fun i => ?_⟩
    rw [ihf i]
    by_cases hi : i = first
    · subst hi
      rw [if_neg (by omega), if_pos (by omega), hw2,
        objectFlag_set_self w1 i _ (by rw [hl1]; omega), hf1]
    · have h2 : w2.objectFlag i = w.objectFlag i := by
        rw [hw2, objectFlag_set_ne w1 first i _ hi, hf1]
      rw [h2]
      by_cases hr : first + 1 ≤ i ∧ i < first + 1 + n
      · rw [if_pos hr, if_pos (by omega)]
      · rw [if_neg hr, if_neg (by omega)]

/-- C24. Dynamically created objects are tagged. After a successful `addObjects(k)` with
prior count `n` (gate of `SceneLoad` passed, `1 <= k <= MAX_OBJETS - n`), on the flag array
of `MAX_OBJETS` bytes: every flag byte at an index `i` with `n <= i < n + k` is the old byte
with `IDA_OBJ_NEW` (0x04) or-ed in, so the bit is set; every flag byte at an index below `n`
or at or above `n + k` is unchanged; the array keeps its size, and `n + k <= MAX_OBJETS`, so
every index written is inside it. A call without argument does the same with `k = 1`. -/
theorem C24_new_objects_are_tagged (E : Engine) (w : World) (k : Int) (rest : List JsValue)
    (hgate : w.epp.isExecutionAllowed [SceneLoad] = true)
    (hn : 0 ≤ w.lba.NbObjets)
    (hk : 1 ≤ k ∧ k ≤ (E.MAX_OBJETS : Int) - w.lba.NbObjets)
    (hlen : w.ida.mObjectFlags.length = E.MAX_OBJETS)
    (hmax : (E.MAX_OBJETS : Int) ≤ 4294967295) :
    (SceneTemplate.addObjects E w (JsValue.int k :: rest)).outcome =
      Outcome.returned (JsValue.int w.lba.NbObjets) ∧
    (∀ i : Nat, w.lba.NbObjets.toNat ≤ i → i < w.lba.NbObjets.toNat + k.toNat →
      (SceneTemplate.addObjects E w (JsValue.int k :: rest)).world.objectFlag i =
        w.objectFlag i ||| IDA_OBJ_NEW ∧
      (SceneTemplate.addObjects E w (JsValue.int k :: rest)).world.objectFlag i &&&
        IDA_OBJ_NEW = IDA_OBJ_NEW ∧
      i < E.MAX_OBJETS) ∧
    (∀ i : Nat, (i < w.lba.NbObjets.toNat ∨ w.lba.NbObjets.toNat + k.toNat ≤ i) →
      (SceneTemplate.addObjects E w (JsValue.int k :: rest)).world.objectFlag i =
        w.objectFlag i) ∧
    (SceneTemplate.addObjects E w (JsValue.int k :: rest)).world.ida.mObjectFlags.length =
      E.MAX_OBJETS ∧
    (k = 1 → (SceneTemplate.addObjects E w []).world.ida =
      (SceneTemplate.addObjects E w (JsValue.int k :: rest)).world.ida) := by
  have hbound : w.lba.NbObjets.toNat + k.toNat ≤ w.ida.mObjectFlags.length := by
    rw [hlen]; omega
  have hrun : SceneTemplate.addObjects E w (JsValue.int k :: rest) =
      Ret.value (SceneTemplate.initNewObjects E w.lba.NbObjets.toNat k.toNat
        { w with lba := Lba.setNumObjects E w.lba (w.lba.NbObjets + k) })
        (JsValue.int w.lba.NbObjets) := by
    unfold SceneTemplate.addObjects
    rw [EPP_ALLOW_passed _ _ _ hgate]
    simp only [Lba.getMaxObjects, Lba.getNumObjects, argAt, List.getD_cons_zero]
    rw [validateCount k _ (by omega), if_pos hk, if_neg (by omega)]
    simp only [List.length_cons, gt_iff_lt, Nat.zero_lt_succ, ↓reduceIte, VALIDATE]
  have hrun1 : k = 1 → SceneTemplate.addObjects E w [] =
      Ret.value (SceneTemplate.initNewObjects E w.lba.NbObjets.toNat k.toNat
        { w with lba := Lba.setNumObjects E w.lba (w.lba.NbObjets + k) })
        (JsValue.int w.lba.NbObjets) := by
    intro h1
    subst h1
    unfold SceneTemplate.addObjects
    rw [EPP_ALLOW_passed _ _ _ hgate]
    simp only [Lba.getMaxObjects, Lba.getNumObjects]
    rw [if_neg (by omega)]
    simp only [List.length_nil, gt_iff_lt, lt_self_iff_false, ↓reduceIte]
  obtain ⟨hl, hf⟩ := initNewObjects_flags E k.toNat w.lba.NbObjets.toNat
    { w with lba := Lba.setNumObjects E w.lba (w.lba.NbObjets + k) } hbound
  rw [hrun]
  refine ⟨rfl, ?_, ?_, ?_, ?_⟩
  · intro i h1 h2
    have e : (SceneTemplate.initNewObjects E w.lba.NbObjets.toNat k.toNat
        { w with lba := Lba.setNumObjects E w.lba (w.lba.NbObjets + k) }).objectFlag i =
        w.objectFlag i ||| IDA_OBJ_NEW := by
      rw [hf i, if_pos ⟨h1, h2⟩]; rfl
    refine ⟨e, ?_, by omega⟩
    show (SceneTemplate.initNewObjects E w.lba.NbObjets.toNat k.toNat
        { w with lba := Lba.setNumObjects E w.lba (w.lba.NbObjets + k) }).objectFlag i &&&
        IDA_OBJ_NEW = IDA_OBJ_NEW
    rw [e, or_and_self_bits]
  · intro i h1
    show (SceneTemplate.initNewObjects E w.lba.NbObjets.toNat k.toNat
        { w with lba := Lba.setNumObjects E w.lba (w.lba.NbObjets + k) }).objectFlag i = _
    rw [hf i, if_neg (by omega)]; rfl
  · show (SceneTemplate.initNewObjects E w.lba.NbObjets.toNat k.toNat
        { w with lba := Lba.setNumObjects E w.lba (w.lba.NbObjets + k) }).ida.mObjectFlags.length
        = _
    rw [hl]; exact hlen
  · intro h1
    rw [hrun1 h1]

theorem C24_new_objects_are_tagged_witness :
    (SceneTemplate.addObjects Engine.stub (World.sample.atPhase SceneLoad)
      [JsValue.int 2]).world.objectFlag 3 = 4 ∧
    (SceneTemplate.addObjects Engine.stub (World.sample.atPhase SceneLoad)
      [JsValue.int 2]).world.objectFlag 4 &&& IDA_OBJ_NEW = IDA_OBJ_NEW ∧
    (SceneTemplate.addObjects Engine.stub (World.sample.atPhase SceneLoad)
      [JsValue.int 2]).world.objectFlag 5 = 0 := by
  have h := C24_new_objects_are_tagged Engine.stub (World.sample.atPhase SceneLoad) 2 []
    (by decide) (by decide) (by decide) (List.length_replicate 100 0) (by decide)
  exact ⟨(h.2.1 3 (by decide) (by decide)).1, (h.2.1 4 (by decide) (by decide)).2.1,
    h.2.2.1 5 (Or.inr (by decide))⟩

set_option maxRecDepth 100000 in
theorem life_flag_bits : ∀ x < 256,
    ((x ||| IDA_OBJ_LIFE) &&& (255 - IDA_OBJ_LIFE_ENABLED)) &&& IDA_OBJ_LIFE = IDA_OBJ_LIFE ∧
    ((x ||| IDA_OBJ_LIFE) &&& (255 - IDA_OBJ_LIFE_ENABLED)) &&& IDA_OBJ_LIFE_ENABLED = 0 ∧
    ((x ||| IDA_OBJ_LIFE) &&& (255 - IDA_OBJ_LIFE_ENABLED)) &&& 252 = x &&& 252 ∧
    ((x ||| IDA_OBJ_LIFE) ||| IDA_OBJ_LIFE_ENABLED) &&& IDA_OBJ_LIFE = IDA_OBJ_LIFE ∧
    ((x ||| IDA_OBJ_LIFE) ||| IDA_OBJ_LIFE_ENABLED) &&& IDA_OBJ_LIFE_ENABLED =
      IDA_OBJ_LIFE_ENABLED ∧
    ((x ||| IDA_OBJ_LIFE) ||| IDA_OBJ_LIFE_ENABLED) &&& 252 = x &&& 252 := by
  decide

/-- C26. Life-handler flag bits. For every existing object `i` (`0 <= i < NbObjets`, its flag
byte inside the array and below 256), with the gate of `SceneLoad` passed:
`handleLifeScript()` without a function sets `IDA_OBJ_LIFE` (0x01) and clears
`IDA_OBJ_LIFE_ENABLED` (0x02) in flag byte `i`; `handleLifeScript(f)` with a function sets
both; in both cases the other six bits of byte `i` (mask 0xFC) and every other object's flag
byte are unchanged, and the handler map keeps its entry for every other object; the entry of
`i` is emptied (if there was one) without a function and holds `f` with one. -/
theorem C26_life_handler_flag_bits (w : World) (i : Int) (f : Nat) (rest : List JsValue)
    (hgate : w.epp.isExecutionAllowed [SceneLoad] = true)
    (hobj : 0 ≤ i ∧ i < w.lba.NbObjets)
    (hlen : i.toNat < w.ida.mObjectFlags.length)
    (hbyte : w.objectFlag i.toNat < 256) :
    ((GameObjectTemplate.handleLifeScript w i []).outcome =
        Outcome.returned JsValue.undefined ∧
      (GameObjectTemplate.handleLifeScript w i []).world.objectFlag i.toNat &&&
        IDA_OBJ_LIFE = IDA_OBJ_LIFE ∧
      (GameObjectTemplate.handleLifeScript w i []).world.objectFlag i.toNat &&&
        IDA_OBJ_LIFE_ENABLED = 0 ∧
      (GameObjectTemplate.handleLifeScript w i []).world.objectFlag i.toNat &&& 252 =
        w.objectFlag i.toNat &&& 252 ∧
      (∀ j, j ≠ i.toNat →
        (GameObjectTemplate.handleLifeScript w i []).world.objectFlag j = w.objectFlag j) ∧
      (∀ k, k ≠ i →
        (GameObjectTemplate.handleLifeScript w i []).world.ida.mSceneLifeHandlers k =
          w.ida.mSceneLifeHandlers k) ∧
      (GameObjectTemplate.handleLifeScript w i []).world.ida.mSceneLifeHandlers i =
        (w.ida.mSceneLifeHandlers i).map fun _ => none) ∧
    ((GameObjectTemplate.handleLifeScript w i (JsValue.function f :: rest)).outcome =
        Outcome.returned JsValue.undefined ∧
      (GameObjectTemplate.handleLifeScript w i
        (JsValue.function f :: rest)).world.objectFlag i.toNat &&&
        IDA_OBJ_LIFE = IDA_OBJ_LIFE ∧
      (GameObjectTemplate.handleLifeScript w i
        (JsValue.function f :: rest)).world.objectFlag i.toNat &&&
        IDA_OBJ_LIFE_ENABLED = IDA_OBJ_LIFE_ENABLED ∧
      (GameObjectTemplate.handleLifeScript w i
        (JsValue.function f :: rest)).world.objectFlag i.toNat &&& 252 =
        w.objectFlag i.toNat &&& 252 ∧
      (∀ j, j ≠ i.toNat →
        (GameObjectTemplate.handleLifeScript w i
          (JsValue.function f :: rest)).world.objectFlag j = w.objectFlag j) ∧
      (∀ k, k ≠ i →
        (GameObjectTemplate.handleLifeScript w i
          (JsValue.function f :: rest)).world.ida.mSceneLifeHandlers k =
          w.ida.mSceneLifeHandlers k) ∧
      (GameObjectTemplate.handleLifeScript w i
        (JsValue.function f :: rest)).world.ida.mSceneLifeHandlers i = some (some f)) := by
  have hbind : w.lba.getObjectByIndex i = some i.toNat := by
    simp only [Lba.getObjectByIndex]
    rw [if_neg (by omega)]
  set w1 : World := w.setObjectFlag i.toNat (w.objectFlag i.toNat ||| IDA_OBJ_LIFE) with hw1
  have hl1 : i.toNat < w1.ida.mObjectFlags.length := by
    rw [hw1, setObjectFlag_length]; exact hlen
  have hf1 : w1.objectFlag i.toNat = w.objectFlag i.toNat ||| IDA_OBJ_LIFE :=
    objectFlag_set_self w _ _ hlen
  set w0 : World := w1.setObjectFlag i.toNat
    (w1.objectFlag i.toNat &&& (255 - IDA_OBJ_LIFE_ENABLED)) with hw0
  set w2 : World := w1.setObjectFlag i.toNat
    (w1.objectFlag i.toNat ||| IDA_OBJ_LIFE_ENABLED) with hw2
  have hcast : ((i.toNat : Nat) : Int) = i := Int.toNat_of_nonneg hobj.1
  have hrun0 : GameObjectTemplate.handleLifeScript w i [] =
      Ret.done { w0 with ida := GameObjectTemplate.setLifeHandler w0.ida i none } := by
    unfold GameObjectTemplate.handleLifeScript
    rw [EPP_ALLOW_passed _ _ _ hgate]
    simp only [BIND_OBJECT, hbind, List.length_nil, gt_iff_lt, lt_self_iff_false, ↓reduceIte,
      Option.isNone_none, hcast]
  have hrun2 : GameObjectTemplate.handleLifeScript w i (JsValue.function f :: rest) =
      Ret.done { w2 with ida := GameObjectTemplate.setLifeHandler w2.ida i (some f) } := by
    unfold GameObjectTemplate.handleLifeScript
    rw [EPP_ALLOW_passed _ _ _ hgate]
    simp only [BIND_OBJECT, hbind, List.length_cons, gt_iff_lt, Nat.zero_lt_succ, ↓reduceIte,
      argAt, List.getD_cons_zero, Option.isNone_some, Bool.false_eq_true, hcast]
  have hflag0 : ∀ j, ({ w0 with ida := GameObjectTemplate.setLifeHandler w0.ida i none } :
      World).objectFlag j = w0.objectFlag j := fun _ => rfl
  have hflag2 : ∀ j, ({ w2 with ida := GameObjectTemplate.setLifeHandler w2.ida i (some f) } :
      World).objectFlag j = w2.objectFlag j := fun _ => rfl
  have hv0 : w0.objectFlag i.toNat =
      (w.objectFlag i.toNat ||| IDA_OBJ_LIFE) &&& (255 - IDA_OBJ_LIFE_ENABLED) := by
    rw [hw0, objectFlag_set_self w1 _ _ hl1, hf1]
  have hv2 : w2.objectFlag i.toNat =
      (w.objectFlag i.toNat ||| IDA_OBJ_LIFE) ||| IDA_OBJ_LIFE_ENABLED := by
    rw [hw2, objectFlag_set_self w1 _ _ hl1, hf1]
  have hbits := life_flag_bits (w.objectFlag i.toNat) hbyte
  have hmap0 : w0.ida.mSceneLifeHandlers = w.ida.mSceneLifeHandlers := rfl
  have hmap2 : w2.ida.mSceneLifeHandlers = w.ida.mSceneLifeHandlers := rfl
  have hworld0 : (GameObjectTemplate.handleLifeScript w i []).world =
      { w0 with ida := GameObjectTemplate.setLifeHandler w0.ida i none } := by
    rw [hrun0]; rfl
  have hworld2 : (GameObjectTemplate.handleLifeScript w i (JsValue.function f :: rest)).world =
      { w2 with ida := GameObjectTemplate.setLifeHandler w2.ida i (some f) } := by
    rw [hrun2]; rfl
  refine ⟨⟨by rw [hrun0]; rfl, ?_, ?_, ?_, ?_, ?_, ?_⟩,
    ⟨by rw [hrun2]; rfl, ?_, ?_, ?_, ?_, ?_, ?_⟩⟩
  · rw [hworld0, hflag0, hv0]; exact hbits.1
  · rw [hworld0, hflag0, hv0]; exact hbits.2.1
  · rw [hworld0, hflag0, hv0]; exact hbits.2.2.1
  · intro j hj
    rw [hworld0, hflag0, hw0, objectFlag_set_ne w1 _ _ _ hj, hw1, objectFlag_set_ne w _ _ _ hj]
  · intro k hk
    rw [hworld0]
    simp [GameObjectTemplate.setLifeHandler, hk, hmap0]
  · rw [hworld0]
    simp [GameObjectTemplate.setLifeHandler, hmap0]
  · rw [hworld2, hflag2, hv2]; exact hbits.2.2.2.1
  · rw [hworld2, hflag2, hv2]; exact hbits.2.2.2.2.1
  · rw [hworld2, hflag2, hv2]; exact hbits.2.2.2.2.2
  · intro j hj
    rw [hworld2, hflag2, hw2, objectFlag_set_ne w1 _ _ _ hj, hw1, objectFlag_set_ne w _ _ _ hj]
  · intro k hk
    rw [hworld2]
    simp [GameObjectTemplate.setLifeHandler, hk, hmap2]
  · rw [hworld2]
    simp [GameObjectTemplate.setLifeHandler]

theorem C26_life_handler_flag_bits_witness :
    (GameObjectTemplate.handleLifeScript (World.sample.atPhase SceneLoad) 1
      []).world.objectFlag 1 = 1 ∧
    (GameObjectTemplate.handleLifeScript (World.sample.atPhase SceneLoad) 1
      [JsValue.function 7]).world.objectFlag 1 = 3 ∧
    (GameObjectTemplate.handleLifeScript (World.sample.atPhase SceneLoad) 1
      [JsValue.function 7]).world.ida.mSceneLifeHandlers 1 = some (some 7) ∧
    (GameObjectTemplate.handleLifeScript (World.sample.atPhase SceneLoad) 1
      [JsValue.function 7]).world.objectFlag 2 = 0 := by
  have h := C26_life_handler_flag_bits (World.sample.atPhase SceneLoad) 1 7 []
    (by decide) (by decide) (by decide) (by decide)
  exact ⟨by decide, by decide, h.2.2.2.2.2.2.2, h.2.2.2.2.2.1 2 (by decide)⟩

/-! ## The inventory money slot -/

/-- The foreign-money store: Gold when `Planet >= 2`, Zlitos otherwise. -/
theorem foreign_store_eq (w : World) (args : List JsValue)
    (hget : w.epp.isExecutionDenied [ExecutionPhase.None, BeforeSceneLoad] = false) :
    (SceneTemplate.getForeignMoney w args).outcome = Outcome.returned (JsValue.int
      (if w.lba.Planet ≥ 2 then w.lba.NbGoldPieces else w.lba.NbZlitosPieces)) := by
  unfold SceneTemplate.getForeignMoney
  rw [EPP_DENY_passed _ _ _ hget]
  split_ifs <;> rfl

theorem money_call_cases (w : World) (args : List JsValue) (k : Int → Ret) :
    (EPP_ALLOW w [SceneLoad, Life] (VALIDATE_ARGS_COUNT w args 1
      (VALIDATE w (validateInt16Value (argAt args 0)) k))).world = w ∨
    ∃ m, (EPP_ALLOW w [SceneLoad, Life] (VALIDATE_ARGS_COUNT w args 1
      (VALIDATE w (validateInt16Value (argAt args 0)) k))).world = (k m).world := by
  unfold EPP_ALLOW VALIDATE_ARGS_COUNT VALIDATE
  split_ifs
  · exact Or.inl rfl
  · exact Or.inl rfl
  · split
    · exact Or.inl rfl
    · exact Or.inr ⟨_, rfl⟩

theorem ite_done_world (c : Prop) [Decidable c] (a b : World) :
    (if c then Ret.done a else Ret.done b).world = if c then a else b := by
  split_ifs <;> rfl

theorem setGameVariable_world (E : Engine) (w : World) (args : List JsValue) :
    (SceneTemplate.setGameVariable E w args).world = w ∨
    ∃ (i : Nat) (v : Int), i ≠ 8 ∧
      (SceneTemplate.setGameVariable E w args).world = w.setVarGame i v := by
  unfold SceneTemplate.setGameVariable EPP_ALLOW VALIDATE_ARGS_COUNT VALIDATE
  split_ifs
  · exact Or.inl rfl
  · exact Or.inl rfl
  · split
    · exact Or.inl rfl
    · rename_i variableIndex hvi
      simp only
      split_ifs with hro
      · exact Or.inl rfl
      · split
        · exact Or.inl rfl
        · rename_i value hv
          split
          · exact Or.inl rfl
          · rename_i idx hidx
            refine Or.inr ⟨idx, value, ?_, rfl⟩
            intro h8
            subst h8
            simp only [Lba.getVarGame] at hidx
            split_ifs at hidx with hr
            simp only [Option.some.injEq] at hidx
            have : variableIndex = 8 := by omega
            subst this
            simp [SceneTemplate.isReadOnlyGameVariable] at hro

/-- C29. The inventory money slot mirrors the foreign currency. If game variable 8
(`FLAG_MONEY`) holds the foreign-money store (Gold when `Planet >= 2`, Zlitos otherwise)
before a call of `setGold`, `setZlitos`, `setCurrentMoney`, `setForeignMoney` or
`setGameVariable`, then it holds it after the call, for every argument list and whether the
call succeeds or is rejected, in every phase; the planet is not changed by the call. -/
theorem C29_inventory_money_mirrors_foreign (E : Engine) (w : World) (args : List JsValue)
    (hinv : w.lba.ListVarGame[8]? =
      some (if w.lba.Planet ≥ 2 then w.lba.NbGoldPieces else w.lba.NbZlitosPieces)) :
    (∀ w2 : World, w2 = (SceneTemplate.setGold w args).world ∨
        w2 = (SceneTemplate.setZlitos w args).world ∨
        w2 = (SceneTemplate.setCurrentMoney w args).world ∨
        w2 = (SceneTemplate.setForeignMoney w args).world ∨
        w2 = (SceneTemplate.setGameVariable E w args).world →
      w2.lba.Planet = w.lba.Planet ∧
      w2.lba.ListVarGame[8]? =
        some (if w2.lba.Planet ≥ 2 then w2.lba.NbGoldPieces else w2.lba.NbZlitosPieces)) := by
  have h8 : 8 < w.lba.ListVarGame.length := by
    by_contra hc
    rw [List.getElem?_eq_none (by omega)] at hinv
    cases hinv
  have key : ∀ w2 : World, (w2 = w ∨
      (∃ m, w2 = (if (w.setGold m).lba.Planet ≥ 2 then
        SceneTemplate.setInventoryMoney (w.setGold m) m else w.setGold m)) ∨
      (∃ m, w2 = (if (w.setZlitos m).lba.Planet < 2 then
        SceneTemplate.setInventoryMoney (w.setZlitos m) m else w.setZlitos m)) ∨
      (∃ m, w2 = (if w.lba.Planet ≥ 2 then w.setZlitos m else w.setGold m)) ∨
      (∃ m, w2 = (if w.lba.Planet ≥ 2 then (SceneTemplate.setInventoryMoney w m).setGold m
        else (SceneTemplate.setInventoryMoney w m).setZlitos m)) ∨
      (∃ (i : Nat) (v : Int), i ≠ 8 ∧ w2 = w.setVarGame i v)) →
      w2.lba.Planet = w.lba.Planet ∧
      w2.lba.ListVarGame[8]? =
        some (if w2.lba.Planet ≥ 2 then w2.lba.NbGoldPieces else w2.lba.NbZlitosPieces) := by
    intro w2 h
    rcases h with h | ⟨m, h⟩ | ⟨m, h⟩ | ⟨m, h⟩ | ⟨m, h⟩ | ⟨i, v, hi, h⟩
    · subst h; exact ⟨rfl, hinv⟩
    · subst h
      by_cases hp : w.lba.Planet ≥ 2
      · simp [World.setGold, SceneTemplate.setInventoryMoney, World.setVarGame, hp,
          List.getElem?_set, h8]
      · have hp2 : ¬ (w.setGold m).lba.Planet ≥ 2 := hp
        rw [if_neg hp2]
        refine ⟨rfl, ?_⟩
        simpa [World.setGold, hp] using hinv
    · subst h
      by_cases hp : w.lba.Planet ≥ 2
      · have hp2 : ¬ (w.setZlitos m).lba.Planet < 2 := by
          show ¬ w.lba.Planet < 2
          omega
        rw [if_neg hp2]
        refine ⟨rfl, ?_⟩
        simpa [World.setZlitos, hp] using hinv
      · have hp2 : (w.setZlitos m).lba.Planet < 2 := by
          show w.lba.Planet < 2
          omega
        rw [if_pos hp2]
        simp [World.setZlitos, SceneTemplate.setInventoryMoney, World.setVarGame, hp,
          List.getElem?_set, h8]
    · subst h
      by_cases hp : w.lba.Planet ≥ 2
      · rw [if_pos hp]
        refine ⟨rfl, ?_⟩
        simpa [World.setZlitos, hp] using hinv
      · rw [if_neg hp]
        refine ⟨rfl, ?_⟩
        simpa [World.setGold, hp] using hinv
    · subst h
      by_cases hp : w.lba.Planet ≥ 2
      · rw [if_pos hp]
        simp [World.setGold, SceneTemplate.setInventoryMoney, World.setVarGame, hp,
          List.getElem?_set, h8]
      · rw [if_neg hp]
        simp [World.setZlitos, SceneTemplate.setInventoryMoney, World.setVarGame, hp,
          List.getElem?_set, h8]
    · subst h
      refine ⟨rfl, ?_⟩
      simpa [World.setVarGame, List.getElem?_set_ne hi] using hinv
  intro w2 h
  apply key w2
  rcases h with h | h | h | h | h
  · subst h
    unfold SceneTemplate.setGold
    rcases money_call_cases w args _ with h | ⟨m, h⟩
    · exact Or.inl h
    · exact Or.inr (Or.inl ⟨m, by rw [h, ite_done_world]⟩)
  · subst h
    unfold SceneTemplate.setZlitos
    rcases money_call_cases w args _ with h | ⟨m, h⟩
    · exact Or.inl h
    · exact Or.inr (Or.inr (Or.inl ⟨m, by rw [h, ite_done_world]⟩))
  · subst h
    unfold SceneTemplate.setCurrentMoney
    rcases money_call_cases w args _ with h | ⟨m, h⟩
    · exact Or.inl h
    · exact Or.inr (Or.inr (Or.inr (Or.inl ⟨m, by rw [h, ite_done_world]⟩)))
  · subst h
    unfold SceneTemplate.setForeignMoney
    rcases money_call_cases w args _ with h | ⟨m, h⟩
    · exact Or.inl h
    · exact Or.inr (Or.inr (Or.inr (Or.inr (Or.inl ⟨m, by rw [h, ite_done_world]⟩))))
  · subst h
    rcases setGameVariable_world E w args with h | ⟨i, v, hi, h⟩
    · exact Or.inl h
    · exact Or.inr (Or.inr (Or.inr (Or.inr (Or.inr ⟨i, v, hi, h⟩))))

set_option maxRecDepth 100000 in
theorem C29_inventory_money_mirrors_foreign_witness :
    (SceneTemplate.setGold ((World.sample.atPhase Life).setVarGame 8 20)
      [JsValue.int 7]).world.lba.ListVarGame[8]? = some 20 ∧
    (SceneTemplate.setForeignMoney ((World.sample.atPhase Life).setVarGame 8 20)
      [JsValue.int 7]).world.lba.ListVarGame[8]? = some 7 := by
  have h := C29_inventory_money_mirrors_foreign Engine.stub
    ((World.sample.atPhase Life).setVarGame 8 20) [JsValue.int 7] rfl
  exact ⟨(h _ (Or.inl rfl)).2, (h _ (Or.inr (Or.inr (Or.inr (Or.inl rfl))))).2⟩

/-! ## Buffers handed to the game's track interpreter -/

theorem move_fresh_dispatch (E : Engine) (w : World) (a0 a1 a2 : JsValue)
    (rest : List JsValue) (objectIndex : Int) (opcode : Int) (shape : Shape)
    (hgate : w.epp.isExecutionAllowed [Move] = true)
    (hidx : validateIntValue a0 0 (some (w.lba.getNumObjects - 1)) = some objectIndex)
    (hidle : w.lba.isMoveCommandActive objectIndex.toNat = false)
    (hsaved : validateArray V8Type.Uint32 a1 0 = some [])
    (hop : validateU8 a2 255 = some opcode)
    (hs : moveShape opcode.toNat = some shape)
    (ha : acceptsAt shape.slots (a0 :: a1 :: a2 :: rest) 3 = true) :
    (IdaTemplate._move E w (a0 :: a1 :: a2 :: rest)).world.dispatched =
      w.dispatched ++ [HostCall.executeMoveCommand objectIndex.toNat
        ([opcode.toNat] ++ encodeAt shape.slots (a0 :: a1 :: a2 :: rest) 3 ++ shape.trailer ++
          [TM_END])] := by
  unfold IdaTemplate._move
  rw [EPP_ALLOW_passed _ _ _ hgate]
  simp only [VALIDATE_ARGS_COUNT, validateArgsCount, argAt, List.getD_cons_zero,
    List.getD_cons_succ, hidx, hsaved, hop, VALIDATE, hidle, List.length_cons,
    List.map_nil, List.length_nil, gt_iff_lt, lt_self_iff_false, ↓reduceIte]
  rw [moveLoad_accept _ _ _ _ shape hs ha]
  simp [IdaLbaBridge.executeMoveCommand, IdaBridge.getMoveScript, IdaBridge.setMoveScript,
    Ret.done]

/-- C28. Buffers handed to the track interpreter that are not well-formed. On the sample
scene in phase `Move` with every move buffer of the bridge empty and the game reporting a
track in progress on object 1, `_cmove(1)` hands the empty buffer to `continueMoveCommand`
and then reads its first byte, outside the buffer. On the sample scene with no move command
active on object 1, `_move(1, [18, 5], 18)` restores the caller's two saved bytes and hands
`[18, 5]` to `executeMoveCommand`: the first byte is the opcode but the last is not
`TM_END`. -/
theorem C28_dispatched_buffer_not_well_formed :
    World.untracked.lba.isMoveCommandActive 1 = true ∧
    World.untracked.bridge.getMoveScript 1 = [] ∧
    (IdaTemplate._cmove Engine.stub World.untracked [JsValue.int 1]).world.dispatched =
      [HostCall.continueMoveCommand 1 []] ∧
    (IdaTemplate._cmove Engine.stub World.untracked [JsValue.int 1]).outcome =
      Outcome.outOfBounds ∧
    World.idle.lba.isMoveCommandActive 1 = false ∧
    (IdaTemplate._move Engine.stub World.idle
      [JsValue.int 1, JsValue.intArray [18, 5], JsValue.int 18]).world.dispatched =
      [HostCall.executeMoveCommand 1 [18, 5]] ∧
    ([18, 5] : Bytes).getLast? ≠ some TM_END :=
  ⟨by decide, rfl, by decide, by decide, by decide, by decide, by decide⟩
/-! ## The facade: the state a scene load starts from -/

theorem EPP_ALLOW_out_world (w : World) (phases : List ExecutionPhase) (k : Ret)
    (hen : w.epp.mIsEnabled = true) (hph : w.epp.mCurrentPhase ∉ phases) :
    (EPP_ALLOW w phases k).world = w := by
  rw [EPP_ALLOW_denied w phases k hen hph]
  rfl

theorem EPP_DENY_in_world (w : World) (phases : List ExecutionPhase) (k : Ret)
    (hen : w.epp.mIsEnabled = true) (hph : w.epp.mCurrentPhase ∈ phases) :
    (EPP_DENY w phases k).world = w := by
  have h : w.epp.isExecutionDenied phases = true := by
    simp [Epp.isExecutionDenied, hen, (Epp.phaseLoop_iff _ _).mpr hph]
  simp only [EPP_DENY, h, ↓reduceIte]
  rfl

/-- In phase `BeforeSceneLoad` with the guard enabled, a template call leaves the world as
it was unless it is `setStorm` or `forceIsland`. -/
theorem template_run_cases (E : Engine) (denied : Op → World → List JsValue → Ret)
    (w : World) (op : Op) (args : List JsValue)
    (hen : w.epp.mIsEnabled = true)
    (hph : w.epp.mCurrentPhase = BeforeSceneLoad) :
    (ScriptCall.template op args).run E denied w = w ∨
    (op = Op.ida IdaOp.setStorm ∧
      (ScriptCall.template op args).run E denied w = (IdaTemplate.setStorm w args).world) ∨
    (op = Op.ida IdaOp.forceIsland ∧
      (ScriptCall.template op args).run E denied w =
        (IdaTemplate.forceIsland w args).world) := by
  have hd : w.epp.mCurrentPhase ∈ [ExecutionPhase.None, BeforeSceneLoad] := by
    rw [hph]; decide
  cases op with
  | scene f =>
    cases f <;> first
      | exact Or.inl (EPP_ALLOW_out_world w _ _ hen (by rw [hph]; decide))
      | exact Or.inl (EPP_DENY_in_world w _ _ hen hd)
  | gameObject f this =>
    cases f <;> first
      | exact Or.inl (EPP_ALLOW_out_world w _ _ hen (by rw [hph]; decide))
      | exact Or.inl (EPP_DENY_in_world w _ _ hen hd)
  | zone f this =>
    cases f <;> first
      | exact Or.inl (EPP_ALLOW_out_world w _ _ hen (by rw [hph]; decide))
      | exact Or.inl (EPP_DENY_in_world w _ _ hen hd)
  | ida f =>
    cases f <;> first
      | exact Or.inr (Or.inl ⟨rfl, rfl⟩)
      | exact Or.inr (Or.inr ⟨rfl, rfl⟩)
      | exact Or.inl (EPP_ALLOW_out_world w _ _ hen (by rw [hph]; decide))
      | exact Or.inl (EPP_DENY_in_world w _ _ hen hd)

theorem setStorm_world (w : World) (args : List JsValue) :
    (IdaTemplate.setStorm w args).world = w ∨
    ∃ m, (IdaTemplate.setStorm w args).world =
      { w with ida := { w.ida with mForcedStorm := m },
               lba := { w.lba with FlagPal := true } } := by
  unfold IdaTemplate.setStorm EPP_ALLOW VALIDATE_ARGS_COUNT VALIDATE
  split_ifs
  · exact Or.inl rfl
  · exact Or.inl rfl
  · split
    · exact Or.inl rfl
    · dsimp only
      split_ifs
      · exact Or.inl rfl
      · exact Or.inr ⟨_, rfl⟩

theorem forceIsland_world (w : World) (args : List JsValue) :
    (IdaTemplate.forceIsland w args).world = w ∨
    ∃ m, (IdaTemplate.forceIsland w args).world =
      { w with ida := { w.ida with mForcedIslandModel := m } } := by
  unfold IdaTemplate.forceIsland EPP_ALLOW VALIDATE_ARGS_COUNT VALIDATE
  split_ifs
  · exact Or.inl rfl
  · exact Or.inl rfl
  · split
    · exact Or.inl rfl
    · exact Or.inr ⟨_, rfl⟩

theorem setEppEnabled_world (w : World) (args : List JsValue) :
    (IdaTemplate._setEppEnabled w args).world = w ∨
    ∃ b, argAt args 0 = JsValue.boolean b ∧
      (IdaTemplate._setEppEnabled w args).world = { w with epp := w.epp.setEnabled b } := by
  unfold IdaTemplate._setEppEnabled VALIDATE_ARGS_COUNT VALIDATE
  split_ifs
  · exact Or.inl rfl
  · cases h : argAt args 0 <;> first
      | exact Or.inr ⟨_, rfl, rfl⟩
      | exact Or.inl rfl

theorem mark_call_world (w : World) (args : List JsValue) (op : MarkOp) :
    (op.call w args).world.epp = w.epp ∧ (op.call w args).world.ida = w.ida := by
  cases op <;>
    simp only [MarkOp.call, MarkTemplate.exitProcess, MarkTemplate.exit, MarkTemplate.newGame,
      MarkTemplate.saveGame, MarkTemplate.loadGame, MarkTemplate.skipVideoOnce,
      MarkTemplate.setGameInputOnce, MarkTemplate.getGameLoop,
      MarkTemplate.isHotReloadEnabled, MarkTemplate.disableHotReload,
      MarkTemplate.enableHotReload, MarkTemplate.doDialogSpy, MarkTemplate.getDialogSpyInfo,
      MarkTemplate.doImageSpy, MarkTemplate.getImageSpyInfo, EPP_TEST, VALIDATE_ARGS_COUNT,
      VALIDATE] <;>
    (repeat' split) <;> exact ⟨rfl, rfl⟩

/-- One call of a script in phase `BeforeSceneLoad` with the guard enabled, other than
`_setEppEnabled(false)`: the guard, the phase, the flags, the handler map, the start scene id
and the intro video are kept, and each of storm, island model and lightning is kept unless
the call is its setter. -/
theorem ScriptCall.run_frame (E : Engine) (denied : Op → World → List JsValue → Ret)
    (w : World) (c : ScriptCall)
    (hen : w.epp.mIsEnabled = true)
    (hph : w.epp.mCurrentPhase = BeforeSceneLoad)
    (hk : c.keepsGuard = true) :
    (c.run E denied w).sceneState = w.sceneState ∧
    (c.setsStorm = false → (c.run E denied w).ida.mForcedStorm = w.ida.mForcedStorm) ∧
    (c.setsIsland = false →
      (c.run E denied w).ida.mForcedIslandModel = w.ida.mForcedIslandModel) ∧
    (c.setsLightning = false →
      (c.run E denied w).ida.mLightningDisabled = w.ida.mLightningDisabled) := by
  cases c with
  | template op args =>
    rcases template_run_cases E denied w op args hen hph with h | ⟨hop, h⟩ | ⟨hop, h⟩
    · rw [h]
      exact ⟨rfl, fun _ => rfl, fun _ => rfl, fun _ => rfl⟩
    · subst hop
      rw [h]
      rcases setStorm_world w args with h1 | ⟨m, h1⟩ <;> rw [h1]
      · exact ⟨rfl, fun _ => rfl, fun _ => rfl, fun _ => rfl⟩
      · exact ⟨rfl, fun h0 => by simp [ScriptCall.setsStorm] at h0, fun _ => rfl,
          fun _ => rfl⟩
    · subst hop
      rw [h]
      rcases forceIsland_world w args with h1 | ⟨m, h1⟩ <;> rw [h1]
      · exact ⟨rfl, fun _ => rfl, fun _ => rfl, fun _ => rfl⟩
      · exact ⟨rfl, fun _ => rfl, fun h0 => by simp [ScriptCall.setsIsland] at h0,
          fun _ => rfl⟩
  | enableLightning args =>
    exact ⟨rfl, fun _ => rfl, fun _ => rfl,
      fun h0 => by simp [ScriptCall.setsLightning] at h0⟩
  | disableLightning args =>
    exact ⟨rfl, fun _ => rfl, fun _ => rfl,
      fun h0 => by simp [ScriptCall.setsLightning] at h0⟩
  | setEppEnabled args =>
    have hr : (ScriptCall.setEppEnabled args).run E denied w =
        (IdaTemplate._setEppEnabled w args).world := rfl
    rw [hr]
    rcases setEppEnabled_world w args with h1 | ⟨b, hb, h1⟩
    · rw [h1]
      exact ⟨rfl, fun _ => rfl, fun _ => rfl, fun _ => rfl⟩
    · have hb1 : b = true := by
        cases b
        · simp [ScriptCall.keepsGuard, hb] at hk
        · rfl
      subst hb1
      rw [h1]
      refine ⟨?_, fun _ => rfl, fun _ => rfl, fun _ => rfl⟩
      simp only [World.sceneState, Epp.setEnabled, hen]
  | mark op args =>
    have hr : (ScriptCall.mark op args).run E denied w = (op.call w args).world := rfl
    have h := mark_call_world w args op
    rw [hr]
    refine ⟨?_, fun _ => ?_, fun _ => ?_, fun _ => ?_⟩
    · simp only [World.sceneState, h.1, h.2]
    · rw [h.2]
    · rw [h.2]
    · rw [h.2]

/-- The calls of a callback entered in phase `BeforeSceneLoad` with the guard enabled, none
of them `_setEppEnabled(false)`. -/
theorem runScript_frame (E : Engine) (denied : Op → World → List JsValue → Ret)
    (calls : List ScriptCall) (w : World)
    (hen : w.epp.mIsEnabled = true)
    (hph : w.epp.mCurrentPhase = BeforeSceneLoad)
    (hk : ∀ c ∈ calls, c.keepsGuard = true) :
    (runScript E denied calls w).sceneState = w.sceneState ∧
    ((∀ c ∈ calls, c.setsStorm = false) →
      (runScript E denied calls w).ida.mForcedStorm = w.ida.mForcedStorm) ∧
    ((∀ c ∈ calls, c.setsIsland = false) →
      (runScript E denied calls w).ida.mForcedIslandModel = w.ida.mForcedIslandModel) ∧
    ((∀ c ∈ calls, c.setsLightning = false) →
      (runScript E denied calls w).ida.mLightningDisabled = w.ida.mLightningDisabled) := by
  induction calls generalizing w with
  | nil => exact ⟨rfl, fun _ => rfl, fun _ => rfl, fun _ => rfl⟩
  | cons c rest ih =>
    have h1 := ScriptCall.run_frame E denied w c hen hph (hk c (List.mem_cons_self c rest))
    have hs := h1.1
    simp only [World.sceneState, Prod.mk.injEq] at hs
    have h2 := ih (c.run E denied w) (hs.1.trans hen) (hs.2.1.trans hph)
      (fun c1 hc1 => hk c1 (List.mem_cons_of_mem c hc1))
    have hrun : runScript E denied (c :: rest) w = runScript E denied rest (c.run E denied w) :=
      rfl
    rw [hrun]
    refine ⟨h2.1.trans h1.1, ?_, ?_, ?_⟩
    · intro h0
      exact (h2.2.1 (fun c1 hc1 => h0 c1 (List.mem_cons_of_mem c hc1))).trans
        (h1.2.1 (h0 c (List.mem_cons_self c rest)))
    · intro h0
      exact (h2.2.2.1 (fun c1 hc1 => h0 c1 (List.mem_cons_of_mem c hc1))).trans
        (h1.2.2.1 (h0 c (List.mem_cons_self c rest)))
    · intro h0
      exact (h2.2.2.2 (fun c1 hc1 => h0 c1 (List.mem_cons_of_mem c hc1))).trans
        (h1.2.2.2 (h0 c (List.mem_cons_self c rest)))

/-- C27, counterexample. On the sample scene (scripting active, guard enabled, storm
override 0, phase `InScene`): with a script whose `beforeLoadScene` handler calls
`ida.setStorm(1)`, allowed in that phase, the storm override is 1 after the hook returns;
with a script whose handler calls `ida._setEppEnabled(false)` and then attaches a life
handler to object 1, the flag byte of object 1 is 3 and the handler map has an entry for it
after the hook returns; and the same holds when the guard was switched off before the call
and the handler only attaches the life handler. -/
theorem C27_clean_slate_counterexample :
    World.sample.ida.mIsScriptProvided = true ∧
    World.sample.epp.mIsEnabled = true ∧
    World.sample.ida.mForcedStorm = 0 ∧
    ((⟨Engine.stub, Runtime.stormy⟩ : IdaFacade).beforeLoadScene World.sample 7 [] 0 false
      false).world.ida.mForcedStorm = 1 ∧
    ((⟨Engine.stub, Runtime.scripted
        [ScriptCall.setEppEnabled [JsValue.boolean false],
         ScriptCall.template (Op.gameObject GameObjectOp.handleLifeScript 1)
           [JsValue.function 7]]⟩ : IdaFacade).beforeLoadScene World.sample 7 [] 0 false
      false).world.ida.mObjectFlags.getD 1 0 = 3 ∧
    ((⟨Engine.stub, Runtime.scripted
        [ScriptCall.setEppEnabled [JsValue.boolean false],
         ScriptCall.template (Op.gameObject GameObjectOp.handleLifeScript 1)
           [JsValue.function 7]]⟩ : IdaFacade).beforeLoadScene World.sample 7 [] 0 false
      false).world.ida.mSceneLifeHandlers 1 = some (some 7) ∧
    ((⟨Engine.stub, Runtime.scripted
        [ScriptCall.template (Op.gameObject GameObjectOp.handleLifeScript 1)
           [JsValue.function 7]]⟩ : IdaFacade).beforeLoadScene
      { World.sample with epp := World.sample.epp.setEnabled false } 7 [] 0 false
      false).world.ida.mObjectFlags.getD 1 0 = 3 :=
  ⟨rfl, rfl, rfl, rfl, rfl, rfl, rfl⟩

/-- C27, amended. Scene load starts from a clean slate. With scripting absent or halted,
after `beforeLoadScene` returns every byte of the object-flag array (one per object slot,
`MAX_OBJETS` of them) is 0, the life handler map is empty, the forced overrides (storm,
island model, lightning, start scene id, intro video) keep the values they had before the
call, and nothing was called. With scripting active and the phase guard enabled at the call,
for a script whose `beforeLoadScene` handler and `__load` function act on the bridge through
calls of its functions, none of them `_setEppEnabled(false)`: after the hook returns every
flag byte is 0, the life handler map is empty, the start scene id and the intro video keep
their values, and each of storm, island model and lightning keeps its value unless the
script called its setter (`setStorm`, `forceIsland`, `enableLightning` or
`disableLightning`) during the hook. -/
theorem C27_scene_load_clean_slate (F : IdaFacade) (w : World) (sceneId : Int)
    (loadFilePath : Bytes) (sceneLoadMode : Int) (isLoadGame isRestoringValidPos : Bool)
    (denied : Op → World → List JsValue → Ret)
    (handler loader : List JsValue → World → List ScriptCall) :
    (w.ida.mIsScriptProvided = false →
      (F.beforeLoadScene w sceneId loadFilePath sceneLoadMode isLoadGame
        isRestoringValidPos).world.ida.mObjectFlags = List.replicate F.engine.MAX_OBJETS 0 ∧
      (∀ objectId, (F.beforeLoadScene w sceneId loadFilePath sceneLoadMode isLoadGame
        isRestoringValidPos).world.ida.mSceneLifeHandlers objectId = none) ∧
      (F.beforeLoadScene w sceneId loadFilePath sceneLoadMode isLoadGame
        isRestoringValidPos).world.ida.mForcedStorm = w.ida.mForcedStorm ∧
      (F.beforeLoadScene w sceneId loadFilePath sceneLoadMode isLoadGame
        isRestoringValidPos).world.ida.mForcedIslandModel = w.ida.mForcedIslandModel ∧
      (F.beforeLoadScene w sceneId loadFilePath sceneLoadMode isLoadGame
        isRestoringValidPos).world.ida.mLightningDisabled = w.ida.mLightningDisabled ∧
      (F.beforeLoadScene w sceneId loadFilePath sceneLoadMode isLoadGame
        isRestoringValidPos).world.ida.mStartSceneId = w.ida.mStartSceneId ∧
      (F.beforeLoadScene w sceneId loadFilePath sceneLoadMode isLoadGame
        isRestoringValidPos).world.ida.mIntroVideo = w.ida.mIntroVideo ∧
      (F.beforeLoadScene w sceneId loadFilePath sceneLoadMode isLoadGame
        isRestoringValidPos).invoked = []) ∧
    (w.ida.mIsScriptProvided = true →
      w.epp.mIsEnabled = true →
      (∀ args w0, F.runtime.runSyncEvent "beforeLoadScene" args w0 =
        runScript F.engine denied (handler args w0) w0) →
      (∀ args w0, (F.runtime.runFunction "__load" args w0).1 =
        runScript F.engine denied (loader args w0) w0) →
      (∀ args w0, ∀ c ∈ handler args w0 ++ loader args w0, c.keepsGuard = true) →
      (F.beforeLoadScene w sceneId loadFilePath sceneLoadMode isLoadGame
        isRestoringValidPos).world.ida.mObjectFlags = List.replicate F.engine.MAX_OBJETS 0 ∧
      (∀ objectId, (F.beforeLoadScene w sceneId loadFilePath sceneLoadMode isLoadGame
        isRestoringValidPos).world.ida.mSceneLifeHandlers objectId = none) ∧
      (F.beforeLoadScene w sceneId loadFilePath sceneLoadMode isLoadGame
        isRestoringValidPos).world.ida.mStartSceneId = w.ida.mStartSceneId ∧
      (F.beforeLoadScene w sceneId loadFilePath sceneLoadMode isLoadGame
        isRestoringValidPos).world.ida.mIntroVideo = w.ida.mIntroVideo ∧
      ((∀ args w0, ∀ c ∈ handler args w0 ++ loader args w0, c.setsStorm = false) →
        (F.beforeLoadScene w sceneId loadFilePath sceneLoadMode isLoadGame
          isRestoringValidPos).world.ida.mForcedStorm = w.ida.mForcedStorm) ∧
      ((∀ args w0, ∀ c ∈ handler args w0 ++ loader args w0, c.setsIsland = false) →
        (F.beforeLoadScene w sceneId loadFilePath sceneLoadMode isLoadGame
          isRestoringValidPos).world.ida.mForcedIslandModel = w.ida.mForcedIslandModel) ∧
      ((∀ args w0, ∀ c ∈ handler args w0 ++ loader args w0, c.setsLightning = false) →
        (F.beforeLoadScene w sceneId loadFilePath sceneLoadMode isLoadGame
          isRestoringValidPos).world.ida.mLightningDisabled = w.ida.mLightningDisabled)) := by
  constructor
  · intro hs
    have hs2 : (IdaFacade.clearSceneHandlers F.engine w.ida).mIsScriptProvided = false := hs
    simp only [IdaFacade.beforeLoadScene, hs2, Bool.not_false, ↓reduceIte]
    exact ⟨rfl, fun _ => rfl, rfl, rfl, rfl, rfl, rfl, rfl⟩
  · intro hs hen hE hF hk
    have hs2 : (IdaFacade.clearSceneHandlers F.engine w.ida).mIsScriptProvided = true := hs
    have key : ∃ w0 calls, w0.epp.mIsEnabled = true ∧
        w0.epp.mCurrentPhase = BeforeSceneLoad ∧
        w0.ida.mObjectFlags = List.replicate F.engine.MAX_OBJETS 0 ∧
        (∀ objectId, w0.ida.mSceneLifeHandlers objectId = none) ∧
        w0.ida.mStartSceneId = w.ida.mStartSceneId ∧
        w0.ida.mIntroVideo = w.ida.mIntroVideo ∧
        w0.ida.mForcedStorm = w.ida.mForcedStorm ∧
        w0.ida.mForcedIslandModel = w.ida.mForcedIslandModel ∧
        w0.ida.mLightningDisabled = w.ida.mLightningDisabled ∧
        (∀ c ∈ calls, ∃ args w1, c ∈ handler args w1 ++ loader args w1) ∧
        (F.beforeLoadScene w sceneId loadFilePath sceneLoadMode isLoadGame
          isRestoringValidPos).world.ida = (runScript F.engine denied calls w0).ida := by
      by_cases hm : IdaFacade.calculateIdaSceneLoadMode sceneLoadMode isLoadGame
          isRestoringValidPos = 4
      · refine ⟨(({ w with ida := { IdaFacade.clearSceneHandlers F.engine w.ida with
            mLastProfileTime := 0, mProfileFrameCount := 0 } } : World).atPhase
            BeforeSceneLoad),
          loader [JsValue.string (F.runtime.readJson loadFilePath)] (({ w with ida := { IdaFacade.clearSceneHandlers F.engine w.ida with
            mLastProfileTime := 0, mProfileFrameCount := 0 } } : World).atPhase
            BeforeSceneLoad) ++
          handler [JsValue.int sceneId, JsValue.int 4] (runScript F.engine denied
            (loader [JsValue.string (F.runtime.readJson loadFilePath)] (({ w with ida := { IdaFacade.clearSceneHandlers F.engine w.ida with
            mLastProfileTime := 0, mProfileFrameCount := 0 } } : World).atPhase
            BeforeSceneLoad)) (({ w with ida := { IdaFacade.clearSceneHandlers F.engine w.ida with
            mLastProfileTime := 0, mProfileFrameCount := 0 } } : World).atPhase
            BeforeSceneLoad)),
          hen, rfl, rfl, fun _ => rfl, rfl, rfl, rfl, rfl, rfl, ?_, ?_⟩
        · intro c hc
          rcases List.mem_append.mp hc with h1 | h1
          · exact ⟨_, _, List.mem_append_right _ h1⟩
          · exact ⟨_, _, List.mem_append_left _ h1⟩
        · simp only [IdaFacade.beforeLoadScene, hs2, Bool.not_true, Bool.false_eq_true,
            ↓reduceIte, hm, Hooked.setPhase, Hooked.runSyncEvent,
            IdaFacade.loadIdaSavedState, Hooked.runFunction, Hooked.start, hE, hF, runScript,
            List.foldl_append]
          rfl
      · refine ⟨({ w with ida := { IdaFacade.clearSceneHandlers F.engine w.ida with
            mLastProfileTime := 0, mProfileFrameCount := 0 } } : World).atPhase
            BeforeSceneLoad,
          handler [JsValue.int sceneId, JsValue.int (IdaFacade.calculateIdaSceneLoadMode
            sceneLoadMode isLoadGame isRestoringValidPos)]
            (({ w with ida := { IdaFacade.clearSceneHandlers F.engine w.ida with
              mLastProfileTime := 0, mProfileFrameCount := 0 } } : World).atPhase
              BeforeSceneLoad),
          hen, rfl, rfl, fun _ => rfl, rfl, rfl, rfl, rfl, rfl, ?_, ?_⟩
        · intro c hc
          exact ⟨_, _, List.mem_append_left _ hc⟩
        · simp only [IdaFacade.beforeLoadScene, hs2, Bool.not_true, Bool.false_eq_true,
            ↓reduceIte, hm, Hooked.setPhase, Hooked.runSyncEvent, Hooked.start, hE]
          rfl
    obtain ⟨w0, calls, hen0, hph0, hfl, hmap, hst, hiv, hsto, hisl, hli, hmem, hw⟩ := key
    have hkeep : ∀ c ∈ calls, c.keepsGuard = true := by
      intro c hc
      obtain ⟨args, w1, h1⟩ := hmem c hc
      exact hk args w1 c h1
    have hfr := runScript_frame F.engine denied calls w0 hen0 hph0 hkeep
    have hss := hfr.1
    simp only [World.sceneState, Prod.mk.injEq] at hss
    rw [hw]
    refine ⟨hss.2.2.1.trans hfl, ?_, hss.2.2.2.2.1.trans hst, hss.2.2.2.2.2.trans hiv,
      ?_, ?_, ?_⟩
    · intro objectId
      rw [hss.2.2.2.1]
      exact hmap objectId
    · intro h0
      refine (hfr.2.1 ?_).trans hsto
      intro c hc
      obtain ⟨args, w1, h1⟩ := hmem c hc
      exact h0 args w1 c h1
    · intro h0
      refine (hfr.2.2.1 ?_).trans hisl
      intro c hc
      obtain ⟨args, w1, h1⟩ := hmem c hc
      exact h0 args w1 c h1
    · intro h0
      refine (hfr.2.2.2 ?_).trans hli
      intro c hc
      obtain ⟨args, w1, h1⟩ := hmem c hc
      exact h0 args w1 c h1

theorem C27_scene_load_clean_slate_witness :
    (IdaFacade.stub.beforeLoadScene (IdaFacade.halt (World.sample.setObjectFlag 1 3)) 7 [] 0
      false false).world.ida.mObjectFlags = List.replicate 100 0 ∧
    (IdaFacade.stub.beforeLoadScene (IdaFacade.halt (World.sample.setObjectFlag 1 3)) 7 [] 0
      false false).world.ida.mForcedStorm = 0 ∧
    ((⟨Engine.stub, Runtime.scripted
        [ScriptCall.template (Op.ida IdaOp.setStorm) [JsValue.int 1],
         ScriptCall.template (Op.gameObject GameObjectOp.handleLifeScript 1)
           [JsValue.function 7]]⟩ : IdaFacade).beforeLoadScene
      (World.sample.setObjectFlag 1 3) 7 [] 0 false false).world.ida.mObjectFlags =
      List.replicate 100 0 ∧
    ((⟨Engine.stub, Runtime.scripted
        [ScriptCall.template (Op.ida IdaOp.setStorm) [JsValue.int 1],
         ScriptCall.template (Op.gameObject GameObjectOp.handleLifeScript 1)
           [JsValue.function 7]]⟩ : IdaFacade).beforeLoadScene
      (World.sample.setObjectFlag 1 3) 7 [] 0 false false).world.ida.mForcedIslandModel =
      0 := by
  have h := C27_scene_load_clean_slate IdaFacade.stub
    (IdaFacade.halt (World.sample.setObjectFlag 1 3)) 7 [] 0 false false
    (fun _ w0 _ => Ret.done w0) (fun _ _ => []) (fun _ _ => [])
  have h2 := (C27_scene_load_clean_slate
    (⟨Engine.stub, Runtime.scripted
      [ScriptCall.template (Op.ida IdaOp.setStorm) [JsValue.int 1],
       ScriptCall.template (Op.gameObject GameObjectOp.handleLifeScript 1)
         [JsValue.function 7]]⟩ : IdaFacade)
    (World.sample.setObjectFlag 1 3) 7 [] 0 false false
    (fun _ w0 _ => Ret.done w0)
    (fun _ _ => [ScriptCall.template (Op.ida IdaOp.setStorm) [JsValue.int 1],
       ScriptCall.template (Op.gameObject GameObjectOp.handleLifeScript 1)
         [JsValue.function 7]])
    (fun _ _ => [])).2 rfl rfl (fun _ _ => rfl) (fun _ _ => rfl) (fun _ _ => by decide)
  exact ⟨(h.1 rfl).1, (h.1 rfl).2.2.1, h2.1, h2.2.2.2.2.2.1 (fun _ _ => by decide)⟩

end Ida
